import Mathlib

/-!
# SD-card SPI driver: a shallow embedding

The C sources `sd_def.h`, `sd_hwio.c`, `sd_utils.c`, `sd_info.c` and `sd_core.c`
are rendered as Lean functions.  Conventions:

* machine integers are natural numbers, reduced with `% 2 ^ w` wherever the C
  code stores into (or computes in) a `w`-bit unsigned type;
* a `uint8_t` array is a `List Nat`, read with `u8`;
* the card object carries, next to the fields of `struct sd_card`, a simulated
  bus: the stream of bytes the adapter delivers into receive buffers, a read
  cursor, and a chronological log of every adapter call;
* a call that does not return a value (the unbounded R1b busy wait running out
  of fuel, an integer division by zero) is an `Except.error`.
-/

namespace SdSpi

/-! ## sd_def.h -/

/-- Card class, `enum sd_type`. -/
inductive sd_type where
  | Sd_Type_Not_SD
  | Sd_Type_SDSC_V1
  | Sd_Type_SDSC_V2
  | Sd_Type_SDHC
  | Sd_Type_SDXC
  | Sd_Type_Unknown
  deriving DecidableEq

/-- Error kinds, `enum sd_error`. -/
inductive sd_error where
  | Sd_Err_OK
  | Sd_Err_IO
  | Sd_Err_Timeout
  | Sd_Err_Unsupported
  | Sd_Err_Not_Inited
  | Sd_Err_Failed
  | Sd_Err_Param
  | Sd_Err_No_Ready
  | Sd_Err_Response
  deriving DecidableEq

/-- Response shapes, `enum sd_resp_type`. -/
inductive sd_resp_type where
  | Sd_Resp_Type_R1
  | Sd_Resp_Type_R2
  | Sd_Resp_Type_R3
  | Sd_Resp_Type_R7
  | Sd_Resp_Type_R1b
  deriving DecidableEq

open sd_type sd_error sd_resp_type

/-- The macro `CMD_ADD_FLAG(_v)`, that is `(_v | 0x40)`. -/
def CMD_ADD_FLAG (v : Nat) : Nat := v ||| 0x40

def Sd_Cmd0_Idle : Nat := CMD_ADD_FLAG 0
def Sd_Cmd8_If_Cond : Nat := CMD_ADD_FLAG 8
def Sd_Cmd9_Csd : Nat := CMD_ADD_FLAG 9
def Sd_Cmd16_Block_len : Nat := CMD_ADD_FLAG 16
def Sd_Cmd17_Rd_Single : Nat := CMD_ADD_FLAG 17
def Sd_Cmd24_Wr_Single_Blk : Nat := CMD_ADD_FLAG 24
def Sd_Cmd32_Erase_Start : Nat := CMD_ADD_FLAG 32
def Sd_Cmd33_Erase_End : Nat := CMD_ADD_FLAG 33
def Sd_Cmd38_Erase : Nat := CMD_ADD_FLAG 38
def Sd_Cmd55_App_Cmd : Nat := CMD_ADD_FLAG 55
def Sd_Cmd58_Rd_Ocr : Nat := CMD_ADD_FLAG 58
def Sd_Acmd41_Op_Cond : Nat := CMD_ADD_FLAG 41

/-- Response flag `SD_FR_NONE`, `(0 << 0)`. -/
def SD_FR_NONE : Nat := 0 <<< 0
/-- Response flag `SD_FR_IN_IDLE_STATE`, `(1 << 0)`. -/
def SD_FR_IN_IDLE_STATE : Nat := 1 <<< 0

/-- Command request, `struct sd_cmd_req`. -/
structure sd_cmd_req where
  cmd : Nat
  arg : Nat
  crc : Nat
  resp_type : sd_resp_type
  retry : Nat

/-- Response result, `struct sd_resp_res`: a 16-byte buffer and a fill counter. -/
structure sd_resp_res where
  buf : List Nat
  filled : Nat
  deriving DecidableEq

/-- The initialiser `struct sd_resp_res resp = {0}`. -/
def sd_resp_res.zero : sd_resp_res := { buf := List.replicate 16 0, filled := 0 }

/-- User request, `struct sd_lba_req`: byte offset (64 bit) and byte length (32 bit). -/
structure sd_lba_req where
  offset : Nat
  len : Nat
  deriving DecidableEq

/-- Internal block operation, `struct sd_lba_oparg`. -/
structure sd_lba_oparg where
  lba_addr : Nat
  lba_count : Nat
  deriving DecidableEq

/-- Geometry, `struct sd_info`. -/
structure sd_info where
  capacity : Nat
  block_count : Nat
  erase_sector_size : Nat
  block_size : Nat
  type : sd_type
  deriving DecidableEq

/-- Adapter operations, `enum sd_user_ctrl`. -/
inductive sd_user_ctrl where
  | Sd_User_Ctrl_Init_Hardware
  | Sd_User_Ctrl_Deinit_Hardware
  | Sd_User_Ctrl_Is_Card_Detached
  | Sd_User_Ctrl_Select_Card
  | Sd_User_Ctrl_Deselect_Card
  | Sd_User_Ctrl_Take_Bus
  | Sd_User_Ctrl_Release_Bus
  | Sd_User_Ctrl_Set_Low_Speed
  | Sd_User_Ctrl_Set_High_Speed
  deriving DecidableEq

open sd_user_ctrl

/-- One call made through `struct sd_spi_interface`, as recorded on the bus log:
`control(op)`, `transfer(tx, NULL)` with the bytes sent, `transfer(NULL, rx)` with
the number of bytes requested, `delay_us(us)`. -/
inductive BusEvent where
  | control (op : sd_user_ctrl)
  | write (bytes : List Nat)
  | read (len : Nat)
  | delay (us : Nat)
  deriving DecidableEq

/-- The user's adapter, `struct sd_spi_interface`.  A `none` field is a NULL
function pointer.  `control t op` is the `int` returned by the control call made
when `t` calls are already on the log; `transfer t size` is the `int` returned by
the transfer call made at that moment together with the `used` count it reports;
`delay_us` only records whether the pointer is set. -/
structure sd_spi_interface where
  control : Option (Nat → sd_user_ctrl → Int)
  transfer : Option (Nat → Nat → Int × Nat)
  delay_us : Bool

/-- Card session, `struct sd_card` (`name`, `debug_if` and `user_data` play no part
in the protocol and are left out), extended with the simulated bus: `miso i` is the
`i`-th byte that receive transfers find in their buffer, `rx_pos` counts the bytes
received so far, `log` lists the adapter calls in the order they were made. -/
structure sd_card where
  spi_if : Option sd_spi_interface
  info : sd_info
  is_inited : Bool
  is_selected : Bool
  is_xfering : Bool
  miso : Nat → Nat
  rx_pos : Nat
  log : List BusEvent

/-- Why a call produced no return value. -/
inductive Fault where
  | hang
  | div_by_zero
  deriving DecidableEq

/-- The `uint8_t` stored at index `i` of a byte array. -/
def u8 (a : List Nat) (i : Nat) : Nat := a.getD i 0 % 256

/-- C unsigned division; the divisor zero is a fault. -/
def udiv (a b : Nat) : Except Fault Nat :=
  if b = 0 then Except.error Fault.div_by_zero else Except.ok (a / b)

/-- C unsigned remainder; the divisor zero is a fault. -/
def umod (a b : Nat) : Except Fault Nat :=
  if b = 0 then Except.error Fault.div_by_zero else Except.ok (a % b)

/-! ## sd_hwio.c: the transport wrappers -/

/-- The next `n` bytes the adapter will deliver, each a `uint8_t`. -/
def rx_peek (card : sd_card) (n : Nat) : List Nat :=
  (List.range n).map (fun i => card.miso (card.rx_pos + i) % 256)

/-- The function `sd_spi_hw_select_card`. -/
def sd_spi_hw_select_card (card : sd_card) : sd_error × sd_card :=
  match card.spi_if with
  | none => ( Sd_Err_IO, card)
  | some ifc =>
    match ifc.control with
    | none => ( Sd_Err_IO, card)
    | some control =>
      if control card.log.length Sd_User_Ctrl_Take_Bus ≠ 0 then
        (Sd_Err_Timeout, { card with log := card.log ++ [BusEvent.control Sd_User_Ctrl_Take_Bus] })
      else
        (Sd_Err_OK,
          { card with
            log := card.log ++ [BusEvent.control Sd_User_Ctrl_Take_Bus,
                                BusEvent.control Sd_User_Ctrl_Select_Card]
            is_selected := true })

/-- The function `sd_spi_hw_deselect_card`. -/
def sd_spi_hw_deselect_card (card : sd_card) : sd_error × sd_card :=
  match card.spi_if with
  | none => ( Sd_Err_IO, card)
  | some ifc =>
    match ifc.control with
    | none => ( Sd_Err_IO, card)
    | some _ =>
      (Sd_Err_OK,
        { card with
          log := card.log ++ [BusEvent.control Sd_User_Ctrl_Deselect_Card,
                              BusEvent.control Sd_User_Ctrl_Release_Bus]
          is_selected := false })

/-- The function `sd_spi_hw_read_bytes`: the error code, the bytes now in the
caller's buffer (none when the call failed before the transfer) and the card.  The
`int` returned by `transfer` and the `used` count are not looked at. -/
def sd_spi_hw_read_bytes (card : sd_card) (len : Nat) : sd_error × List Nat × sd_card :=
  match card.spi_if with
  | none => ( Sd_Err_IO, [], card)
  | some ifc =>
    match ifc.transfer with
    | none => ( Sd_Err_IO, [], card)
    | some _ =>
      (Sd_Err_OK, rx_peek card len,
        { card with
          is_xfering := false
          rx_pos := card.rx_pos + len
          log := card.log ++ [BusEvent.read len] })

/-- The function `sd_spi_hw_read_byte`; `old` is the value the destination byte
holds before the call. -/
def sd_spi_hw_read_byte (card : sd_card) (old : Nat) : sd_error × Nat × sd_card :=
  match sd_spi_hw_read_bytes card 1 with
  | (err, bytes, card1) => (err, bytes.headD old, card1)

/-- The function `sd_spi_hw_write_bytes`; `len` is the length of `buf`. -/
def sd_spi_hw_write_bytes (card : sd_card) (buf : List Nat) : sd_error × sd_card :=
  match card.spi_if with
  | none => ( Sd_Err_IO, card)
  | some ifc =>
    match ifc.transfer with
    | none => ( Sd_Err_IO, card)
    | some _ =>
      (Sd_Err_OK,
        { card with
          is_xfering := false
          log := card.log ++ [BusEvent.write buf] })

/-- The function `sd_spi_hw_write_byte`. -/
def sd_spi_hw_write_byte (card : sd_card) (b : Nat) : sd_error × sd_card :=
  sd_spi_hw_write_bytes card [b % 256]

/-- The function `sd_spi_hw_udelay`. -/
def sd_spi_hw_udelay (card : sd_card) (us : Nat) : sd_card :=
  match card.spi_if with
  | none => card
  | some ifc =>
    if ifc.delay_us then { card with log := card.log ++ [BusEvent.delay us] } else card

/-- The function `sd_spi_hw_send_dummy`: `while(count--)` write `0xFF`. -/
def sd_spi_hw_send_dummy (card : sd_card) : Nat → sd_error × sd_card
  | 0 => (Sd_Err_OK, card)
  | count + 1 =>
    match sd_spi_hw_write_byte card 0xFF with
    | (Sd_Err_OK, card1) => sd_spi_hw_send_dummy card1 count
    | (err, card1) => (err, card1)

/-- The function `sd_spi_hw_io_init`. -/
def sd_spi_hw_io_init (card : sd_card) : sd_error × sd_card :=
  match card.spi_if with
  | none => ( Sd_Err_IO, card)
  | some ifc =>
    match ifc.control with
    | none => ( Sd_Err_IO, card)
    | some _ =>
      (Sd_Err_OK,
        { card with log := card.log ++ [BusEvent.control Sd_User_Ctrl_Init_Hardware] })

/-- The function `sd_spi_hw_io_deinit`. -/
def sd_spi_hw_io_deinit (card : sd_card) : sd_error × sd_card :=
  match card.spi_if with
  | none => ( Sd_Err_IO, card)
  | some ifc =>
    match ifc.control with
    | none => ( Sd_Err_IO, card)
    | some _ =>
      (Sd_Err_OK,
        { card with log := card.log ++ [BusEvent.control Sd_User_Ctrl_Deinit_Hardware] })

/-- The function `sd_spi_hw_set_speed`. -/
def sd_spi_hw_set_speed (card : sd_card) (speed : sd_user_ctrl) : sd_card :=
  match card.spi_if with
  | none => card
  | some ifc =>
    match ifc.control with
    | none => card
    | some _ => { card with log := card.log ++ [BusEvent.control speed] }

/-- The function `sd_spi_hw_is_card_detached`: true without an adapter, otherwise
whether the control call returned 0. -/
def sd_spi_hw_is_card_detached (card : sd_card) : Bool × sd_card :=
  match card.spi_if with
  | none => (true, card)
  | some ifc =>
    match ifc.control with
    | none => (true, card)
    | some control =>
      (decide (control card.log.length Sd_User_Ctrl_Is_Card_Detached = 0),
        { card with log := card.log ++ [BusEvent.control Sd_User_Ctrl_Is_Card_Detached] })

/-! ## sd_utils.c: the command/response engine -/

/-- The polling loop `do { read one byte b } while (cont b && --counter);` entered
with `counter = n + 1`.  Result: the error of the failing read (or OK), the last byte
read, the counter on exit, the card.  `byte0` is the value the byte variable holds
before the loop. -/
def poll_byte (cont : Nat → Bool) (byte0 : Nat) : Nat → sd_card → sd_error × Nat × Nat × sd_card
  | 0, card =>
    match sd_spi_hw_read_byte card byte0 with
    | (Sd_Err_OK, b, card1) => if cont b then (Sd_Err_OK, b, 0, card1) else (Sd_Err_OK, b, 1, card1)
    | (err, b, card1) => (err, b, 1, card1)
  | n + 1, card =>
    match sd_spi_hw_read_byte card byte0 with
    | (Sd_Err_OK, b, card1) =>
      if cont b then poll_byte cont b n card1 else (Sd_Err_OK, b, n + 2, card1)
    | (err, b, card1) => (err, b, n + 2, card1)

/-- The response wait of `sd_card_send_cmd_req`,
`do { read byte } while (byte == 0xff && --req->retry);` for any entry value of the
`uint8_t` counter: entered with 0, a first `0xff` wraps the counter to 255. -/
def wait_response (retry : Nat) (card : sd_card) : sd_error × Nat × Nat × sd_card :=
  match retry % 256 with
  | 0 =>
    match sd_spi_hw_read_byte card 0xff with
    | (Sd_Err_OK, b, card1) =>
      if b = 0xff then poll_byte (fun x => x = 0xff) b 254 card1 else (Sd_Err_OK, b, 0, card1)
    | (err, b, card1) => (err, b, 0, card1)
  | n + 1 => poll_byte (fun x => x = 0xff) 0xff n card

/-- The R1b wait of `sd_card_send_cmd_req`,
`do { read busy; udelay(5000) } while (busy != 0xff);`.  The loop has no counter:
`fuel` bounds the number of passes and running out of it is `Fault.hang`. -/
def wait_r1b : Nat → sd_card → Except Fault (sd_error × sd_card)
  | 0, _ => Except.error Fault.hang
  | fuel + 1, card =>
    match sd_spi_hw_read_byte card 0x00 with
    | (Sd_Err_OK, busy, card1) =>
      if busy ≠ 0xff then wait_r1b fuel (sd_spi_hw_udelay card1 5000)
      else Except.ok (Sd_Err_OK, sd_spi_hw_udelay card1 5000)
    | (err, _, card1) => Except.ok (err, card1)

/-- The function `sd_card_send_cmd_req`: error code, the response record and the
card as the call leaves them.  (The request's `retry` field is counted down in
place; no caller reads the request again.) -/
def sd_card_send_cmd_req (fuel : Nat) (card : sd_card) (req : sd_cmd_req) (resp : sd_resp_res) :
    Except Fault (sd_error × sd_resp_res × sd_card) :=
  let cmd_buf := [req.cmd % 256, (req.arg >>> 24) % 256, (req.arg >>> 16) % 256,
                  (req.arg >>> 8) % 256, req.arg % 256, req.crc % 256]
  match sd_spi_hw_write_bytes card cmd_buf with
  | (Sd_Err_OK, card1) =>
    match wait_response req.retry card1 with
    | (Sd_Err_OK, byte, retry, card2) =>
      if retry = 0 then
        Except.ok (Sd_Err_Timeout, resp, card2)
      else
        let resp1 : sd_resp_res :=
          { buf := resp.buf.set resp.filled byte, filled := (resp.filled + 1) % 256 }
        match req.resp_type with
        | Sd_Resp_Type_R1 => Except.ok (Sd_Err_OK, resp1, card2)
        | Sd_Resp_Type_R2 =>
          if u8 resp1.buf 0 ≠ 0x00 then
            Except.ok (Sd_Err_Response, resp1, card2)
          else
            match poll_byte (fun x => x ≠ 0xFE) 0 254 card2 with
            | (Sd_Err_OK, _, token_retry, card3) =>
              if token_retry = 0 then
                Except.ok (Sd_Err_Timeout, resp1, card3)
              else
                match sd_spi_hw_read_bytes card3 16 with
                | (Sd_Err_OK, data, card4) =>
                  let resp2 : sd_resp_res := { buf := data ++ resp1.buf.drop 16, filled := 16 }
                  match sd_spi_hw_read_bytes card4 2 with
                  | (Sd_Err_OK, _, card5) => Except.ok (Sd_Err_OK, resp2, card5)
                  | (err, _, card5) => Except.ok (err, resp2, card5)
                | (err, _, card4) => Except.ok (err, { resp1 with filled := 0 }, card4)
            | (err, _, _, card3) => Except.ok (err, resp1, card3)
        | Sd_Resp_Type_R3 | Sd_Resp_Type_R7 =>
          match sd_spi_hw_read_bytes card2 4 with
          | (Sd_Err_OK, data, card3) =>
            Except.ok (Sd_Err_OK,
              { buf := resp1.buf.take resp1.filled ++ data ++ resp1.buf.drop (resp1.filled + 4),
                filled := (resp1.filled + 4) % 256 }, card3)
          | (err, _, card3) => Except.ok (err, resp1, card3)
        | Sd_Resp_Type_R1b =>
          match wait_r1b fuel card2 with
          | Except.ok (err, card3) => Except.ok (err, resp1, card3)
          | Except.error f => Except.error f
    | (err, _, _, card2) => Except.ok (err, resp, card2)
  | (err, card1) => Except.ok (err, resp, card1)

/-- The loop of `sd_card_into_idle`, `while(timeout--) { CMD0; ... }`, entered with
the given counter value.  Result: whether the loop was left by `goto _FINISH_`, the
value of `err`, the counter after the loop, the card. -/
def into_idle_loop (fuel : Nat) : Nat → sd_card → Except Fault (Bool × sd_error × Nat × sd_card)
  | 0, card => Except.ok (false, Sd_Err_OK, 0xff, card)
  | timeout + 1, card =>
    match sd_card_send_cmd_req fuel card
        { cmd := Sd_Cmd0_Idle, arg := 0, crc := 0x95, resp_type := Sd_Resp_Type_R1, retry := 0xff }
        sd_resp_res.zero with
    | Except.error f => Except.error f
    | Except.ok (Sd_Err_OK, resp, card1) =>
      if u8 resp.buf 0 = SD_FR_IN_IDLE_STATE then
        Except.ok (false, Sd_Err_OK, timeout, card1)
      else
        into_idle_loop fuel timeout card1
    | Except.ok (err, _, card1) => Except.ok (true, err, timeout, card1)

/-- The function `sd_card_into_idle`. -/
def sd_card_into_idle (fuel : Nat) (card : sd_card) : Except Fault (sd_error × sd_card) :=
  match sd_spi_hw_select_card card with
  | (Sd_Err_OK, card1) =>
    match into_idle_loop fuel 0xff card1 with
    | Except.error f => Except.error f
    | Except.ok (finish, err, timeout, card2) =>
      let err1 := if finish = false ∧ timeout = 0 then Sd_Err_Timeout else err
      let card3 := (sd_spi_hw_deselect_card card2).2
      let card4 := (sd_spi_hw_send_dummy card3 1).2
      Except.ok (err1, card4)
  | (err, card1) => Except.ok (err, card1)

/-! ## sd_info.c: the register parsers -/

/-- The expression `1 << n` on a 32-bit `int`, as the bit pattern it leaves in a
32-bit register: bits shifted past position 31 are lost.  (For `n ≥ 32` the C
standard leaves the result undefined; whatever a platform produces is some 32-bit
value.) -/
def shl_one_32 (n : Nat) : Nat := (1 <<< n) % 2 ^ 32

/-- The function `_parse_csd_v2`: returns the error code and the geometry record
as the call leaves it. -/
def _parse_csd_v2 (csd : List Nat) (info : sd_info) : sd_error × sd_info :=
  if (u8 csd 0 >>> 6) ≠ 1 then
    (Sd_Err_Failed, info)
  else
    let c_size := ((((u8 csd 7 &&& 0x3F) <<< 16) % 2 ^ 32) ||| ((u8 csd 8 <<< 8) % 2 ^ 32)
                    ||| u8 csd 9) % 2 ^ 32
    let erase_sector_size := ((((u8 csd 4 >>> 7) &&& 0x01) <<< 6) ||| (u8 csd 5 &&& 0x3F)) % 2 ^ 32
    let block_count := (((c_size + 1) % 2 ^ 32) * 1024) % 2 ^ 32
    let block_size := 512
    let capacity := (block_count * block_size) % 2 ^ 64
    (Sd_Err_OK,
      { info with
        block_count := block_count
        block_size := block_size
        capacity := capacity
        erase_sector_size := shl_one_32 ((erase_sector_size + 1) % 2 ^ 32) })

/-- The function `_parse_csd_v1`. -/
def _parse_csd_v1 (csd : List Nat) (info : sd_info) : sd_error × sd_info :=
  if (u8 csd 0 >>> 6) ≠ 0 then
    (Sd_Err_Failed, info)
  else
    let read_bl_len := (u8 csd 5 &&& 0x0F) % 256
    let block_size := (1 <<< read_bl_len) % 2 ^ 16
    let c_size := (((u8 csd 6 &&& 0x03) <<< 10) ||| (u8 csd 7 <<< 2) ||| (u8 csd 8 >>> 6)) % 2 ^ 16
    let c_size_mult := (((u8 csd 9 &&& 0x03) <<< 1) ||| (u8 csd 10 >>> 7)) % 256
    let erase_sector_size := ((((u8 csd 4 >>> 7) &&& 0x01) <<< 6) ||| (u8 csd 5 &&& 0x3F)) % 2 ^ 32
    let block_count := ((c_size + 1) * (1 <<< (c_size_mult + 2))) % 2 ^ 32
    (Sd_Err_OK,
      { info with
        block_size := block_size
        block_count := block_count
        capacity := (block_size * block_count) % 2 ^ 64
        erase_sector_size := shl_one_32 ((erase_sector_size + 1) % 2 ^ 32) })

/-! ## sd_info.c: identification -/

/-- How one pass through a loop body ends: the enclosing function returns `err`,
the loop is left by `break`, or the pass runs to the loop condition. -/
inductive LoopStep where
  | ret (err : sd_error)
  | brk
  | next
  deriving DecidableEq

/-- The loop `do { body } while (--timeout);` on a `uint8_t` counter, entered with
`timeout = n + 1`.  Result: `some err` when the body returned from the function,
otherwise `none` with the counter value after the loop. -/
def do_while_dec (body : sd_card → Except Fault (LoopStep × sd_card)) :
    Nat → sd_card → Except Fault (Option sd_error × Nat × sd_card)
  | 0, card =>
    match body card with
    | Except.error f => Except.error f
    | Except.ok (LoopStep.ret err, card1) => Except.ok (some err, 1, card1)
    | Except.ok (LoopStep.brk, card1) => Except.ok (none, 1, card1)
    | Except.ok (LoopStep.next, card1) => Except.ok (none, 0, card1)
  | n + 1, card =>
    match body card with
    | Except.error f => Except.error f
    | Except.ok (LoopStep.ret err, card1) => Except.ok (some err, n + 2, card1)
    | Except.ok (LoopStep.brk, card1) => Except.ok (none, n + 2, card1)
    | Except.ok (LoopStep.next, card1) => do_while_dec body n card1

/-- Body of the CMD55 + ACMD41 loop of `_check_card_maybe_v2`. -/
def acmd41_body_v2 (fuel : Nat) (card : sd_card) : Except Fault (LoopStep × sd_card) :=
  match sd_card_send_cmd_req fuel card
      { cmd := Sd_Cmd55_App_Cmd, arg := 0, crc := 1, resp_type := Sd_Resp_Type_R1, retry := 5 }
      sd_resp_res.zero with
  | Except.error f => Except.error f
  | Except.ok (Sd_Err_OK, resp_cmd55, card1) =>
    if u8 resp_cmd55.buf 0 ≠ SD_FR_IN_IDLE_STATE then
      Except.ok (LoopStep.ret Sd_Err_Unsupported, card1)
    else
      match sd_card_send_cmd_req fuel card1
          { cmd := Sd_Acmd41_Op_Cond, arg := 0x40000000, crc := 1,
            resp_type := Sd_Resp_Type_R1, retry := 5 }
          sd_resp_res.zero with
      | Except.error f => Except.error f
      | Except.ok (Sd_Err_OK, resp_acmd41, card2) =>
        if (u8 resp_acmd41.buf 0 &&& SD_FR_IN_IDLE_STATE) = 0 then
          Except.ok (LoopStep.brk, card2)
        else
          Except.ok (LoopStep.next, sd_spi_hw_udelay card2 1000)
      | Except.ok (err, _, card2) => Except.ok (LoopStep.ret err, card2)
  | Except.ok (err, _, card1) => Except.ok (LoopStep.ret err, card1)

/-- Blocks 2 and 3 of `_check_card_maybe_v2`, entered once the CMD55 + ACMD41 loop has
ended with a non-zero counter: CMD58 and the class guess, then CMD9 and the CSD
parse. -/
def check_v2_after_acmd41 (fuel : Nat) (card : sd_card) : Except Fault (sd_error × sd_card) :=
  match sd_card_send_cmd_req fuel card
      { cmd := Sd_Cmd58_Rd_Ocr, arg := 0, crc := 1, resp_type := Sd_Resp_Type_R3, retry := 5 }
      sd_resp_res.zero with
  | Except.error f => Except.error f
  | Except.ok (Sd_Err_OK, resp_cmd58, card2) =>
    if (u8 resp_cmd58.buf 0 &&& 0x80) ≠ 0 then
      Except.ok (Sd_Err_Unsupported, card2)
    else
      let ocr := (((u8 resp_cmd58.buf 1 <<< 24) % 2 ^ 32) |||
                  ((u8 resp_cmd58.buf 2 <<< 16) % 2 ^ 32) |||
                  ((u8 resp_cmd58.buf 3 <<< 8) % 2 ^ 32) |||
                  u8 resp_cmd58.buf 4) % 2 ^ 32
      let card3 : sd_card :=
        if (ocr &&& (1 <<< 30)) ≠ 0 then
          { card2 with info := { card2.info with type := Sd_Type_SDHC } }
        else
          { card2 with info := { card2.info with type := Sd_Type_SDSC_V2 } }
      let card4 := (sd_spi_hw_send_dummy card3 2).2
      match sd_card_send_cmd_req fuel card4
          { cmd := Sd_Cmd9_Csd, arg := 0, crc := 1, resp_type := Sd_Resp_Type_R2, retry := 5 }
          sd_resp_res.zero with
      | Except.error f => Except.error f
      | Except.ok (Sd_Err_OK, resp_cmd9, card5) =>
        if card5.info.type = Sd_Type_SDHC then
          match _parse_csd_v2 resp_cmd9.buf card5.info with
          | (Sd_Err_OK, info1) =>
            if info1.capacity > 32000000000 then
              Except.ok (Sd_Err_OK, { card5 with info := { info1 with type := Sd_Type_SDXC } })
            else
              Except.ok (Sd_Err_OK, { card5 with info := info1 })
          | (_, info1) => Except.ok (Sd_Err_Failed, { card5 with info := info1 })
        else
          match _parse_csd_v1 resp_cmd9.buf card5.info with
          | (Sd_Err_OK, info1) => Except.ok (Sd_Err_OK, { card5 with info := info1 })
          | (_, info1) => Except.ok (Sd_Err_Failed, { card5 with info := info1 })
      | Except.ok (err, _, card5) => Except.ok (err, card5)
  | Except.ok (err, _, card2) => Except.ok (err, card2)

/-- The function `_check_card_maybe_v2`. -/
def _check_card_maybe_v2 (fuel : Nat) (card : sd_card) : Except Fault (sd_error × sd_card) :=
  match do_while_dec (acmd41_body_v2 fuel) 254 card with
  | Except.error f => Except.error f
  | Except.ok (some err, _, card1) => Except.ok (err, card1)
  | Except.ok (none, timeout, card1) =>
    if timeout = 0 then
      Except.ok (Sd_Err_Timeout, card1)
    else
      check_v2_after_acmd41 fuel card1

/-- Body of the CMD55 + ACMD41 loop of `_check_card_maybe_v1`. -/
def acmd41_body_v1 (fuel : Nat) (card : sd_card) : Except Fault (LoopStep × sd_card) :=
  match sd_card_send_cmd_req fuel card
      { cmd := Sd_Cmd55_App_Cmd, arg := 0, crc := 1, resp_type := Sd_Resp_Type_R1, retry := 5 }
      sd_resp_res.zero with
  | Except.error f => Except.error f
  | Except.ok (Sd_Err_OK, resp_cmd55, card1) =>
    if u8 resp_cmd55.buf 0 ≠ 0x01 then
      Except.ok (LoopStep.ret Sd_Err_Failed, card1)
    else
      match sd_card_send_cmd_req fuel card1
          { cmd := Sd_Acmd41_Op_Cond, arg := 0, crc := 1,
            resp_type := Sd_Resp_Type_R1, retry := 5 }
          sd_resp_res.zero with
      | Except.error f => Except.error f
      | Except.ok (Sd_Err_OK, resp_acmd41, card2) =>
        if (u8 resp_acmd41.buf 0 &&& 0x01) = 0 then
          Except.ok (LoopStep.brk, card2)
        else
          Except.ok (LoopStep.next, card2)
      | Except.ok (err, _, card2) => Except.ok (LoopStep.ret err, card2)
  | Except.ok (err, _, card1) => Except.ok (LoopStep.ret err, card1)

/-- Blocks 2 and 3 of `_check_card_maybe_v1`, entered once the CMD55 + ACMD41 loop has
ended with a non-zero counter: the class is set to SDSC v1, then CMD16 with block
length 512, then CMD9 and the CSD parse. -/
def check_v1_after_acmd41 (fuel : Nat) (card : sd_card) : Except Fault (sd_error × sd_card) :=
  let card2 : sd_card := { card with info := { card.info with type := Sd_Type_SDSC_V1 } }
  match sd_card_send_cmd_req fuel card2
      { cmd := Sd_Cmd16_Block_len, arg := 512, crc := 1,
        resp_type := Sd_Resp_Type_R1, retry := 5 }
      sd_resp_res.zero with
  | Except.error f => Except.error f
  | Except.ok (Sd_Err_OK, resp_cmd16, card3) =>
    if u8 resp_cmd16.buf 0 ≠ SD_FR_NONE then
      Except.ok (Sd_Err_Response, card3)
    else
      match sd_card_send_cmd_req fuel card3
          { cmd := Sd_Cmd9_Csd, arg := 0, crc := 1, resp_type := Sd_Resp_Type_R2, retry := 5 }
          sd_resp_res.zero with
      | Except.error f => Except.error f
      | Except.ok (Sd_Err_OK, resp_cmd9, card4) =>
        match _parse_csd_v1 resp_cmd9.buf card4.info with
        | (Sd_Err_OK, info1) => Except.ok (Sd_Err_OK, { card4 with info := info1 })
        | (_, info1) => Except.ok (Sd_Err_Failed, { card4 with info := info1 })
      | Except.ok (err, _, card4) => Except.ok (err, card4)
  | Except.ok (err, _, card3) => Except.ok (err, card3)

/-- The function `_check_card_maybe_v1`. -/
def _check_card_maybe_v1 (fuel : Nat) (card : sd_card) : Except Fault (sd_error × sd_card) :=
  match do_while_dec (acmd41_body_v1 fuel) 254 card with
  | Except.error f => Except.error f
  | Except.ok (some err, _, card1) => Except.ok (err, card1)
  | Except.ok (none, timeout, card1) =>
    if timeout = 0 then
      Except.ok (Sd_Err_Timeout, card1)
    else
      check_v1_after_acmd41 fuel card1

/-- The exit sequence at label `_FINISH_` of `_card_identify`: deselect, one dummy
byte, return `err`. -/
def card_identify_finish (err : sd_error) (card : sd_card) : sd_error × sd_card :=
  let card1 := (sd_spi_hw_deselect_card card).2
  let card2 := (sd_spi_hw_send_dummy card1 1).2
  (err, card2)

/-- The function `_card_identify`. -/
def _card_identify (fuel : Nat) (card : sd_card) : Except Fault (sd_error × sd_card) :=
  let card0 : sd_card :=
    { card with
      info := { type := Sd_Type_Unknown, block_count := 0, block_size := 0, capacity := 0,
                erase_sector_size := 0 } }
  match sd_spi_hw_select_card card0 with
  | (Sd_Err_OK, card1) =>
    match sd_card_send_cmd_req fuel card1
        { cmd := Sd_Cmd8_If_Cond, arg := 0x1AA, crc := 0x87,
          resp_type := Sd_Resp_Type_R7, retry := 5 }
        sd_resp_res.zero with
    | Except.error f => Except.error f
    | Except.ok (Sd_Err_OK, resp, card2) =>
      if u8 resp.buf 0 = SD_FR_IN_IDLE_STATE then
        if (u8 resp.buf 3 &&& 0x0F) = 0x01 ∧ u8 resp.buf 4 = 0xAA then
          match _check_card_maybe_v2 fuel card2 with
          | Except.error f => Except.error f
          | Except.ok (err, card3) => Except.ok (card_identify_finish err card3)
        else
          Except.ok (card_identify_finish Sd_Err_Unsupported card2)
      else
        Except.ok (card_identify_finish Sd_Err_Response card2)
    | Except.ok (_, _, card2) =>
      match _check_card_maybe_v1 fuel card2 with
      | Except.error f => Except.error f
      | Except.ok (err, card3) => Except.ok (card_identify_finish err card3)
  | (err, card1) => Except.ok (err, card1)

/-- The function `sd_card_identify`. -/
def sd_card_identify (fuel : Nat) (card : sd_card) : Except Fault (sd_error × sd_card) :=
  match sd_card_into_idle fuel card with
  | Except.error f => Except.error f
  | Except.ok (Sd_Err_OK, card1) => _card_identify fuel card1
  | Except.ok (err, card1) => Except.ok (err, card1)

/-! ## sd_core.c: address translation -/

/-- The function `_conv_req_to_lba`: the block count is `len / block_size` in 32-bit
arithmetic, the block address is the 64-bit quotient `offset / block_size` cast to
`uint32_t` on SDHC/SDXC and the offset cast to `uint32_t` otherwise. -/
def _conv_req_to_lba (card : sd_card) (req : sd_lba_req) : Except Fault sd_lba_oparg := do
  let lba_count ← udiv (req.len % 2 ^ 32) card.info.block_size
  if card.info.type = Sd_Type_SDHC ∨ card.info.type = Sd_Type_SDXC then
    let q ← udiv (req.offset % 2 ^ 64) card.info.block_size
    pure { lba_addr := q % 2 ^ 32, lba_count := lba_count }
  else
    pure { lba_addr := (req.offset % 2 ^ 64) % 2 ^ 32, lba_count := lba_count }

/-! ## sd_core.c: block transfers -/

/-- Memory after storing `data` at offset `off` of the byte region `buf`. -/
def mem_write (buf : List Nat) (off : Nat) (data : List Nat) : List Nat :=
  buf.take off ++ data ++ buf.drop (off + data.length)

/-- The function `_read_single_block`; the destination pointer is `buf + off`, and
the region `buf` is returned as the call leaves it. -/
def _read_single_block (fuel : Nat) (card : sd_card) (lba : Nat) (buf : List Nat) (off : Nat) :
    Except Fault (sd_error × List Nat × sd_card) :=
  match sd_card_send_cmd_req fuel card
      { cmd := Sd_Cmd17_Rd_Single, arg := lba, crc := 1, resp_type := Sd_Resp_Type_R1, retry := 5 }
      sd_resp_res.zero with
  | Except.error f => Except.error f
  | Except.ok (Sd_Err_OK, resp, card1) =>
    if u8 resp.buf 0 ≠ SD_FR_NONE then
      Except.ok (Sd_Err_Response, buf, card1)
    else
      match poll_byte (fun x => x ≠ 0xFE) 0 99 card1 with
      | (Sd_Err_OK, _, timeout, card2) =>
        if timeout = 0 then
          Except.ok (Sd_Err_Timeout, buf, card2)
        else
          match sd_spi_hw_read_bytes card2 card2.info.block_size with
          | (Sd_Err_OK, data, card3) =>
            match sd_spi_hw_read_bytes card3 2 with
            | (Sd_Err_OK, _, card4) => Except.ok (Sd_Err_OK, mem_write buf off data, card4)
            | (err, _, card4) => Except.ok (err, mem_write buf off data, card4)
          | (err, _, card3) => Except.ok (err, buf, card3)
      | (err, _, _, card2) => Except.ok (err, buf, card2)
  | Except.ok (err, _, card1) => Except.ok (err, buf, card1)

/-- The busy wait of `_write_single_block`,
`do { read busy; if (--timeout == 0) return Timeout; udelay(1000); } while (busy == 0x00);`
entered with `timeout = n + 1`. -/
def write_busy_wait : Nat → sd_card → sd_error × sd_card
  | 0, card =>
    match sd_spi_hw_read_byte card 0 with
    | (Sd_Err_OK, _, card1) => (Sd_Err_Timeout, card1)
    | (err, _, card1) => (err, card1)
  | n + 1, card =>
    match sd_spi_hw_read_byte card 0 with
    | (Sd_Err_OK, busy, card1) =>
      if busy = 0x00 then write_busy_wait n (sd_spi_hw_udelay card1 1000)
      else (Sd_Err_OK, sd_spi_hw_udelay card1 1000)
    | (err, _, card1) => (err, card1)

/-- The function `_write_single_block`; the source pointer is `buf + off`. -/
def _write_single_block (fuel : Nat) (card : sd_card) (lba : Nat) (buf : List Nat) (off : Nat) :
    Except Fault (sd_error × sd_card) :=
  match sd_card_send_cmd_req fuel card
      { cmd := Sd_Cmd24_Wr_Single_Blk, arg := lba, crc := 1,
        resp_type := Sd_Resp_Type_R1, retry := 5 }
      sd_resp_res.zero with
  | Except.error f => Except.error f
  | Except.ok (Sd_Err_OK, resp, card1) =>
    if u8 resp.buf 0 ≠ 0x00 then
      Except.ok (Sd_Err_Response, card1)
    else
      match sd_spi_hw_write_byte card1 0xFE with
      | (Sd_Err_OK, card2) =>
        match sd_spi_hw_write_bytes card2 ((buf.drop off).take card2.info.block_size) with
        | (Sd_Err_OK, card3) =>
          match sd_spi_hw_write_bytes card3 [0xFF, 0xFF] with
          | (Sd_Err_OK, card4) =>
            match sd_spi_hw_read_byte card4 0 with
            | (Sd_Err_OK, data_resp, card5) =>
              if (data_resp &&& 0x1F) ≠ 0x05 then
                Except.ok (Sd_Err_Response, card5)
              else
                Except.ok (write_busy_wait 499 card5)
            | (err, _, card5) => Except.ok (err, card5)
          | (err, card4) => Except.ok (err, card4)
        | (err, card3) => Except.ok (err, card3)
      | (err, card2) => Except.ok (err, card2)
  | Except.ok (err, _, card1) => Except.ok (err, card1)

/-- The block loop of `sd_card_read`,
`for (i = 0; i < lba_count; i++) if (read block lba_addr + i at buf + i * block_size fails) break;`
with `n` passes left and loop index `i`.  Result: the value of `err` after the loop. -/
def read_blocks (fuel : Nat) (lba_addr : Nat) :
    Nat → Nat → sd_card → List Nat → Except Fault (sd_error × List Nat × sd_card)
  | 0, _, card, buf => Except.ok (Sd_Err_OK, buf, card)
  | n + 1, i, card, buf =>
    match _read_single_block fuel card ((lba_addr + i) % 2 ^ 32) buf
        ((i * card.info.block_size) % 2 ^ 32) with
    | Except.error f => Except.error f
    | Except.ok (Sd_Err_OK, buf1, card1) => read_blocks fuel lba_addr n (i + 1) card1 buf1
    | Except.ok (err, buf1, card1) => Except.ok (err, buf1, card1)

/-- The block loop of `sd_card_write`. -/
def write_blocks (fuel : Nat) (lba_addr : Nat) (buf : List Nat) :
    Nat → Nat → sd_card → Except Fault (sd_error × sd_card)
  | 0, _, card => Except.ok (Sd_Err_OK, card)
  | n + 1, i, card =>
    match _write_single_block fuel card ((lba_addr + i) % 2 ^ 32) buf
        ((i * card.info.block_size) % 2 ^ 32) with
    | Except.error f => Except.error f
    | Except.ok (Sd_Err_OK, card1) => write_blocks fuel lba_addr buf n (i + 1) card1
    | Except.ok (err, card1) => Except.ok (err, card1)

/-- The function `sd_card_read`.  A `none` card or buffer is a NULL pointer.  Result:
the error code, the session and the caller's buffer as the call leaves them. -/
def sd_card_read (fuel : Nat) (card : Option sd_card) (addr : Nat) (buf : Option (List Nat))
    (len : Nat) : Except Fault (sd_error × Option sd_card × Option (List Nat)) :=
  match card, buf with
  | some c, some b =>
    if len % 2 ^ 32 = 0 then
      Except.ok (Sd_Err_Param, card, buf)
    else if c.is_inited = false then
      Except.ok (Sd_Err_Not_Inited, card, buf)
    else
      match umod (len % 2 ^ 32) c.info.block_size with
      | Except.error f => Except.error f
      | Except.ok r =>
        if r ≠ 0 then
          Except.ok (Sd_Err_Param, card, buf)
        else
          match _conv_req_to_lba c { offset := addr % 2 ^ 64, len := len % 2 ^ 32 } with
          | Except.error f => Except.error f
          | Except.ok oparg =>
            match sd_spi_hw_select_card c with
            | (Sd_Err_OK, c1) =>
              match read_blocks fuel oparg.lba_addr oparg.lba_count 0 c1 b with
              | Except.error f => Except.error f
              | Except.ok (err, b1, c2) =>
                Except.ok (err, some (sd_spi_hw_deselect_card c2).2, some b1)
            | (err, c1) => Except.ok (err, some c1, buf)
  | _, _ => Except.ok (Sd_Err_Param, card, buf)

/-- The function `sd_card_write`. -/
def sd_card_write (fuel : Nat) (card : Option sd_card) (addr : Nat) (buf : Option (List Nat))
    (len : Nat) : Except Fault (sd_error × Option sd_card) :=
  match card, buf with
  | some c, some b =>
    if len % 2 ^ 32 = 0 then
      Except.ok (Sd_Err_Param, card)
    else if c.is_inited = false then
      Except.ok (Sd_Err_Not_Inited, card)
    else
      match umod (len % 2 ^ 32) c.info.block_size with
      | Except.error f => Except.error f
      | Except.ok r =>
        if r ≠ 0 then
          Except.ok (Sd_Err_Param, card)
        else
          match _conv_req_to_lba c { offset := addr % 2 ^ 64, len := len % 2 ^ 32 } with
          | Except.error f => Except.error f
          | Except.ok oparg =>
            match sd_spi_hw_select_card c with
            | (Sd_Err_OK, c1) =>
              match write_blocks fuel oparg.lba_addr b oparg.lba_count 0 c1 with
              | Except.error f => Except.error f
              | Except.ok (err, c2) => Except.ok (err, some (sd_spi_hw_deselect_card c2).2)
            | (err, c1) => Except.ok (err, some c1)
  | _, _ => Except.ok (Sd_Err_Param, card)

/-! ## sd_core.c: session life cycle -/

/-- The function `_card_power_on`: deselect, ten dummy bytes; the result of neither
call is looked at. -/
def _card_power_on (card : sd_card) : sd_error × sd_card :=
  let card1 := (sd_spi_hw_deselect_card card).2
  let card2 := (sd_spi_hw_send_dummy card1 10).2
  (Sd_Err_OK, card2)

/-- The function `_card_power_off`. -/
def _card_power_off (fuel : Nat) (card : sd_card) : Except Fault (sd_error × sd_card) :=
  sd_card_into_idle fuel card

/-- The function `sd_card_init` (the closing `sd_card_print_info` only writes to the
debug interface). -/
def sd_card_init (fuel : Nat) (card : Option sd_card) : Except Fault (sd_error × Option sd_card) :=
  match card with
  | none => Except.ok (Sd_Err_Param, none)
  | some c =>
    let c0 : sd_card := { c with is_inited := false, is_selected := false, is_xfering := false }
    match sd_spi_hw_io_init c0 with
    | (Sd_Err_OK, c1) =>
      let c2 := sd_spi_hw_set_speed c1 Sd_User_Ctrl_Set_Low_Speed
      match _card_power_on c2 with
      | (Sd_Err_OK, c3) =>
        match sd_card_identify fuel c3 with
        | Except.error f => Except.error f
        | Except.ok (Sd_Err_OK, c4) =>
          let c5 := sd_spi_hw_set_speed c4 Sd_User_Ctrl_Set_High_Speed
          Except.ok (Sd_Err_OK, some { c5 with is_inited := true })
        | Except.ok (err, c4) => Except.ok (err, some c4)
      | (err, c3) => Except.ok (err, some c3)
    | (err, c1) => Except.ok (err, some c1)

/-- The function `sd_card_deinit`. -/
def sd_card_deinit (fuel : Nat) (card : Option sd_card) :
    Except Fault (sd_error × Option sd_card) :=
  match card with
  | none => Except.ok (Sd_Err_Param, none)
  | some c =>
    match _card_power_off fuel c with
    | Except.error f => Except.error f
    | Except.ok (Sd_Err_OK, c1) =>
      match sd_spi_hw_io_deinit c1 with
      | (Sd_Err_OK, c2) => Except.ok (Sd_Err_OK, some { c2 with is_inited := false })
      | (err, c2) => Except.ok (err, some c2)
    | Except.ok (err, c1) => Except.ok (err, some c1)

/-! ## sd_core.c: erase -/

/-- The `switch` of `sd_card_erase_sector` that fills the 32-bit `start_block` and
`end_block` from the 64-bit `addr` and `total_erase_size`; `none` is the `default`
branch. -/
def erase_block_range (card : sd_card) (addr total_erase_size : Nat) :
    Except Fault (Option (Nat × Nat)) :=
  match card.info.type with
  | Sd_Type_SDHC | Sd_Type_SDXC =>
    match udiv addr card.info.block_size with
    | Except.error f => Except.error f
    | Except.ok q1 =>
      match udiv ((addr + total_erase_size + (2 ^ 64 - 1)) % 2 ^ 64) card.info.block_size with
      | Except.error f => Except.error f
      | Except.ok q2 => Except.ok (some (q1 % 2 ^ 32, q2 % 2 ^ 32))
  | Sd_Type_SDSC_V1 | Sd_Type_SDSC_V2 =>
    Except.ok (some (addr % 2 ^ 32, ((addr + total_erase_size + (2 ^ 64 - 1)) % 2 ^ 64) % 2 ^ 32))
  | _ => Except.ok none

/-- Steps 2 to 4 of `sd_card_erase_sector`, from CMD32 to the label `_END_`: the
value of `err` there, and the card. -/
def erase_commands (fuel : Nat) (card : sd_card) (start_block end_block : Nat) :
    Except Fault (sd_error × sd_card) :=
  match sd_card_send_cmd_req fuel card
      { cmd := Sd_Cmd32_Erase_Start, arg := start_block, crc := 1,
        resp_type := Sd_Resp_Type_R1, retry := 5 }
      sd_resp_res.zero with
  | Except.error f => Except.error f
  | Except.ok (Sd_Err_OK, resp32, card1) =>
    if u8 resp32.buf 0 ≠ SD_FR_NONE then
      Except.ok (Sd_Err_Failed, card1)
    else
      match sd_card_send_cmd_req fuel card1
          { cmd := Sd_Cmd33_Erase_End, arg := end_block, crc := 1,
            resp_type := Sd_Resp_Type_R1, retry := 5 }
          sd_resp_res.zero with
      | Except.error f => Except.error f
      | Except.ok (Sd_Err_OK, resp33, card2) =>
        if u8 resp33.buf 0 ≠ SD_FR_NONE then
          Except.ok (Sd_Err_Failed, card2)
        else
          match sd_card_send_cmd_req fuel card2
              { cmd := Sd_Cmd38_Erase, arg := 0, crc := 1,
                resp_type := Sd_Resp_Type_R1b, retry := 5 }
              sd_resp_res.zero with
          | Except.error f => Except.error f
          | Except.ok (Sd_Err_OK, resp38, card3) =>
            if u8 resp38.buf 0 ≠ SD_FR_NONE then
              Except.ok (Sd_Err_Failed, card3)
            else
              Except.ok (Sd_Err_OK, card3)
          | Except.ok (err, _, card3) => Except.ok (err, card3)
      | Except.ok (err, _, card2) => Except.ok (err, card2)
  | Except.ok (err, _, card1) => Except.ok (err, card1)

/-- The function `sd_card_erase_sector`; `addr` is a `uint64_t`, `count` a
`uint32_t`. -/
def sd_card_erase_sector (fuel : Nat) (card : Option sd_card) (addr count : Nat) :
    Except Fault (sd_error × Option sd_card) :=
  match card with
  | none => Except.ok (Sd_Err_Param, card)
  | some c =>
    if count % 2 ^ 32 = 0 then
      Except.ok (Sd_Err_Param, card)
    else if c.is_inited = false then
      Except.ok (Sd_Err_Not_Inited, card)
    else
      let total_erase_size := (c.info.erase_sector_size * (count % 2 ^ 32)) % 2 ^ 64
      match erase_block_range c (addr % 2 ^ 64) total_erase_size with
      | Except.error f => Except.error f
      | Except.ok none => Except.ok (Sd_Err_Unsupported, card)
      | Except.ok (some (start_block, end_block)) =>
        match sd_spi_hw_select_card c with
        | (Sd_Err_OK, c1) =>
          match erase_commands fuel c1 start_block end_block with
          | Except.error f => Except.error f
          | Except.ok (err, c2) => Except.ok (err, some (sd_spi_hw_deselect_card c2).2)
        | (err, c1) => Except.ok (err, some c1)

/-- The function `sd_card_erase_chip`: the sector count is computed, as a
`uint32_t`, before anything about the session is checked. -/
def sd_card_erase_chip (fuel : Nat) (card : Option sd_card) :
    Except Fault (sd_error × Option sd_card) :=
  match card with
  | none => Except.ok (Sd_Err_Param, card)
  | some c =>
    match udiv c.info.capacity c.info.erase_sector_size with
    | Except.error f => Except.error f
    | Except.ok q => sd_card_erase_sector fuel card 0 (q % 2 ^ 32)

/-! ## sd_core.c: queries -/

/-- The function `sd_card_get_capacity`. -/
def sd_card_get_capacity (card : Option sd_card) : Nat :=
  match card with
  | none => 0
  | some c => if c.is_inited = false then 0 else c.info.capacity

/-- The function `sd_card_get_type`. -/
def sd_card_get_type (card : Option sd_card) : sd_type :=
  match card with
  | none => Sd_Type_Not_SD
  | some c => c.info.type

/-- The function `sd_card_get_block_size`. -/
def sd_card_get_block_size (card : Option sd_card) : Nat :=
  match card with
  | none => 0
  | some c => if c.is_inited = false then 0 else c.info.block_size

/-- The function `sd_card_get_erase_size`. -/
def sd_card_get_erase_size (card : Option sd_card) : Nat :=
  match card with
  | none => 0
  | some c => if c.is_inited = false then 0 else c.info.erase_sector_size

/-- The function `sd_card_is_inserted`: the hardware check first, then, on an
initialised session, a CMD0 reset. -/
def sd_card_is_inserted (fuel : Nat) (card : Option sd_card) :
    Except Fault (Bool × Option sd_card) :=
  match card with
  | none => Except.ok (false, none)
  | some c =>
    match sd_spi_hw_is_card_detached c with
    | (false, c1) => Except.ok (true, some c1)
    | (true, c1) =>
      if c1.is_inited = true then
        match sd_card_into_idle fuel c1 with
        | Except.error f => Except.error f
        | Except.ok (Sd_Err_OK, c2) => Except.ok (true, some c2)
        | Except.ok (_, c2) => Except.ok (false, some c2)
      else
        Except.ok (false, some c1)

/-! ## Vocabulary of the statements -/

/-- The six bytes `sd_card_send_cmd_req` transmits for a command. -/
def cmd_frame (cmd arg crc : Nat) : List Nat :=
  [cmd % 256, (arg >>> 24) % 256, (arg >>> 16) % 256, (arg >>> 8) % 256, arg % 256, crc % 256]

/-- The command frames on a bus log: its six-byte writes, in order. -/
def cmd_frames (log : List BusEvent) : List (List Nat) :=
  log.filterMap (fun e =>
    match e with
    | BusEvent.write bytes => if bytes.length = 6 then some bytes else none
    | _ => none)

/-- The card after the bus moved on: `n` more bytes received, `evs` appended to the
log, no transfer in flight. -/
def bus_step (card : sd_card) (n : Nat) (evs : List BusEvent) : sd_card :=
  { card with is_xfering := false, rx_pos := card.rx_pos + n, log := card.log ++ evs }

/-- The bytes the adapter delivers next are exactly `l`. -/
def rx_next (card : sd_card) (l : List Nat) : Prop := rx_peek card l.length = l

/-- The adapter has a `transfer` function. -/
def has_transfer (card : sd_card) : Prop :=
  ∃ ifc t, card.spi_if = some ifc ∧ ifc.transfer = some t

/-- The bytes a card shows when it answers `b` after `pad` idle (`0xFF`) bytes. -/
def answer (pad b : Nat) : List Nat := List.replicate pad 0xFF ++ [b]

/-- The adapter calls of one command whose first response byte arrives after `pad`
idle bytes: the six-byte frame, then `pad + 1` single-byte reads. -/
def r1_exchange (cmd arg crc pad : Nat) : List BusEvent :=
  BusEvent.write (cmd_frame cmd arg crc) :: List.replicate (pad + 1) (BusEvent.read 1)

/-- What `sd_spi_hw_udelay` appends to the log: a delay call when the adapter has a
`delay_us` function, nothing otherwise. -/
def delay_events (card : sd_card) (us : Nat) : List BusEvent :=
  match card.spi_if with
  | none => []
  | some ifc => if ifc.delay_us then [BusEvent.delay us] else []

/-- The adapter is complete for a transfer bracket: `control` and `transfer` are
set, and the take-bus call made when the log has the length of `card.log` returns 0. -/
def can_select (card : sd_card) : Prop :=
  ∃ ifc ctl t, card.spi_if = some ifc ∧ ifc.control = some ctl ∧ ifc.transfer = some t ∧
    ctl card.log.length Sd_User_Ctrl_Take_Bus = 0

/-- The card after a successful `sd_spi_hw_select_card`: bus taken, card selected. -/
def selected (card : sd_card) : sd_card :=
  { card with
    log := card.log ++ [BusEvent.control Sd_User_Ctrl_Take_Bus,
                        BusEvent.control Sd_User_Ctrl_Select_Card]
    is_selected := true }

/-- The card after `sd_spi_hw_deselect_card` on an adapter with a `control`
function: card deselected, bus released. -/
def deselected (card : sd_card) : sd_card :=
  { card with
    log := card.log ++ [BusEvent.control Sd_User_Ctrl_Deselect_Card,
                        BusEvent.control Sd_User_Ctrl_Release_Bus]
    is_selected := false }

/-- Bus bytes of a run of CMD0 exchanges, each given as (idle bytes, response). -/
def idle_rx : List (Nat × Nat) → List Nat
  | [] => []
  | a :: s => answer a.1 a.2 ++ idle_rx s

/-- Adapter calls of a run of CMD0 exchanges. -/
def idle_events : List (Nat × Nat) → List BusEvent
  | [] => []
  | a :: s => r1_exchange Sd_Cmd0_Idle 0 0x95 a.1 ++ idle_events s

/-- Number of bytes received over a run of CMD0 exchanges. -/
def idle_count : List (Nat × Nat) → Nat
  | [] => 0
  | a :: s => (a.1 + 1) + idle_count s

/-- Bus bytes of a run of CMD55 + ACMD41 pairs, each given as (idle bytes before the
CMD55 response, idle bytes before the ACMD41 response, ACMD41 response byte); every
CMD55 is answered `0x01`. -/
def acmd41_rx : List (Nat × Nat × Nat) → List Nat
  | [] => []
  | e :: s => answer e.1 0x01 ++ (answer e.2.1 e.2.2 ++ acmd41_rx s)

/-- Number of bytes received over a run of CMD55 + ACMD41 pairs. -/
def acmd41_count : List (Nat × Nat × Nat) → Nat
  | [] => 0
  | e :: s => ((e.1 + 1) + (e.2.1 + 1)) + acmd41_count s

/-- Adapter calls of one CMD55 + ACMD41 pair; `arg` is the ACMD41 argument. -/
def acmd41_pair (arg : Nat) (e : Nat × Nat × Nat) : List BusEvent :=
  r1_exchange Sd_Cmd55_App_Cmd 0 1 e.1 ++ r1_exchange Sd_Acmd41_Op_Cond arg 1 e.2.1

/-- Adapter calls of a run of CMD55 + ACMD41 pairs each of which is followed by the
calls `d` (the 1000 microsecond delay of the V2 loop, nothing in the legacy loop). -/
def acmd41_events (arg : Nat) (d : List BusEvent) : List (Nat × Nat × Nat) → List BusEvent
  | [] => []
  | e :: s => (acmd41_pair arg e ++ d) ++ acmd41_events arg d s

/-- The command frames of `n` CMD55 + ACMD41 pairs. -/
def acmd41_frames (arg : Nat) : Nat → List (List Nat)
  | 0 => []
  | n + 1 => cmd_frame Sd_Cmd55_App_Cmd 0 1 :: cmd_frame Sd_Acmd41_Op_Cond arg 1 ::
      acmd41_frames arg n

/-- Every pair of the run is answered in time (fewer than 5 idle bytes before each
response) and its ACMD41 response has the idle bit set. -/
def acmd41_busy (script : List (Nat × Nat × Nat)) : Prop :=
  ∀ e ∈ script, e.1 < 5 ∧ e.2.1 < 5 ∧ e.2.2 ≠ 0xFF ∧ (e.2.2 &&& 0x01) ≠ 0

/-- A complete adapter whose control calls all return 0 and whose transfers all
report success. -/
def good_if : sd_spi_interface :=
  { control := some (fun _ _ => 0), transfer := some (fun _ size => (0, size)), delay_us := true }

/-- An initialised session with geometry `info` on a bus that delivers `miso`. -/
def demo_card (info : sd_info) (miso : Nat → Nat) : sd_card :=
  { spi_if := some good_if, info := info, is_inited := true, is_selected := false,
    is_xfering := false, miso := miso, rx_pos := 0, log := [] }

/-- Geometry of a byte-addressed 1 GiB card with 512-byte blocks. -/
def legacy_info : sd_info :=
  { capacity := 2 ^ 30, block_count := 2 ^ 21, erase_sector_size := 4096, block_size := 512,
    type := Sd_Type_SDSC_V1 }

/-- The erase-sector exponent field of a CSD, `((byte4 >> 7) & 1) << 6 | (byte5 & 0x3F)`. -/
def csd_erase_field (csd : List Nat) : Nat :=
  (((u8 csd 4 >>> 7) &&& 0x01) <<< 6) ||| (u8 csd 5 &&& 0x3F)

/-- The 22-bit C_SIZE of a high-capacity CSD (structure version 1),
`(byte7 & 0x3F) << 16 | byte8 << 8 | byte9`. -/
def csd_v2_c_size (csd : List Nat) : Nat :=
  ((u8 csd 7 &&& 0x3F) <<< 16) ||| (u8 csd 8 <<< 8) ||| u8 csd 9

/-- READ_BL_LEN of a standard-capacity CSD (structure version 0), `byte5 & 0x0F`. -/
def csd_v1_read_bl_len (csd : List Nat) : Nat := u8 csd 5 &&& 0x0F

/-- The 12-bit C_SIZE of a version-0 CSD, `(byte6 & 3) << 10 | byte7 << 2 | byte8 >> 6`. -/
def csd_v1_c_size (csd : List Nat) : Nat :=
  ((u8 csd 6 &&& 0x03) <<< 10) ||| (u8 csd 7 <<< 2) ||| (u8 csd 8 >>> 6)

/-- C_SIZE_MULT of a version-0 CSD, `(byte9 & 3) << 1 | byte10 >> 7`. -/
def csd_v1_c_size_mult (csd : List Nat) : Nat :=
  ((u8 csd 9 &&& 0x03) <<< 1) ||| (u8 csd 10 >>> 7)

/-- A high-capacity CSD whose C_SIZE field is all ones. -/
def csd_v2_max : List Nat :=
  [0x40, 0x0E, 0x00, 0x32, 0x5B, 0x59, 0x00, 0x3F, 0xFF, 0xFF, 0x7F, 0x80, 0x0A, 0x40, 0x00, 0x01]

/-- A high-capacity CSD of a 16 GB card (C_SIZE = 0x7677). -/
def csd_v2_16g : List Nat :=
  [0x40, 0x0E, 0x00, 0x32, 0x5B, 0x59, 0x00, 0x00, 0x76, 0x77, 0x7F, 0x80, 0x0A, 0x40, 0x00, 0x01]

/-- A version-0 CSD: READ_BL_LEN = 9, C_SIZE = 4095, C_SIZE_MULT = 7 (a 1 GiB card). -/
def csd_v1_1g : List Nat :=
  [0x00, 0x26, 0x00, 0x32, 0x5F, 0x59, 0x83, 0xFF, 0xED, 0xB7, 0xFF, 0x9F, 0x16, 0x40, 0x00, 0x01]

/-- A version-0 CSD whose bytes 4 and 5 are `0x00` and `0x1F`: erase field 31. -/
def csd_v1_erase31 : List Nat :=
  [0x00, 0x26, 0x00, 0x32, 0x00, 0x1F, 0x83, 0xFF, 0xED, 0xB7, 0xFF, 0x9F, 0x16, 0x40, 0x00, 0x01]

/-- A stream on which every byte reads `0x00`, as on a data line stuck low. -/
def miso_stuck_low : Nat → Nat := fun _ => 0x00

/-- A stream that reads `0x00` except for a single `0x01` at position 254. -/
def miso_idle_at_255 : Nat → Nat := fun i => if i = 254 then 0x01 else 0x00

/-- A stream that repeats a clean R1 byte, the data token `0xFE`, 512 data bytes
`0xA5` and two CRC bytes: what a card sends for successive single-block reads. -/
def miso_read_blocks : Nat → Nat :=
  fun i => if i % 516 = 0 then 0x00 else if i % 516 = 1 then 0xFE else 0xA5

/-- A stream that repeats a clean R1 byte, the data-response token `0x05` and a
non-busy byte: what a card sends for successive single-block writes. -/
def miso_write_blocks : Nat → Nat :=
  fun i => if i % 3 = 0 then 0x00 else if i % 3 = 1 then 0x05 else 0xFF

/-- Error code and command frames of a finished `sd_card_read`. -/
def read_outcome (r : Except Fault (sd_error × Option sd_card × Option (List Nat))) :
    Option (sd_error × List (List Nat)) :=
  match r with
  | Except.ok (err, some card, _) => some (err, cmd_frames card.log)
  | _ => none

/-- Error code and command frames of a finished `sd_card_write`. -/
def write_outcome (r : Except Fault (sd_error × Option sd_card)) :
    Option (sd_error × List (List Nat)) :=
  match r with
  | Except.ok (err, some card) => some (err, cmd_frames card.log)
  | _ => none

/-- A stream on which every byte reads `0x01`: each CMD55 is answered `0x01` and each
ACMD41 is answered with the idle bit set. -/
def miso_always_idle : Nat → Nat := fun _ => 0x01

/-- A stream that reads `0x01` except for a `0x00` at position 5: the third ACMD41
is answered with the idle bit clear. -/
def miso_ready_at_3 : Nat → Nat := fun i => if i = 5 then 0x00 else 0x01

/-- The geometry `_card_identify` starts from: class unknown, every size zero. -/
def info_unknown : sd_info :=
  { type := Sd_Type_Unknown, block_count := 0, block_size := 0, capacity := 0,
    erase_sector_size := 0 }

/-- The CMD8 request of `_card_identify`. -/
def cmd8_req : sd_cmd_req :=
  { cmd := Sd_Cmd8_If_Cond, arg := 0x1AA, crc := 0x87, resp_type := Sd_Resp_Type_R7, retry := 5 }

/-- The adapter calls of a command with a register payload (shape R2): the frame,
`pad + 1` reads up to the R1 byte, `skip + 1` reads up to the data token, the 16
data bytes, the 2 CRC bytes. -/
def r2_exchange (cmd arg crc pad skip : Nat) : List BusEvent :=
  r1_exchange cmd arg crc pad ++
    (List.replicate (skip + 1) (BusEvent.read 1) ++ [BusEvent.read 16, BusEvent.read 2])

/-- What a legacy (version 1.x) card puts on the bus during identification: no
answer to CMD8 (five idle bytes), `0x01` to CMD55, `0x00` to ACMD41, `0x00` to CMD16,
`0x00` to CMD9, the data token, a version-0 CSD and two CRC bytes; idle afterwards. -/
def miso_legacy_card : Nat → Nat :=
  fun i => (List.replicate 5 0xFF ++ [0x01, 0x00, 0x00, 0x00, 0xFE] ++ csd_v1_1g ++
    [0x12, 0x34]).getD i 0xFF

/-- A geometry record with every field zero. -/
def info_zero : sd_info :=
  { capacity := 0, block_count := 0, erase_sector_size := 0, block_size := 0,
    type := Sd_Type_Not_SD }

/-- The bytes sent by the write transfers on a log, in order. -/
def tx_bytes : List BusEvent → List Nat
  | [] => []
  | BusEvent.write bytes :: l => bytes ++ tx_bytes l
  | _ :: l => tx_bytes l

/-- The data phase of a single-block write: what `_write_single_block` transmits
after the six bytes of its command frame (nothing when the call does not return). -/
def write_data_phase (fuel : Nat) (card : sd_card) (lba : Nat) (buf : List Nat) (off : Nat) :
    List Nat :=
  match _write_single_block fuel card lba buf off with
  | Except.ok (_, card1) => (tx_bytes (card1.log.drop card.log.length)).drop 6
  | Except.error _ => []

/-- The stream that delivers the bytes of `l` and reads idle (`0xFF`) afterwards. -/
def miso_of (l : List Nat) : Nat → Nat := fun i => l.getD i 0xFF

/-- A 512-byte block holding 0, 1, ..., 255 twice. -/
def sample_block : List Nat := (List.range 512).map (fun i => i % 256)

/-- Whether an adapter call is a `control` call. -/
def is_control : BusEvent → Bool
  | BusEvent.control _ => true
  | _ => false

/-- A run of adapter calls without any `control` call: transfers and delays only. -/
def quiet (evs : List BusEvent) : Prop := ∀ e ∈ evs, is_control e = false

/-- What a run of transfers and delays does to the session `c`, leaving `c1`: the
adapter, the geometry, the stream and the `is_inited` and `is_selected` flags are
as before, `is_xfering` is clear if it was clear, and the log has grown by calls
none of which is a `control` call. -/
def transfers_only (c c1 : sd_card) : Prop :=
  c1.spi_if = c.spi_if ∧ c1.info = c.info ∧ c1.is_inited = c.is_inited ∧
  c1.is_selected = c.is_selected ∧ c1.miso = c.miso ∧
  (c.is_xfering = false → c1.is_xfering = false) ∧
  ∃ evs, c1.log = c.log ++ evs ∧ quiet evs

/-- A stream for a two-block read whose second block never starts: a clean R1 byte,
the data token, 512 data bytes `0xA5`, and `0x00` ever after (two CRC bytes, a
clean R1 byte for the second command, then no token). -/
def miso_block_then_low : Nat → Nat :=
  fun i => if i = 1 then 0xFE else if 2 ≤ i ∧ i < 514 then 0xA5 else 0x00

/-- The adapter calls of a single-block read that succeeds with its R1 byte after
`pad` idle bytes and its data token after `skip` further bytes. -/
def read_block_events (lba pad skip block_size : Nat) : List BusEvent :=
  r1_exchange Sd_Cmd17_Rd_Single lba 1 pad ++
    (List.replicate (skip + 1) (BusEvent.read 1) ++
      [BusEvent.read block_size, BusEvent.read 2])

/-- The adapter calls of a single-block write of `data` that succeeds with its R1
byte after `pad` idle bytes and the card ready at the first busy poll (the closing
delay is left out). -/
def write_block_events (lba pad : Nat) (data : List Nat) : List BusEvent :=
  r1_exchange Sd_Cmd24_Wr_Single_Blk lba 1 pad ++
    [BusEvent.write [0xFE], BusEvent.write data, BusEvent.write [0xFF, 0xFF],
     BusEvent.read 1, BusEvent.read 1]

/-- A freshly constructed session, `SD_CARD_OBJ_INIT`: a complete adapter, every
geometry field zero, no flag set. -/
def fresh_card (miso : Nat → Nat) : sd_card :=
  { spi_if := some good_if, info := info_zero, is_inited := false, is_selected := false,
    is_xfering := false, miso := miso, rx_pos := 0, log := [] }

/-- Error code and command frames of a finished erase call. -/
def erase_outcome (r : Except Fault (sd_error × Option sd_card)) :
    Option (sd_error × List (List Nat)) :=
  match r with
  | Except.ok (err, some card) => some (err, cmd_frames card.log)
  | _ => none

/-- The adapter calls of `n` passes of the R1b wait: each pass reads one byte and
asks for the 5000 microsecond delay. -/
def r1b_events (card : sd_card) : Nat → List BusEvent
  | 0 => []
  | n + 1 => ([BusEvent.read 1] ++ delay_events card 5000) ++ r1b_events card n

/-- A stream for an erase that goes through: three clean R1 bytes, then idle. -/
def miso_erase_ready : Nat → Nat := fun i => if i < 3 then 0x00 else 0xFF

/-- A stream on which CMD32 and CMD33 are answered `0x00`, CMD38 is answered `0x04`
(illegal command) and the line reads `0x00` ever after. -/
def miso_erase_rejected_low : Nat → Nat := fun i => if i = 2 then 0x04 else 0x00

/-- Geometry of a block-addressed 16 GiB card with 512-byte blocks. -/
def sdhc_info : sd_info :=
  { capacity := 2 ^ 34, block_count := 2 ^ 25, erase_sector_size := 4096, block_size := 512,
    type := Sd_Type_SDHC }

/-- Whether a run of adapter calls contains a deselect immediately followed by a
release-bus. -/
def has_deselect_release : List BusEvent → Bool
  | [] => false
  | e :: rest =>
    (e = BusEvent.control Sd_User_Ctrl_Deselect_Card &&
      rest.head? = some (BusEvent.control Sd_User_Ctrl_Release_Bus)) ||
    has_deselect_release rest

/-- Whether every select on a run of adapter calls is followed, later on the run, by
a deselect and release-bus. -/
def released_after_select : List BusEvent → Bool
  | [] => true
  | e :: rest =>
    (if e = BusEvent.control Sd_User_Ctrl_Select_Card then has_deselect_release rest else true) &&
    released_after_select rest

/-- Like `transfers_only`, but saying nothing about the geometry and `is_inited`:
what a run of transfers and delays with updates of the geometry in between does to
the session. -/
def transfers_mod_info (c c1 : sd_card) : Prop :=
  c1.spi_if = c.spi_if ∧ c1.is_selected = c.is_selected ∧
  (c.is_xfering = false → c1.is_xfering = false) ∧
  ∃ evs, c1.log = c.log ++ evs ∧ quiet evs

/-- What a complete operation does to the session flags and the bus: the adapter is
the same, a session that was not selected is not selected afterwards, one that was
not transferring is not transferring afterwards, and on the adapter calls made every
select is followed by a deselect and release-bus. -/
def session_call (c c1 : sd_card) : Prop :=
  c1.spi_if = c.spi_if ∧ (c.is_selected = false → c1.is_selected = false) ∧
  (c.is_xfering = false → c1.is_xfering = false) ∧
  ∃ evs, c1.log = c.log ++ evs ∧ released_after_select evs = true

/-- The state an operation entered with `c` leaves in `c1`: not selected, not
transferring, and on the adapter calls it added to the log every select is followed
by a deselect and release-bus. -/
def idle_after (c c1 : sd_card) : Prop :=
  c1.is_selected = false ∧ c1.is_xfering = false ∧
  ∃ evs, c1.log = c.log ++ evs ∧ released_after_select evs = true

/-- The most bytes the response wait of `sd_card_send_cmd_req` reads for a given
entry value of the `uint8_t` retry counter: the counter itself, or 256 when it is
entered with 0. -/
def wait_response_bound (retry : Nat) : Nat := if retry % 256 = 0 then 256 else retry % 256

/-- The most bytes `sd_card_send_cmd_req` reads for a request whose response shape is
not R1b: the response wait, then 255 token polls, 16 data and 2 CRC bytes for R2, or
4 payload bytes for R3 and R7. -/
def send_cmd_read_bound (req : sd_cmd_req) : Nat :=
  wait_response_bound req.retry +
    (match req.resp_type with
     | Sd_Resp_Type_R2 => 255 + 16 + 2
     | Sd_Resp_Type_R3 => 4
     | Sd_Resp_Type_R7 => 4
     | _ => 0)

/-- A run of adapter calls all of which are receive transfers. -/
def reads_only (evs : List BusEvent) : Prop := ∀ e ∈ evs, ∃ n, e = BusEvent.read n

/-- Whether an adapter call is one of the life-cycle controls: init-hardware,
deinit-hardware, set-low-speed, set-high-speed. -/
def is_setup_control : BusEvent → Bool
  | BusEvent.control Sd_User_Ctrl_Init_Hardware => true
  | BusEvent.control Sd_User_Ctrl_Deinit_Hardware => true
  | BusEvent.control Sd_User_Ctrl_Set_Low_Speed => true
  | BusEvent.control Sd_User_Ctrl_Set_High_Speed => true
  | _ => false

/-- What the command traffic of an operation does to the session `c`, leaving `c1`:
the adapter and the `is_inited` flag are as before, and the log has grown by calls none
of which is a life-cycle control. -/
def bus_traffic (c c1 : sd_card) : Prop :=
  c1.spi_if = c.spi_if ∧ c1.is_inited = c.is_inited ∧
  ∃ evs, c1.log = c.log ++ evs ∧ ∀ e ∈ evs, is_setup_control e = false

/-- The adapter has a `control` function. -/
def has_control (card : sd_card) : Prop :=
  ∃ ifc ctl, card.spi_if = some ifc ∧ ifc.control = some ctl

/-- The session as `sd_card_init` hands it to the identification: flags reset,
hardware initialised, low speed set, power-on sequence done. -/
def powered (c : sd_card) : sd_card :=
  (_card_power_on
    (sd_spi_hw_set_speed
      (sd_spi_hw_io_init
        { c with is_inited := false, is_selected := false, is_xfering := false }).2
      Sd_User_Ctrl_Set_Low_Speed)).2

/-- The adapter calls of `sd_card_init` up to the identification, on a complete
adapter: init-hardware, set-low-speed, deselect and release-bus, ten dummy bytes
`0xFF`, each in a write of its own. -/
def power_up_events : List BusEvent :=
  [BusEvent.control Sd_User_Ctrl_Init_Hardware, BusEvent.control Sd_User_Ctrl_Set_Low_Speed,
   BusEvent.control Sd_User_Ctrl_Deselect_Card, BusEvent.control Sd_User_Ctrl_Release_Bus] ++
  List.replicate 10 (BusEvent.write [0xFF])

/-- An adapter whose control calls all return 0 and whose every transfer reports
failure: it returns -1 and moves no byte. -/
def failing_if : sd_spi_interface :=
  { control := some (fun _ _ => 0), transfer := some (fun _ _ => (-1, 0)), delay_us := true }

/-- An initialised session on the adapter `failing_if`.  The byte variable of a
response poll holds `0xFF` before each read and a failed transfer stores nothing, so
the stream reads `0xFF` throughout. -/
def failing_card : sd_card :=
  { spi_if := some failing_if, info := legacy_info, is_inited := true, is_selected := false,
    is_xfering := false, miso := fun _ => 0xFF, rx_pos := 0, log := [] }

/-- Error code, `is_inited` flag and adapter calls of a finished `sd_card_init` or
`sd_card_deinit`. -/
def session_outcome (r : Except Fault (sd_error × Option sd_card)) :
    Option (sd_error × Bool × List BusEvent) :=
  match r with
  | Except.ok (err, some card) => some (err, card.is_inited, card.log)
  | _ => none

/-- What a legacy (version 1.x) card puts on the bus during `sd_card_init`: `0x01` to
CMD0, then the bytes of `miso_legacy_card`. -/
def miso_legacy_init : Nat → Nat :=
  fun i => ([0x01] ++ List.replicate 5 0xFF ++ [0x01, 0x00, 0x00, 0x00, 0xFE] ++ csd_v1_1g ++
    [0x12, 0x34]).getD i 0xFF

/-- The adapter calls of a single-block write of `data` up to and including the read of
the data-response byte, with the R1 byte of CMD24 after `pad` idle bytes: the command
exchange, the token `0xFE`, the data, the two filler CRC bytes, one single-byte read. -/
def write_sent_events (lba pad : Nat) (data : List Nat) : List BusEvent :=
  r1_exchange Sd_Cmd24_Wr_Single_Blk lba 1 pad ++
    [BusEvent.write [0xFE], BusEvent.write data, BusEvent.write [0xFF, 0xFF], BusEvent.read 1]

/-- The adapter calls of `n` passes of the busy wait of `_write_single_block` that go
on to the delay: each pass reads one byte and asks for the 1000 microsecond delay. -/
def write_busy_events (card : sd_card) : Nat → List BusEvent
  | 0 => []
  | n + 1 => ([BusEvent.read 1] ++ delay_events card 1000) ++ write_busy_events card n

/-- A stream for a single-block write whose card turns ready exactly at the 500th busy
poll: a clean R1 byte, the data response `0x05`, 499 busy bytes `0x00`, then `0x01`,
and `0x00` afterwards. -/
def miso_ready_at_500 : Nat → Nat :=
  fun i => if i = 1 then 0x05 else if i = 501 then 0x01 else 0x00

/-- The session of `_card_identify` once CMD8 has been answered: geometry reset, card
selected, the CMD8 frame sent, `pad + 1` single-byte reads up to the R1 byte and one
read of the four bytes that follow it. -/
def after_cmd8 (card : sd_card) (pad : Nat) : sd_card :=
  bus_step (selected { card with info := info_unknown }) ((pad + 1) + 4)
    (r1_exchange Sd_Cmd8_If_Cond 0x1AA 0x87 pad ++ [BusEvent.read 4])

/-- The session after the exit sequence of `_card_identify` on a complete adapter:
deselect and release-bus, then one dummy byte `0xFF`. -/
def finished (card : sd_card) : sd_card :=
  bus_step (deselected card) 0 [BusEvent.write [0xFF]]

/-- The 32-bit OCR value assembled from its four bytes, most significant first. -/
def ocr_value (o1 o2 o3 o4 : Nat) : Nat := (o1 <<< 24) ||| (o2 <<< 16) ||| (o3 <<< 8) ||| o4

/-- The session of `_check_card_maybe_v2` after CMD58 (R1 byte after `p1` idle bytes,
then the four OCR bytes), the two dummy bytes, and CMD9 (R1 byte after `p2` idle
bytes, data token after `skip` further bytes, 16 CSD bytes, 2 CRC bytes). -/
def after_cmd58_cmd9 (card : sd_card) (p1 p2 skip : Nat) : sd_card :=
  bus_step card (((p1 + 1) + 4) + ((p2 + 1) + ((skip + 1) + (16 + 2))))
    (r1_exchange Sd_Cmd58_Rd_Ocr 0 1 p1 ++ [BusEvent.read 4] ++
      [BusEvent.write [0xFF], BusEvent.write [0xFF]] ++ r2_exchange Sd_Cmd9_Csd 0 1 p2 skip)

/-- The session of `_check_card_maybe_v1` after CMD16 (R1 byte after `p3` idle bytes)
and CMD9 (R1 byte after `p4` idle bytes, data token after `skip` further bytes, 16 CSD
bytes, 2 CRC bytes). -/
def after_cmd16_cmd9 (card : sd_card) (p3 p4 skip : Nat) : sd_card :=
  bus_step card ((p3 + 1) + ((p4 + 1) + ((skip + 1) + (16 + 2))))
    (r1_exchange Sd_Cmd16_Block_len 512 1 p3 ++ r2_exchange Sd_Cmd9_Csd 0 1 p4 skip)

/-- The block size of a geometry is a power of two from 1 to 32768, and 512 on the
high-capacity classes. -/
def block_size_ok (i : sd_info) : Prop :=
  (∃ k, k ≤ 15 ∧ i.block_size = 2 ^ k) ∧
  (i.type = Sd_Type_SDHC ∨ i.type = Sd_Type_SDXC → i.block_size = 512)

/-- Error code and geometry of a finished `sd_card_init`. -/
def geometry_outcome (r : Except Fault (sd_error × Option sd_card)) :
    Option (sd_error × sd_info) :=
  match r with
  | Except.ok (err, some card) => some (err, card.info)
  | _ => none

/-- A version-0 CSD with READ_BL_LEN = 10, C_SIZE = 4095, C_SIZE_MULT = 7: what a
2 GiB standard-capacity card reports. -/
def csd_v1_2g : List Nat :=
  [0x00, 0x26, 0x00, 0x32, 0x5F, 0x5A, 0x83, 0xFF, 0xED, 0xB7, 0xFF, 0x9F, 0x16, 0x40, 0x00, 0x01]

/-- What a legacy (version 1.x) 2 GiB card puts on the bus during `sd_card_init`:
`0x01` to CMD0, no answer to CMD8, `0x01` to CMD55, `0x00` to ACMD41, CMD16 and CMD9,
the data token, the register `csd_v1_2g` and two CRC bytes. -/
def miso_legacy_init_2g : Nat → Nat :=
  fun i => ([0x01] ++ List.replicate 5 0xFF ++ [0x01, 0x00, 0x00, 0x00, 0xFE] ++ csd_v1_2g ++
    [0x12, 0x34]).getD i 0xFF

/-- What a version 2.00 standard-capacity 2 GiB card puts on the bus during
`sd_card_init`: `0x01` to CMD0, `01 00 00 01 AA` to CMD8, `0x01` to CMD55, `0x00` to
ACMD41, `00 80 FF 80 00` to CMD58 (CCS clear), `0x00` to CMD9, the data token, the
register `csd_v1_2g` and two CRC bytes. -/
def miso_sdsc_v2_init_2g : Nat → Nat :=
  fun i => ([0x01, 0x01, 0x00, 0x00, 0x01, 0xAA, 0x01, 0x00, 0x00, 0x80, 0xFF, 0x80, 0x00,
    0x00, 0xFE] ++ csd_v1_2g ++ [0x12, 0x34]).getD i 0xFF

/-- A version-0 CSD with READ_BL_LEN = 12, C_SIZE = 4095, C_SIZE_MULT = 7 and erase
field 12: the legacy parser accepts it and computes 8 GiB. -/
def csd_v1_8g : List Nat :=
  [0x00, 0x26, 0x00, 0x32, 0x5F, 0x0C, 0x03, 0xFF, 0xC0, 0x03, 0x80, 0x00, 0x00, 0x00, 0x00, 0x01]

/-- The geometry the legacy parser computes from `csd_v1_8g`, class SDSC v1. -/
def legacy_8g_info : sd_info :=
  (_parse_csd_v1 csd_v1_8g { info_unknown with type := Sd_Type_SDSC_V1 }).2

/-- The geometry of a 2 GiB standard-capacity card as the legacy parser computes it from
`csd_v1_2g`: 2^21 blocks of 1024 bytes. -/
def legacy_2g_info : sd_info :=
  { capacity := 2 ^ 31, block_count := 2 ^ 21, erase_sector_size := 2 ^ 27, block_size := 1024,
    type := Sd_Type_SDSC_V1 }

/-- What a legacy (version 1.x) card that reports `csd_v1_8g` puts on the bus during
`sd_card_init`. -/
def miso_legacy_init_8g : Nat → Nat :=
  fun i => ([0x01] ++ List.replicate 5 0xFF ++ [0x01, 0x00, 0x00, 0x00, 0xFE] ++ csd_v1_8g ++
    [0x12, 0x34]).getD i 0xFF

/-! ## Theorems -/

theorem u8_lt (a : List Nat) (i : Nat) : u8 a i < 256 :=
  Nat.mod_lt _ (by norm_num)

/-! ### Register parsers -/

theorem csd_v2_c_size_lt (csd : List Nat) : csd_v2_c_size csd < 2 ^ 22 := by
  have h7 : u8 csd 7 &&& 0x3F ≤ 0x3F := Nat.and_le_right
  have h8 := u8_lt csd 8
  have h9 := u8_lt csd 9
  unfold csd_v2_c_size
  apply Nat.or_lt_two_pow
  · apply Nat.or_lt_two_pow
    · rw [Nat.shiftLeft_eq]; omega
    · rw [Nat.shiftLeft_eq]; omega
  · omega

theorem csd_erase_field_lt (csd : List Nat) : csd_erase_field csd < 2 ^ 7 := by
  have h4 : (u8 csd 4 >>> 7) &&& 0x01 ≤ 0x01 := Nat.and_le_right
  have h5 : u8 csd 5 &&& 0x3F ≤ 0x3F := Nat.and_le_right
  unfold csd_erase_field
  apply Nat.or_lt_two_pow
  · rw [Nat.shiftLeft_eq]; omega
  · omega

theorem csd_v1_read_bl_len_le (csd : List Nat) : csd_v1_read_bl_len csd ≤ 15 :=
  Nat.and_le_right

theorem csd_v1_c_size_lt (csd : List Nat) : csd_v1_c_size csd < 2 ^ 12 := by
  have h6 : u8 csd 6 &&& 0x03 ≤ 0x03 := Nat.and_le_right
  have h7 := u8_lt csd 7
  have h8 := u8_lt csd 8
  unfold csd_v1_c_size
  apply Nat.or_lt_two_pow
  · apply Nat.or_lt_two_pow
    · rw [Nat.shiftLeft_eq]; omega
    · rw [Nat.shiftLeft_eq]; omega
  · rw [Nat.shiftRight_eq_div_pow]; omega

theorem csd_v1_c_size_mult_lt (csd : List Nat) : csd_v1_c_size_mult csd < 2 ^ 3 := by
  have h9 : u8 csd 9 &&& 0x03 ≤ 0x03 := Nat.and_le_right
  have h10 := u8_lt csd 10
  unfold csd_v1_c_size_mult
  apply Nat.or_lt_two_pow
  · rw [Nat.shiftLeft_eq]; omega
  · rw [Nat.shiftRight_eq_div_pow]; omega

/-- What `_parse_csd_v2` computes on an accepted CSD, with the bit fields named. -/
theorem parse_csd_v2_eq (csd : List Nat) (info : sd_info) (h : u8 csd 0 >>> 6 = 1) :
    _parse_csd_v2 csd info =
      (Sd_Err_OK,
        { info with
          block_count := ((csd_v2_c_size csd + 1) * 1024) % 2 ^ 32
          block_size := 512
          capacity := (((csd_v2_c_size csd + 1) * 1024) % 2 ^ 32) * 512
          erase_sector_size := shl_one_32 (csd_erase_field csd + 1) }) := by
  have hk := csd_v2_c_size_lt csd
  have he := csd_erase_field_lt csd
  have h7 : u8 csd 7 &&& 0x3F ≤ 0x3F := Nat.and_le_right
  have h8 := u8_lt csd 8
  have e1 : ((u8 csd 7 &&& 0x3F) <<< 16) % 2 ^ 32 = (u8 csd 7 &&& 0x3F) <<< 16 := by
    apply Nat.mod_eq_of_lt; rw [Nat.shiftLeft_eq]; omega
  have e2 : (u8 csd 8 <<< 8) % 2 ^ 32 = u8 csd 8 <<< 8 := by
    apply Nat.mod_eq_of_lt; rw [Nat.shiftLeft_eq]; omega
  have e3 : csd_v2_c_size csd % 2 ^ 32 = csd_v2_c_size csd := Nat.mod_eq_of_lt (by omega)
  have e4 : (csd_v2_c_size csd + 1) % 2 ^ 32 = csd_v2_c_size csd + 1 := Nat.mod_eq_of_lt (by omega)
  have e5 : csd_erase_field csd % 2 ^ 32 = csd_erase_field csd := Nat.mod_eq_of_lt (by omega)
  have e6 : (csd_erase_field csd + 1) % 2 ^ 32 = csd_erase_field csd + 1 :=
    Nat.mod_eq_of_lt (by omega)
  have e7 : ((((csd_v2_c_size csd + 1) * 1024) % 2 ^ 32) * 512) % 2 ^ 64
      = (((csd_v2_c_size csd + 1) * 1024) % 2 ^ 32) * 512 := by
    apply Nat.mod_eq_of_lt
    have := Nat.mod_lt ((csd_v2_c_size csd + 1) * 1024) (show 0 < 2 ^ 32 by norm_num)
    omega
  unfold _parse_csd_v2
  rw [if_neg (by rw [h]; exact fun hh => hh rfl)]
  simp only [e1, e2]
  change (Sd_Err_OK, { info with
          block_count := (((csd_v2_c_size csd % 2 ^ 32 + 1) % 2 ^ 32) * 1024) % 2 ^ 32
          block_size := 512
          capacity := ((((csd_v2_c_size csd % 2 ^ 32 + 1) % 2 ^ 32) * 1024) % 2 ^ 32 * 512) % 2 ^ 64
          erase_sector_size := shl_one_32 ((csd_erase_field csd % 2 ^ 32 + 1) % 2 ^ 32) }) = _
  rw [e3, e4, e5, e6, e7]

/-- What `_parse_csd_v1` computes on an accepted CSD, with the bit fields named and
every reduction to a machine width removed. -/
theorem parse_csd_v1_eq (csd : List Nat) (info : sd_info) (h : u8 csd 0 >>> 6 = 0) :
    _parse_csd_v1 csd info =
      (Sd_Err_OK,
        { info with
          block_size := 2 ^ csd_v1_read_bl_len csd
          block_count := (csd_v1_c_size csd + 1) * 2 ^ (csd_v1_c_size_mult csd + 2)
          capacity := 2 ^ csd_v1_read_bl_len csd *
                        ((csd_v1_c_size csd + 1) * 2 ^ (csd_v1_c_size_mult csd + 2))
          erase_sector_size := shl_one_32 (csd_erase_field csd + 1) }) := by
  have hl := csd_v1_read_bl_len_le csd
  have hc := csd_v1_c_size_lt csd
  have hm := csd_v1_c_size_mult_lt csd
  have he := csd_erase_field_lt csd
  have p1 : 2 ^ csd_v1_read_bl_len csd ≤ 2 ^ 15 := Nat.pow_le_pow_right (by norm_num) hl
  have p2 : 2 ^ (csd_v1_c_size_mult csd + 2) ≤ 2 ^ 9 :=
    Nat.pow_le_pow_right (by norm_num) (by omega)
  have p3 : (csd_v1_c_size csd + 1) * 2 ^ (csd_v1_c_size_mult csd + 2) ≤ 2 ^ 12 * 2 ^ 9 :=
    Nat.mul_le_mul (by omega) p2
  have p4 : 2 ^ csd_v1_read_bl_len csd *
      ((csd_v1_c_size csd + 1) * 2 ^ (csd_v1_c_size_mult csd + 2)) ≤ 2 ^ 15 * (2 ^ 12 * 2 ^ 9) :=
    Nat.mul_le_mul p1 p3
  have e1 : csd_v1_read_bl_len csd % 256 = csd_v1_read_bl_len csd := Nat.mod_eq_of_lt (by omega)
  have e2 : (2 ^ csd_v1_read_bl_len csd) % 2 ^ 16 = 2 ^ csd_v1_read_bl_len csd :=
    Nat.mod_eq_of_lt (by omega)
  have e3 : csd_v1_c_size csd % 2 ^ 16 = csd_v1_c_size csd := Nat.mod_eq_of_lt (by omega)
  have e4 : csd_v1_c_size_mult csd % 256 = csd_v1_c_size_mult csd := Nat.mod_eq_of_lt (by omega)
  have e5 : ((csd_v1_c_size csd + 1) * 2 ^ (csd_v1_c_size_mult csd + 2)) % 2 ^ 32
      = (csd_v1_c_size csd + 1) * 2 ^ (csd_v1_c_size_mult csd + 2) :=
    Nat.mod_eq_of_lt (by omega)
  have e6 : (2 ^ csd_v1_read_bl_len csd *
      ((csd_v1_c_size csd + 1) * 2 ^ (csd_v1_c_size_mult csd + 2))) % 2 ^ 64
      = 2 ^ csd_v1_read_bl_len csd *
          ((csd_v1_c_size csd + 1) * 2 ^ (csd_v1_c_size_mult csd + 2)) :=
    Nat.mod_eq_of_lt (by omega)
  have e7 : csd_erase_field csd % 2 ^ 32 = csd_erase_field csd := Nat.mod_eq_of_lt (by omega)
  have e8 : (csd_erase_field csd + 1) % 2 ^ 32 = csd_erase_field csd + 1 :=
    Nat.mod_eq_of_lt (by omega)
  unfold _parse_csd_v1
  rw [if_neg (by rw [h]; exact fun hh => hh rfl)]
  change (Sd_Err_OK, { info with
          block_size := (1 <<< (csd_v1_read_bl_len csd % 256)) % 2 ^ 16
          block_count := ((csd_v1_c_size csd % 2 ^ 16 + 1) *
                            (1 <<< (csd_v1_c_size_mult csd % 256 + 2))) % 2 ^ 32
          capacity := ((1 <<< (csd_v1_read_bl_len csd % 256)) % 2 ^ 16 *
                        (((csd_v1_c_size csd % 2 ^ 16 + 1) *
                            (1 <<< (csd_v1_c_size_mult csd % 256 + 2))) % 2 ^ 32)) % 2 ^ 64
          erase_sector_size := shl_one_32 ((csd_erase_field csd % 2 ^ 32 + 1) % 2 ^ 32) }) = _
  rw [e1, e3, e4, e7, e8, Nat.one_shiftLeft, Nat.one_shiftLeft, e2, e5, e6]

theorem shl_one_32_small (n : Nat) (h : n ≤ 31) : shl_one_32 n = 2 ^ n := by
  unfold shl_one_32
  rw [Nat.one_shiftLeft]
  apply Nat.mod_eq_of_lt
  exact Nat.pow_lt_pow_right (by norm_num) (by omega)

/-- C1 (code at the failing input): on the high-capacity CSD whose 22-bit C_SIZE is
`2^22 - 1`, `_parse_csd_v2` returns OK with `block_count = 0` and `capacity = 0`: the
32-bit product `(c_size + 1) * 1024` has wrapped, where the claim asks for
`block_count = 2^22 * 1024 = 2^32` blocks. -/
theorem parse_csd_v2_c_size_max_wraps :
    u8 csd_v2_max 0 >>> 6 = 1 ∧ csd_v2_c_size csd_v2_max = 2 ^ 22 - 1 ∧
    (_parse_csd_v2 csd_v2_max info_zero).1 = Sd_Err_OK ∧
    (_parse_csd_v2 csd_v2_max info_zero).2.block_count = 0 ∧
    (_parse_csd_v2 csd_v2_max info_zero).2.block_size = 512 ∧
    (_parse_csd_v2 csd_v2_max info_zero).2.capacity = 0 ∧
    (csd_v2_c_size csd_v2_max + 1) * 1024 = 2 ^ 32 := by
  decide

/-- Below the top value of C_SIZE the high-capacity parse is as the spec gives it:
`block_count = (C_SIZE + 1) * 1024`, `block_size = 512`,
`capacity = block_count * 512`. -/
theorem parse_csd_v2_below_max (csd : List Nat) (info : sd_info) (h : u8 csd 0 >>> 6 = 1)
    (hk : csd_v2_c_size csd < 2 ^ 22 - 1) :
    (_parse_csd_v2 csd info).1 = Sd_Err_OK ∧
    (_parse_csd_v2 csd info).2.block_count = (csd_v2_c_size csd + 1) * 1024 ∧
    (_parse_csd_v2 csd info).2.block_size = 512 ∧
    (_parse_csd_v2 csd info).2.capacity = (_parse_csd_v2 csd info).2.block_count * 512 := by
  rw [parse_csd_v2_eq csd info h]
  have e : ((csd_v2_c_size csd + 1) * 1024) % 2 ^ 32 = (csd_v2_c_size csd + 1) * 1024 :=
    Nat.mod_eq_of_lt (by omega)
  simp only [e, and_self]

/-- C2: on every CSD whose byte 0 has top two bits 00, `_parse_csd_v1` returns OK
with `block_size = 2^READ_BL_LEN`, `block_count = (C_SIZE + 1) * 2^(C_SIZE_MULT + 2)`
and `capacity = block_size * block_count` as natural numbers: none of the 8-, 16-,
32- or 64-bit intermediate values of the code wraps. -/
theorem parse_csd_v1_exact (csd : List Nat) (info : sd_info) (h : u8 csd 0 >>> 6 = 0) :
    (_parse_csd_v1 csd info).1 = Sd_Err_OK ∧
    (_parse_csd_v1 csd info).2.block_size = 2 ^ csd_v1_read_bl_len csd ∧
    (_parse_csd_v1 csd info).2.block_count =
      (csd_v1_c_size csd + 1) * 2 ^ (csd_v1_c_size_mult csd + 2) ∧
    (_parse_csd_v1 csd info).2.capacity =
      (_parse_csd_v1 csd info).2.block_size * (_parse_csd_v1 csd info).2.block_count := by
  rw [parse_csd_v1_eq csd info h]
  exact ⟨rfl, rfl, rfl, rfl⟩

/-- C2 at a concrete CSD (READ_BL_LEN 9, C_SIZE 4095, C_SIZE_MULT 7). -/
theorem parse_csd_v1_exact_witness :
    u8 csd_v1_1g 0 >>> 6 = 0 ∧
    (_parse_csd_v1 csd_v1_1g info_zero).1 = Sd_Err_OK ∧
    (_parse_csd_v1 csd_v1_1g info_zero).2.block_size = 2 ^ csd_v1_read_bl_len csd_v1_1g ∧
    (_parse_csd_v1 csd_v1_1g info_zero).2.block_count =
      (csd_v1_c_size csd_v1_1g + 1) * 2 ^ (csd_v1_c_size_mult csd_v1_1g + 2) ∧
    (_parse_csd_v1 csd_v1_1g info_zero).2.capacity =
      (_parse_csd_v1 csd_v1_1g info_zero).2.block_size *
        (_parse_csd_v1 csd_v1_1g info_zero).2.block_count :=
  ⟨by decide, parse_csd_v1_exact csd_v1_1g info_zero (by decide)⟩

theorem parse_csd_v1_failed (csd : List Nat) (info : sd_info) :
    ((_parse_csd_v1 csd info).1 = Sd_Err_Failed ↔ u8 csd 0 >>> 6 ≠ 0) ∧
    ((_parse_csd_v1 csd info).1 = Sd_Err_Failed → (_parse_csd_v1 csd info).2 = info) := by
  unfold _parse_csd_v1
  by_cases h : u8 csd 0 >>> 6 ≠ 0
  · rw [if_pos h]; exact ⟨⟨fun _ => h, fun _ => rfl⟩, fun _ => rfl⟩
  · rw [if_neg h]
    exact ⟨⟨fun hh => (by cases hh), fun hh => absurd hh h⟩, fun hh => (by cases hh)⟩

theorem parse_csd_v2_failed (csd : List Nat) (info : sd_info) :
    ((_parse_csd_v2 csd info).1 = Sd_Err_Failed ↔ u8 csd 0 >>> 6 ≠ 1) ∧
    ((_parse_csd_v2 csd info).1 = Sd_Err_Failed → (_parse_csd_v2 csd info).2 = info) := by
  unfold _parse_csd_v2
  by_cases h : u8 csd 0 >>> 6 ≠ 1
  · rw [if_pos h]; exact ⟨⟨fun _ => h, fun _ => rfl⟩, fun _ => rfl⟩
  · rw [if_neg h]
    exact ⟨⟨fun hh => (by cases hh), fun hh => absurd hh h⟩, fun hh => (by cases hh)⟩

/-- C3: `_parse_csd_v1` returns Failed exactly when `(csd[0] >> 6) != 0`,
`_parse_csd_v2` returns Failed exactly when `(csd[0] >> 6) != 1`, and a parser that
returns Failed leaves the geometry record as it was on entry. -/
theorem parse_csd_failed_iff (csd : List Nat) (info : sd_info) :
    ((_parse_csd_v1 csd info).1 = Sd_Err_Failed ↔ u8 csd 0 >>> 6 ≠ 0) ∧
    ((_parse_csd_v2 csd info).1 = Sd_Err_Failed ↔ u8 csd 0 >>> 6 ≠ 1) ∧
    ((_parse_csd_v1 csd info).1 = Sd_Err_Failed → (_parse_csd_v1 csd info).2 = info) ∧
    ((_parse_csd_v2 csd info).1 = Sd_Err_Failed → (_parse_csd_v2 csd info).2 = info) :=
  ⟨(parse_csd_v1_failed csd info).1, (parse_csd_v2_failed csd info).1,
   (parse_csd_v1_failed csd info).2, (parse_csd_v2_failed csd info).2⟩

/-- C3 at concrete inputs: a version-1 CSD given to `_parse_csd_v1` and a version-0
CSD given to `_parse_csd_v2` are rejected, and the record is untouched. -/
theorem parse_csd_failed_iff_witness :
    (_parse_csd_v1 csd_v2_16g legacy_info).1 = Sd_Err_Failed ∧
    (_parse_csd_v1 csd_v2_16g legacy_info).2 = legacy_info ∧
    (_parse_csd_v2 csd_v1_1g legacy_info).1 = Sd_Err_Failed ∧
    (_parse_csd_v2 csd_v1_1g legacy_info).2 = legacy_info :=
  have h := parse_csd_failed_iff csd_v2_16g legacy_info
  have g := parse_csd_failed_iff csd_v1_1g legacy_info
  ⟨h.1.2 (by decide), h.2.2.1 (h.1.2 (by decide)),
   g.2.1.2 (by decide), g.2.2.2 (g.2.1.2 (by decide))⟩

/-- C4 (counterexample): the version-0 CSD with bytes 4, 5 = `0x00`, `0x1F` is
accepted by `_parse_csd_v1`, its erase field is 31, and the parsed
`erase_sector_size` is a 32-bit value, so it is not `2^(31 + 1)`. -/
theorem erase_sector_size_field31 :
    (_parse_csd_v1 csd_v1_erase31 info_zero).1 = Sd_Err_OK ∧
    csd_erase_field csd_v1_erase31 = 31 ∧
    (_parse_csd_v1 csd_v1_erase31 info_zero).2.erase_sector_size < 2 ^ 32 ∧
    (_parse_csd_v1 csd_v1_erase31 info_zero).2.erase_sector_size
      ≠ 2 ^ (csd_erase_field csd_v1_erase31 + 1) := by
  decide

/-- C4 (amended): for every CSD accepted by `_parse_csd_v1` or by `_parse_csd_v2`
whose erase field `((byte4 >> 7) & 1) << 6 | (byte5 & 0x3F)` is at most 30, the
parsed `erase_sector_size` is `2^(field + 1)`, by the same formula in both
parsers. -/
theorem erase_sector_size_small_field (parse : List Nat → sd_info → sd_error × sd_info)
    (hp : parse = _parse_csd_v1 ∨ parse = _parse_csd_v2) (csd : List Nat) (info : sd_info)
    (hok : (parse csd info).1 = Sd_Err_OK) (hf : csd_erase_field csd ≤ 30) :
    (parse csd info).2.erase_sector_size = 2 ^ (csd_erase_field csd + 1) := by
  rcases hp with rfl | rfl
  · have h0 : u8 csd 0 >>> 6 = 0 := by
      by_contra hne
      have := ((parse_csd_v1_failed csd info).1).2 hne
      rw [this] at hok; cases hok
    rw [parse_csd_v1_eq csd info h0]
    exact shl_one_32_small _ (by omega)
  · have h1 : u8 csd 0 >>> 6 = 1 := by
      by_contra hne
      have := ((parse_csd_v2_failed csd info).1).2 hne
      rw [this] at hok; cases hok
    rw [parse_csd_v2_eq csd info h1]
    exact shl_one_32_small _ (by omega)

/-- C4 (amended) at concrete CSDs, one for each parser (erase field 25). -/
theorem erase_sector_size_small_field_witness :
    (_parse_csd_v1 csd_v1_1g info_zero).2.erase_sector_size = 2 ^ (csd_erase_field csd_v1_1g + 1) ∧
    (_parse_csd_v2 csd_v2_16g info_zero).2.erase_sector_size
      = 2 ^ (csd_erase_field csd_v2_16g + 1) :=
  ⟨erase_sector_size_small_field _parse_csd_v1 (Or.inl rfl) csd_v1_1g info_zero
      (by decide) (by decide),
   erase_sector_size_small_field _parse_csd_v2 (Or.inr rfl) csd_v2_16g info_zero
      (by decide) (by decide)⟩

/-! ### Address translation -/

/-- C5 (counterexample): on a byte-addressed card with 512-byte blocks the request
`offset = 2^32`, `len = 512` is translated to `lba_addr = 0`, not to the offset: no
result carries `lba_addr = 2^32`.  On a geometry whose `block_size` is 0 the
translation divides by zero and yields nothing. -/
theorem conv_req_to_lba_wraps :
    _conv_req_to_lba (demo_card legacy_info (fun _ => 0xFF)) { offset := 2 ^ 32, len := 512 }
      = Except.ok { lba_addr := 0, lba_count := 1 } ∧
    (¬ ∃ n, _conv_req_to_lba (demo_card legacy_info (fun _ => 0xFF))
              { offset := 2 ^ 32, len := 512 } = Except.ok { lba_addr := 2 ^ 32, lba_count := n }) ∧
    _conv_req_to_lba (demo_card info_zero (fun _ => 0xFF)) { offset := 0, len := 512 }
      = Except.error Fault.div_by_zero := by
  refine ⟨rfl, ?_, rfl⟩
  rintro ⟨n, hn⟩
  have h : (Except.ok { lba_addr := 0, lba_count := 1 } : Except Fault sd_lba_oparg)
      = Except.ok { lba_addr := 2 ^ 32, lba_count := n } := hn
  injection h with h
  injection h with h1 h2
  exact absurd h1 (by decide)

/-- C5 (amended): `_conv_req_to_lba` depends on the session only through its
geometry, and on a geometry with non-zero `block_size`, for every 64-bit offset and
32-bit length, it yields `lba_count = len / block_size`,
`lba_addr = (offset / block_size) mod 2^32` for SDHC and SDXC and
`lba_addr = offset mod 2^32` for every other class. -/
theorem conv_req_to_lba_spec (card : sd_card) (req : sd_lba_req)
    (hbs : card.info.block_size ≠ 0) (ho : req.offset < 2 ^ 64) (hl : req.len < 2 ^ 32) :
    _conv_req_to_lba card req = Except.ok
      { lba_addr :=
          if card.info.type = Sd_Type_SDHC ∨ card.info.type = Sd_Type_SDXC then
            (req.offset / card.info.block_size) % 2 ^ 32
          else req.offset % 2 ^ 32
        lba_count := req.len / card.info.block_size } ∧
    ∀ card2 : sd_card, card2.info = card.info →
      _conv_req_to_lba card2 req = _conv_req_to_lba card req := by
  constructor
  · unfold _conv_req_to_lba udiv
    rw [Nat.mod_eq_of_lt ho, Nat.mod_eq_of_lt hl]
    by_cases ht : card.info.type = Sd_Type_SDHC ∨ card.info.type = Sd_Type_SDXC
    · simp only [if_neg hbs, if_pos ht]; rfl
    · simp only [if_neg hbs, if_neg ht]; rfl
  · intro card2 h2
    unfold _conv_req_to_lba
    rw [h2]

/-- C5 (amended) at concrete requests: a block-addressed and a byte-addressed card. -/
theorem conv_req_to_lba_spec_witness :
    _conv_req_to_lba (demo_card { legacy_info with type := Sd_Type_SDHC } (fun _ => 0xFF))
        { offset := 1024, len := 1536 } = Except.ok { lba_addr := 2, lba_count := 3 } ∧
    _conv_req_to_lba (demo_card legacy_info (fun _ => 0xFF))
        { offset := 1024, len := 1536 } = Except.ok { lba_addr := 1024, lba_count := 3 } :=
  ⟨(conv_req_to_lba_spec (demo_card { legacy_info with type := Sd_Type_SDHC } (fun _ => 0xFF))
      { offset := 1024, len := 1536 } (by decide) (by decide) (by decide)).1,
   (conv_req_to_lba_spec (demo_card legacy_info (fun _ => 0xFF))
      { offset := 1024, len := 1536 } (by decide) (by decide) (by decide)).1⟩

/-! ### The simulated bus -/

theorem bus_step_bus_step (card : sd_card) (n m : Nat) (e f : List BusEvent) :
    bus_step (bus_step card n e) m f = bus_step card (n + m) (e ++ f) := by
  simp [bus_step, Nat.add_assoc, List.append_assoc]

theorem has_transfer_bus_step {card : sd_card} (h : has_transfer card) (n : Nat)
    (e : List BusEvent) : has_transfer (bus_step card n e) := h

theorem rx_peek_succ (card : sd_card) (n : Nat) (e : List BusEvent) :
    rx_peek card (n + 1) = (card.miso card.rx_pos % 256) :: rx_peek (bus_step card 1 e) n := by
  unfold rx_peek bus_step
  rw [List.range_succ_eq_map]
  simp only [List.map_cons, List.map_map, Nat.add_zero]
  congr 1
  apply List.map_congr_left
  intro i _
  simp only [Function.comp, Nat.succ_eq_add_one]
  rw [Nat.add_assoc, Nat.add_comm 1 i]

theorem rx_peek_length (card : sd_card) (n : Nat) : (rx_peek card n).length = n := by
  simp [rx_peek]

theorem rx_peek_add (card : sd_card) (n m : Nat) (e : List BusEvent) :
    rx_peek card (n + m) = rx_peek card n ++ rx_peek (bus_step card n e) m := by
  unfold rx_peek bus_step
  rw [List.range_add, List.map_append, List.map_map]
  congr 1
  apply List.map_congr_left
  intro i _
  simp only [Function.comp]
  rw [Nat.add_assoc]

theorem rx_next_cons {card : sd_card} {a : Nat} {l : List Nat} (e : List BusEvent)
    (h : rx_next card (a :: l)) :
    card.miso card.rx_pos % 256 = a ∧ rx_next (bus_step card 1 e) l := by
  unfold rx_next at h ⊢
  rw [List.length_cons, rx_peek_succ card l.length e] at h
  injection h with h1 h2
  exact ⟨h1, h2⟩

theorem rx_next_append {card : sd_card} {l1 l2 : List Nat} (e : List BusEvent)
    (h : rx_next card (l1 ++ l2)) :
    rx_peek card l1.length = l1 ∧ rx_next (bus_step card l1.length e) l2 := by
  unfold rx_next at h ⊢
  rw [List.length_append, rx_peek_add card l1.length l2.length e] at h
  have hl : (rx_peek card l1.length).length = l1.length := rx_peek_length _ _
  exact List.append_inj h hl

theorem read_bytes_ok {card : sd_card} (h : has_transfer card) (n : Nat) :
    sd_spi_hw_read_bytes card n = (Sd_Err_OK, rx_peek card n, bus_step card n [BusEvent.read n]) := by
  obtain ⟨ifc, t, h1, h2⟩ := h
  cases card
  simp only at h1
  subst h1
  simp only [sd_spi_hw_read_bytes, h2, bus_step]

theorem read_byte_ok {card : sd_card} (h : has_transfer card) (old : Nat) :
    sd_spi_hw_read_byte card old =
      (Sd_Err_OK, card.miso card.rx_pos % 256, bus_step card 1 [BusEvent.read 1]) := by
  unfold sd_spi_hw_read_byte
  rw [read_bytes_ok h 1]
  rfl

theorem write_bytes_ok {card : sd_card} (h : has_transfer card) (buf : List Nat) :
    sd_spi_hw_write_bytes card buf = (Sd_Err_OK, bus_step card 0 [BusEvent.write buf]) := by
  obtain ⟨ifc, t, h1, h2⟩ := h
  cases card
  simp only at h1
  subst h1
  simp only [sd_spi_hw_write_bytes, h2, bus_step, Nat.add_zero]

/-- The polling loop stops at the first byte on which `cont` is false, if it comes
within the counter's budget: `skip.length + 1` bytes are read and the counter is
left non-zero. -/
theorem poll_byte_hit (cont : Nat → Bool) (skip : List Nat) :
    ∀ (byte0 n b : Nat) (rest : List Nat) (card : sd_card), has_transfer card →
      rx_next card (skip ++ b :: rest) → (∀ x ∈ skip, cont x = true) → cont b = false →
      skip.length ≤ n →
      poll_byte cont byte0 n card =
        (Sd_Err_OK, b, n + 1 - skip.length,
          bus_step card (skip.length + 1) (List.replicate (skip.length + 1) (BusEvent.read 1))) ∧
      rx_next (bus_step card (skip.length + 1)
          (List.replicate (skip.length + 1) (BusEvent.read 1))) rest := by
  induction skip with
  | nil =>
    intro byte0 n b rest card ht hrx _ hb _
    obtain ⟨h1, h2⟩ := rx_next_cons [BusEvent.read 1] hrx
    refine ⟨?_, h2⟩
    cases n with
    | zero => unfold poll_byte; rw [read_byte_ok ht]; simp [h1, hb]
    | succ n => unfold poll_byte; rw [read_byte_ok ht]; simp [h1, hb]
  | cons a skip ih =>
    intro byte0 n b rest card ht hrx hs hb hn
    obtain ⟨h1, h2⟩ := rx_next_cons [BusEvent.read 1] hrx
    have ha : cont a = true := hs a (List.mem_cons_self _ _)
    cases n with
    | zero => simp at hn
    | succ n =>
      have hn2 : skip.length ≤ n := by simpa using hn
      obtain ⟨e1, e2⟩ := ih a n b rest (bus_step card 1 [BusEvent.read 1])
        (has_transfer_bus_step ht _ _) h2 (fun x hx => hs x (List.mem_cons_of_mem _ hx)) hb hn2
      rw [bus_step_bus_step] at e1 e2
      have hrep : [BusEvent.read 1] ++ List.replicate (skip.length + 1) (BusEvent.read 1)
          = List.replicate ((a :: skip).length + 1) (BusEvent.read 1) := by
        simp [List.replicate_succ]
      have hlen : 1 + (skip.length + 1) = (a :: skip).length + 1 := by
        simp [Nat.add_comm]
      rw [hrep, hlen] at e1 e2
      refine ⟨?_, e2⟩
      unfold poll_byte
      rw [read_byte_ok ht]
      simp only [h1, ha, if_true]
      rw [e1]
      simp

/-- The polling loop gives up, with counter 0, when `cont` holds of each of the
`n + 1` bytes its budget allows; it reads exactly those. -/
theorem poll_byte_miss (cont : Nat → Bool) (skip : List Nat) :
    ∀ (byte0 n : Nat) (rest : List Nat) (card : sd_card), has_transfer card →
      rx_next card (skip ++ rest) → (∀ x ∈ skip, cont x = true) → skip.length = n + 1 →
      ∃ b, poll_byte cont byte0 n card =
        (Sd_Err_OK, b, 0,
          bus_step card (n + 1) (List.replicate (n + 1) (BusEvent.read 1))) := by
  induction skip with
  | nil => intro byte0 n rest card _ _ _ hn; simp at hn
  | cons a skip ih =>
    intro byte0 n rest card ht hrx hs hn
    obtain ⟨h1, h2⟩ := rx_next_cons [BusEvent.read 1] hrx
    have ha : cont a = true := hs a (List.mem_cons_self _ _)
    cases n with
    | zero =>
      refine ⟨a, ?_⟩
      unfold poll_byte
      rw [read_byte_ok ht]
      simp [h1, ha]
    | succ n =>
      have hn2 : skip.length = n + 1 := by simpa using hn
      obtain ⟨b, e1⟩ := ih a n rest (bus_step card 1 [BusEvent.read 1])
        (has_transfer_bus_step ht _ _) h2 (fun x hx => hs x (List.mem_cons_of_mem _ hx)) hn2
      rw [bus_step_bus_step, Nat.add_comm 1 (n + 1)] at e1
      refine ⟨b, ?_⟩
      unfold poll_byte
      rw [read_byte_ok ht]
      simp only [h1, ha, if_true]
      rw [e1]
      rfl

/-! ### The command/response engine -/

theorem mem_replicate_ff {pad x : Nat} (h : x ∈ List.replicate pad 0xFF) : x = 0xFF :=
  (List.mem_replicate.mp h).2

theorem wait_response_eq (n : Nat) (hn : n < 255) (card : sd_card) :
    wait_response (n + 1) card = poll_byte (fun x => x = 0xff) 0xff n card := by
  unfold wait_response
  rw [Nat.mod_eq_of_lt (by omega)]

/-- An R1 command whose response byte `b` arrives after `pad` idle bytes, within
the retry budget: OK, `b` stored at `buf[filled]`, `pad + 1` bytes consumed. -/
theorem send_cmd_r1_answer (fuel : Nat) (card : sd_card) (cmd arg crc retry : Nat)
    (resp : sd_resp_res) (pad b : Nat) (rest : List Nat)
    (ht : has_transfer card) (hr : retry ≤ 255) (hp : pad < retry) (hb : b ≠ 0xFF)
    (hrx : rx_next card (answer pad b ++ rest)) :
    sd_card_send_cmd_req fuel card
        { cmd := cmd, arg := arg, crc := crc, resp_type := Sd_Resp_Type_R1, retry := retry } resp
      = Except.ok (Sd_Err_OK,
          { buf := resp.buf.set resp.filled b, filled := (resp.filled + 1) % 256 },
          bus_step card (pad + 1) (r1_exchange cmd arg crc pad)) ∧
    rx_next (bus_step card (pad + 1) (r1_exchange cmd arg crc pad)) rest ∧
    has_transfer (bus_step card (pad + 1) (r1_exchange cmd arg crc pad)) := by
  obtain ⟨n, rfl⟩ : ∃ n, retry = n + 1 := ⟨retry - 1, by omega⟩
  have hrx1 : rx_next (bus_step card 0 [BusEvent.write (cmd_frame cmd arg crc)])
      (List.replicate pad 0xFF ++ b :: rest) := by
    have : answer pad b ++ rest = List.replicate pad 0xFF ++ b :: rest := by
      simp [answer]
    rw [this] at hrx
    exact hrx
  obtain ⟨e1, e2⟩ := poll_byte_hit (fun x => decide (x = 0xff)) (List.replicate pad 0xFF) 0xff n b
    rest _ (has_transfer_bus_step ht 0 _) hrx1
    (fun x hx => by simp [mem_replicate_ff hx]) (by simp [hb]) (by simp; omega)
  simp only [List.length_replicate, bus_step_bus_step, Nat.zero_add] at e1 e2
  have hne : n + 1 - pad ≠ 0 := by omega
  refine ⟨?_, e2, has_transfer_bus_step ht _ _⟩
  unfold sd_card_send_cmd_req
  simp only []
  rw [show [cmd % 256, (arg >>> 24) % 256, (arg >>> 16) % 256, (arg >>> 8) % 256, arg % 256,
        crc % 256] = cmd_frame cmd arg crc from rfl, write_bytes_ok ht]
  simp only []
  rw [wait_response_eq n (by omega), e1]
  simp only [hne, if_false]
  rfl

/-- A command that sees only idle bytes for its whole retry budget: Timeout, the
response record untouched, `retry` bytes consumed. -/
theorem send_cmd_timeout (fuel : Nat) (card : sd_card) (cmd arg crc retry : Nat)
    (rt : sd_resp_type) (resp : sd_resp_res) (rest : List Nat)
    (ht : has_transfer card) (hr1 : 1 ≤ retry) (hr : retry ≤ 255)
    (hrx : rx_next card (List.replicate retry 0xFF ++ rest)) :
    sd_card_send_cmd_req fuel card
        { cmd := cmd, arg := arg, crc := crc, resp_type := rt, retry := retry } resp
      = Except.ok (Sd_Err_Timeout, resp,
          bus_step card retry
            (BusEvent.write (cmd_frame cmd arg crc) :: List.replicate retry (BusEvent.read 1))) ∧
    rx_next (bus_step card retry
      (BusEvent.write (cmd_frame cmd arg crc) :: List.replicate retry (BusEvent.read 1))) rest ∧
    has_transfer (bus_step card retry
      (BusEvent.write (cmd_frame cmd arg crc) :: List.replicate retry (BusEvent.read 1))) := by
  obtain ⟨n, rfl⟩ : ∃ n, retry = n + 1 := ⟨retry - 1, by omega⟩
  have hrx1 : rx_next (bus_step card 0 [BusEvent.write (cmd_frame cmd arg crc)])
      (List.replicate (n + 1) 0xFF ++ rest) := hrx
  obtain ⟨b, e1⟩ := poll_byte_miss (fun x => decide (x = 0xff)) (List.replicate (n + 1) 0xFF)
    0xff n rest _ (has_transfer_bus_step ht 0 _) hrx1
    (fun x hx => by simp [mem_replicate_ff hx]) (by simp)
  have e2 := (rx_next_append (BusEvent.write (cmd_frame cmd arg crc) ::
    List.replicate (n + 1) (BusEvent.read 1)) hrx).2
  simp only [List.length_replicate] at e2
  simp only [bus_step_bus_step, Nat.zero_add] at e1
  refine ⟨?_, e2, has_transfer_bus_step ht _ _⟩
  unfold sd_card_send_cmd_req
  simp only []
  rw [show [cmd % 256, (arg >>> 24) % 256, (arg >>> 16) % 256, (arg >>> 8) % 256, arg % 256,
        crc % 256] = cmd_frame cmd arg crc from rfl, write_bytes_ok ht]
  simp only []
  rw [wait_response_eq n (by omega), e1]
  simp only [if_true]
  rfl

/-! ### Idle reset -/

theorem rx_peek_lt (card : sd_card) (n : Nat) : ∀ x ∈ rx_peek card n, x < 256 := by
  intro x hx
  unfold rx_peek at hx
  obtain ⟨i, _, rfl⟩ := List.mem_map.mp hx
  exact Nat.mod_lt _ (by norm_num)

theorem rx_next_lt {card : sd_card} {l : List Nat} (h : rx_next card l) : ∀ x ∈ l, x < 256 := by
  intro x hx
  unfold rx_next at h
  rw [← h] at hx
  exact rx_peek_lt _ _ x hx

theorem bus_step_zero_nil (card : sd_card) (h : card.is_xfering = false) :
    bus_step card 0 [] = card := by
  cases card
  simp only at h
  subst h
  simp [bus_step]

theorem select_ok {card : sd_card} (h : can_select card) :
    sd_spi_hw_select_card card = (Sd_Err_OK, selected card) := by
  obtain ⟨ifc, ctl, t, h1, h2, _, h4⟩ := h
  cases card
  simp only at h1 h4
  subst h1
  simp only [sd_spi_hw_select_card, h2, h4, selected]
  simp

theorem has_transfer_selected {card : sd_card} (h : can_select card) :
    has_transfer (selected card) := by
  obtain ⟨ifc, _, t, h1, _, h3, _⟩ := h
  exact ⟨ifc, t, h1, h3⟩

theorem deselect_ok {card : sd_card} (ifc : sd_spi_interface) (ctl : Nat → sd_user_ctrl → Int)
    (h1 : card.spi_if = some ifc) (h2 : ifc.control = some ctl) :
    sd_spi_hw_deselect_card card = (Sd_Err_OK, deselected card) := by
  cases card
  simp only at h1
  subst h1
  simp only [sd_spi_hw_deselect_card, h2, deselected]

theorem send_dummy_one {card : sd_card} (h : has_transfer card) :
    sd_spi_hw_send_dummy card 1 = (Sd_Err_OK, bus_step card 0 [BusEvent.write [0xFF]]) := by
  unfold sd_spi_hw_send_dummy sd_spi_hw_write_byte
  rw [write_bytes_ok h]
  rfl

theorem idle_rx_cons_append (a : Nat × Nat) (s : List (Nat × Nat)) (rest : List Nat) :
    idle_rx (a :: s) ++ rest = answer a.1 a.2 ++ (idle_rx s ++ rest) := by
  simp [idle_rx, List.append_assoc]

/-- One pass of the loop of `sd_card_into_idle` on a CMD0 exchange answered with a
byte other than `0x01`: the loop goes on with the counter one lower. -/
theorem into_idle_loop_step (fuel t : Nat) (a : Nat × Nat) (rest : List Nat) (card : sd_card)
    (ht : has_transfer card) (ha : a.1 < 255 ∧ a.2 ≠ 0xFF ∧ a.2 ≠ 0x01)
    (hrx : rx_next card (answer a.1 a.2 ++ rest)) :
    into_idle_loop fuel (t + 1) card =
      into_idle_loop fuel t (bus_step card (a.1 + 1) (r1_exchange Sd_Cmd0_Idle 0 0x95 a.1)) ∧
    rx_next (bus_step card (a.1 + 1) (r1_exchange Sd_Cmd0_Idle 0 0x95 a.1)) rest ∧
    has_transfer (bus_step card (a.1 + 1) (r1_exchange Sd_Cmd0_Idle 0 0x95 a.1)) := by
  have hlt : a.2 < 256 := rx_next_lt hrx a.2 (by simp [answer])
  obtain ⟨e1, e2, e3⟩ := send_cmd_r1_answer fuel card Sd_Cmd0_Idle 0 0x95 0xff
    sd_resp_res.zero a.1 a.2 rest ht (by norm_num) ha.1 ha.2.1 hrx
  refine ⟨?_, e2, e3⟩
  conv => lhs; unfold into_idle_loop
  rw [e1]
  have hu : u8 (sd_resp_res.zero.buf.set sd_resp_res.zero.filled a.2) 0 = a.2 := by
    simp [u8, sd_resp_res.zero, List.replicate, Nat.mod_eq_of_lt hlt]
  simp only [hu]
  rw [if_neg (by simpa [SD_FR_IN_IDLE_STATE] using ha.2.2)]

/-- CMD0 exchanges that are answered, but never with `0x01`, keep the loop of
`sd_card_into_idle` turning: one pass per exchange. -/
theorem into_idle_loop_miss (fuel : Nat) (script : List (Nat × Nat)) :
    ∀ (t : Nat) (rest : List Nat) (card : sd_card), has_transfer card →
      card.is_xfering = false →
      (∀ a ∈ script, a.1 < 255 ∧ a.2 ≠ 0xFF ∧ a.2 ≠ 0x01) → script.length ≤ t →
      rx_next card (idle_rx script ++ rest) →
      into_idle_loop fuel t card =
        into_idle_loop fuel (t - script.length)
          (bus_step card (idle_count script) (idle_events script)) ∧
      rx_next (bus_step card (idle_count script) (idle_events script)) rest ∧
      has_transfer (bus_step card (idle_count script) (idle_events script)) := by
  induction script with
  | nil =>
    intro t rest card ht hx _ _ hrx
    simp only [idle_count, idle_events, List.length_nil, Nat.sub_zero]
    rw [bus_step_zero_nil card hx]
    exact ⟨rfl, hrx, ht⟩
  | cons a s ih =>
    intro t rest card ht _ hs hlen hrx
    obtain ⟨t, rfl⟩ : ∃ t', t = t' + 1 := ⟨t - 1, by simp at hlen; omega⟩
    rw [idle_rx_cons_append] at hrx
    obtain ⟨e1, e2, e3⟩ := into_idle_loop_step fuel t a (idle_rx s ++ rest) card ht
      (hs a (List.mem_cons_self _ _)) hrx
    obtain ⟨i1, i2, i3⟩ := ih t rest _ e3 rfl (fun x hx => hs x (List.mem_cons_of_mem _ hx))
      (by simp at hlen; omega) e2
    rw [bus_step_bus_step] at i1 i2 i3
    have hsub : t + 1 - (a :: s).length = t - s.length := by simp
    rw [hsub]
    simp only [idle_count, idle_events]
    exact ⟨e1.trans i1, i2, i3⟩

/-- A CMD0 exchange answered with exactly `0x01` ends the loop by `break`. -/
theorem into_idle_loop_hit (fuel t pad : Nat) (rest : List Nat) (card : sd_card)
    (ht : has_transfer card) (hp : pad < 255) (hrx : rx_next card (answer pad 0x01 ++ rest)) :
    into_idle_loop fuel (t + 1) card =
      Except.ok (false, Sd_Err_OK, t,
        bus_step card (pad + 1) (r1_exchange Sd_Cmd0_Idle 0 0x95 pad)) := by
  obtain ⟨e1, _, _⟩ := send_cmd_r1_answer fuel card Sd_Cmd0_Idle 0 0x95 0xff
    sd_resp_res.zero pad 0x01 rest ht (by norm_num) hp (by norm_num) hrx
  unfold into_idle_loop
  rw [e1]
  have hu : u8 (sd_resp_res.zero.buf.set sd_resp_res.zero.filled 0x01) 0 = SD_FR_IN_IDLE_STATE := by
    decide
  simp only [hu, if_true]

/-- The loop of `sd_card_into_idle`, entered with counter `t`, on `t ≥ 1` exchanges
none of which is answered `0x01`: it ends by its condition, with the `uint8_t`
counter wrapped to `0xff`. -/
theorem into_idle_loop_exhaust (fuel : Nat) (a : Nat × Nat) (s : List (Nat × Nat))
    (rest : List Nat) (card : sd_card) (ht : has_transfer card)
    (hs : ∀ x ∈ a :: s, x.1 < 255 ∧ x.2 ≠ 0xFF ∧ x.2 ≠ 0x01)
    (hrx : rx_next card (idle_rx (a :: s) ++ rest)) :
    into_idle_loop fuel (a :: s).length card =
      Except.ok (false, Sd_Err_OK, 0xff,
        bus_step card (idle_count (a :: s)) (idle_events (a :: s))) := by
  rw [idle_rx_cons_append] at hrx
  obtain ⟨e1, e2, e3⟩ := into_idle_loop_step fuel s.length a (idle_rx s ++ rest) card ht
    (hs a (List.mem_cons_self _ _)) hrx
  obtain ⟨i1, _, _⟩ := into_idle_loop_miss fuel s s.length rest _ e3 rfl
    (fun x hx => hs x (List.mem_cons_of_mem _ hx)) (Nat.le_refl _) e2
  rw [bus_step_bus_step, Nat.sub_self] at i1
  simp only [List.length_cons, idle_count, idle_events]
  rw [e1, i1]
  rfl

/-- The loop of `sd_card_into_idle` on exchanges answered with other bytes and then
one answered `0x01`: it ends by `break`, the counter lowered once per exchange. -/
theorem into_idle_loop_miss_hit (fuel pad : Nat) (script : List (Nat × Nat)) :
    ∀ (t : Nat) (rest : List Nat) (card : sd_card), has_transfer card →
      (∀ a ∈ script, a.1 < 255 ∧ a.2 ≠ 0xFF ∧ a.2 ≠ 0x01) → script.length ≤ t → pad < 255 →
      rx_next card (idle_rx script ++ (answer pad 0x01 ++ rest)) →
      into_idle_loop fuel (t + 1) card =
        Except.ok (false, Sd_Err_OK, t - script.length,
          bus_step card (idle_count script + (pad + 1))
            (idle_events script ++ r1_exchange Sd_Cmd0_Idle 0 0x95 pad)) := by
  induction script with
  | nil =>
    intro t rest card ht _ _ hp hrx
    rw [into_idle_loop_hit fuel t pad rest card ht hp hrx]
    simp [idle_count, idle_events]
  | cons a s ih =>
    intro t rest card ht hs hlen hp hrx
    obtain ⟨t, rfl⟩ : ∃ t', t = t' + 1 := ⟨t - 1, by simp at hlen; omega⟩
    rw [idle_rx_cons_append] at hrx
    obtain ⟨e1, e2, e3⟩ := into_idle_loop_step fuel (t + 1) a _ card ht
      (hs a (List.mem_cons_self _ _)) hrx
    have i1 := ih t rest _ e3 (fun x hx => hs x (List.mem_cons_of_mem _ hx))
      (by simp at hlen; omega) hp e2
    rw [bus_step_bus_step] at i1
    rw [e1, i1]
    simp [idle_count, idle_events, Nat.add_assoc]

/-- The exit of `sd_card_into_idle` once its loop has ended without `goto`: the
timeout test, deselect, one dummy byte. -/
theorem into_idle_finish {card card2 : sd_card} (hc : can_select card) (n : Nat)
    (evs : List BusEvent) (err : sd_error) (timeout : Nat) (fuel : Nat)
    (hloop : into_idle_loop fuel 0xff (selected card) =
      Except.ok (false, err, timeout, bus_step (selected card) n evs))
    (h2 : card2 = bus_step (deselected (bus_step (selected card) n evs)) 0
      [BusEvent.write [0xFF]]) :
    sd_card_into_idle fuel card =
      Except.ok (if timeout = 0 then Sd_Err_Timeout else err, card2) := by
  obtain ⟨ifc, ctl, t, h1, hctl, h3, _⟩ := id hc
  unfold sd_card_into_idle
  rw [select_ok hc]
  simp only []
  rw [hloop]
  simp only []
  rw [@deselect_ok (bus_step (selected card) n evs) ifc ctl h1 hctl]
  simp only []
  rw [@send_dummy_one (deselected (bus_step (selected card) n evs)) ⟨ifc, t, h1, h3⟩]
  simp [h2]

theorem cmd_frames_append (l1 l2 : List BusEvent) :
    cmd_frames (l1 ++ l2) = cmd_frames l1 ++ cmd_frames l2 := by
  simp [cmd_frames, List.filterMap_append]

theorem cmd_frames_replicate_read (n len : Nat) :
    cmd_frames (List.replicate n (BusEvent.read len)) = [] := by
  induction n with
  | zero => rfl
  | succ n ih =>
    rw [List.replicate_succ]
    change cmd_frames ([BusEvent.read len] ++ List.replicate n (BusEvent.read len)) = []
    rw [cmd_frames_append, ih]
    rfl

theorem cmd_frames_r1_exchange (cmd arg crc pad : Nat) :
    cmd_frames (r1_exchange cmd arg crc pad) = [cmd_frame cmd arg crc] := by
  unfold r1_exchange
  change cmd_frames ([BusEvent.write (cmd_frame cmd arg crc)] ++
    List.replicate (pad + 1) (BusEvent.read 1)) = _
  rw [cmd_frames_append, cmd_frames_replicate_read]
  rfl

theorem cmd_frames_idle_events (script : List (Nat × Nat)) :
    cmd_frames (idle_events script) =
      List.replicate script.length (cmd_frame Sd_Cmd0_Idle 0 0x95) := by
  induction script with
  | nil => rfl
  | cons a s ih =>
    simp only [idle_events, List.length_cons, List.replicate_succ]
    rw [cmd_frames_append, cmd_frames_r1_exchange, ih]
    rfl

/-- Command frames on the log after a select ... deselect bracket with its trailing
dummy byte. -/
theorem cmd_frames_bracket (card : sd_card) (n : Nat) (evs : List BusEvent) :
    cmd_frames (bus_step (deselected (bus_step (selected card) n evs)) 0
        [BusEvent.write [0xFF]]).log
      = cmd_frames card.log ++ cmd_frames evs := by
  simp only [bus_step, deselected, selected]
  rw [cmd_frames_append, cmd_frames_append, cmd_frames_append, cmd_frames_append]
  simp [cmd_frames]

/-- If all of 255 consecutive CMD0 commands are answered within their poll budget
with a byte other than `0x01`, `sd_card_into_idle` sends 255 commands and returns
OK: the counter of `while(timeout--)` has wrapped to `0xff` when it is tested. -/
theorem into_idle_exhausted (fuel : Nat) (card : sd_card) (script : List (Nat × Nat))
    (rest : List Nat) (hc : can_select card) (hlen : script.length = 255)
    (hs : ∀ a ∈ script, a.1 < 255 ∧ a.2 ≠ 0xFF ∧ a.2 ≠ 0x01)
    (hrx : rx_next card (idle_rx script ++ rest)) :
    sd_card_into_idle fuel card =
      Except.ok (Sd_Err_OK,
        bus_step (deselected (bus_step (selected card) (idle_count script) (idle_events script)))
          0 [BusEvent.write [0xFF]]) := by
  cases script with
  | nil => simp at hlen
  | cons a s =>
    have hloop := into_idle_loop_exhaust fuel a s rest (selected card)
      (has_transfer_selected hc) hs hrx
    rw [hlen] at hloop
    have := into_idle_finish hc _ _ _ _ fuel hloop rfl
    simpa using this

/-- If the first `script.length` CMD0 commands are answered with a byte other than
`0x01` and the next one with `0x01` (at most 255 commands in all),
`sd_card_into_idle` stops after that command; it returns OK, except that it returns
Timeout when the answering command is the 255th. -/
theorem into_idle_reached (fuel : Nat) (card : sd_card) (script : List (Nat × Nat))
    (pad : Nat) (rest : List Nat) (hc : can_select card) (hlen : script.length < 255)
    (hs : ∀ a ∈ script, a.1 < 255 ∧ a.2 ≠ 0xFF ∧ a.2 ≠ 0x01) (hp : pad < 255)
    (hrx : rx_next card (idle_rx script ++ (answer pad 0x01 ++ rest))) :
    sd_card_into_idle fuel card =
      Except.ok (if script.length = 254 then Sd_Err_Timeout else Sd_Err_OK,
        bus_step (deselected (bus_step (selected card) (idle_count script + (pad + 1))
          (idle_events script ++ r1_exchange Sd_Cmd0_Idle 0 0x95 pad)))
          0 [BusEvent.write [0xFF]]) := by
  have hloop := into_idle_loop_miss_hit fuel pad script 254 rest (selected card)
    (has_transfer_selected hc) hs (by omega) hp hrx
  have := into_idle_finish hc _ _ _ _ fuel hloop rfl
  rw [this]
  have : (254 - script.length = 0) ↔ script.length = 254 := by omega
  simp only [this]

theorem mem_replicate_pair {n : Nat} {a b : Nat × Nat} (h : a ∈ List.replicate n b) : a = b :=
  (List.mem_replicate.mp h).2

/-- C7 (code at the failing input): on a bus whose every byte reads `0x00`, each of
the 255 CMD0 commands is answered at once with `0x00`, never with `0x01`;
`sd_card_into_idle` sends exactly 255 CMD0 frames and returns OK, not Timeout. -/
theorem into_idle_stuck_low_returns_ok :
    ∃ card2, sd_card_into_idle 0 (demo_card legacy_info miso_stuck_low)
        = Except.ok (Sd_Err_OK, card2) ∧
      cmd_frames card2.log = List.replicate 255 (cmd_frame Sd_Cmd0_Idle 0 0x95) := by
  refine ⟨_, into_idle_exhausted 0 (demo_card legacy_info miso_stuck_low)
    (List.replicate 255 (0, 0x00)) [] ⟨good_if, _, _, rfl, rfl, rfl, rfl⟩
    (List.length_replicate _ _)
    (fun a ha => by rw [mem_replicate_pair ha]; decide) (by unfold rx_next; decide!), ?_⟩
  rw [cmd_frames_bracket, cmd_frames_idle_events, List.length_replicate]
  rfl

/-- C8 (code at the failing input, k = 255): the first 254 CMD0 commands are
answered `0x00` and the 255th is answered `0x01`; `sd_card_into_idle` sends exactly
255 CMD0 frames and returns Timeout, not OK. -/
theorem into_idle_255th_answer_times_out :
    ∃ card2, sd_card_into_idle 0 (demo_card legacy_info miso_idle_at_255)
        = Except.ok (Sd_Err_Timeout, card2) ∧
      cmd_frames card2.log = List.replicate 255 (cmd_frame Sd_Cmd0_Idle 0 0x95) := by
  have hlen : (List.replicate 254 ((0 : Nat), (0x00 : Nat))).length = 254 :=
    List.length_replicate _ _
  have h := into_idle_reached 0 (demo_card legacy_info miso_idle_at_255)
    (List.replicate 254 (0, 0x00)) 0 [] ⟨good_if, _, _, rfl, rfl, rfl, rfl⟩
    (by rw [hlen]; decide)
    (fun a ha => by rw [mem_replicate_pair ha]; decide) (by decide)
    (by unfold rx_next; decide!)
  rw [if_pos hlen] at h
  refine ⟨_, h, ?_⟩
  rw [cmd_frames_bracket, cmd_frames_append, cmd_frames_idle_events, cmd_frames_r1_exchange,
    hlen]
  decide!

/-! ### Block transfers -/

/-- C6 (code at the failing input): a two-block read and a two-block write at byte
address 0 of a byte-addressed card with 512-byte blocks both succeed, and in each
the second single-block command carries argument 1 (`lba_addr + i`), not the byte
address 512 (`addr + i * block_size`) at which the second block starts. -/
theorem read_write_legacy_second_block_arg :
    read_outcome (sd_card_read 0 (some (demo_card legacy_info miso_read_blocks)) 0
        (some (List.replicate 1024 0)) 1024)
      = some (Sd_Err_OK, [cmd_frame Sd_Cmd17_Rd_Single 0 1, cmd_frame Sd_Cmd17_Rd_Single 1 1]) ∧
    write_outcome (sd_card_write 0 (some (demo_card legacy_info miso_write_blocks)) 0
        (some (List.replicate 1024 0)) 1024)
      = some (Sd_Err_OK,
          [cmd_frame Sd_Cmd24_Wr_Single_Blk 0 1, cmd_frame Sd_Cmd24_Wr_Single_Blk 1 1]) ∧
    cmd_frame Sd_Cmd17_Rd_Single 1 1 ≠ cmd_frame Sd_Cmd17_Rd_Single (0 + 1 * 512) 1 ∧
    cmd_frame Sd_Cmd24_Wr_Single_Blk 1 1 ≠ cmd_frame Sd_Cmd24_Wr_Single_Blk (0 + 1 * 512) 1 := by
  decide!

/-! ### The CMD55 + ACMD41 loops -/

theorem u8_zero_set (b : Nat) (hb : b < 256) :
    u8 (sd_resp_res.zero.buf.set sd_resp_res.zero.filled b) 0 = b := by
  simp [u8, sd_resp_res.zero, List.replicate, Nat.mod_eq_of_lt hb]

theorem udelay_bus_step (card : sd_card) (n : Nat) (e : List BusEvent) (us : Nat) :
    sd_spi_hw_udelay (bus_step card n e) us = bus_step card n (e ++ delay_events card us) := by
  cases card with
  | mk spi info ini sel xf miso pos log =>
    cases spi with
    | none => simp [sd_spi_hw_udelay, bus_step, delay_events]
    | some ifc =>
      cases hd : ifc.delay_us <;>
        simp [sd_spi_hw_udelay, bus_step, delay_events, hd, List.append_assoc]

theorem and_one_ne_ff {a : Nat} (h : (a &&& 0x01) = 0) : a ≠ 0xFF := by
  rintro rfl
  exact absurd h (by decide)

/-- One pass of the V2 loop on a pair whose ACMD41 response has the idle bit set:
both commands are sent, the delay is requested, the loop goes on. -/
theorem acmd41_body_v2_busy (fuel : Nat) (card : sd_card) (e : Nat × Nat × Nat)
    (rest : List Nat) (ht : has_transfer card)
    (he : e.1 < 5 ∧ e.2.1 < 5 ∧ e.2.2 ≠ 0xFF ∧ (e.2.2 &&& 0x01) ≠ 0)
    (hrx : rx_next card (answer e.1 0x01 ++ (answer e.2.1 e.2.2 ++ rest))) :
    acmd41_body_v2 fuel card = Except.ok (LoopStep.next,
      bus_step card ((e.1 + 1) + (e.2.1 + 1))
        (acmd41_pair 0x40000000 e ++ delay_events card 1000)) ∧
    rx_next (bus_step card ((e.1 + 1) + (e.2.1 + 1))
        (acmd41_pair 0x40000000 e ++ delay_events card 1000)) rest := by
  obtain ⟨e1, e2, e3⟩ := send_cmd_r1_answer fuel card Sd_Cmd55_App_Cmd 0 1 5
    sd_resp_res.zero e.1 0x01 _ ht (by norm_num) he.1 (by norm_num) hrx
  have hlt : e.2.2 < 256 := rx_next_lt e2 e.2.2 (by simp [answer])
  obtain ⟨f1, f2, _⟩ := send_cmd_r1_answer fuel _ Sd_Acmd41_Op_Cond 0x40000000 1 5
    sd_resp_res.zero e.2.1 e.2.2 rest e3 (by norm_num) he.2.1 he.2.2.1 e2
  rw [bus_step_bus_step] at f1 f2
  constructor
  · unfold acmd41_body_v2
    rw [e1]
    simp only []
    rw [u8_zero_set 0x01 (by norm_num)]
    rw [if_neg (by decide), f1]
    simp only []
    rw [u8_zero_set e.2.2 hlt]
    rw [if_neg (by simpa [SD_FR_IN_IDLE_STATE] using he.2.2.2), udelay_bus_step]
    rfl
  · exact f2

/-- One pass of the V2 loop on a pair whose ACMD41 response has the idle bit clear:
both commands are sent and the loop is left by `break`. -/
theorem acmd41_body_v2_ready (fuel : Nat) (card : sd_card) (e : Nat × Nat × Nat)
    (rest : List Nat) (ht : has_transfer card)
    (he : e.1 < 5 ∧ e.2.1 < 5 ∧ (e.2.2 &&& 0x01) = 0)
    (hrx : rx_next card (answer e.1 0x01 ++ (answer e.2.1 e.2.2 ++ rest))) :
    acmd41_body_v2 fuel card = Except.ok (LoopStep.brk,
      bus_step card ((e.1 + 1) + (e.2.1 + 1)) (acmd41_pair 0x40000000 e)) ∧
    rx_next (bus_step card ((e.1 + 1) + (e.2.1 + 1)) (acmd41_pair 0x40000000 e)) rest := by
  obtain ⟨e1, e2, e3⟩ := send_cmd_r1_answer fuel card Sd_Cmd55_App_Cmd 0 1 5
    sd_resp_res.zero e.1 0x01 _ ht (by norm_num) he.1 (by norm_num) hrx
  have hlt : e.2.2 < 256 := rx_next_lt e2 e.2.2 (by simp [answer])
  obtain ⟨f1, f2, _⟩ := send_cmd_r1_answer fuel _ Sd_Acmd41_Op_Cond 0x40000000 1 5
    sd_resp_res.zero e.2.1 e.2.2 rest e3 (by norm_num) he.2.1 (and_one_ne_ff he.2.2) e2
  rw [bus_step_bus_step] at f1 f2
  constructor
  · unfold acmd41_body_v2
    rw [e1]
    simp only []
    rw [u8_zero_set 0x01 (by norm_num)]
    rw [if_neg (by decide), f1]
    simp only []
    rw [u8_zero_set e.2.2 hlt]
    rw [if_pos (by simpa [SD_FR_IN_IDLE_STATE] using he.2.2)]
    rfl
  · exact f2

/-- One pass of the legacy loop on a pair whose ACMD41 response has the idle bit
set. -/
theorem acmd41_body_v1_busy (fuel : Nat) (card : sd_card) (e : Nat × Nat × Nat)
    (rest : List Nat) (ht : has_transfer card)
    (he : e.1 < 5 ∧ e.2.1 < 5 ∧ e.2.2 ≠ 0xFF ∧ (e.2.2 &&& 0x01) ≠ 0)
    (hrx : rx_next card (answer e.1 0x01 ++ (answer e.2.1 e.2.2 ++ rest))) :
    acmd41_body_v1 fuel card = Except.ok (LoopStep.next,
      bus_step card ((e.1 + 1) + (e.2.1 + 1)) (acmd41_pair 0 e ++ [])) ∧
    rx_next (bus_step card ((e.1 + 1) + (e.2.1 + 1)) (acmd41_pair 0 e ++ [])) rest := by
  obtain ⟨e1, e2, e3⟩ := send_cmd_r1_answer fuel card Sd_Cmd55_App_Cmd 0 1 5
    sd_resp_res.zero e.1 0x01 _ ht (by norm_num) he.1 (by norm_num) hrx
  have hlt : e.2.2 < 256 := rx_next_lt e2 e.2.2 (by simp [answer])
  obtain ⟨f1, f2, _⟩ := send_cmd_r1_answer fuel _ Sd_Acmd41_Op_Cond 0 1 5
    sd_resp_res.zero e.2.1 e.2.2 rest e3 (by norm_num) he.2.1 he.2.2.1 e2
  rw [bus_step_bus_step] at f1 f2
  rw [List.append_nil]
  constructor
  · unfold acmd41_body_v1
    rw [e1]
    simp only []
    rw [u8_zero_set 0x01 (by norm_num)]
    rw [if_neg (by decide), f1]
    simp only []
    rw [u8_zero_set e.2.2 hlt]
    rw [if_neg he.2.2.2]
    rfl
  · exact f2

/-- One pass of the legacy loop on a pair whose ACMD41 response has the idle bit
clear. -/
theorem acmd41_body_v1_ready (fuel : Nat) (card : sd_card) (e : Nat × Nat × Nat)
    (rest : List Nat) (ht : has_transfer card)
    (he : e.1 < 5 ∧ e.2.1 < 5 ∧ (e.2.2 &&& 0x01) = 0)
    (hrx : rx_next card (answer e.1 0x01 ++ (answer e.2.1 e.2.2 ++ rest))) :
    acmd41_body_v1 fuel card = Except.ok (LoopStep.brk,
      bus_step card ((e.1 + 1) + (e.2.1 + 1)) (acmd41_pair 0 e)) ∧
    rx_next (bus_step card ((e.1 + 1) + (e.2.1 + 1)) (acmd41_pair 0 e)) rest := by
  obtain ⟨e1, e2, e3⟩ := send_cmd_r1_answer fuel card Sd_Cmd55_App_Cmd 0 1 5
    sd_resp_res.zero e.1 0x01 _ ht (by norm_num) he.1 (by norm_num) hrx
  have hlt : e.2.2 < 256 := rx_next_lt e2 e.2.2 (by simp [answer])
  obtain ⟨f1, f2, _⟩ := send_cmd_r1_answer fuel _ Sd_Acmd41_Op_Cond 0 1 5
    sd_resp_res.zero e.2.1 e.2.2 rest e3 (by norm_num) he.2.1 (and_one_ne_ff he.2.2) e2
  rw [bus_step_bus_step] at f1 f2
  constructor
  · unfold acmd41_body_v1
    rw [e1]
    simp only []
    rw [u8_zero_set 0x01 (by norm_num)]
    rw [if_neg (by decide), f1]
    simp only []
    rw [u8_zero_set e.2.2 hlt]
    rw [if_pos he.2.2]
    rfl
  · exact f2

theorem do_while_dec_next {body : sd_card → Except Fault (LoopStep × sd_card)} {card c1 : sd_card}
    (n : Nat) (h : body card = Except.ok (LoopStep.next, c1)) :
    do_while_dec body (n + 1) card = do_while_dec body n c1 := by
  conv => lhs; unfold do_while_dec
  rw [h]

theorem do_while_dec_last {body : sd_card → Except Fault (LoopStep × sd_card)} {card c1 : sd_card}
    (h : body card = Except.ok (LoopStep.next, c1)) :
    do_while_dec body 0 card = Except.ok (none, 0, c1) := by
  unfold do_while_dec
  rw [h]

theorem do_while_dec_brk {body : sd_card → Except Fault (LoopStep × sd_card)} {card c1 : sd_card}
    (n : Nat) (h : body card = Except.ok (LoopStep.brk, c1)) :
    do_while_dec body n card = Except.ok (none, n + 1, c1) := by
  cases n with
  | zero => unfold do_while_dec; rw [h]
  | succ n => unfold do_while_dec; rw [h]

/-- A `do { ... } while (--timeout)` loop over CMD55 + ACMD41 pairs, entered with
counter `n + 1`, on `n + 1` pairs that all report the idle bit: the counter reaches
0 after exactly those pairs. -/
theorem acmd41_loop_exhaust (body : sd_card → Except Fault (LoopStep × sd_card)) (arg : Nat)
    (dl : sd_card → List BusEvent) (hdl : ∀ c n e, dl (bus_step c n e) = dl c)
    (hbusy : ∀ (c : sd_card) (e : Nat × Nat × Nat) (rest : List Nat), has_transfer c →
      (e.1 < 5 ∧ e.2.1 < 5 ∧ e.2.2 ≠ 0xFF ∧ (e.2.2 &&& 0x01) ≠ 0) →
      rx_next c (answer e.1 0x01 ++ (answer e.2.1 e.2.2 ++ rest)) →
      body c = Except.ok (LoopStep.next,
        bus_step c ((e.1 + 1) + (e.2.1 + 1)) (acmd41_pair arg e ++ dl c)) ∧
      rx_next (bus_step c ((e.1 + 1) + (e.2.1 + 1)) (acmd41_pair arg e ++ dl c)) rest) :
    ∀ (n : Nat) (script : List (Nat × Nat × Nat)) (rest : List Nat) (card : sd_card),
      has_transfer card → acmd41_busy script → script.length = n + 1 →
      rx_next card (acmd41_rx script ++ rest) →
      do_while_dec body n card = Except.ok (none, 0,
        bus_step card (acmd41_count script) (acmd41_events arg (dl card) script)) ∧
      rx_next (bus_step card (acmd41_count script) (acmd41_events arg (dl card) script)) rest := by
  intro n
  induction n with
  | zero =>
    intro script rest card ht hs hlen hrx
    match script, hlen with
    | [e], _ =>
      simp only [acmd41_rx, List.append_nil, List.append_assoc] at hrx
      obtain ⟨b1, b2⟩ := hbusy card e rest ht (hs e (List.mem_singleton.mpr rfl)) hrx
      simp only [acmd41_count, acmd41_events, List.append_nil, Nat.add_zero]
      exact ⟨do_while_dec_last b1, b2⟩
  | succ n ih =>
    intro script rest card ht hs hlen hrx
    match script, hlen with
    | e :: s, hlen =>
      simp only [acmd41_rx, List.append_assoc] at hrx
      obtain ⟨b1, b2⟩ := hbusy card e _ ht (hs e (List.mem_cons_self _ _)) hrx
      obtain ⟨i1, i2⟩ := ih s rest _ (has_transfer_bus_step ht _ _)
        (fun x hx => hs x (List.mem_cons_of_mem _ hx)) (by simpa using hlen) b2
      rw [bus_step_bus_step, hdl] at i1 i2
      simp only [acmd41_count, acmd41_events]
      exact ⟨(do_while_dec_next n b1).trans i1, i2⟩

/-- The same loop on pairs that report the idle bit followed by one pair that does
not: the loop is left by `break` after that pair, with the counter still non-zero. -/
theorem acmd41_loop_ready (body : sd_card → Except Fault (LoopStep × sd_card)) (arg : Nat)
    (dl : sd_card → List BusEvent) (hdl : ∀ c n e, dl (bus_step c n e) = dl c)
    (hbusy : ∀ (c : sd_card) (e : Nat × Nat × Nat) (rest : List Nat), has_transfer c →
      (e.1 < 5 ∧ e.2.1 < 5 ∧ e.2.2 ≠ 0xFF ∧ (e.2.2 &&& 0x01) ≠ 0) →
      rx_next c (answer e.1 0x01 ++ (answer e.2.1 e.2.2 ++ rest)) →
      body c = Except.ok (LoopStep.next,
        bus_step c ((e.1 + 1) + (e.2.1 + 1)) (acmd41_pair arg e ++ dl c)) ∧
      rx_next (bus_step c ((e.1 + 1) + (e.2.1 + 1)) (acmd41_pair arg e ++ dl c)) rest)
    (hready : ∀ (c : sd_card) (e : Nat × Nat × Nat) (rest : List Nat), has_transfer c →
      (e.1 < 5 ∧ e.2.1 < 5 ∧ (e.2.2 &&& 0x01) = 0) →
      rx_next c (answer e.1 0x01 ++ (answer e.2.1 e.2.2 ++ rest)) →
      body c = Except.ok (LoopStep.brk,
        bus_step c ((e.1 + 1) + (e.2.1 + 1)) (acmd41_pair arg e)) ∧
      rx_next (bus_step c ((e.1 + 1) + (e.2.1 + 1)) (acmd41_pair arg e)) rest)
    (last : Nat × Nat × Nat) (hlast : last.1 < 5 ∧ last.2.1 < 5 ∧ (last.2.2 &&& 0x01) = 0) :
    ∀ (script : List (Nat × Nat × Nat)) (n : Nat) (rest : List Nat) (card : sd_card),
      has_transfer card → acmd41_busy script → script.length ≤ n →
      rx_next card (acmd41_rx (script ++ [last]) ++ rest) →
      do_while_dec body n card = Except.ok (none, n + 1 - script.length,
        bus_step card (acmd41_count (script ++ [last]))
          (acmd41_events arg (dl card) script ++ acmd41_pair arg last)) ∧
      rx_next (bus_step card (acmd41_count (script ++ [last]))
          (acmd41_events arg (dl card) script ++ acmd41_pair arg last)) rest ∧
      has_transfer (bus_step card (acmd41_count (script ++ [last]))
          (acmd41_events arg (dl card) script ++ acmd41_pair arg last)) := by
  intro script
  induction script with
  | nil =>
    intro n rest card ht _ _ hrx
    simp only [List.nil_append, acmd41_rx, List.append_nil, List.append_assoc] at hrx
    obtain ⟨b1, b2⟩ := hready card last rest ht hlast hrx
    simp only [List.nil_append, acmd41_count, acmd41_events, Nat.add_zero, List.length_nil,
      Nat.sub_zero]
    exact ⟨do_while_dec_brk n b1, b2, has_transfer_bus_step ht _ _⟩
  | cons e s ih =>
    intro n rest card ht hs hlen hrx
    obtain ⟨n, rfl⟩ : ∃ n', n = n' + 1 := ⟨n - 1, by simp at hlen; omega⟩
    simp only [List.cons_append, acmd41_rx, List.append_assoc] at hrx
    obtain ⟨b1, b2⟩ := hbusy card e _ ht (hs e (List.mem_cons_self _ _)) hrx
    have hrx2 : rx_next (bus_step card ((e.1 + 1) + (e.2.1 + 1)) (acmd41_pair arg e ++ dl card))
        (acmd41_rx (s ++ [last]) ++ rest) := b2
    obtain ⟨i1, i2, i3⟩ := ih n rest _ (has_transfer_bus_step ht _ _)
      (fun x hx => hs x (List.mem_cons_of_mem _ hx)) (by simp at hlen; omega) hrx2
    rw [bus_step_bus_step, hdl] at i1 i2 i3
    have hsub : n + 1 + 1 - (e :: s).length = n + 1 - s.length := by simp
    simp only [List.cons_append, acmd41_count, acmd41_events, hsub, List.append_assoc] at i1 i2 i3 ⊢
    exact ⟨(do_while_dec_next n b1).trans i1, i2, i3⟩

theorem cmd_frames_acmd41_pair (arg : Nat) (e : Nat × Nat × Nat) :
    cmd_frames (acmd41_pair arg e) =
      [cmd_frame Sd_Cmd55_App_Cmd 0 1, cmd_frame Sd_Acmd41_Op_Cond arg 1] := by
  unfold acmd41_pair
  rw [cmd_frames_append, cmd_frames_r1_exchange, cmd_frames_r1_exchange]
  rfl

theorem cmd_frames_delay_events (card : sd_card) (us : Nat) :
    cmd_frames (delay_events card us) = [] := by
  unfold delay_events
  cases card.spi_if with
  | none => rfl
  | some ifc =>
    cases h : ifc.delay_us <;> simp [h, cmd_frames]

theorem cmd_frames_acmd41_events (arg : Nat) (d : List BusEvent) (hd : cmd_frames d = [])
    (script : List (Nat × Nat × Nat)) :
    cmd_frames (acmd41_events arg d script) = acmd41_frames arg script.length := by
  induction script with
  | nil => rfl
  | cons e s ih =>
    simp only [acmd41_events, List.length_cons, acmd41_frames]
    rw [cmd_frames_append, cmd_frames_append, cmd_frames_acmd41_pair, hd, ih]
    rfl

theorem acmd41_frames_succ (arg n : Nat) :
    acmd41_frames arg n ++
        [cmd_frame Sd_Cmd55_App_Cmd 0 1, cmd_frame Sd_Acmd41_Op_Cond arg 1]
      = acmd41_frames arg (n + 1) := by
  induction n with
  | zero => rfl
  | succ n ih =>
    simp only [acmd41_frames, List.cons_append]
    rw [ih]
    rfl

theorem bus_step_log (card : sd_card) (n : Nat) (e : List BusEvent) :
    (bus_step card n e).log = card.log ++ e := rfl

/-- C10: in the V2 path and in the legacy path alike, with every CMD55 answered
`0x01` in time: if ACMD41 is answered with the idle bit set on each of 255
consecutive passes, the path sends exactly 255 CMD55 + ACMD41 pairs and returns
Timeout; if the first `script.length` passes (fewer than 255) see the idle bit set
and the next pass sees it clear, the loop ends after those `script.length + 1`
pairs with its counter at `255 - script.length`, which is not zero, and the path
goes on with its next block (CMD58 in the V2 path, CMD16 in the legacy path)
instead of returning Timeout. -/
theorem acmd41_loop_bound (fuel : Nat) (card : sd_card) (ht : has_transfer card)
    (script : List (Nat × Nat × Nat)) (hs : acmd41_busy script) (rest : List Nat) :
    (script.length = 255 → rx_next card (acmd41_rx script ++ rest) →
      (_check_card_maybe_v2 fuel card = Except.ok (Sd_Err_Timeout,
          bus_step card (acmd41_count script)
            (acmd41_events 0x40000000 (delay_events card 1000) script)) ∧
        cmd_frames (acmd41_events 0x40000000 (delay_events card 1000) script)
          = acmd41_frames 0x40000000 255) ∧
      (_check_card_maybe_v1 fuel card = Except.ok (Sd_Err_Timeout,
          bus_step card (acmd41_count script) (acmd41_events 0 [] script)) ∧
        cmd_frames (acmd41_events 0 [] script) = acmd41_frames 0 255)) ∧
    (∀ last : Nat × Nat × Nat, script.length < 255 → last.1 < 5 → last.2.1 < 5 →
      (last.2.2 &&& 0x01) = 0 → rx_next card (acmd41_rx (script ++ [last]) ++ rest) →
      (do_while_dec (acmd41_body_v2 fuel) 254 card = Except.ok (none, 255 - script.length,
          bus_step card (acmd41_count (script ++ [last]))
            (acmd41_events 0x40000000 (delay_events card 1000) script ++
              acmd41_pair 0x40000000 last)) ∧
        255 - script.length ≠ 0 ∧
        _check_card_maybe_v2 fuel card = check_v2_after_acmd41 fuel
          (bus_step card (acmd41_count (script ++ [last]))
            (acmd41_events 0x40000000 (delay_events card 1000) script ++
              acmd41_pair 0x40000000 last)) ∧
        cmd_frames (acmd41_events 0x40000000 (delay_events card 1000) script ++
              acmd41_pair 0x40000000 last) = acmd41_frames 0x40000000 (script.length + 1)) ∧
      (do_while_dec (acmd41_body_v1 fuel) 254 card = Except.ok (none, 255 - script.length,
          bus_step card (acmd41_count (script ++ [last]))
            (acmd41_events 0 [] script ++ acmd41_pair 0 last)) ∧
        255 - script.length ≠ 0 ∧
        _check_card_maybe_v1 fuel card = check_v1_after_acmd41 fuel
          (bus_step card (acmd41_count (script ++ [last]))
            (acmd41_events 0 [] script ++ acmd41_pair 0 last)) ∧
        cmd_frames (acmd41_events 0 [] script ++ acmd41_pair 0 last)
          = acmd41_frames 0 (script.length + 1))) := by
  have hd2 : ∀ (c : sd_card) (n : Nat) (e : List BusEvent),
      (fun c : sd_card => delay_events c 1000) (bus_step c n e)
        = (fun c : sd_card => delay_events c 1000) c := fun _ _ _ => rfl
  have hd1 : ∀ (c : sd_card) (n : Nat) (e : List BusEvent),
      (fun _ : sd_card => ([] : List BusEvent)) (bus_step c n e)
        = (fun _ : sd_card => ([] : List BusEvent)) c := fun _ _ _ => rfl
  constructor
  · intro hlen hrx
    have l2 := (acmd41_loop_exhaust (acmd41_body_v2 fuel) 0x40000000
      (fun c => delay_events c 1000) hd2 (acmd41_body_v2_busy fuel) 254 script rest card ht hs
      (by omega) hrx).1
    have l1 := (acmd41_loop_exhaust (acmd41_body_v1 fuel) 0
      (fun _ => []) hd1 (acmd41_body_v1_busy fuel) 254 script rest card ht hs
      (by omega) hrx).1
    refine ⟨⟨?_, ?_⟩, ⟨?_, ?_⟩⟩
    · unfold _check_card_maybe_v2
      rw [l2]
      rfl
    · rw [cmd_frames_acmd41_events _ _ (cmd_frames_delay_events _ _), hlen]
    · unfold _check_card_maybe_v1
      rw [l1]
      rfl
    · rw [cmd_frames_acmd41_events 0 [] rfl, hlen]
  · intro last hlen h1 h2 h3 hrx
    have hne : 255 - script.length ≠ 0 := by omega
    have l2 := (acmd41_loop_ready (acmd41_body_v2 fuel) 0x40000000
      (fun c => delay_events c 1000) hd2 (acmd41_body_v2_busy fuel) (acmd41_body_v2_ready fuel)
      last ⟨h1, h2, h3⟩ script 254 rest card ht hs (by omega) hrx).1
    have l1 := (acmd41_loop_ready (acmd41_body_v1 fuel) 0
      (fun _ => []) hd1 (acmd41_body_v1_busy fuel) (acmd41_body_v1_ready fuel)
      last ⟨h1, h2, h3⟩ script 254 rest card ht hs (by omega) hrx).1
    refine ⟨⟨l2, hne, ?_, ?_⟩, ⟨l1, hne, ?_, ?_⟩⟩
    · unfold _check_card_maybe_v2
      rw [l2]
      simp only []
      rw [if_neg hne]
    · rw [cmd_frames_append, cmd_frames_acmd41_events _ _ (cmd_frames_delay_events _ _),
        cmd_frames_acmd41_pair, acmd41_frames_succ]
    · unfold _check_card_maybe_v1
      rw [l1]
      simp only []
      rw [if_neg hne]
    · rw [cmd_frames_append, cmd_frames_acmd41_events 0 [] rfl,
        cmd_frames_acmd41_pair, acmd41_frames_succ]

theorem mem_replicate_triple {n : Nat} {a b : Nat × Nat × Nat} (h : a ∈ List.replicate n b) :
    a = b :=
  (List.mem_replicate.mp h).2

/-- C10 at concrete streams: on a bus that always reads `0x01` both paths return
Timeout after 255 pairs; on a bus whose third ACMD41 response is `0x00` both loops
end after 3 pairs with counter 253 and the paths go on. -/
theorem acmd41_loop_bound_witness :
    (∃ c, _check_card_maybe_v2 0 (demo_card info_zero miso_always_idle)
          = Except.ok (Sd_Err_Timeout, c) ∧
        cmd_frames c.log = acmd41_frames 0x40000000 255) ∧
    (∃ c, _check_card_maybe_v1 0 (demo_card info_zero miso_always_idle)
          = Except.ok (Sd_Err_Timeout, c) ∧
        cmd_frames c.log = acmd41_frames 0 255) ∧
    (∃ c, do_while_dec (acmd41_body_v2 0) 254 (demo_card info_zero miso_ready_at_3)
          = Except.ok (none, 253, c) ∧
        _check_card_maybe_v2 0 (demo_card info_zero miso_ready_at_3)
          = check_v2_after_acmd41 0 c ∧
        cmd_frames c.log = acmd41_frames 0x40000000 3) ∧
    (∃ c, do_while_dec (acmd41_body_v1 0) 254 (demo_card info_zero miso_ready_at_3)
          = Except.ok (none, 253, c) ∧
        _check_card_maybe_v1 0 (demo_card info_zero miso_ready_at_3)
          = check_v1_after_acmd41 0 c ∧
        cmd_frames c.log = acmd41_frames 0 3) := by
  have hlen : (List.replicate 255 ((0 : Nat), (0 : Nat), (0x01 : Nat))).length = 255 :=
    List.length_replicate _ _
  have hA := (acmd41_loop_bound 0 (demo_card info_zero miso_always_idle)
    ⟨good_if, _, rfl, rfl⟩ (List.replicate 255 (0, 0, 0x01))
    (fun e he => by rw [mem_replicate_triple he]; decide) []).1 hlen
    (by unfold rx_next; decide!)
  have hB := (acmd41_loop_bound 0 (demo_card info_zero miso_ready_at_3)
    ⟨good_if, _, rfl, rfl⟩ [(0, 0, 0x01), (0, 0, 0x01)]
    (fun e he => by
      rcases List.mem_cons.mp he with rfl | he
      · decide
      · rw [List.mem_singleton.mp he]; decide) []).2 (0, 0, 0x00)
    (by decide) (by decide) (by decide) (by decide) (by unfold rx_next; decide!)
  refine ⟨⟨_, hA.1.1, ?_⟩, ⟨_, hA.2.1, ?_⟩, ⟨_, hB.1.1, hB.1.2.2.1, ?_⟩,
    ⟨_, hB.2.1, hB.2.2.2.1, ?_⟩⟩
  · rw [bus_step_log, cmd_frames_append, hA.1.2]; rfl
  · rw [bus_step_log, cmd_frames_append, hA.2.2]; rfl
  · rw [bus_step_log, cmd_frames_append, hB.1.2.2.2]; rfl
  · rw [bus_step_log, cmd_frames_append, hB.2.2.2.2]; rfl

/-! ### Identification -/

/-- A register read (shape R2) answered by a clean R1 byte after `pad` idle bytes,
then the data token `0xFE` after the bytes `junk`, 16 data bytes and 2 CRC bytes:
OK, the data bytes in `buf`, `filled = 16`. -/
theorem send_cmd_r2_data (fuel : Nat) (card : sd_card) (cmd arg crc retry pad : Nat)
    (junk data crc2 rest : List Nat)
    (ht : has_transfer card) (hr : retry ≤ 255) (hp : pad < retry)
    (hj : ∀ x ∈ junk, x ≠ 0xFE) (hjl : junk.length ≤ 254) (hd : data.length = 16)
    (hc : crc2.length = 2)
    (hrx : rx_next card (answer pad 0x00 ++ (junk ++ 0xFE :: (data ++ (crc2 ++ rest))))) :
    sd_card_send_cmd_req fuel card
        { cmd := cmd, arg := arg, crc := crc, resp_type := Sd_Resp_Type_R2, retry := retry }
        sd_resp_res.zero
      = Except.ok (Sd_Err_OK, { buf := data, filled := 16 },
          bus_step card ((pad + 1) + ((junk.length + 1) + (16 + 2)))
            (r2_exchange cmd arg crc pad junk.length)) ∧
    rx_next (bus_step card ((pad + 1) + ((junk.length + 1) + (16 + 2)))
            (r2_exchange cmd arg crc pad junk.length)) rest ∧
    has_transfer (bus_step card ((pad + 1) + ((junk.length + 1) + (16 + 2)))
            (r2_exchange cmd arg crc pad junk.length)) := by
  obtain ⟨n, rfl⟩ : ∃ n, retry = n + 1 := ⟨retry - 1, by omega⟩
  have hrx1 : rx_next (bus_step card 0 [BusEvent.write (cmd_frame cmd arg crc)])
      (List.replicate pad 0xFF ++ 0x00 :: (junk ++ 0xFE :: (data ++ (crc2 ++ rest)))) := by
    have : answer pad 0x00 ++ (junk ++ 0xFE :: (data ++ (crc2 ++ rest)))
        = List.replicate pad 0xFF ++ 0x00 :: (junk ++ 0xFE :: (data ++ (crc2 ++ rest))) := by
      simp [answer]
    rw [this] at hrx
    exact hrx
  obtain ⟨e1, e2⟩ := poll_byte_hit (fun x => decide (x = 0xff)) (List.replicate pad 0xFF) 0xff n
    0x00 _ _ (has_transfer_bus_step ht 0 _) hrx1
    (fun x hx => by simp [mem_replicate_ff hx]) (by simp) (by simp; omega)
  simp only [List.length_replicate, bus_step_bus_step, Nat.zero_add] at e1 e2
  have hne : n + 1 - pad ≠ 0 := by omega
  obtain ⟨f1, f2⟩ := poll_byte_hit (fun x => decide (x ≠ 0xFE)) junk 0 254 0xFE _ _
    (has_transfer_bus_step ht _ _) e2 (fun x hx => by simp [hj x hx]) (by simp) hjl
  rw [bus_step_bus_step] at f1 f2
  have hne2 : 254 + 1 - junk.length ≠ 0 := by omega
  obtain ⟨g1, g2⟩ := rx_next_append [BusEvent.read 16] f2
  rw [bus_step_bus_step, hd] at g2
  rw [hd] at g1
  obtain ⟨k1, k2⟩ := rx_next_append [BusEvent.read 2] g2
  rw [bus_step_bus_step, hc] at k2
  have hfin : bus_step card (pad + 1 + (junk.length + 1) + 16 + 2)
      ([BusEvent.write (cmd_frame cmd arg crc)] ++ List.replicate (pad + 1) (BusEvent.read 1) ++
        List.replicate (junk.length + 1) (BusEvent.read 1) ++ [BusEvent.read 16] ++
          [BusEvent.read 2])
      = bus_step card ((pad + 1) + ((junk.length + 1) + (16 + 2)))
          (r2_exchange cmd arg crc pad junk.length) := by
    have harith : pad + 1 + (junk.length + 1) + 16 + 2
        = (pad + 1) + ((junk.length + 1) + (16 + 2)) := by omega
    rw [harith]
    simp only [r2_exchange, r1_exchange, List.append_assoc, List.cons_append, List.nil_append,
      List.singleton_append]
  rw [hfin] at k2
  refine ⟨?_, k2, has_transfer_bus_step ht _ _⟩
  unfold sd_card_send_cmd_req
  simp only []
  rw [show [cmd % 256, (arg >>> 24) % 256, (arg >>> 16) % 256, (arg >>> 8) % 256, arg % 256,
        crc % 256] = cmd_frame cmd arg crc from rfl, write_bytes_ok ht]
  simp only []
  rw [wait_response_eq n (by omega), e1]
  simp only [hne, if_false]
  rw [u8_zero_set 0x00 (by norm_num)]
  simp only [ne_eq, not_true_eq_false, if_false]
  rw [f1]
  simp only [hne2, if_false]
  rw [read_bytes_ok (has_transfer_bus_step ht _ _), g1]
  simp only []
  rw [read_bytes_ok (has_transfer_bus_step (has_transfer_bus_step ht _ _) _ _)]
  simp only [bus_step_bus_step]
  rw [hfin]
  simp [sd_resp_res.zero]

/-- Blocks 2 and 3 of the legacy path on well-formed responses: CMD16 answered
`0x00`, CMD9 answered `0x00`, the data token, a version-0 CSD and two CRC bytes. -/
theorem check_v1_after_acmd41_ok (fuel : Nat) (card : sd_card) (p3 p4 : Nat)
    (junk csd crc2 rest : List Nat) (ht : has_transfer card) (hp3 : p3 < 5) (hp4 : p4 < 5)
    (hj : ∀ x ∈ junk, x ≠ 0xFE) (hjl : junk.length ≤ 254) (hcsd : csd.length = 16)
    (hc : crc2.length = 2) (hv : u8 csd 0 >>> 6 = 0)
    (hrx : rx_next card
      (answer p3 0x00 ++ (answer p4 0x00 ++ (junk ++ 0xFE :: (csd ++ (crc2 ++ rest)))))) :
    check_v1_after_acmd41 fuel card = Except.ok (Sd_Err_OK,
      { bus_step card ((p3 + 1) + ((p4 + 1) + ((junk.length + 1) + (16 + 2))))
          (r1_exchange Sd_Cmd16_Block_len 512 1 p3 ++ r2_exchange Sd_Cmd9_Csd 0 1 p4 junk.length)
        with info := (_parse_csd_v1 csd { card.info with type := Sd_Type_SDSC_V1 }).2 }) := by
  obtain ⟨ifc, t, h1, h2⟩ := id ht
  have ht2 : has_transfer { card with info := { card.info with type := Sd_Type_SDSC_V1 } } :=
    ⟨ifc, t, h1, h2⟩
  have hrx2 : rx_next { card with info := { card.info with type := Sd_Type_SDSC_V1 } }
      (answer p3 0x00 ++ (answer p4 0x00 ++ (junk ++ 0xFE :: (csd ++ (crc2 ++ rest))))) := hrx
  obtain ⟨e1, e2, e3⟩ := send_cmd_r1_answer fuel _ Sd_Cmd16_Block_len 512 1 5
    sd_resp_res.zero p3 0x00 _ ht2 (by norm_num) hp3 (by norm_num) hrx2
  obtain ⟨f1, _, _⟩ := send_cmd_r2_data fuel _ Sd_Cmd9_Csd 0 1 5 p4 junk csd crc2 rest e3
    (by norm_num) hp4 hj hjl hcsd hc e2
  unfold check_v1_after_acmd41
  simp only []
  rw [e1]
  simp only []
  rw [u8_zero_set 0x00 (by norm_num), if_neg (by decide), f1]
  simp only []
  rw [parse_csd_v1_eq csd _ hv]
  simp only [bus_step_bus_step]
  rw [parse_csd_v1_eq csd _ hv]
  simp [bus_step, Nat.add_assoc]

theorem cmd_frames_r2_exchange (cmd arg crc pad skip : Nat) :
    cmd_frames (r2_exchange cmd arg crc pad skip) = [cmd_frame cmd arg crc] := by
  unfold r2_exchange
  rw [cmd_frames_append, cmd_frames_append, cmd_frames_r1_exchange, cmd_frames_replicate_read]
  rfl

theorem finish_ok {card : sd_card} (ifc : sd_spi_interface) (ctl : Nat → sd_user_ctrl → Int)
    (t : Nat → Nat → Int × Nat) (h1 : card.spi_if = some ifc) (h2 : ifc.control = some ctl)
    (h3 : ifc.transfer = some t) (err : sd_error) :
    card_identify_finish err card =
      (err, bus_step (deselected card) 0 [BusEvent.write [0xFF]]) := by
  unfold card_identify_finish
  simp only []
  rw [deselect_ok ifc ctl h1 h2]
  simp only []
  rw [@send_dummy_one (deselected card) ⟨ifc, t, h1, h3⟩]

/-- Identification of a card that does not answer CMD8 within the five polls and
then gives well-formed legacy responses: the legacy path runs and identification
returns OK with the geometry of the version-0 parse and class SDSC v1. -/
theorem card_identify_legacy_ok (fuel : Nat) (card : sd_card) (p1 p2 a p3 p4 : Nat)
    (junk csd crc2 rest : List Nat) (hc : can_select card)
    (hp1 : p1 < 5) (hp2 : p2 < 5) (ha : (a &&& 0x01) = 0) (hp3 : p3 < 5) (hp4 : p4 < 5)
    (hj : ∀ x ∈ junk, x ≠ 0xFE) (hjl : junk.length ≤ 254) (hcsd : csd.length = 16)
    (hcrc : crc2.length = 2) (hv : u8 csd 0 >>> 6 = 0)
    (hrx : rx_next card (List.replicate 5 0xFF ++ (acmd41_rx ([] ++ [(p1, p2, a)]) ++
      (answer p3 0x00 ++ (answer p4 0x00 ++ (junk ++ 0xFE :: (csd ++ (crc2 ++ rest)))))))) :
    ∃ cardF, _card_identify fuel card = Except.ok (Sd_Err_OK, cardF) ∧
      cardF.info = (_parse_csd_v1 csd { info_unknown with type := Sd_Type_SDSC_V1 }).2 ∧
      cardF.info.type = Sd_Type_SDSC_V1 ∧ cardF.is_selected = false ∧
      cmd_frames cardF.log = cmd_frames card.log ++
        [cmd_frame Sd_Cmd8_If_Cond 0x1AA 0x87, cmd_frame Sd_Cmd55_App_Cmd 0 1,
         cmd_frame Sd_Acmd41_Op_Cond 0 1, cmd_frame Sd_Cmd16_Block_len 512 1,
         cmd_frame Sd_Cmd9_Csd 0 1] := by
  obtain ⟨ifc, ctl, t, h1, hctl, h3, h4⟩ := id hc
  have hc0 : can_select { card with info := info_unknown } := hc
  have hsel : sd_spi_hw_select_card
      { card with
        info := { type := Sd_Type_Unknown, block_count := 0, block_size := 0, capacity := 0,
                  erase_sector_size := 0 } }
      = (Sd_Err_OK, selected { card with info := info_unknown }) := select_ok hc0
  have ht1 : has_transfer (selected { card with info := info_unknown }) :=
    has_transfer_selected hc0
  have hrx1 : rx_next (selected { card with info := info_unknown })
      (List.replicate 5 0xFF ++ (acmd41_rx ([] ++ [(p1, p2, a)]) ++
      (answer p3 0x00 ++ (answer p4 0x00 ++ (junk ++ 0xFE :: (csd ++ (crc2 ++ rest))))))) := hrx
  obtain ⟨e1, e2, e3⟩ := send_cmd_timeout fuel _ Sd_Cmd8_If_Cond 0x1AA 0x87 5 Sd_Resp_Type_R7
    sd_resp_res.zero _ ht1 (by norm_num) (by norm_num) hrx1
  obtain ⟨l1, l2, l3⟩ := acmd41_loop_ready (acmd41_body_v1 fuel) 0 (fun _ => [])
    (fun _ _ _ => rfl) (acmd41_body_v1_busy fuel) (acmd41_body_v1_ready fuel)
    (p1, p2, a) ⟨hp1, hp2, ha⟩ [] 254 _ _ e3 (fun _ h => absurd h (List.not_mem_nil _))
    (by simp) e2
  rw [bus_step_bus_step] at l1 l2 l3
  have k1 := check_v1_after_acmd41_ok fuel _ p3 p4 junk csd crc2 rest l3 hp3 hp4 hj hjl hcsd hcrc
    hv l2
  rw [bus_step_bus_step] at k1
  obtain ⟨cL, hk, hinfo, hspi, hlog⟩ : ∃ cL, check_v1_after_acmd41 fuel
      (bus_step (selected { card with info := info_unknown })
        (5 + acmd41_count ([] ++ [(p1, p2, a)]))
        (BusEvent.write (cmd_frame Sd_Cmd8_If_Cond 0x1AA 0x87) ::
          List.replicate 5 (BusEvent.read 1) ++
            (acmd41_events 0 [] [] ++ acmd41_pair 0 (p1, p2, a)))) = Except.ok (Sd_Err_OK, cL) ∧
      cL.info = (_parse_csd_v1 csd { info_unknown with type := Sd_Type_SDSC_V1 }).2 ∧
      cL.spi_if = card.spi_if ∧
      cL.log = card.log ++ ([BusEvent.control Sd_User_Ctrl_Take_Bus,
          BusEvent.control Sd_User_Ctrl_Select_Card] ++
        (BusEvent.write (cmd_frame Sd_Cmd8_If_Cond 0x1AA 0x87) ::
          List.replicate 5 (BusEvent.read 1) ++
            (acmd41_events 0 [] [] ++ acmd41_pair 0 (p1, p2, a)) ++
          (r1_exchange Sd_Cmd16_Block_len 512 1 p3 ++
            r2_exchange Sd_Cmd9_Csd 0 1 p4 junk.length))) :=
    ⟨_, k1, rfl, rfl, by simp [bus_step, selected, List.append_assoc]⟩
  have hlegacy : _check_card_maybe_v1 fuel (bus_step (selected { card with info := info_unknown })
        5 (BusEvent.write (cmd_frame Sd_Cmd8_If_Cond 0x1AA 0x87) ::
            List.replicate 5 (BusEvent.read 1))) = Except.ok (Sd_Err_OK, cL) := by
    unfold _check_card_maybe_v1
    rw [l1]
    simp only [List.length_nil, Nat.sub_zero]
    rw [if_neg (by decide), hk]
  refine ⟨bus_step (deselected cL) 0 [BusEvent.write [0xFF]], ?_, hinfo, ?_, rfl, ?_⟩
  · unfold _card_identify
    simp only []
    rw [hsel]
    simp only []
    rw [e1]
    simp only []
    rw [hlegacy]
    simp only []
    rw [finish_ok ifc ctl t (hspi.trans h1) hctl h3]
  · change cL.info.type = Sd_Type_SDSC_V1
    rw [hinfo, parse_csd_v1_eq csd _ hv]
  · change cmd_frames ((cL.log ++ _) ++ _) = _
    rw [hlog]
    have h8 : cmd_frames (BusEvent.write (cmd_frame Sd_Cmd8_If_Cond 0x1AA 0x87) ::
        List.replicate 5 (BusEvent.read 1)) = [cmd_frame Sd_Cmd8_If_Cond 0x1AA 0x87] :=
      cmd_frames_r1_exchange _ _ _ 4
    have c1 : cmd_frames [BusEvent.control Sd_User_Ctrl_Take_Bus,
        BusEvent.control Sd_User_Ctrl_Select_Card] = [] := rfl
    have c2 : cmd_frames [BusEvent.control Sd_User_Ctrl_Deselect_Card,
        BusEvent.control Sd_User_Ctrl_Release_Bus] = [] := rfl
    have c3 : cmd_frames [BusEvent.write [0xFF]] = [] := rfl
    have c4 : cmd_frames (acmd41_events 0 [] []) = [] := rfl
    simp only [cmd_frames_append]
    simp only [cmd_frames_acmd41_pair, cmd_frames_r1_exchange, cmd_frames_r2_exchange, h8, c1,
      c2, c3, c4]
    simp only [List.nil_append, List.append_nil, List.append_assoc, List.cons_append]

/-- C9: in `_card_identify`, whenever the CMD8 exchange returns an error, the result
is the result of `_check_card_maybe_v1` run on the card as CMD8 left it (followed by
deselect and the dummy byte), so the error returned is the legacy path's own; and
when CMD8 gets no answer within its 5 polls while the legacy responses are well
formed (CMD55 answered `0x01`, ACMD41 with the idle bit clear, CMD16 `0x00`, CMD9
`0x00`, the token `0xFE`, a version-0 CSD, two CRC bytes, each answer within the 5
polls), identification returns OK with class SDSC v1 and the geometry of the
version-0 parse, having sent CMD8, CMD55, ACMD41, CMD16 and CMD9 once each. -/
theorem card_identify_cmd8_failure (fuel : Nat) (card : sd_card) :
    (∀ (card1 : sd_card) (err : sd_error) (resp : sd_resp_res) (card2 : sd_card),
      sd_spi_hw_select_card { card with info := info_unknown } = (Sd_Err_OK, card1) →
      sd_card_send_cmd_req fuel card1 cmd8_req sd_resp_res.zero = Except.ok (err, resp, card2) →
      err ≠ Sd_Err_OK →
      _card_identify fuel card =
        (match _check_card_maybe_v1 fuel card2 with
         | Except.error f => Except.error f
         | Except.ok (e, card3) => Except.ok (card_identify_finish e card3)) ∧
      ∀ (e : sd_error) (card3 : sd_card), (card_identify_finish e card3).1 = e) ∧
    (∀ (p1 p2 a p3 p4 : Nat) (junk csd crc2 rest : List Nat), can_select card →
      p1 < 5 → p2 < 5 → (a &&& 0x01) = 0 → p3 < 5 → p4 < 5 →
      (∀ x ∈ junk, x ≠ 0xFE) → junk.length ≤ 254 → csd.length = 16 → crc2.length = 2 →
      u8 csd 0 >>> 6 = 0 →
      rx_next card (List.replicate 5 0xFF ++ (acmd41_rx ([] ++ [(p1, p2, a)]) ++
        (answer p3 0x00 ++ (answer p4 0x00 ++ (junk ++ 0xFE :: (csd ++ (crc2 ++ rest))))))) →
      ∃ cardF, _card_identify fuel card = Except.ok (Sd_Err_OK, cardF) ∧
        cardF.info = (_parse_csd_v1 csd { info_unknown with type := Sd_Type_SDSC_V1 }).2 ∧
        cardF.info.type = Sd_Type_SDSC_V1 ∧ cardF.is_selected = false ∧
        cmd_frames cardF.log = cmd_frames card.log ++
          [cmd_frame Sd_Cmd8_If_Cond 0x1AA 0x87, cmd_frame Sd_Cmd55_App_Cmd 0 1,
           cmd_frame Sd_Acmd41_Op_Cond 0 1, cmd_frame Sd_Cmd16_Block_len 512 1,
           cmd_frame Sd_Cmd9_Csd 0 1]) := by
  constructor
  · intro card1 err resp card2 hsel hcmd8 herr
    refine ⟨?_, fun _ _ => rfl⟩
    have hsel2 : sd_spi_hw_select_card
        { card with
          info := { type := Sd_Type_Unknown, block_count := 0, block_size := 0, capacity := 0,
                    erase_sector_size := 0 } }
        = (Sd_Err_OK, card1) := hsel
    have hcmd82 : sd_card_send_cmd_req fuel card1
        { cmd := Sd_Cmd8_If_Cond, arg := 0x1AA, crc := 0x87, resp_type := Sd_Resp_Type_R7,
          retry := 5 } sd_resp_res.zero = Except.ok (err, resp, card2) := hcmd8
    unfold _card_identify
    simp only []
    rw [hsel2]
    simp only []
    rw [hcmd82]
    cases err <;> first | exact absurd rfl herr | rfl
  · intro p1 p2 a p3 p4 junk csd crc2 rest hc hp1 hp2 ha hp3 hp4 hj hjl hcsd hcrc hv hrx
    exact card_identify_legacy_ok fuel card p1 p2 a p3 p4 junk csd crc2 rest hc hp1 hp2 ha hp3 hp4
      hj hjl hcsd hcrc hv hrx

/-- C9 on a concrete legacy card (five idle bytes to CMD8, then `0x01`, `0x00`,
`0x00`, `0x00`, `0xFE`, the CSD of a 1 GiB card, two CRC bytes): identification
continues with the legacy path and returns OK, class SDSC v1, capacity 2^30. -/
theorem card_identify_cmd8_failure_witness :
    (_card_identify 0 (demo_card info_zero miso_legacy_card) =
      (match _check_card_maybe_v1 0
          (bus_step (selected { demo_card info_zero miso_legacy_card with info := info_unknown })
            5 (BusEvent.write (cmd_frame Sd_Cmd8_If_Cond 0x1AA 0x87) ::
                List.replicate 5 (BusEvent.read 1))) with
       | Except.error f => Except.error f
       | Except.ok (e, card3) => Except.ok (card_identify_finish e card3))) ∧
    ∃ cardF, _card_identify 0 (demo_card info_zero miso_legacy_card)
        = Except.ok (Sd_Err_OK, cardF) ∧
      cardF.info.type = Sd_Type_SDSC_V1 ∧ cardF.info.capacity = 2 ^ 30 ∧
      cardF.info.block_size = 512 := by
  have hsel : can_select { demo_card info_zero miso_legacy_card with info := info_unknown } :=
    ⟨good_if, _, _, rfl, rfl, rfl, rfl⟩
  have hrx : rx_next (demo_card info_zero miso_legacy_card)
      (List.replicate 5 0xFF ++ (acmd41_rx ([] ++ [(0, 0, 0x00)]) ++
        (answer 0 0x00 ++ (answer 0 0x00 ++ ([] ++ 0xFE :: (csd_v1_1g ++ ([0x12, 0x34] ++ []))))))) := by
    unfold rx_next; decide!
  have h8 := (send_cmd_timeout 0
    (selected { demo_card info_zero miso_legacy_card with info := info_unknown })
    Sd_Cmd8_If_Cond 0x1AA 0x87 5 Sd_Resp_Type_R7 sd_resp_res.zero _
    (has_transfer_selected hsel) (by norm_num) (by norm_num) hrx).1
  have hw := card_identify_cmd8_failure 0 (demo_card info_zero miso_legacy_card)
  refine ⟨(hw.1 _ _ _ _ (select_ok hsel) h8 (by decide)).1, ?_⟩
  obtain ⟨cardF, h1, h2, h3, _, _⟩ := hw.2 0 0 0x00 0 0 [] csd_v1_1g [0x12, 0x34] []
    ⟨good_if, _, _, rfl, rfl, rfl, rfl⟩ (by decide) (by decide) (by decide) (by decide)
    (by decide) (fun _ h => absurd h (List.not_mem_nil _)) (by decide) (by decide) (by decide)
    (by decide) hrx
  refine ⟨cardF, h1, h3, ?_, ?_⟩
  · rw [h2]; decide
  · rw [h2]; decide

/-! ### Single-block transfers -/

/-- A single-block read whose CMD17 is answered cleanly and whose data token is the
byte after `junk`, within the budget of 100 polls: OK, the block stored at
`buf + off`, the token polls, the data and the two CRC bytes consumed. -/
theorem read_single_block_ok (fuel : Nat) (card : sd_card) (lba : Nat) (buf : List Nat)
    (off pad : Nat) (junk data crc rest : List Nat)
    (ht : has_transfer card) (hp : pad < 5) (hj : junk.length < 100)
    (hne : ∀ x ∈ junk, x ≠ 0xFE) (hd : data.length = card.info.block_size)
    (hc : crc.length = 2)
    (hrx : rx_next card (answer pad 0x00 ++ (junk ++ 0xFE :: (data ++ (crc ++ rest))))) :
    _read_single_block fuel card lba buf off
      = Except.ok (Sd_Err_OK, mem_write buf off data,
          bus_step card ((pad + 1) + (junk.length + 1) + card.info.block_size + 2)
            (r1_exchange Sd_Cmd17_Rd_Single lba 1 pad ++
              (List.replicate (junk.length + 1) (BusEvent.read 1) ++
                [BusEvent.read card.info.block_size, BusEvent.read 2]))) ∧
    rx_next (bus_step card ((pad + 1) + (junk.length + 1) + card.info.block_size + 2)
            (r1_exchange Sd_Cmd17_Rd_Single lba 1 pad ++
              (List.replicate (junk.length + 1) (BusEvent.read 1) ++
                [BusEvent.read card.info.block_size, BusEvent.read 2]))) rest := by
  obtain ⟨e1, e2, e3⟩ := send_cmd_r1_answer fuel card Sd_Cmd17_Rd_Single lba 1 5
    sd_resp_res.zero pad 0x00 _ ht (by norm_num) hp (by norm_num) hrx
  obtain ⟨p1, p2⟩ := poll_byte_hit (fun x => decide (x ≠ 0xFE)) junk 0 99 0xFE _ _ e3 e2
    (fun x hx => by simpa using hne x hx) (by simp) (by omega)
  rw [bus_step_bus_step] at p1 p2
  have ht2 := has_transfer_bus_step ht ((pad + 1) + (junk.length + 1))
    (r1_exchange Sd_Cmd17_Rd_Single lba 1 pad ++
      List.replicate (junk.length + 1) (BusEvent.read 1))
  obtain ⟨d1, d2⟩ := rx_next_append [BusEvent.read card.info.block_size] p2
  rw [hd] at d1 d2
  rw [bus_step_bus_step] at d2
  obtain ⟨c1, c2⟩ := rx_next_append [BusEvent.read 2] d2
  rw [hc, bus_step_bus_step] at c2
  have hne0 : 99 + 1 - junk.length ≠ 0 := by omega
  simp only [List.append_assoc, List.singleton_append] at c2
  refine ⟨?_, c2⟩
  unfold _read_single_block
  rw [e1]
  simp only []
  rw [u8_zero_set 0x00 (by norm_num), if_neg (by simp [SD_FR_NONE]), p1]
  simp only [hne0, if_false]
  rw [show (bus_step card ((pad + 1) + (junk.length + 1))
      (r1_exchange Sd_Cmd17_Rd_Single lba 1 pad ++
        List.replicate (junk.length + 1) (BusEvent.read 1))).info.block_size
      = card.info.block_size from rfl]
  rw [read_bytes_ok ht2, d1, bus_step_bus_step]
  simp only []
  rw [read_bytes_ok (has_transfer_bus_step ht _ _), bus_step_bus_step]
  simp only [List.append_assoc, List.singleton_append]

/-- A single-block read whose CMD17 is answered cleanly but whose next 100 bytes
hold no data token: Timeout after exactly 100 single-byte polls, the caller's
buffer untouched. -/
theorem read_single_block_no_token (fuel : Nat) (card : sd_card) (lba : Nat) (buf : List Nat)
    (off pad : Nat) (junk rest : List Nat)
    (ht : has_transfer card) (hp : pad < 5) (hj : junk.length = 100)
    (hne : ∀ x ∈ junk, x ≠ 0xFE)
    (hrx : rx_next card (answer pad 0x00 ++ (junk ++ rest))) :
    _read_single_block fuel card lba buf off
      = Except.ok (Sd_Err_Timeout, buf,
          bus_step card ((pad + 1) + 100)
            (r1_exchange Sd_Cmd17_Rd_Single lba 1 pad ++
              List.replicate 100 (BusEvent.read 1))) := by
  obtain ⟨e1, e2, e3⟩ := send_cmd_r1_answer fuel card Sd_Cmd17_Rd_Single lba 1 5
    sd_resp_res.zero pad 0x00 _ ht (by norm_num) hp (by norm_num) hrx
  obtain ⟨b, p1⟩ := poll_byte_miss (fun x => decide (x ≠ 0xFE)) junk 0 99 rest _ e3 e2
    (fun x hx => by simpa using hne x hx) hj
  rw [bus_step_bus_step] at p1
  unfold _read_single_block
  rw [e1]
  simp only []
  rw [u8_zero_set 0x00 (by norm_num), if_neg (by simp [SD_FR_NONE]), p1]
  simp only [if_true]


theorem rx_next_peek (card : sd_card) (n : Nat) : rx_next card (rx_peek card n) := by
  unfold rx_next
  rw [rx_peek_length]

theorem rx_next_append_of {card : sd_card} {l1 l2 : List Nat} (e : List BusEvent)
    (h1 : rx_next card l1) (h2 : rx_next (bus_step card l1.length e) l2) :
    rx_next card (l1 ++ l2) := by
  unfold rx_next at h1 h2 ⊢
  rw [List.length_append, rx_peek_add card l1.length l2.length e, h1, h2]

/-- Any finite prefix of the stream can be extended by the `n` bytes that follow it. -/
theorem rx_next_extend {card : sd_card} {l : List Nat} (h : rx_next card l) (n : Nat) :
    ∃ more : List Nat, more.length = n ∧ rx_next card (l ++ more) :=
  ⟨rx_peek (bus_step card l.length []) n, rx_peek_length _ _,
    rx_next_append_of [] h (rx_next_peek _ _)⟩

/-- C11: in `_read_single_block`, once CMD17 has been answered with a clean R1 byte
(after fewer than 5 idle bytes): if none of the next 100 bytes is `0xFE` the call
returns Timeout after exactly 100 single-byte polls, with no further read and the
caller's buffer untouched; if the first `0xFE` is the `k`-th byte, for any
`1 ≤ k ≤ 100`, the call does not time out: it reads `k` token bytes, the block and
the two CRC bytes and returns OK. -/
theorem read_single_block_token_budget (fuel : Nat) (card : sd_card) (lba : Nat)
    (buf : List Nat) (off pad : Nat) (ht : has_transfer card) (hp : pad < 5) :
    (∀ junk : List Nat, junk.length = 100 → (∀ x ∈ junk, x ≠ 0xFE) →
      rx_next card (answer pad 0x00 ++ junk) →
      _read_single_block fuel card lba buf off
        = Except.ok (Sd_Err_Timeout, buf,
            bus_step card ((pad + 1) + 100)
              (r1_exchange Sd_Cmd17_Rd_Single lba 1 pad ++
                List.replicate 100 (BusEvent.read 1)))) ∧
    (∀ (k : Nat) (junk : List Nat), 1 ≤ k → k ≤ 100 → junk.length + 1 = k →
      (∀ x ∈ junk, x ≠ 0xFE) →
      rx_next card (answer pad 0x00 ++ (junk ++ [0xFE])) →
      ∃ data : List Nat, data.length = card.info.block_size ∧
        _read_single_block fuel card lba buf off
          = Except.ok (Sd_Err_OK, mem_write buf off data,
              bus_step card ((pad + 1) + k + card.info.block_size + 2)
                (r1_exchange Sd_Cmd17_Rd_Single lba 1 pad ++
                  (List.replicate k (BusEvent.read 1) ++
                    [BusEvent.read card.info.block_size, BusEvent.read 2])))) := by
  constructor
  · intro junk hj hne hrx
    have hrx2 : rx_next card (answer pad 0x00 ++ (junk ++ [])) := by
      rw [List.append_nil]; exact hrx
    exact read_single_block_no_token fuel card lba buf off pad junk [] ht hp hj hne hrx2
  · intro k junk _ hk hjk hne hrx
    subst hjk
    obtain ⟨more, hlen, hm⟩ := rx_next_extend hrx (card.info.block_size + 2)
    have hsplit : more = more.take card.info.block_size ++ (more.drop card.info.block_size ++ [])
        := by simp
    have hm2 : rx_next card (answer pad 0x00 ++ (junk ++ 0xFE ::
        (more.take card.info.block_size ++ (more.drop card.info.block_size ++ [])))) := by
      rw [← hsplit]
      simpa [List.append_assoc] using hm
    refine ⟨more.take card.info.block_size, by simp [hlen], ?_⟩
    exact (read_single_block_ok fuel card lba buf off pad junk _ _ [] ht hp (by omega) hne
      (by simp [hlen]) (by simp [hlen]) hm2).1

/-- C11 at concrete streams: on a line stuck at `0x00` the read of a 512-byte block
times out after 100 polls; on a stream with the token right after the R1 byte it
returns OK. -/
theorem read_single_block_token_budget_witness :
    _read_single_block 0 (demo_card legacy_info miso_stuck_low) 0 (List.replicate 512 0) 0
      = Except.ok (Sd_Err_Timeout, List.replicate 512 0,
          bus_step (demo_card legacy_info miso_stuck_low) ((0 + 1) + 100)
            (r1_exchange Sd_Cmd17_Rd_Single 0 1 0 ++ List.replicate 100 (BusEvent.read 1))) ∧
    ∃ data : List Nat, data.length = (demo_card legacy_info miso_read_blocks).info.block_size ∧
      _read_single_block 0 (demo_card legacy_info miso_read_blocks) 0 (List.replicate 512 0) 0
        = Except.ok (Sd_Err_OK, mem_write (List.replicate 512 0) 0 data,
            bus_step (demo_card legacy_info miso_read_blocks)
              ((0 + 1) + 1 + (demo_card legacy_info miso_read_blocks).info.block_size + 2)
              (r1_exchange Sd_Cmd17_Rd_Single 0 1 0 ++
                (List.replicate 1 (BusEvent.read 1) ++
                  [BusEvent.read (demo_card legacy_info miso_read_blocks).info.block_size,
                   BusEvent.read 2]))) :=
  ⟨(read_single_block_token_budget 0 (demo_card legacy_info miso_stuck_low) 0
      (List.replicate 512 0) 0 0 ⟨good_if, _, rfl, rfl⟩ (by decide)).1
      (List.replicate 100 0) (by decide!) (by decide!) (by unfold rx_next; decide!),
   (read_single_block_token_budget 0 (demo_card legacy_info miso_read_blocks) 0
      (List.replicate 512 0) 0 0 ⟨good_if, _, rfl, rfl⟩ (by decide)).2
      1 [] (by decide) (by decide) rfl (by simp) (by unfold rx_next; decide!)⟩

theorem tx_bytes_append (a b : List BusEvent) : tx_bytes (a ++ b) = tx_bytes a ++ tx_bytes b := by
  induction a with
  | nil => rfl
  | cons e a ih =>
    cases e <;> simp [tx_bytes, ih, List.append_assoc]

theorem tx_bytes_replicate_read (n m : Nat) :
    tx_bytes (List.replicate n (BusEvent.read m)) = [] := by
  induction n with
  | zero => rfl
  | succ n ih => simp [List.replicate_succ, tx_bytes, ih]

theorem tx_bytes_r1_exchange (cmd arg crc pad : Nat) :
    tx_bytes (r1_exchange cmd arg crc pad) = cmd_frame cmd arg crc := by
  simp [r1_exchange, tx_bytes, tx_bytes_replicate_read]

theorem tx_bytes_delay_events (card : sd_card) (us : Nat) :
    tx_bytes (delay_events card us) = [] := by
  unfold delay_events
  cases card.spi_if with
  | none => rfl
  | some ifc => cases h : ifc.delay_us <;> simp [h, tx_bytes]

theorem delay_events_bus_step (card : sd_card) (n : Nat) (e : List BusEvent) (us : Nat) :
    delay_events (bus_step card n e) us = delay_events card us := rfl

/-- The busy wait of a single-block write only receives and delays: whatever the
card shows, it returns, and it sends nothing. -/
theorem write_busy_wait_trace (n : Nat) : ∀ card : sd_card, has_transfer card →
    ∃ (err : sd_error) (m : Nat) (evs : List BusEvent),
      write_busy_wait n card = (err, bus_step card m evs) ∧ tx_bytes evs = [] := by
  induction n with
  | zero =>
    intro card ht
    refine ⟨Sd_Err_Timeout, 1, [BusEvent.read 1], ?_, rfl⟩
    unfold write_busy_wait
    rw [read_byte_ok ht]
  | succ n ih =>
    intro card ht
    unfold write_busy_wait
    rw [read_byte_ok ht]
    simp only []
    rw [udelay_bus_step]
    by_cases hb : card.miso card.rx_pos % 256 = 0x00
    · rw [if_pos hb]
      obtain ⟨err, m, evs, h1, h2⟩ := ih _ (has_transfer_bus_step ht 1
        ([BusEvent.read 1] ++ delay_events card 1000))
      refine ⟨err, 1 + m, ([BusEvent.read 1] ++ delay_events card 1000) ++ evs, ?_, ?_⟩
      · rw [h1, bus_step_bus_step]
      · rw [tx_bytes_append, tx_bytes_append, h2, tx_bytes_delay_events]; rfl
    · rw [if_neg hb]
      refine ⟨Sd_Err_OK, 1, [BusEvent.read 1] ++ delay_events card 1000, rfl, ?_⟩
      rw [tx_bytes_append, tx_bytes_delay_events]; rfl

/-- A single-block write whose CMD24 is answered cleanly returns, whatever the card
shows afterwards, and has sent: the command frame, the start token `0xFE`, the
block at `buf + off`, two `0xFF` filler bytes, and nothing more. -/
theorem write_single_block_sent (fuel : Nat) (card : sd_card) (lba : Nat) (buf : List Nat)
    (off pad : Nat) (rest : List Nat) (ht : has_transfer card) (hp : pad < 5)
    (hrx : rx_next card (answer pad 0x00 ++ rest)) :
    ∃ (err : sd_error) (m : Nat) (evs : List BusEvent),
      _write_single_block fuel card lba buf off = Except.ok (err, bus_step card m evs) ∧
      tx_bytes evs = cmd_frame Sd_Cmd24_Wr_Single_Blk lba 1 ++
        (0xFE :: ((buf.drop off).take card.info.block_size ++ [0xFF, 0xFF])) := by
  obtain ⟨e1, _, e3⟩ := send_cmd_r1_answer fuel card Sd_Cmd24_Wr_Single_Blk lba 1 5
    sd_resp_res.zero pad 0x00 _ ht (by norm_num) hp (by norm_num) hrx
  have htx : ∀ evs : List BusEvent, tx_bytes evs = [] →
      tx_bytes (r1_exchange Sd_Cmd24_Wr_Single_Blk lba 1 pad ++
        ([BusEvent.write [0xFE]] ++ ([BusEvent.write ((buf.drop off).take card.info.block_size)]
          ++ ([BusEvent.write [0xFF, 0xFF]] ++ evs))))
      = cmd_frame Sd_Cmd24_Wr_Single_Blk lba 1 ++
        (0xFE :: ((buf.drop off).take card.info.block_size ++ [0xFF, 0xFF])) := by
    intro evs h
    rw [tx_bytes_append, tx_bytes_r1_exchange]
    simp [tx_bytes_append, tx_bytes, h]
  unfold _write_single_block
  rw [e1]
  simp only []
  rw [u8_zero_set 0x00 (by norm_num), if_neg (by simp)]
  unfold sd_spi_hw_write_byte
  rw [write_bytes_ok e3, bus_step_bus_step]
  simp only []
  rw [write_bytes_ok (has_transfer_bus_step ht _ _), bus_step_bus_step]
  simp only []
  rw [write_bytes_ok (has_transfer_bus_step ht _ _), bus_step_bus_step]
  simp only []
  rw [read_byte_ok (has_transfer_bus_step ht _ _), bus_step_bus_step]
  simp only [List.append_assoc]
  split
  · exact ⟨_, _, _, rfl, htx [BusEvent.read 1] rfl⟩
  · obtain ⟨err, m, evs, h1, h2⟩ := write_busy_wait_trace 499 _ (has_transfer_bus_step ht
      (pad + 1 + 0 + 0 + 0 + 1)
      (r1_exchange Sd_Cmd24_Wr_Single_Blk lba 1 pad ++
        ([BusEvent.write [0xFE % 256]] ++ ([BusEvent.write ((buf.drop off).take
          (bus_step card (pad + 1 + 0) (r1_exchange Sd_Cmd24_Wr_Single_Blk lba 1 pad ++
            [BusEvent.write [0xFE % 256]])).info.block_size)]
          ++ ([BusEvent.write [0xFF, 0xFF]] ++ [BusEvent.read 1])))))
    rw [h1, bus_step_bus_step]
    refine ⟨_, _, _, rfl, ?_⟩
    have := htx ([BusEvent.read 1] ++ evs) (by rw [tx_bytes_append, h2]; rfl)
    simpa [List.append_assoc] using this

theorem write_data_phase_eq {fuel : Nat} {card : sd_card} {lba : Nat} {buf : List Nat}
    {off : Nat} {err : sd_error} {m : Nat} {evs : List BusEvent} {cmd arg crc : Nat}
    {sent : List Nat}
    (h1 : _write_single_block fuel card lba buf off = Except.ok (err, bus_step card m evs))
    (h2 : tx_bytes evs = cmd_frame cmd arg crc ++ sent) :
    write_data_phase fuel card lba buf off = sent := by
  unfold write_data_phase
  rw [h1]
  show (tx_bytes ((card.log ++ evs).drop card.log.length)).drop 6 = sent
  rw [List.drop_left, h2]
  rfl

theorem mem_write_region (buf : List Nat) (off : Nat) (data : List Nat) (h : off ≤ buf.length) :
    ((mem_write buf off data).drop off).take data.length = data := by
  unfold mem_write
  have hl : (buf.take off).length = off := by simp [h]
  rw [List.append_assoc]
  have hd : (buf.take off ++ (data ++ buf.drop (off + data.length))).drop off
      = data ++ buf.drop (off + data.length) := by
    conv => lhs; arg 1; rw [← hl]
    exact List.drop_left _ _
  rw [hd, List.take_left]

/-- C12: the data phase that `_write_single_block` transmits after its CMD24 frame
(CMD24 answered cleanly) is the token `0xFE`, the block `D` at `src + off_w` and two
`0xFF` filler bytes; and when exactly these bytes are what a card shows
`_read_single_block` after a clean R1 byte and fewer than 100 bytes other than
`0xFE`, the read returns OK with `D` stored at `dst + off_r`. -/
theorem single_block_round_trip (fuel : Nat) (cw cr : sd_card) (lba_w lba_r : Nat)
    (src dst : List Nat) (off_w off_r pw pr : Nat) (rest_w junk rest_r : List Nat)
    (htw : has_transfer cw) (htr : has_transfer cr)
    (hbs : cr.info.block_size = cw.info.block_size) (hpw : pw < 5) (hpr : pr < 5)
    (hsrc : off_w + cw.info.block_size ≤ src.length)
    (hrxw : rx_next cw (answer pw 0x00 ++ rest_w))
    (hj : junk.length < 100) (hne : ∀ x ∈ junk, x ≠ 0xFE) (hoff : off_r ≤ dst.length)
    (hrxr : rx_next cr (answer pr 0x00 ++
      (junk ++ (write_data_phase fuel cw lba_w src off_w ++ rest_r)))) :
    write_data_phase fuel cw lba_w src off_w
      = 0xFE :: ((src.drop off_w).take cw.info.block_size ++ [0xFF, 0xFF]) ∧
    (∃ cr1 : sd_card, _read_single_block fuel cr lba_r dst off_r
      = Except.ok (Sd_Err_OK,
          mem_write dst off_r ((src.drop off_w).take cw.info.block_size), cr1)) ∧
    ((mem_write dst off_r ((src.drop off_w).take cw.info.block_size)).drop off_r).take
        cr.info.block_size = (src.drop off_w).take cw.info.block_size := by
  obtain ⟨err, m, evs, w1, w2⟩ := write_single_block_sent fuel cw lba_w src off_w pw rest_w
    htw hpw hrxw
  have hphase := write_data_phase_eq w1 w2
  have hlen : ((src.drop off_w).take cw.info.block_size).length = cw.info.block_size := by
    rw [List.length_take, List.length_drop]
    omega
  refine ⟨hphase, ?_, ?_⟩
  · rw [hphase] at hrxr
    have hrx2 : rx_next cr (answer pr 0x00 ++ (junk ++ 0xFE ::
        ((src.drop off_w).take cw.info.block_size ++ ([0xFF, 0xFF] ++ rest_r)))) := by
      simpa [List.append_assoc] using hrxr
    exact ⟨_, (read_single_block_ok fuel cr lba_r dst off_r pr junk _ [0xFF, 0xFF] rest_r htr hpr
      hj hne (by rw [hlen, hbs]) rfl hrx2).1⟩
  · have := mem_write_region dst off_r ((src.drop off_w).take cw.info.block_size) hoff
    rw [hlen] at this
    rw [hbs]
    exact this

/-- C12 at a concrete block: the bytes 0..255 twice, written to block 7 of a card
with 512-byte blocks, and read back from a stream that shows a clean R1 byte, two
idle bytes and then the transmitted data phase. -/
theorem single_block_round_trip_witness :
    write_data_phase 0 (demo_card legacy_info miso_write_blocks) 7 sample_block 0
      = 0xFE :: ((sample_block.drop 0).take
          (demo_card legacy_info miso_write_blocks).info.block_size ++ [0xFF, 0xFF]) ∧
    (∃ cr1 : sd_card, _read_single_block 0
        (demo_card legacy_info (miso_of ([0x00, 0xFF, 0xFF] ++
          write_data_phase 0 (demo_card legacy_info miso_write_blocks) 7 sample_block 0)))
        7 (List.replicate 512 0) 0
      = Except.ok (Sd_Err_OK,
          mem_write (List.replicate 512 0) 0 ((sample_block.drop 0).take
            (demo_card legacy_info miso_write_blocks).info.block_size), cr1)) ∧
    ((mem_write (List.replicate 512 0) 0 ((sample_block.drop 0).take
        (demo_card legacy_info miso_write_blocks).info.block_size)).drop 0).take
        (demo_card legacy_info (miso_of ([0x00, 0xFF, 0xFF] ++
          write_data_phase 0 (demo_card legacy_info miso_write_blocks) 7 sample_block 0))).info.block_size
      = (sample_block.drop 0).take (demo_card legacy_info miso_write_blocks).info.block_size :=
  single_block_round_trip 0 (demo_card legacy_info miso_write_blocks)
    (demo_card legacy_info (miso_of ([0x00, 0xFF, 0xFF] ++
      write_data_phase 0 (demo_card legacy_info miso_write_blocks) 7 sample_block 0)))
    7 7 sample_block (List.replicate 512 0) 0 0 0 0 [] [0xFF, 0xFF] []
    ⟨good_if, _, rfl, rfl⟩ ⟨good_if, _, rfl, rfl⟩ rfl (by decide) (by decide) (by decide!)
    (by unfold rx_next; decide!) (by decide) (by decide) (by decide!)
    (by unfold rx_next; decide!)

/-! ### Transfers leave the session alone -/

theorem quiet_nil : quiet [] := fun _ h => by cases h

theorem quiet_append {a b : List BusEvent} (ha : quiet a) (hb : quiet b) : quiet (a ++ b) := by
  intro e he
  rcases List.mem_append.mp he with h | h
  · exact ha e h
  · exact hb e h

theorem transfers_only_refl (c : sd_card) : transfers_only c c :=
  ⟨rfl, rfl, rfl, rfl, rfl, id, [], (List.append_nil _).symm, quiet_nil⟩

theorem transfers_only_trans {a b c : sd_card} (h1 : transfers_only a b)
    (h2 : transfers_only b c) : transfers_only a c := by
  obtain ⟨a1, a2, a3, a4, a5, a6, e1, a7, a8⟩ := h1
  obtain ⟨b1, b2, b3, b4, b5, b6, e2, b7, b8⟩ := h2
  refine ⟨b1.trans a1, b2.trans a2, b3.trans a3, b4.trans a4, b5.trans a5,
    fun h => b6 (a6 h), e1 ++ e2, ?_, quiet_append a8 b8⟩
  rw [b7, a7, List.append_assoc]

theorem read_bytes_transfers (c : sd_card) (n : Nat) :
    transfers_only c (sd_spi_hw_read_bytes c n).2.2 := by
  unfold sd_spi_hw_read_bytes
  split
  · exact transfers_only_refl c
  · split
    · exact transfers_only_refl c
    · exact ⟨rfl, rfl, rfl, rfl, rfl, fun _ => rfl, [BusEvent.read n], rfl,
        fun e he => by rw [List.mem_singleton.mp he]; rfl⟩

theorem read_byte_transfers (c : sd_card) (old : Nat) :
    transfers_only c (sd_spi_hw_read_byte c old).2.2 :=
  read_bytes_transfers c 1

theorem write_bytes_transfers (c : sd_card) (buf : List Nat) :
    transfers_only c (sd_spi_hw_write_bytes c buf).2 := by
  unfold sd_spi_hw_write_bytes
  split
  · exact transfers_only_refl c
  · split
    · exact transfers_only_refl c
    · exact ⟨rfl, rfl, rfl, rfl, rfl, fun _ => rfl, [BusEvent.write buf], rfl,
        fun e he => by rw [List.mem_singleton.mp he]; rfl⟩

theorem write_byte_transfers (c : sd_card) (b : Nat) :
    transfers_only c (sd_spi_hw_write_byte c b).2 :=
  write_bytes_transfers c _

theorem udelay_transfers (c : sd_card) (us : Nat) : transfers_only c (sd_spi_hw_udelay c us) := by
  unfold sd_spi_hw_udelay
  split
  · exact transfers_only_refl c
  · split
    · exact ⟨rfl, rfl, rfl, rfl, rfl, id, [BusEvent.delay us], rfl,
        fun e he => by rw [List.mem_singleton.mp he]; rfl⟩
    · exact transfers_only_refl c

theorem send_dummy_transfers (n : Nat) : ∀ c : sd_card,
    transfers_only c (sd_spi_hw_send_dummy c n).2 := by
  induction n with
  | zero => intro c; exact transfers_only_refl c
  | succ n ih =>
    intro c
    unfold sd_spi_hw_send_dummy
    have h := write_byte_transfers c 0xFF
    generalize sd_spi_hw_write_byte c 0xFF = r at h
    obtain ⟨e, c1⟩ := r
    cases e <;> first | exact h | exact transfers_only_trans h (ih c1)

theorem poll_byte_transfers (cont : Nat → Bool) (n : Nat) : ∀ (byte0 : Nat) (c : sd_card),
    transfers_only c (poll_byte cont byte0 n c).2.2.2 := by
  induction n with
  | zero =>
    intro byte0 c
    unfold poll_byte
    have h := read_byte_transfers c byte0
    generalize sd_spi_hw_read_byte c byte0 = r at h
    obtain ⟨e, b, c1⟩ := r
    cases e <;> simp only [] <;> (try split) <;> exact h
  | succ n ih =>
    intro byte0 c
    unfold poll_byte
    have h := read_byte_transfers c byte0
    generalize sd_spi_hw_read_byte c byte0 = r at h
    obtain ⟨e, b, c1⟩ := r
    cases e <;> simp only [] <;> (try split) <;>
      first | exact h | exact transfers_only_trans h (ih b c1)

theorem wait_response_transfers (retry : Nat) (c : sd_card) :
    transfers_only c (wait_response retry c).2.2.2 := by
  unfold wait_response
  split
  · have h := read_byte_transfers c 0xff
    generalize sd_spi_hw_read_byte c 0xff = r at h
    obtain ⟨e, b, c1⟩ := r
    cases e <;> simp only [] <;> (try split) <;>
      first | exact h | exact transfers_only_trans h (poll_byte_transfers _ _ _ _)
  · exact poll_byte_transfers _ _ _ _

theorem wait_r1b_transfers (fuel : Nat) : ∀ (c : sd_card) (err : sd_error) (c1 : sd_card),
    wait_r1b fuel c = Except.ok (err, c1) → transfers_only c c1 := by
  induction fuel with
  | zero => intro c err c1 h; cases h
  | succ fuel ih =>
    intro c err c1
    unfold wait_r1b
    have h := read_byte_transfers c 0x00
    generalize sd_spi_hw_read_byte c 0x00 = r at h
    obtain ⟨e, b, c2⟩ := r
    cases e <;> simp only [] <;> (try split) <;> intro hh
    all_goals first
      | (injection hh with hh; injection hh with _ hh; subst hh; exact h)
      | (injection hh with hh; injection hh with _ hh; subst hh
         exact transfers_only_trans h (udelay_transfers _ _))
      | exact transfers_only_trans (transfers_only_trans h (udelay_transfers _ _)) (ih _ _ _ hh)

theorem send_cmd_transfers (fuel : Nat) (c : sd_card) (req : sd_cmd_req) (resp : sd_resp_res) :
    ∀ r, sd_card_send_cmd_req fuel c req resp = Except.ok r → transfers_only c r.2.2 := by
  unfold sd_card_send_cmd_req
  simp only []
  have h1 := write_bytes_transfers c [req.cmd % 256, (req.arg >>> 24) % 256,
    (req.arg >>> 16) % 256, (req.arg >>> 8) % 256, req.arg % 256, req.crc % 256]
  generalize sd_spi_hw_write_bytes c [req.cmd % 256, (req.arg >>> 24) % 256,
    (req.arg >>> 16) % 256, (req.arg >>> 8) % 256, req.arg % 256, req.crc % 256] = r1 at h1 ⊢
  obtain ⟨e1, c1⟩ := r1
  cases e1
  case Sd_Err_OK =>
    simp only []
    have h2 := transfers_only_trans h1 (wait_response_transfers req.retry c1)
    generalize wait_response req.retry c1 = r2 at h2 ⊢
    obtain ⟨e2, byte, retry, c2⟩ := r2
    cases e2
    case Sd_Err_OK =>
      simp only []
      split
      · intro r hh; cases hh; exact h2
      · split
        · intro r hh; cases hh; exact h2
        · split
          · intro r hh; cases hh; exact h2
          · have h3 := transfers_only_trans h2 (poll_byte_transfers (fun x => x ≠ 0xFE) 254 0 c2)
            generalize poll_byte (fun x => x ≠ 0xFE) 0 254 c2 = r3 at h3 ⊢
            obtain ⟨e3, b3, tr, c3⟩ := r3
            cases e3
            case Sd_Err_OK =>
              simp only []
              split
              · intro r hh; cases hh; exact h3
              · have h4 := transfers_only_trans h3 (read_bytes_transfers c3 16)
                generalize sd_spi_hw_read_bytes c3 16 = r4 at h4 ⊢
                obtain ⟨e4, d4, c4⟩ := r4
                cases e4
                case Sd_Err_OK =>
                  simp only []
                  have h5 := transfers_only_trans h4 (read_bytes_transfers c4 2)
                  generalize sd_spi_hw_read_bytes c4 2 = r5 at h5 ⊢
                  obtain ⟨e5, d5, c5⟩ := r5
                  cases e5 <;> (intro r hh; cases hh; exact h5)
                all_goals (intro r hh; cases hh; exact h4)
            all_goals (intro r hh; cases hh; exact h3)
        · have h3 := transfers_only_trans h2 (read_bytes_transfers c2 4)
          generalize sd_spi_hw_read_bytes c2 4 = r3 at h3 ⊢
          obtain ⟨e3, d3, c3⟩ := r3
          cases e3 <;> (intro r hh; cases hh; exact h3)
        · have h3 := transfers_only_trans h2 (read_bytes_transfers c2 4)
          generalize sd_spi_hw_read_bytes c2 4 = r3 at h3 ⊢
          obtain ⟨e3, d3, c3⟩ := r3
          cases e3 <;> (intro r hh; cases hh; exact h3)
        · intro r hh
          split at hh
          · cases hh
            rename_i err c3 hw
            exact transfers_only_trans h2 (wait_r1b_transfers fuel c2 err c3 hw)
          · cases hh
    all_goals (intro r hh; cases hh; exact h2)
  all_goals (intro r hh; cases hh; exact h1)

/-- A command whose response shape is not R1b returns, whatever the card shows. -/
theorem send_cmd_returns (fuel : Nat) (c : sd_card) (req : sd_cmd_req) (resp : sd_resp_res)
    (hr : req.resp_type ≠ Sd_Resp_Type_R1b) :
    ∃ r, sd_card_send_cmd_req fuel c req resp = Except.ok r := by
  unfold sd_card_send_cmd_req
  simp only []
  generalize sd_spi_hw_write_bytes c [req.cmd % 256, (req.arg >>> 24) % 256,
    (req.arg >>> 16) % 256, (req.arg >>> 8) % 256, req.arg % 256, req.crc % 256] = r1
  obtain ⟨e1, c1⟩ := r1
  cases e1
  case Sd_Err_OK =>
    simp only []
    generalize wait_response req.retry c1 = r2
    obtain ⟨e2, byte, retry, c2⟩ := r2
    cases e2
    case Sd_Err_OK =>
      simp only []
      split
      · exact ⟨_, rfl⟩
      · split
        · exact ⟨_, rfl⟩
        · split
          · exact ⟨_, rfl⟩
          · generalize poll_byte (fun x => x ≠ 0xFE) 0 254 c2 = r3
            obtain ⟨e3, b3, tr, c3⟩ := r3
            cases e3
            case Sd_Err_OK =>
              simp only []
              split
              · exact ⟨_, rfl⟩
              · generalize sd_spi_hw_read_bytes c3 16 = r4
                obtain ⟨e4, d4, c4⟩ := r4
                cases e4
                case Sd_Err_OK =>
                  simp only []
                  generalize sd_spi_hw_read_bytes c4 2 = r5
                  obtain ⟨e5, d5, c5⟩ := r5
                  cases e5 <;> exact ⟨_, rfl⟩
                all_goals exact ⟨_, rfl⟩
            all_goals exact ⟨_, rfl⟩
        · generalize sd_spi_hw_read_bytes c2 4 = r3
          obtain ⟨e3, d3, c3⟩ := r3
          cases e3 <;> exact ⟨_, rfl⟩
        · generalize sd_spi_hw_read_bytes c2 4 = r3
          obtain ⟨e3, d3, c3⟩ := r3
          cases e3 <;> exact ⟨_, rfl⟩
        · rename_i hrt
          exact absurd hrt hr
    all_goals exact ⟨_, rfl⟩
  all_goals exact ⟨_, rfl⟩

theorem write_busy_wait_transfers (n : Nat) : ∀ c : sd_card,
    transfers_only c (write_busy_wait n c).2 := by
  induction n with
  | zero =>
    intro c
    unfold write_busy_wait
    have h := read_byte_transfers c 0
    generalize sd_spi_hw_read_byte c 0 = r at h
    obtain ⟨e, b, c1⟩ := r
    cases e <;> exact h
  | succ n ih =>
    intro c
    unfold write_busy_wait
    have h := read_byte_transfers c 0
    generalize sd_spi_hw_read_byte c 0 = r at h
    obtain ⟨e, b, c1⟩ := r
    cases e <;> simp only [] <;> (try split) <;>
      first
        | exact h
        | exact transfers_only_trans h (udelay_transfers _ _)
        | exact transfers_only_trans (transfers_only_trans h (udelay_transfers _ _)) (ih _)

/-- A single-block read returns, whatever the card shows; it only transfers, and
the caller's region is either untouched or has one block stored at `off`. -/
theorem read_single_block_frame (fuel : Nat) (c : sd_card) (lba : Nat) (buf : List Nat)
    (off : Nat) :
    ∃ (err : sd_error) (buf1 : List Nat) (c1 : sd_card),
      _read_single_block fuel c lba buf off = Except.ok (err, buf1, c1) ∧ transfers_only c c1 ∧
      (buf1 = buf ∨ ∃ data, buf1 = mem_write buf off data) := by
  obtain ⟨r, hr⟩ := send_cmd_returns fuel c
    { cmd := Sd_Cmd17_Rd_Single, arg := lba, crc := 1, resp_type := Sd_Resp_Type_R1, retry := 5 }
    sd_resp_res.zero (fun h => by cases h)
  have h1 := send_cmd_transfers fuel c _ _ r hr
  unfold _read_single_block
  rw [hr]
  obtain ⟨e1, resp, c1⟩ := r
  cases e1
  case Sd_Err_OK =>
    simp only []
    split
    · exact ⟨_, _, _, rfl, h1, Or.inl rfl⟩
    · have h2 := transfers_only_trans h1 (poll_byte_transfers (fun x => x ≠ 0xFE) 99 0 c1)
      generalize poll_byte (fun x => x ≠ 0xFE) 0 99 c1 = r2 at h2 ⊢
      obtain ⟨e2, b2, tm, c2⟩ := r2
      cases e2
      case Sd_Err_OK =>
        simp only []
        split
        · exact ⟨_, _, _, rfl, h2, Or.inl rfl⟩
        · have h3 := transfers_only_trans h2 (read_bytes_transfers c2 c2.info.block_size)
          generalize sd_spi_hw_read_bytes c2 c2.info.block_size = r3 at h3 ⊢
          obtain ⟨e3, d3, c3⟩ := r3
          cases e3
          case Sd_Err_OK =>
            simp only []
            have h4 := transfers_only_trans h3 (read_bytes_transfers c3 2)
            generalize sd_spi_hw_read_bytes c3 2 = r4 at h4 ⊢
            obtain ⟨e4, d4, c4⟩ := r4
            cases e4 <;> exact ⟨_, _, _, rfl, h4, Or.inr ⟨_, rfl⟩⟩
          all_goals exact ⟨_, _, _, rfl, h3, Or.inl rfl⟩
      all_goals exact ⟨_, _, _, rfl, h2, Or.inl rfl⟩
  all_goals exact ⟨_, _, _, rfl, h1, Or.inl rfl⟩

/-- A single-block write returns, whatever the card shows, and only transfers. -/
theorem write_single_block_frame (fuel : Nat) (c : sd_card) (lba : Nat) (buf : List Nat)
    (off : Nat) :
    ∃ (err : sd_error) (c1 : sd_card),
      _write_single_block fuel c lba buf off = Except.ok (err, c1) ∧ transfers_only c c1 := by
  obtain ⟨r, hr⟩ := send_cmd_returns fuel c
    { cmd := Sd_Cmd24_Wr_Single_Blk, arg := lba, crc := 1, resp_type := Sd_Resp_Type_R1,
      retry := 5 }
    sd_resp_res.zero (fun h => by cases h)
  have h1 := send_cmd_transfers fuel c _ _ r hr
  unfold _write_single_block
  rw [hr]
  obtain ⟨e1, resp, c1⟩ := r
  cases e1
  case Sd_Err_OK =>
    simp only []
    split
    · exact ⟨_, _, rfl, h1⟩
    · have h2 := transfers_only_trans h1 (write_byte_transfers c1 0xFE)
      generalize sd_spi_hw_write_byte c1 0xFE = r2 at h2 ⊢
      obtain ⟨e2, c2⟩ := r2
      cases e2
      case Sd_Err_OK =>
        simp only []
        have h3 := transfers_only_trans h2
          (write_bytes_transfers c2 ((buf.drop off).take c2.info.block_size))
        generalize sd_spi_hw_write_bytes c2 ((buf.drop off).take c2.info.block_size) = r3
          at h3 ⊢
        obtain ⟨e3, c3⟩ := r3
        cases e3
        case Sd_Err_OK =>
          simp only []
          have h4 := transfers_only_trans h3 (write_bytes_transfers c3 [0xFF, 0xFF])
          generalize sd_spi_hw_write_bytes c3 [0xFF, 0xFF] = r4 at h4 ⊢
          obtain ⟨e4, c4⟩ := r4
          cases e4
          case Sd_Err_OK =>
            simp only []
            have h5 := transfers_only_trans h4 (read_byte_transfers c4 0)
            generalize sd_spi_hw_read_byte c4 0 = r5 at h5 ⊢
            obtain ⟨e5, b5, c5⟩ := r5
            cases e5
            case Sd_Err_OK =>
              simp only []
              split
              · exact ⟨_, _, rfl, h5⟩
              · exact ⟨_, _, rfl, transfers_only_trans h5 (write_busy_wait_transfers 499 c5)⟩
            all_goals exact ⟨_, _, rfl, h5⟩
          all_goals exact ⟨_, _, rfl, h4⟩
        all_goals exact ⟨_, _, rfl, h3⟩
      all_goals exact ⟨_, _, rfl, h2⟩
  all_goals exact ⟨_, _, rfl, h1⟩

/-! ### The block loops -/

theorem read_single_block_eq_frame {fuel : Nat} {c : sd_card} {lba : Nat} {buf : List Nat}
    {off : Nat} {e : sd_error} {b1 : List Nat} {c1 : sd_card}
    (h : _read_single_block fuel c lba buf off = Except.ok (e, b1, c1)) :
    transfers_only c c1 ∧ (b1 = buf ∨ ∃ data, b1 = mem_write buf off data) := by
  obtain ⟨e2, b2, c2, h1, h2, h3⟩ := read_single_block_frame fuel c lba buf off
  rw [h] at h1
  cases h1
  exact ⟨h2, h3⟩

theorem write_single_block_eq_frame {fuel : Nat} {c : sd_card} {lba : Nat} {buf : List Nat}
    {off : Nat} {e : sd_error} {c1 : sd_card}
    (h : _write_single_block fuel c lba buf off = Except.ok (e, c1)) :
    transfers_only c c1 := by
  obtain ⟨e2, c2, h1, h2⟩ := write_single_block_frame fuel c lba buf off
  rw [h] at h1
  cases h1
  exact h2

theorem read_blocks_prefix (fuel lba : Nat) (cs : Nat → sd_card) (bs : Nat → List Nat) :
    ∀ (m i rem : Nat),
      (∀ k, i ≤ k → k < i + m →
        _read_single_block fuel (cs k) ((lba + k) % 2 ^ 32) (bs k)
          ((k * (cs k).info.block_size) % 2 ^ 32)
          = Except.ok (Sd_Err_OK, bs (k + 1), cs (k + 1))) →
      read_blocks fuel lba (m + rem) i (cs i) (bs i)
        = read_blocks fuel lba rem (i + m) (cs (i + m)) (bs (i + m)) := by
  intro m
  induction m with
  | zero => intro i rem _; simp
  | succ m ih =>
    intro i rem h
    have h0 := h i (le_refl _) (by omega)
    rw [show m + 1 + rem = (m + rem) + 1 by omega]
    conv => lhs; unfold read_blocks
    rw [h0]
    simp only []
    rw [ih (i + 1) rem (fun k hk1 hk2 => h k (by omega) (by omega))]
    rw [show i + 1 + m = i + (m + 1) by omega]

theorem read_blocks_fail {fuel lba rem i : Nat} {c : sd_card} {buf : List Nat} {e : sd_error}
    {bf : List Nat} {cf : sd_card}
    (h : _read_single_block fuel c ((lba + i) % 2 ^ 32) buf ((i * c.info.block_size) % 2 ^ 32)
      = Except.ok (e, bf, cf)) (he : e ≠ Sd_Err_OK) :
    read_blocks fuel lba (rem + 1) i c buf = Except.ok (e, bf, cf) := by
  unfold read_blocks
  rw [h]
  cases e <;> first | exact absurd rfl he | rfl

theorem write_blocks_prefix (fuel lba : Nat) (buf : List Nat) (cs : Nat → sd_card) :
    ∀ (m i rem : Nat),
      (∀ k, i ≤ k → k < i + m →
        _write_single_block fuel (cs k) ((lba + k) % 2 ^ 32) buf
          ((k * (cs k).info.block_size) % 2 ^ 32) = Except.ok (Sd_Err_OK, cs (k + 1))) →
      write_blocks fuel lba buf (m + rem) i (cs i)
        = write_blocks fuel lba buf rem (i + m) (cs (i + m)) := by
  intro m
  induction m with
  | zero => intro i rem _; simp
  | succ m ih =>
    intro i rem h
    have h0 := h i (le_refl _) (by omega)
    rw [show m + 1 + rem = (m + rem) + 1 by omega]
    conv => lhs; unfold write_blocks
    rw [h0]
    simp only []
    rw [ih (i + 1) rem (fun k hk1 hk2 => h k (by omega) (by omega))]
    rw [show i + 1 + m = i + (m + 1) by omega]

theorem write_blocks_fail {fuel lba rem i : Nat} {c : sd_card} {buf : List Nat} {e : sd_error}
    {cf : sd_card}
    (h : _write_single_block fuel c ((lba + i) % 2 ^ 32) buf ((i * c.info.block_size) % 2 ^ 32)
      = Except.ok (e, cf)) (he : e ≠ Sd_Err_OK) :
    write_blocks fuel lba buf (rem + 1) i c = Except.ok (e, cf) := by
  unfold write_blocks
  rw [h]
  cases e <;> first | exact absurd rfl he | rfl

theorem conv_req_to_lba_count {c : sd_card} {req : sd_lba_req} {oparg : sd_lba_oparg}
    (h : _conv_req_to_lba c req = Except.ok oparg) :
    oparg.lba_count = (req.len % 2 ^ 32) / c.info.block_size := by
  unfold _conv_req_to_lba udiv at h
  by_cases hb : c.info.block_size = 0
  · simp [hb] at h
    cases h
  · by_cases ht : c.info.type = Sd_Type_SDHC ∨ c.info.type = Sd_Type_SDXC
    · simp only [if_neg hb, if_pos ht] at h
      cases h
      rfl
    · simp only [if_neg hb, if_neg ht] at h
      cases h
      rfl

/-- The session state after the checks of `sd_card_read` have passed: the call is the
block loop between a select and a deselect. -/
theorem sd_card_read_loop {fuel : Nat} {c : sd_card} {addr len : Nat} {b : List Nat}
    {oparg : sd_lba_oparg} (hinit : c.is_inited = true) (hsel : can_select c)
    (hlen : len % 2 ^ 32 ≠ 0) (hbs : c.info.block_size ≠ 0)
    (hmod : (len % 2 ^ 32) % c.info.block_size = 0)
    (hconv : _conv_req_to_lba c { offset := addr % 2 ^ 64, len := len % 2 ^ 32 }
      = Except.ok oparg)
    {e : sd_error} {bf : List Nat} {cf : sd_card}
    (hloop : read_blocks fuel oparg.lba_addr oparg.lba_count 0 (selected c) b
      = Except.ok (e, bf, cf)) :
    sd_card_read fuel (some c) addr (some b) len
      = Except.ok (e, some (sd_spi_hw_deselect_card cf).2, some bf) := by
  unfold sd_card_read
  simp only []
  rw [if_neg hlen, if_neg (by simp [hinit])]
  unfold umod
  rw [if_neg hbs]
  simp only [hmod, ne_eq, not_true_eq_false, if_false]
  rw [hconv]
  simp only []
  rw [select_ok hsel]
  simp only []
  rw [hloop]

theorem sd_card_write_loop {fuel : Nat} {c : sd_card} {addr len : Nat} {b : List Nat}
    {oparg : sd_lba_oparg} (hinit : c.is_inited = true) (hsel : can_select c)
    (hlen : len % 2 ^ 32 ≠ 0) (hbs : c.info.block_size ≠ 0)
    (hmod : (len % 2 ^ 32) % c.info.block_size = 0)
    (hconv : _conv_req_to_lba c { offset := addr % 2 ^ 64, len := len % 2 ^ 32 }
      = Except.ok oparg)
    {e : sd_error} {cf : sd_card}
    (hloop : write_blocks fuel oparg.lba_addr b oparg.lba_count 0 (selected c)
      = Except.ok (e, cf)) :
    sd_card_write fuel (some c) addr (some b) len
      = Except.ok (e, some (sd_spi_hw_deselect_card cf).2) := by
  unfold sd_card_write
  simp only []
  rw [if_neg hlen, if_neg (by simp [hinit])]
  unfold umod
  rw [if_neg hbs]
  simp only [hmod, ne_eq, not_true_eq_false, if_false]
  rw [hconv]
  simp only []
  rw [select_ok hsel]
  simp only []
  rw [hloop]

theorem deselect_after_transfers {c cf : sd_card} (hsel : can_select c)
    (h : transfers_only (selected c) cf) :
    (sd_spi_hw_deselect_card cf).2 = deselected cf := by
  obtain ⟨ifc, ctl, _, h1, h2, _, _⟩ := hsel
  have hs : cf.spi_if = some ifc := h.1.trans h1
  rw [deselect_ok ifc ctl hs h2]

theorem mem_write_take (buf : List Nat) (off : Nat) (data : List Nat) (p : Nat)
    (hp : p ≤ off) (ho : off ≤ buf.length) :
    (mem_write buf off data).take p = buf.take p := by
  unfold mem_write
  rw [List.append_assoc, List.take_append_of_le_length (by simp; omega), List.take_take]
  congr 1
  omega

theorem mem_write_length_ge (buf : List Nat) (off : Nat) (data : List Nat)
    (ho : off ≤ buf.length) : buf.length ≤ (mem_write buf off data).length := by
  unfold mem_write
  simp only [List.length_append, List.length_take, List.length_drop]
  omega

theorem chain_transfers (cs : Nat → sd_card) (j : Nat)
    (hstep : ∀ k < j, transfers_only (cs k) (cs (k + 1))) :
    ∀ k ≤ j, transfers_only (cs 0) (cs k) := by
  intro k
  induction k with
  | zero => intro _; exact transfers_only_refl _
  | succ k ih =>
    intro hk
    exact transfers_only_trans (ih (by omega)) (hstep k (by omega))

/-- Along a run of successful single-block reads at offsets `0, bsz, 2 * bsz, ...`
the caller's region only grows blockwise: after `m` blocks its first `k * bsz`
bytes, for `k ≤ m`, are what they were after `k` blocks. -/
theorem read_chain_buffer (fuel bsz : Nat) (arg : Nat → Nat) (cs : Nat → sd_card)
    (bs : Nat → List Nat) (j : Nat)
    (hok : ∀ k < j, _read_single_block fuel (cs k) (arg k) (bs k) (k * bsz)
      = Except.ok (Sd_Err_OK, bs (k + 1), cs (k + 1)))
    (hlen : j * bsz ≤ (bs 0).length) :
    ∀ m ≤ j, (bs 0).length ≤ (bs m).length ∧
      ∀ k ≤ m, (bs m).take (k * bsz) = (bs k).take (k * bsz) := by
  intro m
  induction m with
  | zero =>
    intro _
    refine ⟨le_refl _, fun k hk => ?_⟩
    have : k = 0 := by omega
    subst this
    rfl
  | succ m ih =>
    intro hm
    obtain ⟨l1, l2⟩ := ih (by omega)
    have hmj : m * bsz ≤ j * bsz := Nat.mul_le_mul_right _ (by omega)
    have hoff : m * bsz ≤ (bs m).length := by omega
    rcases (read_single_block_eq_frame (hok m (by omega))).2 with h | ⟨data, h⟩
    · rw [h]
      refine ⟨l1, fun k hk => ?_⟩
      by_cases hk2 : k = m + 1
      · subst hk2; rw [h]
      · exact l2 k (by omega)
    · refine ⟨?_, fun k hk => ?_⟩
      · rw [h]
        exact le_trans l1 (mem_write_length_ge _ _ _ hoff)
      · by_cases hk2 : k = m + 1
        · subst hk2; rfl
        · have hkm : k * bsz ≤ m * bsz := Nat.mul_le_mul_right _ (by omega)
          rw [h, mem_write_take _ _ _ _ hkm hoff]
          exact l2 k (by omega)

/-- C13: `sd_card_read` and `sd_card_write` over `n = len / block_size` blocks, on an
initialised session whose select succeeds.  Let `cs k` (and, for a read, `bs k`) be
the session (and the caller's buffer) after `k` successful single-block calls.  If
blocks `0..j-1` succeed and block `j < n` fails with `e`, the operation returns
exactly `e` and the session it leaves is the one the failing call left, deselected:
no call for a later block was made; for a read the first `k * block_size` bytes of
the returned buffer, for every `k ≤ j`, are those stored by the first `k` transfers.
If all `n` blocks succeed it returns OK, leaving the session as it is after exactly
`n` single-block calls, deselected. -/
theorem read_write_first_failure (fuel : Nat) (c : sd_card) (addr len : Nat)
    (oparg : sd_lba_oparg) (hinit : c.is_inited = true) (hsel : can_select c)
    (hlen : len % 2 ^ 32 ≠ 0) (hbs : c.info.block_size ≠ 0)
    (hmod : (len % 2 ^ 32) % c.info.block_size = 0)
    (hconv : _conv_req_to_lba c { offset := addr % 2 ^ 64, len := len % 2 ^ 32 }
      = Except.ok oparg) :
    oparg.lba_count = (len % 2 ^ 32) / c.info.block_size ∧
    (∀ (b : List Nat) (cs : Nat → sd_card) (bs : Nat → List Nat),
      cs 0 = selected c → bs 0 = b →
      (∀ (j : Nat) (e : sd_error) (bf : List Nat) (cf : sd_card), j < oparg.lba_count →
        (∀ k < j, _read_single_block fuel (cs k) ((oparg.lba_addr + k) % 2 ^ 32) (bs k)
          ((k * c.info.block_size) % 2 ^ 32) = Except.ok (Sd_Err_OK, bs (k + 1), cs (k + 1))) →
        _read_single_block fuel (cs j) ((oparg.lba_addr + j) % 2 ^ 32) (bs j)
          ((j * c.info.block_size) % 2 ^ 32) = Except.ok (e, bf, cf) →
        e ≠ Sd_Err_OK →
        sd_card_read fuel (some c) addr (some b) len
          = Except.ok (e, some (deselected cf), some bf) ∧
        (j * c.info.block_size ≤ b.length →
          ∀ k ≤ j, bf.take (k * c.info.block_size) = (bs k).take (k * c.info.block_size))) ∧
      ((∀ k < oparg.lba_count,
          _read_single_block fuel (cs k) ((oparg.lba_addr + k) % 2 ^ 32) (bs k)
            ((k * c.info.block_size) % 2 ^ 32)
            = Except.ok (Sd_Err_OK, bs (k + 1), cs (k + 1))) →
        sd_card_read fuel (some c) addr (some b) len
          = Except.ok (Sd_Err_OK, some (deselected (cs oparg.lba_count)),
              some (bs oparg.lba_count)))) ∧
    (∀ (b : List Nat) (cs : Nat → sd_card), cs 0 = selected c →
      (∀ (j : Nat) (e : sd_error) (cf : sd_card), j < oparg.lba_count →
        (∀ k < j, _write_single_block fuel (cs k) ((oparg.lba_addr + k) % 2 ^ 32) b
          ((k * c.info.block_size) % 2 ^ 32) = Except.ok (Sd_Err_OK, cs (k + 1))) →
        _write_single_block fuel (cs j) ((oparg.lba_addr + j) % 2 ^ 32) b
          ((j * c.info.block_size) % 2 ^ 32) = Except.ok (e, cf) →
        e ≠ Sd_Err_OK →
        sd_card_write fuel (some c) addr (some b) len = Except.ok (e, some (deselected cf))) ∧
      ((∀ k < oparg.lba_count,
          _write_single_block fuel (cs k) ((oparg.lba_addr + k) % 2 ^ 32) b
            ((k * c.info.block_size) % 2 ^ 32) = Except.ok (Sd_Err_OK, cs (k + 1))) →
        sd_card_write fuel (some c) addr (some b) len
          = Except.ok (Sd_Err_OK, some (deselected (cs oparg.lba_count))))) := by
  have hcount := conv_req_to_lba_count hconv
  simp only [Nat.mod_mod] at hcount
  have hwrap : ∀ k, k < oparg.lba_count →
      (k * c.info.block_size) % 2 ^ 32 = k * c.info.block_size := by
    intro k hk
    apply Nat.mod_eq_of_lt
    have h1 : oparg.lba_count * c.info.block_size ≤ len % 2 ^ 32 := by
      rw [hcount]; exact Nat.div_mul_le_self _ _
    have h2 : k * c.info.block_size ≤ oparg.lba_count * c.info.block_size :=
      Nat.mul_le_mul_right _ (by omega)
    have h3 : len % 2 ^ 32 < 2 ^ 32 := Nat.mod_lt _ (by norm_num)
    omega
  refine ⟨hcount, ?_, ?_⟩
  · intro b cs bs hcs0 hbs0
    constructor
    · intro j e bf cf hj hok hfail hne
      have hstep : ∀ k < j, transfers_only (cs k) (cs (k + 1)) :=
        fun k hk => (read_single_block_eq_frame (hok k hk)).1
      have hchain := chain_transfers cs j hstep
      have hinfo : ∀ k ≤ j, (cs k).info.block_size = c.info.block_size := by
        intro k hk
        have := (hchain k hk).2.1
        rw [this, hcs0]
        rfl
      have hpre := read_blocks_prefix fuel oparg.lba_addr cs bs j 0 (oparg.lba_count - j)
        (fun k _ hk => by rw [hinfo k (by omega)]; exact hok k (by omega))
      have hfl : read_blocks fuel oparg.lba_addr (oparg.lba_count - j - 1 + 1) j (cs j) (bs j)
          = Except.ok (e, bf, cf) :=
        read_blocks_fail (by rw [hinfo j (le_refl _)]; exact hfail) hne
      rw [show j + (oparg.lba_count - j) = oparg.lba_count by omega, Nat.zero_add,
        show oparg.lba_count - j = oparg.lba_count - j - 1 + 1 by omega, hfl, hcs0, hbs0] at hpre
      have htf : transfers_only (selected c) cf := by
        have := transfers_only_trans (hchain j (le_refl _)) (read_single_block_eq_frame hfail).1
        rwa [hcs0] at this
      refine ⟨?_, ?_⟩
      · rw [sd_card_read_loop hinit hsel hlen hbs hmod hconv hpre,
          deselect_after_transfers hsel htf]
      · intro hb k hk
        have hok2 : ∀ k < j, _read_single_block fuel (cs k) ((oparg.lba_addr + k) % 2 ^ 32)
            (bs k) (k * c.info.block_size) = Except.ok (Sd_Err_OK, bs (k + 1), cs (k + 1)) := by
          intro k hk
          have := hok k hk
          rwa [hwrap k (by omega)] at this
        obtain ⟨l1, l2⟩ := read_chain_buffer fuel c.info.block_size
          (fun k => (oparg.lba_addr + k) % 2 ^ 32) cs bs j hok2 (by rw [hbs0]; exact hb) j
          (le_refl _)
        rw [hwrap j hj] at hfail
        rcases (read_single_block_eq_frame hfail).2 with h | ⟨data, h⟩
        · rw [h]; exact l2 k hk
        · have hkj : k * c.info.block_size ≤ j * c.info.block_size :=
            Nat.mul_le_mul_right _ hk
          rw [h, mem_write_take _ _ _ _ hkj (by rw [hbs0] at l1; omega)]
          exact l2 k hk
    · intro hok
      have hstep : ∀ k < oparg.lba_count, transfers_only (cs k) (cs (k + 1)) :=
        fun k hk => (read_single_block_eq_frame (hok k hk)).1
      have hchain := chain_transfers cs oparg.lba_count hstep
      have hinfo : ∀ k ≤ oparg.lba_count, (cs k).info.block_size = c.info.block_size := by
        intro k hk
        have := (hchain k hk).2.1
        rw [this, hcs0]
        rfl
      have hpre := read_blocks_prefix fuel oparg.lba_addr cs bs oparg.lba_count 0 0
        (fun k _ hk => by rw [hinfo k (by omega)]; exact hok k (by omega))
      rw [Nat.add_zero, Nat.zero_add, hcs0, hbs0] at hpre
      have hend : read_blocks fuel oparg.lba_addr 0 oparg.lba_count (cs oparg.lba_count)
          (bs oparg.lba_count)
          = Except.ok (Sd_Err_OK, bs oparg.lba_count, cs oparg.lba_count) := by
        unfold read_blocks; rfl
      rw [hend] at hpre
      have htf : transfers_only (selected c) (cs oparg.lba_count) := by
        have := hchain oparg.lba_count (le_refl _)
        rwa [hcs0] at this
      rw [sd_card_read_loop hinit hsel hlen hbs hmod hconv hpre,
        deselect_after_transfers hsel htf]
  · intro b cs hcs0
    constructor
    · intro j e cf hj hok hfail hne
      have hstep : ∀ k < j, transfers_only (cs k) (cs (k + 1)) :=
        fun k hk => write_single_block_eq_frame (hok k hk)
      have hchain := chain_transfers cs j hstep
      have hinfo : ∀ k ≤ j, (cs k).info.block_size = c.info.block_size := by
        intro k hk
        have := (hchain k hk).2.1
        rw [this, hcs0]
        rfl
      have hpre := write_blocks_prefix fuel oparg.lba_addr b cs j 0 (oparg.lba_count - j)
        (fun k _ hk => by rw [hinfo k (by omega)]; exact hok k (by omega))
      have hfl : write_blocks fuel oparg.lba_addr b (oparg.lba_count - j - 1 + 1) j (cs j)
          = Except.ok (e, cf) :=
        write_blocks_fail (by rw [hinfo j (le_refl _)]; exact hfail) hne
      rw [show j + (oparg.lba_count - j) = oparg.lba_count by omega, Nat.zero_add,
        show oparg.lba_count - j = oparg.lba_count - j - 1 + 1 by omega, hfl, hcs0] at hpre
      have htf : transfers_only (selected c) cf := by
        have := transfers_only_trans (hchain j (le_refl _)) (write_single_block_eq_frame hfail)
        rwa [hcs0] at this
      rw [sd_card_write_loop hinit hsel hlen hbs hmod hconv hpre,
        deselect_after_transfers hsel htf]
    · intro hok
      have hstep : ∀ k < oparg.lba_count, transfers_only (cs k) (cs (k + 1)) :=
        fun k hk => write_single_block_eq_frame (hok k hk)
      have hchain := chain_transfers cs oparg.lba_count hstep
      have hinfo : ∀ k ≤ oparg.lba_count, (cs k).info.block_size = c.info.block_size := by
        intro k hk
        have := (hchain k hk).2.1
        rw [this, hcs0]
        rfl
      have hpre := write_blocks_prefix fuel oparg.lba_addr b cs oparg.lba_count 0 0
        (fun k _ hk => by rw [hinfo k (by omega)]; exact hok k (by omega))
      rw [Nat.add_zero, Nat.zero_add, hcs0] at hpre
      have hend : write_blocks fuel oparg.lba_addr b 0 oparg.lba_count (cs oparg.lba_count)
          = Except.ok (Sd_Err_OK, cs oparg.lba_count) := by
        unfold write_blocks; rfl
      rw [hend] at hpre
      have htf : transfers_only (selected c) (cs oparg.lba_count) := by
        have := hchain oparg.lba_count (le_refl _)
        rwa [hcs0] at this
      rw [sd_card_write_loop hinit hsel hlen hbs hmod hconv hpre,
        deselect_after_transfers hsel htf]

theorem rx_next_bus_step_zero {card : sd_card} {l : List Nat} (e : List BusEvent)
    (h : rx_next card l) : rx_next (bus_step card 0 e) l := h

/-- The busy wait of a single-block write, with budget left, on a card that shows a
non-zero byte at once: OK after one poll and one delay. -/
theorem write_busy_wait_ready (n : Nat) (card : sd_card) (busy : Nat) (rest : List Nat)
    (ht : has_transfer card) (hb : busy ≠ 0x00) (hrx : rx_next card (busy :: rest)) :
    write_busy_wait (n + 1) card
      = (Sd_Err_OK, bus_step card 1 ([BusEvent.read 1] ++ delay_events card 1000)) ∧
    rx_next (bus_step card 1 ([BusEvent.read 1] ++ delay_events card 1000)) rest := by
  obtain ⟨h1, h2⟩ := rx_next_cons ([BusEvent.read 1] ++ delay_events card 1000) hrx
  refine ⟨?_, h2⟩
  unfold write_busy_wait
  rw [read_byte_ok ht]
  simp only []
  rw [h1, if_neg hb, udelay_bus_step]

/-- A single-block write on a card that answers CMD24 cleanly, accepts the data
(`xxx00101`) and is ready at the first busy poll: OK. -/
theorem write_single_block_ok (fuel : Nat) (card : sd_card) (lba : Nat) (buf : List Nat)
    (off pad resp busy : Nat) (rest : List Nat) (ht : has_transfer card) (hp : pad < 5)
    (hresp : (resp &&& 0x1F) = 0x05) (hbusy : busy ≠ 0x00)
    (hrx : rx_next card (answer pad 0x00 ++ resp :: busy :: rest)) :
    _write_single_block fuel card lba buf off
      = Except.ok (Sd_Err_OK, bus_step card ((pad + 1) + 2)
          (write_block_events lba pad ((buf.drop off).take card.info.block_size) ++
            delay_events card 1000)) ∧
    rx_next (bus_step card ((pad + 1) + 2)
      (write_block_events lba pad ((buf.drop off).take card.info.block_size) ++
        delay_events card 1000)) rest := by
  obtain ⟨e1, e2, e3⟩ := send_cmd_r1_answer fuel card Sd_Cmd24_Wr_Single_Blk lba 1 5
    sd_resp_res.zero pad 0x00 _ ht (by norm_num) hp (by norm_num) hrx
  have hrx4 : rx_next (bus_step card (pad + 1 + 0 + 0 + 0)
      (r1_exchange Sd_Cmd24_Wr_Single_Blk lba 1 pad ++ [BusEvent.write [0xFE % 256]] ++
        [BusEvent.write ((buf.drop off).take card.info.block_size)] ++
        [BusEvent.write [0xFF, 0xFF]])) (resp :: busy :: rest) := e2
  obtain ⟨r1, r2⟩ := rx_next_cons [BusEvent.read 1] hrx4
  rw [bus_step_bus_step] at r2
  obtain ⟨w1, w2⟩ := write_busy_wait_ready 498 _ busy rest (has_transfer_bus_step ht _ _) hbusy r2
  rw [bus_step_bus_step] at w1 w2
  have hev : r1_exchange Sd_Cmd24_Wr_Single_Blk lba 1 pad ++ [BusEvent.write [0xFE % 256]] ++
        [BusEvent.write ((buf.drop off).take card.info.block_size)] ++
        [BusEvent.write [0xFF, 0xFF]] ++ [BusEvent.read 1] ++
        ([BusEvent.read 1] ++ delay_events (bus_step card (pad + 1 + 0 + 0 + 0 + 1)
          (r1_exchange Sd_Cmd24_Wr_Single_Blk lba 1 pad ++ [BusEvent.write [0xFE % 256]] ++
        [BusEvent.write ((buf.drop off).take card.info.block_size)] ++
        [BusEvent.write [0xFF, 0xFF]] ++ [BusEvent.read 1])) 1000)
      = write_block_events lba pad ((buf.drop off).take card.info.block_size) ++
          delay_events card 1000 := by
    rw [delay_events_bus_step]
    simp [write_block_events, List.append_assoc]
  rw [hev, show pad + 1 + 0 + 0 + 0 + 1 + 1 = (pad + 1) + 2 by omega] at w1 w2
  refine ⟨?_, w2⟩
  unfold _write_single_block
  rw [e1]
  simp only []
  rw [u8_zero_set 0x00 (by norm_num), if_neg (by simp)]
  unfold sd_spi_hw_write_byte
  rw [write_bytes_ok e3, bus_step_bus_step]
  simp only []
  rw [write_bytes_ok (has_transfer_bus_step ht _ _), bus_step_bus_step]
  simp only []
  rw [write_bytes_ok (has_transfer_bus_step ht _ _), bus_step_bus_step]
  simp only []
  rw [read_byte_ok (has_transfer_bus_step ht _ _), bus_step_bus_step]
  simp only []
  have hb : (bus_step card (pad + 1 + 0 + 0 + 0)
      (r1_exchange Sd_Cmd24_Wr_Single_Blk lba 1 pad ++ [BusEvent.write [0xFE % 256]] ++
        [BusEvent.write ((buf.drop off).take card.info.block_size)] ++
        [BusEvent.write [0xFF, 0xFF]])).miso
      (bus_step card (pad + 1 + 0 + 0 + 0)
      (r1_exchange Sd_Cmd24_Wr_Single_Blk lba 1 pad ++ [BusEvent.write [0xFE % 256]] ++
        [BusEvent.write ((buf.drop off).take card.info.block_size)] ++
        [BusEvent.write [0xFF, 0xFF]])).rx_pos % 256 = resp := r1
  rw [show (bus_step card (pad + 1 + 0) (r1_exchange Sd_Cmd24_Wr_Single_Blk lba 1 pad ++
      [BusEvent.write [0xFE % 256]])).info.block_size = card.info.block_size from rfl]
  rw [hb, if_neg (by rw [hresp]; simp)]
  exact congrArg Except.ok w1

/-- C13 at concrete runs on a card with 512-byte blocks.  A two-block read whose
first block arrives and whose second block never shows a data token returns Timeout;
the session is the one the second single-block call left, deselected, and the first
512 bytes of the buffer hold the first block.  A two-block write on a card that
accepts both blocks returns OK after exactly two single-block calls. -/
theorem read_write_first_failure_witness :
    (sd_card_read 0 (some (demo_card legacy_info miso_block_then_low)) 0
        (some (List.replicate 1024 0)) 1024
      = Except.ok (Sd_Err_Timeout,
          some (deselected (bus_step (bus_step
            (selected (demo_card legacy_info miso_block_then_low)) 516
              (read_block_events 0 0 0 512)) 101
              (r1_exchange Sd_Cmd17_Rd_Single 1 1 0 ++ List.replicate 100 (BusEvent.read 1)))),
          some (mem_write (List.replicate 1024 0) 0 (List.replicate 512 0xA5))) ∧
      (mem_write (List.replicate 1024 0) 0 (List.replicate 512 0xA5)).take 512
        = List.replicate 512 0xA5) ∧
    sd_card_write 0 (some (demo_card legacy_info miso_write_blocks)) 0
        (some (sample_block ++ sample_block)) 1024
      = Except.ok (Sd_Err_OK,
          some (deselected (bus_step (bus_step
            (selected (demo_card legacy_info miso_write_blocks)) 3
              (write_block_events 0 0 sample_block ++ [BusEvent.delay 1000])) 3
              (write_block_events 1 0 sample_block ++ [BusEvent.delay 1000])))) := by
  have hr := (read_write_first_failure 0 (demo_card legacy_info miso_block_then_low) 0 1024
    { lba_addr := 0, lba_count := 2 } rfl ⟨good_if, _, _, rfl, rfl, rfl, rfl⟩ (by decide)
    (by decide) (by decide) rfl).2.1
  have hw := (read_write_first_failure 0 (demo_card legacy_info miso_write_blocks) 0 1024
    { lba_addr := 0, lba_count := 2 } rfl ⟨good_if, _, _, rfl, rfl, rfl, rfl⟩ (by decide)
    (by decide) (by decide) rfl).2.2
  constructor
  · have h := (hr (List.replicate 1024 0)
      (fun k => match k with
        | 0 => selected (demo_card legacy_info miso_block_then_low)
        | _ => bus_step (selected (demo_card legacy_info miso_block_then_low)) 516
            (read_block_events 0 0 0 512))
      (fun k => match k with
        | 0 => List.replicate 1024 0
        | _ => mem_write (List.replicate 1024 0) 0 (List.replicate 512 0xA5))
      rfl rfl).1 1 Sd_Err_Timeout
      (mem_write (List.replicate 1024 0) 0 (List.replicate 512 0xA5))
      (bus_step (bus_step (selected (demo_card legacy_info miso_block_then_low)) 516
        (read_block_events 0 0 0 512)) 101
        (r1_exchange Sd_Cmd17_Rd_Single 1 1 0 ++ List.replicate 100 (BusEvent.read 1)))
      (by decide)
      (fun k hk => by
        have hk0 : k = 0 := by omega
        subst hk0
        exact (read_single_block_ok 0 (selected (demo_card legacy_info miso_block_then_low)) 0
          (List.replicate 1024 0) 0 0 [] (List.replicate 512 0xA5) [0, 0] []
          ⟨good_if, _, rfl, rfl⟩ (by decide) (by decide) (by simp)
          (by rw [List.length_replicate]; rfl) rfl (by unfold rx_next; decide!)).1)
      (read_single_block_no_token 0
        (bus_step (selected (demo_card legacy_info miso_block_then_low)) 516
          (read_block_events 0 0 0 512)) 1
        (mem_write (List.replicate 1024 0) 0 (List.replicate 512 0xA5)) 512 0
        (List.replicate 100 0) [] ⟨good_if, _, rfl, rfl⟩ (by decide) rfl
        (fun x hx => by rw [List.eq_of_mem_replicate hx]; decide)
        (by unfold rx_next; decide!))
      (by decide)
    exact ⟨h.1, by decide!⟩
  · exact (hw (sample_block ++ sample_block)
      (fun k => match k with
        | 0 => selected (demo_card legacy_info miso_write_blocks)
        | 1 => bus_step (selected (demo_card legacy_info miso_write_blocks)) 3
            (write_block_events 0 0 sample_block ++ [BusEvent.delay 1000])
        | _ => bus_step (bus_step (selected (demo_card legacy_info miso_write_blocks)) 3
            (write_block_events 0 0 sample_block ++ [BusEvent.delay 1000])) 3
            (write_block_events 1 0 sample_block ++ [BusEvent.delay 1000]))
      rfl).2
      (fun k hk => by
        have hk2 : k < 2 := hk
        have hk0 : k = 0 ∨ k = 1 := by omega
        rcases hk0 with rfl | rfl
        · have e1 : ((sample_block ++ sample_block).drop 0).take
              (selected (demo_card legacy_info miso_write_blocks)).info.block_size
              = sample_block := by decide!
          have h0 := (write_single_block_ok 0
            (selected (demo_card legacy_info miso_write_blocks)) 0
            (sample_block ++ sample_block) 0 0 0x05 0xFF [] ⟨good_if, _, rfl, rfl⟩ (by decide)
            (by decide) (by decide) (by unfold rx_next; decide!)).1
          rw [e1] at h0
          exact h0
        · have e1 : ((sample_block ++ sample_block).drop 512).take
              (bus_step (selected (demo_card legacy_info miso_write_blocks)) 3
                (write_block_events 0 0 sample_block ++ [BusEvent.delay 1000])).info.block_size
              = sample_block := by decide!
          have h0 := (write_single_block_ok 0
            (bus_step (selected (demo_card legacy_info miso_write_blocks)) 3
              (write_block_events 0 0 sample_block ++ [BusEvent.delay 1000])) 1
            (sample_block ++ sample_block) 512 0 0x05 0xFF [] ⟨good_if, _, rfl, rfl⟩ (by decide)
            (by decide) (by decide) (by unfold rx_next; decide!)).1
          rw [e1] at h0
          exact h0)

/-! ### Argument and state checks -/

/-- C14: on an initialised session (its `block_size`, the divisor, is non-zero) a
read or write with a non-null buffer and a length `len > 0` that is not a multiple of
`block_size` returns Param and hands the session back exactly as it was, bus log
included: no control, transfer or delay call was made.  A null session, a null
buffer or `len == 0` likewise give Param with session and buffer untouched. -/
theorem read_write_param_checks (fuel : Nat) (addr len : Nat) :
    (∀ (c : sd_card) (b : List Nat), c.is_inited = true → c.info.block_size ≠ 0 →
      len % 2 ^ 32 ≠ 0 → (len % 2 ^ 32) % c.info.block_size ≠ 0 →
      sd_card_read fuel (some c) addr (some b) len = Except.ok (Sd_Err_Param, some c, some b) ∧
      sd_card_write fuel (some c) addr (some b) len = Except.ok (Sd_Err_Param, some c)) ∧
    (∀ (card : Option sd_card) (buf : Option (List Nat)),
      card = none ∨ buf = none ∨ len % 2 ^ 32 = 0 →
      sd_card_read fuel card addr buf len = Except.ok (Sd_Err_Param, card, buf) ∧
      sd_card_write fuel card addr buf len = Except.ok (Sd_Err_Param, card)) := by
  constructor
  · intro c b hinit hbs hlen hmod
    constructor
    · unfold sd_card_read
      simp only []
      rw [if_neg hlen, if_neg (by simp [hinit])]
      unfold umod
      rw [if_neg hbs]
      simp only [ne_eq, hmod, not_false_eq_true, if_true]
    · unfold sd_card_write
      simp only []
      rw [if_neg hlen, if_neg (by simp [hinit])]
      unfold umod
      rw [if_neg hbs]
      simp only [ne_eq, hmod, not_false_eq_true, if_true]
  · intro card buf h
    unfold sd_card_read sd_card_write
    cases card with
    | none => exact ⟨rfl, rfl⟩
    | some c =>
      cases buf with
      | none => exact ⟨rfl, rfl⟩
      | some b =>
        rcases h with h | h | h
        · cases h
        · cases h
        · simp only [h, if_true]
          exact ⟨trivial, trivial⟩

/-- C14 at concrete calls on a card with 512-byte blocks: a 700-byte read and write
are refused with the session untouched, and so are a null session, a null buffer and
a zero length. -/
theorem read_write_param_checks_witness :
    (sd_card_read 0 (some (demo_card legacy_info miso_read_blocks)) 0
        (some (List.replicate 700 0)) 700
      = Except.ok (Sd_Err_Param, some (demo_card legacy_info miso_read_blocks),
          some (List.replicate 700 0)) ∧
     sd_card_write 0 (some (demo_card legacy_info miso_read_blocks)) 0
        (some (List.replicate 700 0)) 700
      = Except.ok (Sd_Err_Param, some (demo_card legacy_info miso_read_blocks))) ∧
    (sd_card_read 0 none 0 (some [1, 2]) 700 = Except.ok (Sd_Err_Param, none, some [1, 2]) ∧
     sd_card_write 0 none 0 (some [1, 2]) 700 = Except.ok (Sd_Err_Param, none)) :=
  ⟨(read_write_param_checks 0 0 700).1 (demo_card legacy_info miso_read_blocks)
      (List.replicate 700 0) rfl (by decide) (by decide) (by decide),
   (read_write_param_checks 0 0 700).2 none (some [1, 2]) (Or.inl rfl)⟩

/-- C15: on a session that is not initialised, `sd_card_read` and `sd_card_write`
(buffer given, `len > 0`) and `sd_card_erase_sector` (`count > 0`) return Not_Inited
and hand the session back exactly as it was, bus log included, whatever `len`,
`addr` and the geometry are: with `block_size = 0` too, so no remainder or quotient by
`block_size` is evaluated. -/
theorem not_inited_before_geometry (fuel : Nat) (c : sd_card) (addr len count : Nat)
    (b : List Nat) (h : c.is_inited = false) :
    (len % 2 ^ 32 ≠ 0 →
      sd_card_read fuel (some c) addr (some b) len
        = Except.ok (Sd_Err_Not_Inited, some c, some b) ∧
      sd_card_write fuel (some c) addr (some b) len = Except.ok (Sd_Err_Not_Inited, some c)) ∧
    (count % 2 ^ 32 ≠ 0 →
      sd_card_erase_sector fuel (some c) addr count = Except.ok (Sd_Err_Not_Inited, some c)) := by
  refine ⟨fun hlen => ⟨?_, ?_⟩, fun hc => ?_⟩
  · unfold sd_card_read
    simp only []
    rw [if_neg hlen, if_pos h]
  · unfold sd_card_write
    simp only []
    rw [if_neg hlen, if_pos h]
  · unfold sd_card_erase_sector
    simp only []
    rw [if_neg hc, if_pos h]

/-- C15 on a freshly constructed session, whose geometry is all zero. -/
theorem not_inited_before_geometry_witness :
    (fresh_card miso_stuck_low).info.block_size = 0 ∧
    (sd_card_read 0 (some (fresh_card miso_stuck_low)) 0 (some [0, 0, 0]) 3
        = Except.ok (Sd_Err_Not_Inited, some (fresh_card miso_stuck_low), some [0, 0, 0]) ∧
      sd_card_write 0 (some (fresh_card miso_stuck_low)) 0 (some [0, 0, 0]) 3
        = Except.ok (Sd_Err_Not_Inited, some (fresh_card miso_stuck_low))) ∧
    sd_card_erase_sector 0 (some (fresh_card miso_stuck_low)) 4096 2
      = Except.ok (Sd_Err_Not_Inited, some (fresh_card miso_stuck_low)) :=
  ⟨rfl,
   (not_inited_before_geometry 0 (fresh_card miso_stuck_low) 0 3 2 [0, 0, 0] rfl).1 (by decide),
   (not_inited_before_geometry 0 (fresh_card miso_stuck_low) 4096 3 2 [0, 0, 0] rfl).2
     (by decide)⟩

/-- C16: `sd_card_erase_sector` with a null session or with `count == 0` returns
Param and hands back what it was given, bus log included: no take-bus, select or
transfer call is made and no field changes, for every `addr` and session state. -/
theorem erase_sector_param_check (fuel : Nat) (card : Option sd_card) (addr count : Nat)
    (h : card = none ∨ count % 2 ^ 32 = 0) :
    sd_card_erase_sector fuel card addr count = Except.ok (Sd_Err_Param, card) := by
  unfold sd_card_erase_sector
  cases card with
  | none => rfl
  | some c =>
    rcases h with h | h
    · cases h
    · simp only [h, if_true]

/-- C16 at concrete calls: an initialised session with `count = 0`, and a null
session. -/
theorem erase_sector_param_check_witness :
    sd_card_erase_sector 0 (some (demo_card legacy_info miso_stuck_low)) 4096 0
      = Except.ok (Sd_Err_Param, some (demo_card legacy_info miso_stuck_low)) ∧
    sd_card_erase_sector 0 none 4096 3 = Except.ok (Sd_Err_Param, none) :=
  ⟨erase_sector_param_check 0 (some (demo_card legacy_info miso_stuck_low)) 4096 0
      (Or.inr (by decide)),
   erase_sector_param_check 0 none 4096 3 (Or.inl rfl)⟩

/-! ### Erase -/

/-- On a geometry with non-zero `erase_sector_size`, `sd_card_erase_chip` is
`sd_card_erase_sector` at address 0 with the 32-bit quotient as count. -/
theorem erase_chip_eq_erase_sector (fuel : Nat) (c : sd_card)
    (h : c.info.erase_sector_size ≠ 0) :
    sd_card_erase_chip fuel (some c)
      = sd_card_erase_sector fuel (some c) 0
          ((c.info.capacity / c.info.erase_sector_size) % 2 ^ 32) := by
  unfold sd_card_erase_chip udiv
  simp only [if_neg h]

/-- C19 (code at the failing input): on a freshly constructed session, not
initialised and with every geometry field zero, `sd_card_erase_chip` divides
`capacity` by `erase_sector_size = 0` before anything looks at `is_inited`: whatever
the fuel, the call yields no return value, where the claim asks for Not_Inited and
for a division that is never by zero. -/
theorem erase_chip_fresh_divides_by_zero :
    (fresh_card miso_stuck_low).is_inited = false ∧
    (fresh_card miso_stuck_low).info.erase_sector_size = 0 ∧
    ∀ fuel : Nat,
      sd_card_erase_chip fuel (some (fresh_card miso_stuck_low))
        = Except.error Fault.div_by_zero :=
  ⟨rfl, rfl, fun _ => rfl⟩

theorem r1b_events_bus_step (card : sd_card) (n : Nat) (e : List BusEvent) (k : Nat) :
    r1b_events (bus_step card n e) k = r1b_events card k := by
  induction k with
  | zero => rfl
  | succ k ih => simp only [r1b_events, ih, delay_events_bus_step]

/-- The R1b wait ends at the first `0xFF` byte, if the fuel reaches that far: one
read and one delay per byte. -/
theorem wait_r1b_done (busy : List Nat) : ∀ (fuel : Nat) (card : sd_card) (rest : List Nat),
    has_transfer card → (∀ x ∈ busy, x ≠ 0xFF) → rx_next card (busy ++ 0xFF :: rest) →
    busy.length < fuel →
    wait_r1b fuel card = Except.ok (Sd_Err_OK,
      bus_step card (busy.length + 1) (r1b_events card (busy.length + 1))) ∧
    rx_next (bus_step card (busy.length + 1) (r1b_events card (busy.length + 1))) rest := by
  induction busy with
  | nil =>
    intro fuel card rest ht _ hrx hf
    obtain ⟨n, rfl⟩ : ∃ n, fuel = n + 1 := ⟨fuel - 1, by simp at hf; omega⟩
    obtain ⟨h1, h2⟩ := rx_next_cons ([BusEvent.read 1] ++ delay_events card 5000) hrx
    simp only [List.length_nil, Nat.zero_add, r1b_events, List.append_nil]
    refine ⟨?_, h2⟩
    unfold wait_r1b
    rw [read_byte_ok ht]
    simp only []
    rw [h1, if_neg (by simp), udelay_bus_step]
  | cons a busy ih =>
    intro fuel card rest ht hb hrx hf
    obtain ⟨n, rfl⟩ : ∃ n, fuel = n + 1 := ⟨fuel - 1, by simp at hf; omega⟩
    obtain ⟨h1, h2⟩ := rx_next_cons ([BusEvent.read 1] ++ delay_events card 5000) hrx
    have ha : a ≠ 0xFF := hb a (List.mem_cons_self _ _)
    obtain ⟨i1, i2⟩ := ih n (bus_step card 1 ([BusEvent.read 1] ++ delay_events card 5000)) rest
      (has_transfer_bus_step ht _ _) (fun x hx => hb x (List.mem_cons_of_mem _ hx)) h2
      (by simp at hf; omega)
    rw [bus_step_bus_step, r1b_events_bus_step] at i1 i2
    have hl : 1 + (busy.length + 1) = (a :: busy).length + 1 := by simp; omega
    have he : ([BusEvent.read 1] ++ delay_events card 5000) ++ r1b_events card (busy.length + 1)
        = r1b_events card ((a :: busy).length + 1) := rfl
    rw [hl, he] at i1 i2
    refine ⟨?_, i2⟩
    unfold wait_r1b
    rw [read_byte_ok ht]
    simp only []
    rw [h1, if_pos ha, udelay_bus_step]
    exact i1

/-- The R1b wait never ends on a stream that never shows `0xFF` again: whatever the
fuel, it runs out. -/
theorem wait_r1b_hang (fuel : Nat) : ∀ card : sd_card, has_transfer card →
    (∀ i, card.rx_pos ≤ i → card.miso i % 256 ≠ 0xFF) →
    wait_r1b fuel card = Except.error Fault.hang := by
  induction fuel with
  | zero => intro card _ _; rfl
  | succ fuel ih =>
    intro card ht hm
    unfold wait_r1b
    rw [read_byte_ok ht]
    simp only []
    rw [if_pos (hm _ (le_refl _)), udelay_bus_step]
    exact ih _ (has_transfer_bus_step ht _ _) (fun i hi => hm i (by
      have : card.rx_pos + 1 ≤ i := hi
      omega))

/-- An R1b command whose response byte `b` arrives after `pad` idle bytes and whose
busy bytes end with a `0xFF` within the fuel: OK, `b` stored at `buf[filled]`. -/
theorem send_cmd_r1b_answer (fuel : Nat) (card : sd_card) (cmd arg crc retry : Nat)
    (resp : sd_resp_res) (pad b : Nat) (busy rest : List Nat)
    (ht : has_transfer card) (hr : retry ≤ 255) (hp : pad < retry) (hb : b ≠ 0xFF)
    (hbusy : ∀ x ∈ busy, x ≠ 0xFF) (hf : busy.length < fuel)
    (hrx : rx_next card (answer pad b ++ (busy ++ 0xFF :: rest))) :
    sd_card_send_cmd_req fuel card
        { cmd := cmd, arg := arg, crc := crc, resp_type := Sd_Resp_Type_R1b, retry := retry } resp
      = Except.ok (Sd_Err_OK,
          { buf := resp.buf.set resp.filled b, filled := (resp.filled + 1) % 256 },
          bus_step card ((pad + 1) + (busy.length + 1))
            (r1_exchange cmd arg crc pad ++ r1b_events card (busy.length + 1))) ∧
    rx_next (bus_step card ((pad + 1) + (busy.length + 1))
      (r1_exchange cmd arg crc pad ++ r1b_events card (busy.length + 1))) rest := by
  obtain ⟨n, rfl⟩ : ∃ n, retry = n + 1 := ⟨retry - 1, by omega⟩
  have hrx1 : rx_next (bus_step card 0 [BusEvent.write (cmd_frame cmd arg crc)])
      (List.replicate pad 0xFF ++ b :: (busy ++ 0xFF :: rest)) := by
    have : answer pad b ++ (busy ++ 0xFF :: rest)
        = List.replicate pad 0xFF ++ b :: (busy ++ 0xFF :: rest) := by
      simp [answer]
    rw [this] at hrx
    exact hrx
  obtain ⟨e1, e2⟩ := poll_byte_hit (fun x => decide (x = 0xff)) (List.replicate pad 0xFF) 0xff n b
    _ _ (has_transfer_bus_step ht 0 _) hrx1
    (fun x hx => by simp [mem_replicate_ff hx]) (by simp [hb]) (by simp; omega)
  simp only [List.length_replicate, bus_step_bus_step, Nat.zero_add] at e1 e2
  have hne : n + 1 - pad ≠ 0 := by omega
  obtain ⟨w1, w2⟩ := wait_r1b_done busy fuel _ rest (has_transfer_bus_step ht _ _) hbusy e2 hf
  rw [bus_step_bus_step, r1b_events_bus_step] at w1 w2
  refine ⟨?_, w2⟩
  unfold sd_card_send_cmd_req
  simp only []
  rw [show [cmd % 256, (arg >>> 24) % 256, (arg >>> 16) % 256, (arg >>> 8) % 256, arg % 256,
        crc % 256] = cmd_frame cmd arg crc from rfl, write_bytes_ok ht]
  simp only []
  rw [wait_response_eq n (by omega), e1]
  simp only [hne, if_false]
  rw [w1]
  rfl

/-- An R1b command that is answered but after which the stream never shows `0xFF`
again does not return. -/
theorem send_cmd_r1b_hang (fuel : Nat) (card : sd_card) (cmd arg crc retry : Nat)
    (resp : sd_resp_res) (pad b : Nat)
    (ht : has_transfer card) (hr : retry ≤ 255) (hp : pad < retry) (hb : b ≠ 0xFF)
    (hrx : rx_next card (answer pad b ++ []))
    (hm : ∀ i, card.rx_pos + (pad + 1) ≤ i → card.miso i % 256 ≠ 0xFF) :
    sd_card_send_cmd_req fuel card
        { cmd := cmd, arg := arg, crc := crc, resp_type := Sd_Resp_Type_R1b, retry := retry } resp
      = Except.error Fault.hang := by
  obtain ⟨n, rfl⟩ : ∃ n, retry = n + 1 := ⟨retry - 1, by omega⟩
  have hrx1 : rx_next (bus_step card 0 [BusEvent.write (cmd_frame cmd arg crc)])
      (List.replicate pad 0xFF ++ b :: []) := by
    have : answer pad b ++ [] = List.replicate pad 0xFF ++ b :: [] := by
      simp [answer]
    rw [this] at hrx
    exact hrx
  obtain ⟨e1, _⟩ := poll_byte_hit (fun x => decide (x = 0xff)) (List.replicate pad 0xFF) 0xff n b
    _ _ (has_transfer_bus_step ht 0 _) hrx1
    (fun x hx => by simp [mem_replicate_ff hx]) (by simp [hb]) (by simp; omega)
  simp only [List.length_replicate, bus_step_bus_step, Nat.zero_add] at e1
  have hne : n + 1 - pad ≠ 0 := by omega
  have hw := wait_r1b_hang fuel (bus_step card (pad + 1)
    ([BusEvent.write (cmd_frame cmd arg crc)] ++ List.replicate (pad + 1) (BusEvent.read 1)))
    (has_transfer_bus_step ht _ _) hm
  unfold sd_card_send_cmd_req
  simp only []
  rw [show [cmd % 256, (arg >>> 24) % 256, (arg >>> 16) % 256, (arg >>> 8) % 256, arg % 256,
        crc % 256] = cmd_frame cmd arg crc from rfl, write_bytes_ok ht]
  simp only []
  rw [wait_response_eq n (by omega), e1]
  simp only [hne, if_false]
  rw [hw]

theorem deselect_bus_step {c : sd_card} (hsel : can_select c) (n : Nat) (evs : List BusEvent) :
    (sd_spi_hw_deselect_card (bus_step (selected c) n evs)).2
      = deselected (bus_step (selected c) n evs) := by
  obtain ⟨ifc, ctl, _, h1, h2, _, _⟩ := hsel
  rw [deselect_ok ifc ctl (show (bus_step (selected c) n evs).spi_if = some ifc from h1) h2]

/-- CMD32 answered with a byte other than `0x00`: Failed, nothing sent after it. -/
theorem erase_commands_fail32 (fuel : Nat) (card : sd_card) (s e p1 r1 : Nat) (rest : List Nat)
    (ht : has_transfer card) (hp1 : p1 < 5) (hr1 : r1 ≠ 0xFF) (hne : r1 ≠ 0x00)
    (hrx : rx_next card (answer p1 r1 ++ rest)) :
    erase_commands fuel card s e = Except.ok (Sd_Err_Failed,
      bus_step card (p1 + 1) (r1_exchange Sd_Cmd32_Erase_Start s 1 p1)) := by
  obtain ⟨e1, e2, _⟩ := send_cmd_r1_answer fuel card Sd_Cmd32_Erase_Start s 1 5
    sd_resp_res.zero p1 r1 _ ht (by norm_num) hp1 hr1 hrx
  have hlt : r1 < 256 := rx_next_lt hrx r1 (by simp [answer])
  unfold erase_commands
  rw [e1]
  simp only []
  rw [u8_zero_set r1 hlt, if_pos (by simpa [SD_FR_NONE] using hne)]

/-- CMD32 answered `0x00` and CMD33 answered with another byte: Failed, CMD38 not
sent. -/
theorem erase_commands_fail33 (fuel : Nat) (card : sd_card) (s e p1 p2 r2 : Nat)
    (rest : List Nat) (ht : has_transfer card) (hp1 : p1 < 5) (hp2 : p2 < 5)
    (hr2 : r2 ≠ 0xFF) (hne : r2 ≠ 0x00)
    (hrx : rx_next card (answer p1 0x00 ++ (answer p2 r2 ++ rest))) :
    erase_commands fuel card s e = Except.ok (Sd_Err_Failed,
      bus_step card ((p1 + 1) + (p2 + 1))
        (r1_exchange Sd_Cmd32_Erase_Start s 1 p1 ++ r1_exchange Sd_Cmd33_Erase_End e 1 p2)) := by
  obtain ⟨e1, e2, e3⟩ := send_cmd_r1_answer fuel card Sd_Cmd32_Erase_Start s 1 5
    sd_resp_res.zero p1 0x00 _ ht (by norm_num) hp1 (by norm_num) hrx
  obtain ⟨f1, f2, _⟩ := send_cmd_r1_answer fuel _ Sd_Cmd33_Erase_End e 1 5
    sd_resp_res.zero p2 r2 _ e3 (by norm_num) hp2 hr2 e2
  have hlt : r2 < 256 := rx_next_lt e2 r2 (by simp [answer])
  rw [bus_step_bus_step] at f1
  unfold erase_commands
  rw [e1]
  simp only []
  rw [u8_zero_set 0x00 (by norm_num), if_neg (by simp [SD_FR_NONE]), f1]
  simp only []
  rw [u8_zero_set r2 hlt, if_pos (by simpa [SD_FR_NONE] using hne)]

/-- CMD32 and CMD33 answered `0x00`, CMD38 answered `r3`, and the busy bytes after
it end with a `0xFF` within the fuel: all three commands are sent, and the result is
OK for `r3 = 0x00` and Failed otherwise. -/
theorem erase_commands_run (fuel : Nat) (card : sd_card) (s e p1 p2 p3 r3 : Nat)
    (busy rest : List Nat) (ht : has_transfer card) (hp1 : p1 < 5) (hp2 : p2 < 5)
    (hp3 : p3 < 5) (hr3 : r3 ≠ 0xFF) (hbusy : ∀ x ∈ busy, x ≠ 0xFF) (hf : busy.length < fuel)
    (hrx : rx_next card
      (answer p1 0x00 ++ (answer p2 0x00 ++ (answer p3 r3 ++ (busy ++ 0xFF :: rest))))) :
    erase_commands fuel card s e
      = Except.ok (if r3 = 0x00 then Sd_Err_OK else Sd_Err_Failed,
          bus_step card ((p1 + 1) + (p2 + 1) + ((p3 + 1) + (busy.length + 1)))
            (r1_exchange Sd_Cmd32_Erase_Start s 1 p1 ++
              (r1_exchange Sd_Cmd33_Erase_End e 1 p2 ++
                (r1_exchange Sd_Cmd38_Erase 0 1 p3 ++ r1b_events card (busy.length + 1))))) := by
  obtain ⟨e1, e2, e3⟩ := send_cmd_r1_answer fuel card Sd_Cmd32_Erase_Start s 1 5
    sd_resp_res.zero p1 0x00 _ ht (by norm_num) hp1 (by norm_num) hrx
  obtain ⟨f1, f2, f3⟩ := send_cmd_r1_answer fuel _ Sd_Cmd33_Erase_End e 1 5
    sd_resp_res.zero p2 0x00 _ e3 (by norm_num) hp2 (by norm_num) e2
  obtain ⟨g1, _⟩ := send_cmd_r1b_answer fuel _ Sd_Cmd38_Erase 0 1 5
    sd_resp_res.zero p3 r3 busy rest f3 (by norm_num) hp3 hr3 hbusy hf f2
  have hlt : r3 < 256 := rx_next_lt f2 r3 (by simp [answer])
  rw [bus_step_bus_step] at f1
  rw [bus_step_bus_step, bus_step_bus_step, r1b_events_bus_step] at g1
  simp only [List.append_assoc] at g1
  unfold erase_commands
  rw [e1]
  simp only []
  rw [u8_zero_set 0x00 (by norm_num), if_neg (by simp [SD_FR_NONE]), f1]
  simp only []
  rw [u8_zero_set 0x00 (by norm_num), if_neg (by simp [SD_FR_NONE]), g1]
  simp only []
  rw [u8_zero_set r3 hlt]
  by_cases h : r3 = 0x00
  · rw [if_neg (by simp [SD_FR_NONE, h]), if_pos h]
  · rw [if_pos (by simpa [SD_FR_NONE] using h), if_neg h]

/-- Once the checks of `sd_card_erase_sector` have passed and the select has
succeeded, the call is the three commands followed by a deselect. -/
theorem erase_sector_bracket {fuel : Nat} {c : sd_card} {addr count s e : Nat}
    {err : sd_error} {n : Nat} {evs : List BusEvent}
    (hinit : c.is_inited = true) (hcount : count % 2 ^ 32 ≠ 0) (hsel : can_select c)
    (hrange : erase_block_range c (addr % 2 ^ 64)
      ((c.info.erase_sector_size * (count % 2 ^ 32)) % 2 ^ 64) = Except.ok (some (s, e)))
    (hcmd : erase_commands fuel (selected c) s e = Except.ok (err, bus_step (selected c) n evs)) :
    sd_card_erase_sector fuel (some c) addr count
      = Except.ok (err, some (deselected (bus_step (selected c) n evs))) := by
  unfold sd_card_erase_sector
  simp only []
  rw [if_neg hcount, if_neg (by simp [hinit]), hrange]
  simp only []
  rw [select_ok hsel]
  simp only []
  rw [hcmd]
  simp only []
  rw [deselect_bus_step hsel]

theorem erase_sector_fault {fuel : Nat} {c : sd_card} {addr count s e : Nat} {f : Fault}
    (hinit : c.is_inited = true) (hcount : count % 2 ^ 32 ≠ 0) (hsel : can_select c)
    (hrange : erase_block_range c (addr % 2 ^ 64)
      ((c.info.erase_sector_size * (count % 2 ^ 32)) % 2 ^ 64) = Except.ok (some (s, e)))
    (hcmd : erase_commands fuel (selected c) s e = Except.error f) :
    sd_card_erase_sector fuel (some c) addr count = Except.error f := by
  unfold sd_card_erase_sector
  simp only []
  rw [if_neg hcount, if_neg (by simp [hinit]), hrange]
  simp only []
  rw [select_ok hsel]
  simp only []
  rw [hcmd]

theorem erase_block_range_block_addressed (c : sd_card) (addr total : Nat)
    (ht : c.info.type = Sd_Type_SDHC ∨ c.info.type = Sd_Type_SDXC)
    (hbs : c.info.block_size ≠ 0) :
    erase_block_range c addr total = Except.ok (some
      ((addr / c.info.block_size) % 2 ^ 32,
       ((addr + total + (2 ^ 64 - 1)) % 2 ^ 64 / c.info.block_size) % 2 ^ 32)) := by
  unfold erase_block_range udiv
  rcases ht with h | h <;> rw [h] <;> simp only [if_neg hbs]

theorem erase_block_range_byte_addressed (c : sd_card) (addr total : Nat)
    (ht : c.info.type = Sd_Type_SDSC_V1 ∨ c.info.type = Sd_Type_SDSC_V2) :
    erase_block_range c addr total = Except.ok (some
      (addr % 2 ^ 32, ((addr + total + (2 ^ 64 - 1)) % 2 ^ 64) % 2 ^ 32)) := by
  unfold erase_block_range
  rcases ht with h | h <;> rw [h]

theorem erase_block_range_other (c : sd_card) (addr total : Nat)
    (ht : c.info.type = Sd_Type_Not_SD ∨ c.info.type = Sd_Type_Unknown) :
    erase_block_range c addr total = Except.ok none := by
  unfold erase_block_range
  rcases ht with h | h <;> rw [h]

/-- C17 (counterexample): on a byte-addressed card with 512-byte blocks and 4096-byte
erase sectors, `sd_card_erase_sector` at `addr = 2^32` with `count = 1` succeeds and
its CMD32 carries argument 0 and its CMD33 argument 4095: the 32-bit `start_block`
and `end_block` hold `addr` and `addr + total - 1` modulo `2^32`, not the byte
addresses `2^32` and `2^32 + 4095` themselves. -/
theorem erase_sector_arg_truncated :
    erase_outcome (sd_card_erase_sector 1 (some (demo_card legacy_info miso_erase_ready))
        (2 ^ 32) 1)
      = some (Sd_Err_OK, [cmd_frame Sd_Cmd32_Erase_Start 0 1, cmd_frame Sd_Cmd33_Erase_End 4095 1,
          cmd_frame Sd_Cmd38_Erase 0 1]) ∧
    erase_block_range (demo_card legacy_info miso_erase_ready) (2 ^ 32) (4096 * 1)
      = Except.ok (some (0, 4095)) ∧
    ¬ ∃ e, erase_block_range (demo_card legacy_info miso_erase_ready) (2 ^ 32) (4096 * 1)
      = Except.ok (some (2 ^ 32, e)) := by
  refine ⟨by decide!, rfl, ?_⟩
  rintro ⟨e, he⟩
  have h : (Except.ok (some (0, 4095)) : Except Fault (Option (Nat × Nat)))
      = Except.ok (some (2 ^ 32, e)) := he
  injection h with h
  injection h with h
  injection h with h1 h2
  exact absurd h1 (by decide)

/-- C17 (amended): on an initialised session with `1 ≤ count < 2^32`, a 64-bit `addr`
and a 32-bit `erase_sector_size`, let `total = erase_sector_size * count` and let
`last` be `addr + total - 1` in 64-bit arithmetic.  When the select succeeds, CMD32
and CMD33 are answered `0x00`, CMD38 is answered `r3` and the busy bytes after it end
with `0xFF`, the call makes exactly these adapter calls, in this order: take-bus and
select, CMD32, CMD33, CMD38 with argument 0 followed by the R1b busy polls, deselect
and release; CMD32 carries `(addr / block_size) mod 2^32` and CMD33
`(last / block_size) mod 2^32` on SDHC and SDXC (non-zero `block_size`), and CMD32
carries `addr mod 2^32` and CMD33 `last mod 2^32` on SDSC v1 and v2; the result is OK
for `r3 = 0x00` and Failed otherwise.  On the classes Not_SD and Unknown the call
returns Unsupported and hands the session back untouched.  `last` is `addr + total - 1`
whenever that lies within 64 bits. -/
theorem erase_sector_commands (fuel : Nat) (c : sd_card) (addr count : Nat)
    (hinit : c.is_inited = true) (haddr : addr < 2 ^ 64) (hc1 : 1 ≤ count)
    (hc2 : count < 2 ^ 32) (hess : c.info.erase_sector_size < 2 ^ 32) :
    (∀ (start_block end_block p1 p2 p3 r3 : Nat) (busy rest : List Nat),
      (((c.info.type = Sd_Type_SDHC ∨ c.info.type = Sd_Type_SDXC) ∧ c.info.block_size ≠ 0 ∧
          start_block = (addr / c.info.block_size) % 2 ^ 32 ∧
          end_block = ((addr + c.info.erase_sector_size * count + (2 ^ 64 - 1)) % 2 ^ 64
            / c.info.block_size) % 2 ^ 32) ∨
        ((c.info.type = Sd_Type_SDSC_V1 ∨ c.info.type = Sd_Type_SDSC_V2) ∧
          start_block = addr % 2 ^ 32 ∧
          end_block = ((addr + c.info.erase_sector_size * count + (2 ^ 64 - 1)) % 2 ^ 64)
            % 2 ^ 32)) →
      can_select c → p1 < 5 → p2 < 5 → p3 < 5 → r3 ≠ 0xFF → (∀ x ∈ busy, x ≠ 0xFF) →
      busy.length < fuel →
      rx_next (selected c)
        (answer p1 0x00 ++ (answer p2 0x00 ++ (answer p3 r3 ++ (busy ++ 0xFF :: rest)))) →
      sd_card_erase_sector fuel (some c) addr count
        = Except.ok (if r3 = 0x00 then Sd_Err_OK else Sd_Err_Failed,
            some (deselected (bus_step (selected c)
              ((p1 + 1) + (p2 + 1) + ((p3 + 1) + (busy.length + 1)))
              (r1_exchange Sd_Cmd32_Erase_Start start_block 1 p1 ++
                (r1_exchange Sd_Cmd33_Erase_End end_block 1 p2 ++
                  (r1_exchange Sd_Cmd38_Erase 0 1 p3 ++
                    r1b_events (selected c) (busy.length + 1)))))))) ∧
    (c.info.type = Sd_Type_Not_SD ∨ c.info.type = Sd_Type_Unknown →
      sd_card_erase_sector fuel (some c) addr count = Except.ok (Sd_Err_Unsupported, some c)) ∧
    (1 ≤ addr + c.info.erase_sector_size * count →
      addr + c.info.erase_sector_size * count ≤ 2 ^ 64 →
      (addr + c.info.erase_sector_size * count + (2 ^ 64 - 1)) % 2 ^ 64
        = addr + c.info.erase_sector_size * count - 1) := by
  have hcount : count % 2 ^ 32 ≠ 0 := by rw [Nat.mod_eq_of_lt hc2]; omega
  have htot : (c.info.erase_sector_size * (count % 2 ^ 32)) % 2 ^ 64
      = c.info.erase_sector_size * count := by
    rw [Nat.mod_eq_of_lt hc2]
    apply Nat.mod_eq_of_lt
    calc c.info.erase_sector_size * count < 2 ^ 32 * 2 ^ 32 :=
          Nat.mul_lt_mul'' hess hc2
      _ = 2 ^ 64 := by norm_num
  refine ⟨?_, ?_, ?_⟩
  · intro s e p1 p2 p3 r3 busy rest hcls hsel hp1 hp2 hp3 hr3 hbusy hf hrx
    have hrange : erase_block_range c (addr % 2 ^ 64)
        ((c.info.erase_sector_size * (count % 2 ^ 32)) % 2 ^ 64) = Except.ok (some (s, e)) := by
      rw [htot, Nat.mod_eq_of_lt haddr]
      rcases hcls with ⟨ht, hbs, hs, he⟩ | ⟨ht, hs, he⟩
      · rw [erase_block_range_block_addressed c _ _ ht hbs, hs, he]
      · rw [erase_block_range_byte_addressed c _ _ ht, hs, he]
    exact erase_sector_bracket hinit hcount hsel hrange
      (erase_commands_run fuel (selected c) s e p1 p2 p3 r3 busy rest
        (has_transfer_selected hsel) hp1 hp2 hp3 hr3 hbusy hf hrx)
  · intro ht
    unfold sd_card_erase_sector
    simp only []
    rw [if_neg hcount, if_neg (by simp [hinit]), erase_block_range_other c _ _ ht]
  · intro h1 h2
    have : addr + c.info.erase_sector_size * count + (2 ^ 64 - 1)
        = (addr + c.info.erase_sector_size * count - 1) + 2 ^ 64 := by omega
    rw [this, Nat.add_mod_right]
    exact Nat.mod_eq_of_lt (by omega)

/-- C17 (amended) on a block-addressed card with 512-byte blocks and 4096-byte erase
sectors: erasing two sectors at byte address 1 MiB sends CMD32 with block 2048 and
CMD33 with block 2063. -/
theorem erase_sector_commands_witness :
    sd_card_erase_sector 1 (some (demo_card sdhc_info miso_erase_ready)) 1048576 2
      = Except.ok (Sd_Err_OK,
          some (deselected (bus_step (selected (demo_card sdhc_info miso_erase_ready))
            ((0 + 1) + (0 + 1) + ((0 + 1) + (0 + 1)))
            (r1_exchange Sd_Cmd32_Erase_Start 2048 1 0 ++
              (r1_exchange Sd_Cmd33_Erase_End 2063 1 0 ++
                (r1_exchange Sd_Cmd38_Erase 0 1 0 ++
                  r1b_events (selected (demo_card sdhc_info miso_erase_ready)) (0 + 1))))))) :=
  (erase_sector_commands 1 (demo_card sdhc_info miso_erase_ready) 1048576 2 rfl (by decide)
    (by decide) (by decide) (by decide)).1 2048 2063 0 0 0 0x00 [] []
    (Or.inl ⟨Or.inl rfl, by decide, by decide, by decide⟩)
    ⟨good_if, _, _, rfl, rfl, rfl, rfl⟩ (by decide) (by decide) (by decide) (by decide)
    (by simp) (by decide) (by unfold rx_next; decide!)

/-- The three erase commands end with OK only when each `sd_card_send_cmd_req`
returned OK with a first response byte `0x00`. -/
theorem erase_commands_ok_only_if {fuel : Nat} {card : sd_card} {s e : Nat} {c3 : sd_card}
    (h : erase_commands fuel card s e = Except.ok (Sd_Err_OK, c3)) :
    ∃ (resp32 : sd_resp_res) (c1 : sd_card) (resp33 : sd_resp_res) (c2 : sd_card)
      (resp38 : sd_resp_res),
      sd_card_send_cmd_req fuel card
          { cmd := Sd_Cmd32_Erase_Start, arg := s, crc := 1, resp_type := Sd_Resp_Type_R1,
            retry := 5 } sd_resp_res.zero = Except.ok (Sd_Err_OK, resp32, c1) ∧
      u8 resp32.buf 0 = 0x00 ∧
      sd_card_send_cmd_req fuel c1
          { cmd := Sd_Cmd33_Erase_End, arg := e, crc := 1, resp_type := Sd_Resp_Type_R1,
            retry := 5 } sd_resp_res.zero = Except.ok (Sd_Err_OK, resp33, c2) ∧
      u8 resp33.buf 0 = 0x00 ∧
      sd_card_send_cmd_req fuel c2
          { cmd := Sd_Cmd38_Erase, arg := 0, crc := 1, resp_type := Sd_Resp_Type_R1b,
            retry := 5 } sd_resp_res.zero = Except.ok (Sd_Err_OK, resp38, c3) ∧
      u8 resp38.buf 0 = 0x00 := by
  unfold erase_commands at h
  generalize h32 : sd_card_send_cmd_req fuel card
    { cmd := Sd_Cmd32_Erase_Start, arg := s, crc := 1, resp_type := Sd_Resp_Type_R1,
      retry := 5 } sd_resp_res.zero = r32 at h
  cases r32 with
  | error f => cases h
  | ok v =>
    obtain ⟨e1, resp32, c1⟩ := v
    cases e1 with
    | Sd_Err_OK =>
      simp only [] at h
      by_cases hb1 : u8 resp32.buf 0 ≠ SD_FR_NONE
      · rw [if_pos hb1] at h; cases h
      · rw [if_neg hb1] at h
        generalize h33 : sd_card_send_cmd_req fuel c1
          { cmd := Sd_Cmd33_Erase_End, arg := e, crc := 1, resp_type := Sd_Resp_Type_R1,
            retry := 5 } sd_resp_res.zero = r33 at h
        cases r33 with
        | error f => cases h
        | ok v =>
          obtain ⟨e2, resp33, c2⟩ := v
          cases e2 with
          | Sd_Err_OK =>
            simp only [] at h
            by_cases hb2 : u8 resp33.buf 0 ≠ SD_FR_NONE
            · rw [if_pos hb2] at h; cases h
            · rw [if_neg hb2] at h
              generalize h38 : sd_card_send_cmd_req fuel c2
                { cmd := Sd_Cmd38_Erase, arg := 0, crc := 1, resp_type := Sd_Resp_Type_R1b,
                  retry := 5 } sd_resp_res.zero = r38 at h
              cases r38 with
              | error f => cases h
              | ok v =>
                obtain ⟨e3, resp38, c4⟩ := v
                cases e3 with
                | Sd_Err_OK =>
                  simp only [] at h
                  by_cases hb3 : u8 resp38.buf 0 ≠ SD_FR_NONE
                  · rw [if_pos hb3] at h; cases h
                  · rw [if_neg hb3] at h
                    cases h
                    exact ⟨resp32, c1, resp33, c2, resp38, rfl, not_not.mp hb1, h33,
                      not_not.mp hb2, h38, not_not.mp hb3⟩
                | _ => simp only [] at h; cases h
          | _ => simp only [] at h; cases h
    | _ => simp only [] at h; cases h

theorem erase_sector_ok_only_if {fuel : Nat} {c : sd_card} {addr count s e : Nat}
    {c1 : sd_card}
    (hinit : c.is_inited = true) (hcount : count % 2 ^ 32 ≠ 0) (hsel : can_select c)
    (hrange : erase_block_range c (addr % 2 ^ 64)
      ((c.info.erase_sector_size * (count % 2 ^ 32)) % 2 ^ 64) = Except.ok (some (s, e)))
    (h : sd_card_erase_sector fuel (some c) addr count = Except.ok (Sd_Err_OK, some c1)) :
    ∃ c3, erase_commands fuel (selected c) s e = Except.ok (Sd_Err_OK, c3) ∧
      c1 = (sd_spi_hw_deselect_card c3).2 := by
  unfold sd_card_erase_sector at h
  simp only [] at h
  rw [if_neg hcount, if_neg (by simp [hinit]), hrange] at h
  simp only [] at h
  rw [select_ok hsel] at h
  simp only [] at h
  generalize erase_commands fuel (selected c) s e = r at h
  cases r with
  | error f => cases h
  | ok v =>
    obtain ⟨err, c3⟩ := v
    simp only [] at h
    cases h
    exact ⟨c3, rfl, rfl⟩

/-- C18: a card answers CMD32 and CMD33 with `0x00`, rejects CMD38 with the R1 byte
`0x04`, and keeps the line at `0x00` from then on.  `sd_card_erase_sector` does not
return Failed and does not deselect the card: the R1 byte of CMD38 is looked at only
after the R1b busy wait, which has no counter and never sees `0xFF`, so the three
commands, run on the selected card, never come back, and neither does the call,
whatever the fuel. -/
theorem erase_sector_rejected_cmd38_hangs :
    rx_peek (selected (demo_card legacy_info miso_erase_rejected_low)) 3 = [0x00, 0x00, 0x04] ∧
    (selected (demo_card legacy_info miso_erase_rejected_low)).is_selected = true ∧
    (∀ fuel : Nat,
      erase_commands fuel (selected (demo_card legacy_info miso_erase_rejected_low)) 0 4095
        = Except.error Fault.hang) ∧
    ∀ fuel : Nat,
      sd_card_erase_sector fuel (some (demo_card legacy_info miso_erase_rejected_low)) 0 1
        = Except.error Fault.hang := by
  have hsel : can_select (demo_card legacy_info miso_erase_rejected_low) :=
    ⟨good_if, _, _, rfl, rfl, rfl, rfl⟩
  have ht := has_transfer_selected hsel
  have hcmd : ∀ fuel : Nat,
      erase_commands fuel (selected (demo_card legacy_info miso_erase_rejected_low)) 0 4095
        = Except.error Fault.hang := ?_
  · exact ⟨by decide, rfl, hcmd, fun fuel =>
      @erase_sector_fault fuel (demo_card legacy_info miso_erase_rejected_low) 0 1 0 4095
        Fault.hang rfl (by decide) hsel rfl (hcmd fuel)⟩
  intro fuel
  obtain ⟨e1, e2, e3⟩ := send_cmd_r1_answer fuel
    (selected (demo_card legacy_info miso_erase_rejected_low)) Sd_Cmd32_Erase_Start 0 1 5
    sd_resp_res.zero 0 0x00 [0x00, 0x04] ht (by norm_num) (by norm_num) (by norm_num)
    (by unfold rx_next; decide!)
  obtain ⟨f1, f2, f3⟩ := send_cmd_r1_answer fuel _ Sd_Cmd33_Erase_End 4095 1 5
    sd_resp_res.zero 0 0x00 [0x04] e3 (by norm_num) (by norm_num) (by norm_num) e2
  have g1 := send_cmd_r1b_hang fuel _ Sd_Cmd38_Erase 0 1 5 sd_resp_res.zero 0 0x04 f3
    (by norm_num) (by norm_num) (by norm_num) f2
    (fun i hi => by
      have h3 : 3 ≤ i := hi
      have : miso_erase_rejected_low i = 0x00 := by
        unfold miso_erase_rejected_low
        rw [if_neg (by omega)]
      show miso_erase_rejected_low i % 256 ≠ 0xFF
      rw [this]
      decide)
  unfold erase_commands
  rw [e1]
  simp only []
  rw [u8_zero_set 0x00 (by norm_num), if_neg (by simp [SD_FR_NONE]), f1]
  simp only []
  rw [u8_zero_set 0x00 (by norm_num), if_neg (by simp [SD_FR_NONE]), g1]

/-- The R1 checks of `sd_card_erase_sector` on the runs that return: once the checks
have passed (the block range is `start_block`, `end_block`) and the select has succeeded: a CMD32 answered
with a byte other than `0x00` gives Failed with neither CMD33 nor CMD38 sent; a clean
CMD32 and a CMD33 answered with a byte other than `0x00` give Failed with CMD38 not
sent; clean CMD32 and CMD33 and a CMD38 answered `r3` whose busy wait ends (a `0xFF`
is read within the fuel) give OK for `r3 = 0x00` and Failed otherwise; in each case
the card is deselected and the bus released as the last two adapter calls.  And the
call returns OK only if each of the three commands returned OK with first response
byte `0x00`. -/
theorem erase_sector_r1_checks (fuel : Nat) (c : sd_card) (addr count start_block end_block : Nat)
    (hinit : c.is_inited = true) (hcount : count % 2 ^ 32 ≠ 0) (hsel : can_select c)
    (hrange : erase_block_range c (addr % 2 ^ 64)
      ((c.info.erase_sector_size * (count % 2 ^ 32)) % 2 ^ 64)
      = Except.ok (some (start_block, end_block))) :
    (∀ (p1 r1 : Nat) (rest : List Nat), p1 < 5 → r1 ≠ 0xFF → r1 ≠ 0x00 →
      rx_next (selected c) (answer p1 r1 ++ rest) →
      sd_card_erase_sector fuel (some c) addr count
        = Except.ok (Sd_Err_Failed, some (deselected (bus_step (selected c) (p1 + 1)
            (r1_exchange Sd_Cmd32_Erase_Start start_block 1 p1))))) ∧
    (∀ (p1 p2 r2 : Nat) (rest : List Nat), p1 < 5 → p2 < 5 → r2 ≠ 0xFF → r2 ≠ 0x00 →
      rx_next (selected c) (answer p1 0x00 ++ (answer p2 r2 ++ rest)) →
      sd_card_erase_sector fuel (some c) addr count
        = Except.ok (Sd_Err_Failed, some (deselected (bus_step (selected c)
            ((p1 + 1) + (p2 + 1))
            (r1_exchange Sd_Cmd32_Erase_Start start_block 1 p1 ++
              r1_exchange Sd_Cmd33_Erase_End end_block 1 p2))))) ∧
    (∀ (p1 p2 p3 r3 : Nat) (busy rest : List Nat), p1 < 5 → p2 < 5 → p3 < 5 → r3 ≠ 0xFF →
      (∀ x ∈ busy, x ≠ 0xFF) → busy.length < fuel →
      rx_next (selected c)
        (answer p1 0x00 ++ (answer p2 0x00 ++ (answer p3 r3 ++ (busy ++ 0xFF :: rest)))) →
      sd_card_erase_sector fuel (some c) addr count
        = Except.ok (if r3 = 0x00 then Sd_Err_OK else Sd_Err_Failed,
            some (deselected (bus_step (selected c)
              ((p1 + 1) + (p2 + 1) + ((p3 + 1) + (busy.length + 1)))
              (r1_exchange Sd_Cmd32_Erase_Start start_block 1 p1 ++
                (r1_exchange Sd_Cmd33_Erase_End end_block 1 p2 ++
                  (r1_exchange Sd_Cmd38_Erase 0 1 p3 ++
                    r1b_events (selected c) (busy.length + 1)))))))) ∧
    (∀ c1 : sd_card,
      sd_card_erase_sector fuel (some c) addr count = Except.ok (Sd_Err_OK, some c1) →
      ∃ (resp32 : sd_resp_res) (s1 : sd_card) (resp33 : sd_resp_res) (s2 : sd_card)
        (resp38 : sd_resp_res) (s3 : sd_card),
        sd_card_send_cmd_req fuel (selected c)
            { cmd := Sd_Cmd32_Erase_Start, arg := start_block, crc := 1,
              resp_type := Sd_Resp_Type_R1, retry := 5 } sd_resp_res.zero
          = Except.ok (Sd_Err_OK, resp32, s1) ∧
        u8 resp32.buf 0 = 0x00 ∧
        sd_card_send_cmd_req fuel s1
            { cmd := Sd_Cmd33_Erase_End, arg := end_block, crc := 1,
              resp_type := Sd_Resp_Type_R1, retry := 5 } sd_resp_res.zero
          = Except.ok (Sd_Err_OK, resp33, s2) ∧
        u8 resp33.buf 0 = 0x00 ∧
        sd_card_send_cmd_req fuel s2
            { cmd := Sd_Cmd38_Erase, arg := 0, crc := 1,
              resp_type := Sd_Resp_Type_R1b, retry := 5 } sd_resp_res.zero
          = Except.ok (Sd_Err_OK, resp38, s3) ∧
        u8 resp38.buf 0 = 0x00 ∧ c1 = (sd_spi_hw_deselect_card s3).2) := by
  have ht := has_transfer_selected hsel
  refine ⟨?_, ?_, ?_, ?_⟩
  · intro p1 r1 rest hp1 hr1 hne hrx
    exact erase_sector_bracket hinit hcount hsel hrange
      (erase_commands_fail32 fuel (selected c) start_block end_block p1 r1 rest ht hp1 hr1 hne
        hrx)
  · intro p1 p2 r2 rest hp1 hp2 hr2 hne hrx
    exact erase_sector_bracket hinit hcount hsel hrange
      (erase_commands_fail33 fuel (selected c) start_block end_block p1 p2 r2 rest ht hp1 hp2
        hr2 hne hrx)
  · intro p1 p2 p3 r3 busy rest hp1 hp2 hp3 hr3 hbusy hf hrx
    exact erase_sector_bracket hinit hcount hsel hrange
      (erase_commands_run fuel (selected c) start_block end_block p1 p2 p3 r3 busy rest ht hp1
        hp2 hp3 hr3 hbusy hf hrx)
  · intro c1 h
    obtain ⟨c3, h1, h2⟩ := erase_sector_ok_only_if hinit hcount hsel hrange h
    obtain ⟨resp32, s1, resp33, s2, resp38, g1, g2, g3, g4, g5, g6⟩ :=
      erase_commands_ok_only_if h1
    exact ⟨resp32, s1, resp33, s2, resp38, c3, g1, g2, g3, g4, g5, g6, h2⟩

/-- The R1 checks on a byte-addressed card: CMD32 answered `0x04`; CMD33 answered
`0x04`; CMD38 answered `0x04` with the line idle afterwards. -/
theorem erase_sector_r1_checks_witness :
    sd_card_erase_sector 1 (some (demo_card legacy_info (miso_of [0x04]))) 0 1
      = Except.ok (Sd_Err_Failed,
          some (deselected (bus_step (selected (demo_card legacy_info (miso_of [0x04]))) (0 + 1)
            (r1_exchange Sd_Cmd32_Erase_Start 0 1 0)))) ∧
    sd_card_erase_sector 1 (some (demo_card legacy_info (miso_of [0x00, 0x04]))) 0 1
      = Except.ok (Sd_Err_Failed,
          some (deselected (bus_step (selected (demo_card legacy_info (miso_of [0x00, 0x04])))
            ((0 + 1) + (0 + 1))
            (r1_exchange Sd_Cmd32_Erase_Start 0 1 0 ++
              r1_exchange Sd_Cmd33_Erase_End 4095 1 0)))) ∧
    sd_card_erase_sector 1 (some (demo_card legacy_info (miso_of [0x00, 0x00, 0x04]))) 0 1
      = Except.ok (if 0x04 = 0x00 then Sd_Err_OK else Sd_Err_Failed,
          some (deselected (bus_step
            (selected (demo_card legacy_info (miso_of [0x00, 0x00, 0x04])))
            ((0 + 1) + (0 + 1) + ((0 + 1) + (0 + 1)))
            (r1_exchange Sd_Cmd32_Erase_Start 0 1 0 ++
              (r1_exchange Sd_Cmd33_Erase_End 4095 1 0 ++
                (r1_exchange Sd_Cmd38_Erase 0 1 0 ++
                  r1b_events (selected (demo_card legacy_info (miso_of [0x00, 0x00, 0x04])))
                    (0 + 1))))))) :=
  ⟨(erase_sector_r1_checks 1 (demo_card legacy_info (miso_of [0x04])) 0 1 0 4095 rfl
      (by decide) ⟨good_if, _, _, rfl, rfl, rfl, rfl⟩ rfl).1 0 0x04 [] (by decide) (by decide)
      (by decide) (by unfold rx_next; decide!),
   (erase_sector_r1_checks 1 (demo_card legacy_info (miso_of [0x00, 0x04])) 0 1 0 4095 rfl
      (by decide) ⟨good_if, _, _, rfl, rfl, rfl, rfl⟩ rfl).2.1 0 0 0x04 [] (by decide)
      (by decide) (by decide) (by decide) (by unfold rx_next; decide!),
   (erase_sector_r1_checks 1 (demo_card legacy_info (miso_of [0x00, 0x00, 0x04])) 0 1 0 4095 rfl
      (by decide) ⟨good_if, _, _, rfl, rfl, rfl, rfl⟩ rfl).2.2.1 0 0 0 0x04 [] [] (by decide)
      (by decide) (by decide) (by decide) (by simp) (by decide) (by unfold rx_next; decide!)⟩

/-! ### The session flags across whole operations -/

theorem has_deselect_release_append_right (a b : List BusEvent)
    (h : has_deselect_release b = true) : has_deselect_release (a ++ b) = true := by
  induction a with
  | nil => exact h
  | cons e a ih =>
    rw [List.cons_append]
    unfold has_deselect_release
    rw [ih, Bool.or_true]

theorem has_deselect_release_append_left (a b : List BusEvent)
    (h : has_deselect_release a = true) : has_deselect_release (a ++ b) = true := by
  induction a with
  | nil => cases h
  | cons e a ih =>
    simp only [has_deselect_release, Bool.or_eq_true, Bool.and_eq_true, decide_eq_true_eq] at h
    simp only [List.cons_append, has_deselect_release, Bool.or_eq_true, Bool.and_eq_true,
      decide_eq_true_eq]
    rcases h with ⟨h1, h2⟩ | h
    · left
      refine ⟨h1, ?_⟩
      cases a with
      | nil => cases h2
      | cons x a => exact h2
    · right
      exact ih h

theorem released_after_select_cons_other (e : BusEvent) (rest : List BusEvent)
    (h : e ≠ BusEvent.control Sd_User_Ctrl_Select_Card) :
    released_after_select (e :: rest) = released_after_select rest := by
  simp [released_after_select, h]

theorem released_after_select_cons_select (rest : List BusEvent) :
    released_after_select (BusEvent.control Sd_User_Ctrl_Select_Card :: rest)
      = (has_deselect_release rest && released_after_select rest) := by
  simp [released_after_select]

theorem released_after_select_append (a b : List BusEvent)
    (ha : released_after_select a = true) (hb : released_after_select b = true) :
    released_after_select (a ++ b) = true := by
  induction a with
  | nil => exact hb
  | cons e a ih =>
    simp only [released_after_select, Bool.and_eq_true] at ha
    simp only [List.cons_append, released_after_select, Bool.and_eq_true]
    refine ⟨?_, ih ha.2⟩
    by_cases he : e = BusEvent.control Sd_User_Ctrl_Select_Card
    · have h1 := ha.1
      rw [if_pos he] at h1 ⊢
      exact has_deselect_release_append_left a b h1
    · rw [if_neg he]

theorem released_after_select_quiet {evs : List BusEvent} (h : quiet evs) :
    released_after_select evs = true := by
  induction evs with
  | nil => rfl
  | cons e evs ih =>
    have he : is_control e = false := h e (List.mem_cons_self _ _)
    have hne : e ≠ BusEvent.control Sd_User_Ctrl_Select_Card := by
      rintro rfl
      cases he
    simp only [released_after_select, if_neg hne, Bool.true_and]
    exact ih (fun x hx => h x (List.mem_cons_of_mem _ hx))

theorem transfers_mod_info_refl (c : sd_card) : transfers_mod_info c c :=
  ⟨rfl, rfl, id, [], (List.append_nil _).symm, quiet_nil⟩

theorem transfers_mod_info_trans {a b c : sd_card} (h1 : transfers_mod_info a b)
    (h2 : transfers_mod_info b c) : transfers_mod_info a c := by
  obtain ⟨a1, a2, a3, e1, a4, a5⟩ := h1
  obtain ⟨b1, b2, b3, e2, b4, b5⟩ := h2
  refine ⟨b1.trans a1, b2.trans a2, fun h => b3 (a3 h), e1 ++ e2, ?_, quiet_append a5 b5⟩
  rw [b4, a4, List.append_assoc]

theorem transfers_mod_info_of_only {a b : sd_card} (h : transfers_only a b) :
    transfers_mod_info a b :=
  ⟨h.1, h.2.2.2.1, h.2.2.2.2.2.1, h.2.2.2.2.2.2⟩

theorem transfers_mod_info_set_info (c : sd_card) (i : sd_info) :
    transfers_mod_info c { c with info := i } :=
  ⟨rfl, rfl, id, [], (List.append_nil _).symm, quiet_nil⟩

theorem session_call_refl (c : sd_card) : session_call c c :=
  ⟨rfl, id, id, [], (List.append_nil _).symm, rfl⟩

theorem session_call_trans {a b c : sd_card} (h1 : session_call a b) (h2 : session_call b c) :
    session_call a c := by
  obtain ⟨a1, a2, a3, e1, a4, a5⟩ := h1
  obtain ⟨b1, b2, b3, e2, b4, b5⟩ := h2
  refine ⟨b1.trans a1, fun h => b2 (a2 h), fun h => b3 (a3 h), e1 ++ e2, ?_,
    released_after_select_append _ _ a5 b5⟩
  rw [b4, a4, List.append_assoc]

theorem session_call_of_transfers {a b : sd_card} (h : transfers_mod_info a b) :
    session_call a b := by
  obtain ⟨a1, a2, a3, e1, a4, a5⟩ := h
  exact ⟨a1, fun h => a2.trans h, a3, e1, a4, released_after_select_quiet a5⟩

/-- A deselect, whatever the adapter, is a complete operation. -/
theorem deselect_session_call (c : sd_card) : session_call c (sd_spi_hw_deselect_card c).2 := by
  unfold sd_spi_hw_deselect_card
  split
  · exact session_call_refl c
  · split
    · exact session_call_refl c
    · exact ⟨rfl, fun _ => rfl, id, _, rfl, rfl⟩

/-- The two outcomes of a select: it fails and leaves a session that is a complete
operation away from the one it was given, or it succeeds, and then any run of
transfers followed by a deselect is a complete operation. -/
theorem select_cases (c : sd_card) :
    (∃ err c1, sd_spi_hw_select_card c = (err, c1) ∧ err ≠ Sd_Err_OK ∧ session_call c c1) ∨
    (sd_spi_hw_select_card c = (Sd_Err_OK, selected c) ∧
      ∀ c2, transfers_mod_info (selected c) c2 → session_call c (sd_spi_hw_deselect_card c2).2)
    := by
  cases c with
  | mk spi info ini sel xf miso pos log =>
    cases spi with
    | none => exact Or.inl ⟨ Sd_Err_IO, _, rfl, by decide, session_call_refl _⟩
    | some ifc =>
      cases hc : ifc.control with
      | none =>
        refine Or.inl ⟨ Sd_Err_IO, _, ?_, by decide, session_call_refl _⟩
        simp only [sd_spi_hw_select_card, hc]
      | some ctl =>
        by_cases ht : ctl log.length Sd_User_Ctrl_Take_Bus ≠ 0
        · refine Or.inl ⟨Sd_Err_Timeout,
            { spi_if := some ifc, info := info, is_inited := ini, is_selected := sel,
              is_xfering := xf, miso := miso, rx_pos := pos,
              log := log ++ [BusEvent.control Sd_User_Ctrl_Take_Bus] }, ?_, by decide, ?_⟩
          · simp only [sd_spi_hw_select_card, hc, if_pos ht]
          · exact ⟨rfl, id, id, _, rfl, rfl⟩
        · refine Or.inr ⟨?_, ?_⟩
          · simp only [sd_spi_hw_select_card, hc, if_neg ht, selected]
          · intro c2 h
            obtain ⟨a1, a2, a3, evs, a4, a5⟩ := h
            have hs2 : c2.spi_if = some ifc := a1
            rw [deselect_ok ifc ctl hs2 hc]
            refine ⟨a1, fun _ => rfl, fun hx => a3 hx,
              [BusEvent.control Sd_User_Ctrl_Take_Bus,
                BusEvent.control Sd_User_Ctrl_Select_Card]
                ++ evs ++ [BusEvent.control Sd_User_Ctrl_Deselect_Card,
                  BusEvent.control Sd_User_Ctrl_Release_Bus], ?_, ?_⟩
            · show c2.log ++ _ = _
              rw [a4]
              simp [selected, List.append_assoc]
            · have hq := released_after_select_quiet a5
              have hd : has_deselect_release
                  (evs ++ [BusEvent.control Sd_User_Ctrl_Deselect_Card,
                    BusEvent.control Sd_User_Ctrl_Release_Bus]) = true :=
                has_deselect_release_append_right _ _ (by decide)
              have hr : released_after_select
                  (evs ++ [BusEvent.control Sd_User_Ctrl_Deselect_Card,
                    BusEvent.control Sd_User_Ctrl_Release_Bus]) = true :=
                released_after_select_append _ _ hq (by decide)
              show released_after_select (BusEvent.control Sd_User_Ctrl_Take_Bus ::
                BusEvent.control Sd_User_Ctrl_Select_Card ::
                  (evs ++ [BusEvent.control Sd_User_Ctrl_Deselect_Card,
                    BusEvent.control Sd_User_Ctrl_Release_Bus])) = true
              rw [released_after_select_cons_other _ _ (by decide),
                released_after_select_cons_select, hd, hr]
              rfl

/-- A command whose response shape is not R1b returns, whatever the card shows, and
only transfers. -/
theorem send_cmd_total (fuel : Nat) (c : sd_card) (req : sd_cmd_req) (resp : sd_resp_res)
    (hr : req.resp_type ≠ Sd_Resp_Type_R1b) :
    ∃ (err : sd_error) (resp1 : sd_resp_res) (c1 : sd_card),
      sd_card_send_cmd_req fuel c req resp = Except.ok (err, resp1, c1) ∧ transfers_only c c1 := by
  obtain ⟨r, h⟩ := send_cmd_returns fuel c req resp hr
  have ht := send_cmd_transfers fuel c req resp r h
  obtain ⟨err, resp1, c1⟩ := r
  exact ⟨err, resp1, c1, h, ht⟩

theorem into_idle_loop_frame (fuel : Nat) (n : Nat) : ∀ c : sd_card,
    ∃ (fin : Bool) (err : sd_error) (t : Nat) (c1 : sd_card),
      into_idle_loop fuel n c = Except.ok (fin, err, t, c1) ∧ transfers_only c c1 := by
  induction n with
  | zero => intro c; exact ⟨_, _, _, _, rfl, transfers_only_refl c⟩
  | succ n ih =>
    intro c
    obtain ⟨e, resp, c1, h1, h2⟩ := send_cmd_total fuel c
      { cmd := Sd_Cmd0_Idle, arg := 0, crc := 0x95, resp_type := Sd_Resp_Type_R1, retry := 0xff }
      sd_resp_res.zero (fun h => by cases h)
    unfold into_idle_loop
    rw [h1]
    cases e with
    | Sd_Err_OK =>
      simp only []
      split
      · exact ⟨_, _, _, _, rfl, h2⟩
      · obtain ⟨fin, err, t, c2, i1, i2⟩ := ih c1
        exact ⟨fin, err, t, c2, i1, transfers_only_trans h2 i2⟩
    | _ => exact ⟨_, _, _, _, rfl, h2⟩

/-- The idle reset returns, whatever the card shows, and is a complete operation. -/
theorem into_idle_frame (fuel : Nat) (c : sd_card) :
    ∃ (err : sd_error) (c1 : sd_card),
      sd_card_into_idle fuel c = Except.ok (err, c1) ∧ session_call c c1 := by
  rcases select_cases c with ⟨err, c1, h, hne, hs⟩ | ⟨h, hd⟩
  · unfold sd_card_into_idle
    rw [h]
    cases err with
    | Sd_Err_OK => exact absurd rfl hne
    | _ => exact ⟨_, _, rfl, hs⟩
  · obtain ⟨fin, err, t, c2, l1, l2⟩ := into_idle_loop_frame fuel 0xff (selected c)
    unfold sd_card_into_idle
    rw [h]
    simp only []
    rw [l1]
    exact ⟨_, _, rfl, session_call_trans (hd c2 (transfers_mod_info_of_only l2))
      (session_call_of_transfers (transfers_mod_info_of_only (send_dummy_transfers 1 _)))⟩

theorem do_while_dec_frame (body : sd_card → Except Fault (LoopStep × sd_card))
    (hbody : ∀ c, ∃ (st : LoopStep) (c1 : sd_card),
      body c = Except.ok (st, c1) ∧ transfers_mod_info c c1) (n : Nat) :
    ∀ c : sd_card, ∃ (r : Option sd_error) (t : Nat) (c1 : sd_card),
      do_while_dec body n c = Except.ok (r, t, c1) ∧ transfers_mod_info c c1 := by
  induction n with
  | zero =>
    intro c
    obtain ⟨st, c1, h1, h2⟩ := hbody c
    unfold do_while_dec
    rw [h1]
    cases st <;> exact ⟨_, _, _, rfl, h2⟩
  | succ n ih =>
    intro c
    obtain ⟨st, c1, h1, h2⟩ := hbody c
    unfold do_while_dec
    rw [h1]
    cases st with
    | next =>
      obtain ⟨r, t, c2, i1, i2⟩ := ih c1
      exact ⟨r, t, c2, i1, transfers_mod_info_trans h2 i2⟩
    | _ => exact ⟨_, _, _, rfl, h2⟩

theorem acmd41_body_v2_frame (fuel : Nat) (c : sd_card) :
    ∃ (st : LoopStep) (c1 : sd_card),
      acmd41_body_v2 fuel c = Except.ok (st, c1) ∧ transfers_mod_info c c1 := by
  obtain ⟨e1, resp1, c1, h1, t1⟩ := send_cmd_total fuel c
    { cmd := Sd_Cmd55_App_Cmd, arg := 0, crc := 1, resp_type := Sd_Resp_Type_R1, retry := 5 }
    sd_resp_res.zero (fun h => by cases h)
  unfold acmd41_body_v2
  rw [h1]
  cases e1 with
  | Sd_Err_OK =>
    simp only []
    split
    · exact ⟨_, _, rfl, transfers_mod_info_of_only t1⟩
    · obtain ⟨e2, resp2, c2, h2, t2⟩ := send_cmd_total fuel c1
        { cmd := Sd_Acmd41_Op_Cond, arg := 0x40000000, crc := 1,
          resp_type := Sd_Resp_Type_R1, retry := 5 }
        sd_resp_res.zero (fun h => by cases h)
      rw [h2]
      have t12 := transfers_only_trans t1 t2
      cases e2 with
      | Sd_Err_OK =>
        simp only []
        split
        · exact ⟨_, _, rfl, transfers_mod_info_of_only t12⟩
        · exact ⟨_, _, rfl, transfers_mod_info_of_only
            (transfers_only_trans t12 (udelay_transfers _ _))⟩
      | _ => exact ⟨_, _, rfl, transfers_mod_info_of_only t12⟩
  | _ => exact ⟨_, _, rfl, transfers_mod_info_of_only t1⟩

theorem acmd41_body_v1_frame (fuel : Nat) (c : sd_card) :
    ∃ (st : LoopStep) (c1 : sd_card),
      acmd41_body_v1 fuel c = Except.ok (st, c1) ∧ transfers_mod_info c c1 := by
  obtain ⟨e1, resp1, c1, h1, t1⟩ := send_cmd_total fuel c
    { cmd := Sd_Cmd55_App_Cmd, arg := 0, crc := 1, resp_type := Sd_Resp_Type_R1, retry := 5 }
    sd_resp_res.zero (fun h => by cases h)
  unfold acmd41_body_v1
  rw [h1]
  cases e1 with
  | Sd_Err_OK =>
    simp only []
    split
    · exact ⟨_, _, rfl, transfers_mod_info_of_only t1⟩
    · obtain ⟨e2, resp2, c2, h2, t2⟩ := send_cmd_total fuel c1
        { cmd := Sd_Acmd41_Op_Cond, arg := 0, crc := 1,
          resp_type := Sd_Resp_Type_R1, retry := 5 }
        sd_resp_res.zero (fun h => by cases h)
      rw [h2]
      have t12 := transfers_only_trans t1 t2
      cases e2 with
      | Sd_Err_OK =>
        simp only []
        split <;> exact ⟨_, _, rfl, transfers_mod_info_of_only t12⟩
      | _ => exact ⟨_, _, rfl, transfers_mod_info_of_only t12⟩
  | _ => exact ⟨_, _, rfl, transfers_mod_info_of_only t1⟩

theorem check_v2_after_acmd41_frame (fuel : Nat) (c : sd_card) :
    ∃ (err : sd_error) (c1 : sd_card),
      check_v2_after_acmd41 fuel c = Except.ok (err, c1) ∧ transfers_mod_info c c1 := by
  obtain ⟨e1, resp1, c2, h1, t1⟩ := send_cmd_total fuel c
    { cmd := Sd_Cmd58_Rd_Ocr, arg := 0, crc := 1, resp_type := Sd_Resp_Type_R3, retry := 5 }
    sd_resp_res.zero (fun h => by cases h)
  have m1 := transfers_mod_info_of_only t1
  unfold check_v2_after_acmd41
  rw [h1]
  cases e1 with
  | Sd_Err_OK =>
    simp only []
    split
    · exact ⟨_, _, rfl, m1⟩
    · generalize hc3 : (if ((((u8 resp1.buf 1 <<< 24) % 2 ^ 32) |||
          ((u8 resp1.buf 2 <<< 16) % 2 ^ 32) ||| ((u8 resp1.buf 3 <<< 8) % 2 ^ 32) |||
          u8 resp1.buf 4) % 2 ^ 32 &&& (1 <<< 30)) ≠ 0 then
          ({ c2 with info := { c2.info with type := Sd_Type_SDHC } } : sd_card)
        else { c2 with info := { c2.info with type := Sd_Type_SDSC_V2 } }) = c3
      have m3 : transfers_mod_info c2 c3 := by
        rw [← hc3]
        split <;> exact transfers_mod_info_set_info _ _
      have m4 : transfers_mod_info c c3 := transfers_mod_info_trans m1 m3
      have m5 : transfers_mod_info c (sd_spi_hw_send_dummy c3 2).2 :=
        transfers_mod_info_trans m4 (transfers_mod_info_of_only (send_dummy_transfers 2 c3))
      obtain ⟨e2, resp2, c5, h2, t2⟩ := send_cmd_total fuel (sd_spi_hw_send_dummy c3 2).2
        { cmd := Sd_Cmd9_Csd, arg := 0, crc := 1, resp_type := Sd_Resp_Type_R2, retry := 5 }
        sd_resp_res.zero (fun h => by cases h)
      have m6 := transfers_mod_info_trans m5 (transfers_mod_info_of_only t2)
      rw [h2]
      cases e2 with
      | Sd_Err_OK =>
        simp only []
        split
        · generalize _parse_csd_v2 resp2.buf c5.info = p
          obtain ⟨pe, pi⟩ := p
          cases pe with
          | Sd_Err_OK =>
            simp only []
            split <;>
              exact ⟨_, _, rfl, transfers_mod_info_trans m6 (transfers_mod_info_set_info _ _)⟩
          | _ => exact ⟨_, _, rfl, transfers_mod_info_trans m6 (transfers_mod_info_set_info _ _)⟩
        · generalize _parse_csd_v1 resp2.buf c5.info = p
          obtain ⟨pe, pi⟩ := p
          cases pe <;>
            exact ⟨_, _, rfl, transfers_mod_info_trans m6 (transfers_mod_info_set_info _ _)⟩
      | _ => exact ⟨_, _, rfl, m6⟩
  | _ => exact ⟨_, _, rfl, m1⟩

theorem check_v1_after_acmd41_frame (fuel : Nat) (c : sd_card) :
    ∃ (err : sd_error) (c1 : sd_card),
      check_v1_after_acmd41 fuel c = Except.ok (err, c1) ∧ transfers_mod_info c c1 := by
  have m0 : transfers_mod_info c
      { c with info := { c.info with type := Sd_Type_SDSC_V1 } } :=
    transfers_mod_info_set_info _ _
  obtain ⟨e1, resp1, c3, h1, t1⟩ := send_cmd_total fuel
    { c with info := { c.info with type := Sd_Type_SDSC_V1 } }
    { cmd := Sd_Cmd16_Block_len, arg := 512, crc := 1,
      resp_type := Sd_Resp_Type_R1, retry := 5 }
    sd_resp_res.zero (fun h => by cases h)
  have m1 := transfers_mod_info_trans m0 (transfers_mod_info_of_only t1)
  unfold check_v1_after_acmd41
  simp only []
  rw [h1]
  cases e1 with
  | Sd_Err_OK =>
    simp only []
    split
    · exact ⟨_, _, rfl, m1⟩
    · obtain ⟨e2, resp2, c4, h2, t2⟩ := send_cmd_total fuel c3
        { cmd := Sd_Cmd9_Csd, arg := 0, crc := 1, resp_type := Sd_Resp_Type_R2, retry := 5 }
        sd_resp_res.zero (fun h => by cases h)
      have m2 := transfers_mod_info_trans m1 (transfers_mod_info_of_only t2)
      rw [h2]
      cases e2 with
      | Sd_Err_OK =>
        simp only []
        generalize _parse_csd_v1 resp2.buf c4.info = p
        obtain ⟨pe, pi⟩ := p
        cases pe <;>
          exact ⟨_, _, rfl, transfers_mod_info_trans m2 (transfers_mod_info_set_info _ _)⟩
      | _ => exact ⟨_, _, rfl, m2⟩
  | _ => exact ⟨_, _, rfl, m1⟩

theorem check_card_maybe_v2_frame (fuel : Nat) (c : sd_card) :
    ∃ (err : sd_error) (c1 : sd_card),
      _check_card_maybe_v2 fuel c = Except.ok (err, c1) ∧ transfers_mod_info c c1 := by
  obtain ⟨r, t, c1, h1, m1⟩ := do_while_dec_frame (acmd41_body_v2 fuel)
    (acmd41_body_v2_frame fuel) 254 c
  unfold _check_card_maybe_v2
  rw [h1]
  cases r with
  | some err => exact ⟨_, _, rfl, m1⟩
  | none =>
    simp only []
    split
    · exact ⟨_, _, rfl, m1⟩
    · obtain ⟨err, c2, h2, m2⟩ := check_v2_after_acmd41_frame fuel c1
      exact ⟨err, c2, h2, transfers_mod_info_trans m1 m2⟩

theorem check_card_maybe_v1_frame (fuel : Nat) (c : sd_card) :
    ∃ (err : sd_error) (c1 : sd_card),
      _check_card_maybe_v1 fuel c = Except.ok (err, c1) ∧ transfers_mod_info c c1 := by
  obtain ⟨r, t, c1, h1, m1⟩ := do_while_dec_frame (acmd41_body_v1 fuel)
    (acmd41_body_v1_frame fuel) 254 c
  unfold _check_card_maybe_v1
  rw [h1]
  cases r with
  | some err => exact ⟨_, _, rfl, m1⟩
  | none =>
    simp only []
    split
    · exact ⟨_, _, rfl, m1⟩
    · obtain ⟨err, c2, h2, m2⟩ := check_v1_after_acmd41_frame fuel c1
      exact ⟨err, c2, h2, transfers_mod_info_trans m1 m2⟩

theorem finish_session_call {c0 c3 : sd_card} (err : sd_error)
    (hd : ∀ c2, transfers_mod_info (selected c0) c2 →
      session_call c0 (sd_spi_hw_deselect_card c2).2)
    (h : transfers_mod_info (selected c0) c3) :
    session_call c0 (card_identify_finish err c3).2 :=
  session_call_trans (hd c3 h)
    (session_call_of_transfers (transfers_mod_info_of_only (send_dummy_transfers 1 _)))

/-- The class identification returns, whatever the card shows, and is a complete
operation. -/
theorem card_identify_frame (fuel : Nat) (c : sd_card) :
    ∃ (err : sd_error) (c1 : sd_card),
      _card_identify fuel c = Except.ok (err, c1) ∧ session_call c c1 := by
  have s0 : session_call c { c with info := ⟨0, 0, 0, 0, Sd_Type_Unknown⟩ } :=
    session_call_of_transfers (transfers_mod_info_set_info _ _)
  unfold _card_identify
  simp only []
  generalize ({ c with info := ⟨0, 0, 0, 0, Sd_Type_Unknown⟩ } : sd_card) = c0 at s0 ⊢
  rcases select_cases c0 with ⟨err, c1, h, hne, hs⟩ | ⟨h, hd⟩
  · rw [h]
    cases err with
    | Sd_Err_OK => exact absurd rfl hne
    | _ => exact ⟨_, _, rfl, session_call_trans s0 hs⟩
  · rw [h]
    simp only []
    obtain ⟨e1, resp, c2, h1, t1⟩ := send_cmd_total fuel (selected c0)
      { cmd := Sd_Cmd8_If_Cond, arg := 0x1AA, crc := 0x87,
        resp_type := Sd_Resp_Type_R7, retry := 5 }
      sd_resp_res.zero (fun h => by cases h)
    have m1 := transfers_mod_info_of_only t1
    rw [h1]
    have hv1 : ∃ (err : sd_error) (c1 : sd_card),
        (match _check_card_maybe_v1 fuel c2 with
          | Except.error f => Except.error f
          | Except.ok (err, card3) => Except.ok (card_identify_finish err card3))
          = Except.ok (err, c1) ∧ session_call c c1 := by
      obtain ⟨err, c3, h3, m3⟩ := check_card_maybe_v1_frame fuel c2
      rw [h3]
      exact ⟨_, _, rfl, session_call_trans s0
        (finish_session_call err hd (transfers_mod_info_trans m1 m3))⟩
    cases e1 with
    | Sd_Err_OK =>
      simp only []
      split
      · split
        · obtain ⟨err, c3, h3, m3⟩ := check_card_maybe_v2_frame fuel c2
          rw [h3]
          exact ⟨_, _, rfl, session_call_trans s0
            (finish_session_call err hd (transfers_mod_info_trans m1 m3))⟩
        · exact ⟨_, _, rfl, session_call_trans s0 (finish_session_call _ hd m1)⟩
      · exact ⟨_, _, rfl, session_call_trans s0 (finish_session_call _ hd m1)⟩
    | _ => exact hv1

/-- The identification returns, whatever the card shows, and is a complete
operation. -/
theorem sd_card_identify_frame (fuel : Nat) (c : sd_card) :
    ∃ (err : sd_error) (c1 : sd_card),
      sd_card_identify fuel c = Except.ok (err, c1) ∧ session_call c c1 := by
  obtain ⟨e1, c1, h1, s1⟩ := into_idle_frame fuel c
  unfold sd_card_identify
  rw [h1]
  cases e1 with
  | Sd_Err_OK =>
    obtain ⟨e2, c2, h2, s2⟩ := card_identify_frame fuel c1
    exact ⟨e2, c2, h2, session_call_trans s1 s2⟩
  | _ => exact ⟨_, _, rfl, s1⟩

theorem read_blocks_frame (fuel lba : Nat) (n : Nat) : ∀ (i : Nat) (c : sd_card) (buf : List Nat),
    ∃ (err : sd_error) (buf1 : List Nat) (c1 : sd_card),
      read_blocks fuel lba n i c buf = Except.ok (err, buf1, c1) ∧ transfers_only c c1 := by
  induction n with
  | zero => intro i c buf; exact ⟨_, _, _, rfl, transfers_only_refl c⟩
  | succ n ih =>
    intro i c buf
    obtain ⟨e, b1, c1, h1, t1, _⟩ := read_single_block_frame fuel c ((lba + i) % 2 ^ 32) buf
      ((i * c.info.block_size) % 2 ^ 32)
    unfold read_blocks
    rw [h1]
    cases e with
    | Sd_Err_OK =>
      obtain ⟨e2, b2, c2, h2, t2⟩ := ih (i + 1) c1 b1
      exact ⟨e2, b2, c2, h2, transfers_only_trans t1 t2⟩
    | _ => exact ⟨_, _, _, rfl, t1⟩

theorem write_blocks_frame (fuel lba : Nat) (buf : List Nat) (n : Nat) :
    ∀ (i : Nat) (c : sd_card),
    ∃ (err : sd_error) (c1 : sd_card),
      write_blocks fuel lba buf n i c = Except.ok (err, c1) ∧ transfers_only c c1 := by
  induction n with
  | zero => intro i c; exact ⟨_, _, rfl, transfers_only_refl c⟩
  | succ n ih =>
    intro i c
    obtain ⟨e, c1, h1, t1⟩ := write_single_block_frame fuel c ((lba + i) % 2 ^ 32) buf
      ((i * c.info.block_size) % 2 ^ 32)
    unfold write_blocks
    rw [h1]
    cases e with
    | Sd_Err_OK =>
      obtain ⟨e2, c2, h2, t2⟩ := ih (i + 1) c1
      exact ⟨e2, c2, h2, transfers_only_trans t1 t2⟩
    | _ => exact ⟨_, _, rfl, t1⟩

theorem conv_req_to_lba_total (c : sd_card) (req : sd_lba_req) (h : c.info.block_size ≠ 0) :
    ∃ oparg, _conv_req_to_lba c req = Except.ok oparg := by
  unfold _conv_req_to_lba udiv
  by_cases ht : c.info.type = Sd_Type_SDHC ∨ c.info.type = Sd_Type_SDXC
  · simp only [if_neg h, if_pos ht]; exact ⟨_, rfl⟩
  · simp only [if_neg h, if_neg ht]; exact ⟨_, rfl⟩

/-- `sd_card_read` returns, whatever the card shows (on an initialised session the
divisor `block_size` must be non-zero), and is a complete operation. -/
theorem sd_card_read_frame (fuel : Nat) (c : sd_card) (addr : Nat) (buf : Option (List Nat))
    (len : Nat) (hbs : c.is_inited = true → c.info.block_size ≠ 0) :
    ∃ (err : sd_error) (c1 : sd_card) (buf1 : Option (List Nat)),
      sd_card_read fuel (some c) addr buf len = Except.ok (err, some c1, buf1) ∧
      session_call c c1 := by
  unfold sd_card_read
  cases buf with
  | none => exact ⟨_, _, _, rfl, session_call_refl c⟩
  | some b =>
    simp only []
    split
    · exact ⟨_, _, _, rfl, session_call_refl c⟩
    · split
      · exact ⟨_, _, _, rfl, session_call_refl c⟩
      · rename_i hi
        have hb : c.info.block_size ≠ 0 := hbs (by simpa using hi)
        unfold umod
        rw [if_neg hb]
        simp only []
        split
        · exact ⟨_, _, _, rfl, session_call_refl c⟩
        · obtain ⟨oparg, ho⟩ := conv_req_to_lba_total c
            { offset := addr % 2 ^ 64, len := len % 2 ^ 32 } hb
          rw [ho]
          simp only []
          rcases select_cases c with ⟨err, c1, h, hne, hs⟩ | ⟨h, hd⟩
          · rw [h]
            cases err with
            | Sd_Err_OK => exact absurd rfl hne
            | _ => exact ⟨_, _, _, rfl, hs⟩
          · rw [h]
            simp only []
            obtain ⟨e, b1, c2, h2, t2⟩ := read_blocks_frame fuel oparg.lba_addr oparg.lba_count 0
              (selected c) b
            rw [h2]
            exact ⟨_, _, _, rfl, hd c2 (transfers_mod_info_of_only t2)⟩

/-- `sd_card_write` returns, whatever the card shows (on an initialised session the
divisor `block_size` must be non-zero), and is a complete operation. -/
theorem sd_card_write_frame (fuel : Nat) (c : sd_card) (addr : Nat) (buf : Option (List Nat))
    (len : Nat) (hbs : c.is_inited = true → c.info.block_size ≠ 0) :
    ∃ (err : sd_error) (c1 : sd_card),
      sd_card_write fuel (some c) addr buf len = Except.ok (err, some c1) ∧
      session_call c c1 := by
  unfold sd_card_write
  cases buf with
  | none => exact ⟨_, _, rfl, session_call_refl c⟩
  | some b =>
    simp only []
    split
    · exact ⟨_, _, rfl, session_call_refl c⟩
    · split
      · exact ⟨_, _, rfl, session_call_refl c⟩
      · rename_i hi
        have hb : c.info.block_size ≠ 0 := hbs (by simpa using hi)
        unfold umod
        rw [if_neg hb]
        simp only []
        split
        · exact ⟨_, _, rfl, session_call_refl c⟩
        · obtain ⟨oparg, ho⟩ := conv_req_to_lba_total c
            { offset := addr % 2 ^ 64, len := len % 2 ^ 32 } hb
          rw [ho]
          simp only []
          rcases select_cases c with ⟨err, c1, h, hne, hs⟩ | ⟨h, hd⟩
          · rw [h]
            cases err with
            | Sd_Err_OK => exact absurd rfl hne
            | _ => exact ⟨_, _, rfl, hs⟩
          · rw [h]
            simp only []
            obtain ⟨e, c2, h2, t2⟩ := write_blocks_frame fuel oparg.lba_addr b oparg.lba_count 0
              (selected c)
            rw [h2]
            exact ⟨_, _, rfl, hd c2 (transfers_mod_info_of_only t2)⟩

theorem erase_commands_transfers {fuel : Nat} {c : sd_card} {s e : Nat} {err : sd_error}
    {c3 : sd_card} (h : erase_commands fuel c s e = Except.ok (err, c3)) :
    transfers_only c c3 := by
  unfold erase_commands at h
  generalize h32 : sd_card_send_cmd_req fuel c
    { cmd := Sd_Cmd32_Erase_Start, arg := s, crc := 1, resp_type := Sd_Resp_Type_R1,
      retry := 5 } sd_resp_res.zero = r32 at h
  cases r32 with
  | error f => cases h
  | ok v =>
    have t1 := send_cmd_transfers fuel c _ _ v h32
    obtain ⟨e1, resp32, c1⟩ := v
    cases e1 with
    | Sd_Err_OK =>
      simp only [] at h
      split at h
      · cases h; exact t1
      · generalize h33 : sd_card_send_cmd_req fuel c1
          { cmd := Sd_Cmd33_Erase_End, arg := e, crc := 1, resp_type := Sd_Resp_Type_R1,
            retry := 5 } sd_resp_res.zero = r33 at h
        cases r33 with
        | error f => cases h
        | ok v =>
          have t2 := transfers_only_trans t1 (send_cmd_transfers fuel c1 _ _ v h33)
          obtain ⟨e2, resp33, c2⟩ := v
          cases e2 with
          | Sd_Err_OK =>
            simp only [] at h
            split at h
            · cases h; exact t2
            · generalize h38 : sd_card_send_cmd_req fuel c2
                { cmd := Sd_Cmd38_Erase, arg := 0, crc := 1, resp_type := Sd_Resp_Type_R1b,
                  retry := 5 } sd_resp_res.zero = r38 at h
              cases r38 with
              | error f => cases h
              | ok v =>
                have t3 := transfers_only_trans t2 (send_cmd_transfers fuel c2 _ _ v h38)
                obtain ⟨e3, resp38, c4⟩ := v
                cases e3 with
                | Sd_Err_OK =>
                  simp only [] at h
                  split at h <;> (cases h; exact t3)
                | _ => simp only [] at h; cases h; exact t3
          | _ => simp only [] at h; cases h; exact t2
    | _ => simp only [] at h; cases h; exact t1

/-- Whenever `sd_card_erase_sector` returns, it has been a complete operation. -/
theorem erase_sector_frame {fuel : Nat} {c : sd_card} {addr count : Nat} {err : sd_error}
    {r : Option sd_card}
    (h : sd_card_erase_sector fuel (some c) addr count = Except.ok (err, r)) :
    ∃ c1, r = some c1 ∧ session_call c c1 := by
  unfold sd_card_erase_sector at h
  simp only [] at h
  split at h
  · cases h; exact ⟨c, rfl, session_call_refl c⟩
  · split at h
    · cases h; exact ⟨c, rfl, session_call_refl c⟩
    · generalize erase_block_range c (addr % 2 ^ 64)
        ((c.info.erase_sector_size * (count % 2 ^ 32)) % 2 ^ 64) = rg at h
      cases rg with
      | error f => cases h
      | ok o =>
        cases o with
        | none => simp only [] at h; cases h; exact ⟨c, rfl, session_call_refl c⟩
        | some se =>
          obtain ⟨s, e⟩ := se
          simp only [] at h
          rcases select_cases c with ⟨err1, c1, hs, hne, hc⟩ | ⟨hs, hd⟩
          · rw [hs] at h
            cases err1 with
            | Sd_Err_OK => exact absurd rfl hne
            | _ => simp only [] at h; cases h; exact ⟨c1, rfl, hc⟩
          · rw [hs] at h
            simp only [] at h
            generalize hcmd : erase_commands fuel (selected c) s e = rc at h
            cases rc with
            | error f => cases h
            | ok v =>
              obtain ⟨e2, c2⟩ := v
              simp only [] at h
              cases h
              exact ⟨_, rfl, hd c2 (transfers_mod_info_of_only (erase_commands_transfers hcmd))⟩

theorem session_call_control (c : sd_card) (op : sd_user_ctrl)
    (h : op ≠ Sd_User_Ctrl_Select_Card) :
    session_call c { c with log := c.log ++ [BusEvent.control op] } := by
  refine ⟨rfl, id, id, [BusEvent.control op], rfl, ?_⟩
  rw [released_after_select_cons_other _ _ (by
    intro hh
    injection hh with hh
    exact h hh)]
  rfl

theorem io_init_session_call (c : sd_card) : session_call c (sd_spi_hw_io_init c).2 := by
  unfold sd_spi_hw_io_init
  split
  · exact session_call_refl c
  · split
    · exact session_call_refl c
    · exact session_call_control c _ (by decide)

theorem io_deinit_session_call (c : sd_card) : session_call c (sd_spi_hw_io_deinit c).2 := by
  unfold sd_spi_hw_io_deinit
  split
  · exact session_call_refl c
  · split
    · exact session_call_refl c
    · exact session_call_control c _ (by decide)

theorem set_speed_session_call (c : sd_card) (speed : sd_user_ctrl)
    (h : speed ≠ Sd_User_Ctrl_Select_Card) : session_call c (sd_spi_hw_set_speed c speed) := by
  unfold sd_spi_hw_set_speed
  split
  · exact session_call_refl c
  · split
    · exact session_call_refl c
    · exact session_call_control c _ h

theorem is_card_detached_session_call (c : sd_card) :
    session_call c (sd_spi_hw_is_card_detached c).2 := by
  unfold sd_spi_hw_is_card_detached
  split
  · exact session_call_refl c
  · split
    · exact session_call_refl c
    · exact session_call_control c _ (by decide)

theorem card_power_on_session_call (c : sd_card) :
    (_card_power_on c).1 = Sd_Err_OK ∧ session_call c (_card_power_on c).2 :=
  ⟨rfl, session_call_trans (deselect_session_call c)
    (session_call_of_transfers (transfers_mod_info_of_only (send_dummy_transfers 10 _)))⟩

/-- `sd_card_init` returns, whatever the card shows; it starts by clearing the three
flags and is a complete operation from there. -/
theorem sd_card_init_frame (fuel : Nat) (c : sd_card) :
    ∃ (err : sd_error) (c1 : sd_card),
      sd_card_init fuel (some c) = Except.ok (err, some c1) ∧
      session_call { c with is_inited := false, is_selected := false, is_xfering := false } c1
    := by
  unfold sd_card_init
  simp only []
  generalize ({ c with is_inited := false, is_selected := false, is_xfering := false }
    : sd_card) = c0
  have s1 := io_init_session_call c0
  generalize sd_spi_hw_io_init c0 = r1 at s1 ⊢
  obtain ⟨e1, c1⟩ := r1
  cases e1 with
  | Sd_Err_OK =>
    simp only []
    have s2 := session_call_trans s1
      (set_speed_session_call c1 Sd_User_Ctrl_Set_Low_Speed (by decide))
    obtain ⟨p1, p2⟩ := card_power_on_session_call
      (sd_spi_hw_set_speed c1 Sd_User_Ctrl_Set_Low_Speed)
    have s3 := session_call_trans s2 p2
    generalize _card_power_on (sd_spi_hw_set_speed c1 Sd_User_Ctrl_Set_Low_Speed) = r3
      at p1 s3 ⊢
    obtain ⟨e3, c3⟩ := r3
    simp only [] at p1
    subst p1
    simp only []
    obtain ⟨e4, c4, h4, s4⟩ := sd_card_identify_frame fuel c3
    rw [h4]
    have s5 := session_call_trans s3 s4
    cases e4 with
    | Sd_Err_OK =>
      refine ⟨_, _, rfl, session_call_trans s5 (session_call_trans
        (set_speed_session_call c4 Sd_User_Ctrl_Set_High_Speed (by decide)) ?_)⟩
      exact ⟨rfl, id, id, [], (List.append_nil _).symm, rfl⟩
    | _ => exact ⟨_, _, rfl, s5⟩
  | _ => exact ⟨_, _, rfl, s1⟩

/-- `sd_card_deinit` returns, whatever the card shows, and is a complete operation. -/
theorem sd_card_deinit_frame (fuel : Nat) (c : sd_card) :
    ∃ (err : sd_error) (c1 : sd_card),
      sd_card_deinit fuel (some c) = Except.ok (err, some c1) ∧ session_call c c1 := by
  obtain ⟨e1, c1, h1, s1⟩ := into_idle_frame fuel c
  unfold sd_card_deinit _card_power_off
  simp only []
  rw [h1]
  cases e1 with
  | Sd_Err_OK =>
    simp only []
    have s2 := session_call_trans s1 (io_deinit_session_call c1)
    generalize sd_spi_hw_io_deinit c1 = r2 at s2 ⊢
    obtain ⟨e2, c2⟩ := r2
    cases e2 with
    | Sd_Err_OK =>
      refine ⟨_, _, rfl, session_call_trans s2 ?_⟩
      exact ⟨rfl, id, id, [], (List.append_nil _).symm, rfl⟩
    | _ => exact ⟨_, _, rfl, s2⟩
  | _ => exact ⟨_, _, rfl, s1⟩

/-- `sd_card_is_inserted` returns, whatever the card shows, and is a complete
operation. -/
theorem sd_card_is_inserted_frame (fuel : Nat) (c : sd_card) :
    ∃ (b : Bool) (c1 : sd_card),
      sd_card_is_inserted fuel (some c) = Except.ok (b, some c1) ∧ session_call c c1 := by
  unfold sd_card_is_inserted
  simp only []
  have s1 := is_card_detached_session_call c
  generalize sd_spi_hw_is_card_detached c = r1 at s1 ⊢
  obtain ⟨d, c1⟩ := r1
  cases d with
  | false => exact ⟨_, _, rfl, s1⟩
  | true =>
    simp only []
    split
    · obtain ⟨e2, c2, h2, s2⟩ := into_idle_frame fuel c1
      rw [h2]
      cases e2 <;> exact ⟨_, _, rfl, session_call_trans s1 s2⟩
    · exact ⟨_, _, rfl, s1⟩

theorem idle_after_of_session_call {c c1 : sd_card} (h : session_call c c1)
    (hsel : c.is_selected = false) (hxf : c.is_xfering = false) : idle_after c c1 :=
  ⟨h.2.1 hsel, h.2.2.1 hxf, h.2.2.2⟩

/-- The three erase commands on a card that answers each of them but never shows
`0xFF` after the R1 byte of CMD38: the R1b wait never ends. -/
theorem erase_commands_hang (fuel : Nat) (card : sd_card) (s e p1 p2 p3 r3 : Nat)
    (ht : has_transfer card) (hp1 : p1 < 5) (hp2 : p2 < 5) (hp3 : p3 < 5) (hr3 : r3 ≠ 0xFF)
    (hrx : rx_next card (answer p1 0x00 ++ (answer p2 0x00 ++ (answer p3 r3 ++ []))))
    (hm : ∀ i, card.rx_pos + ((p1 + 1) + (p2 + 1) + (p3 + 1)) ≤ i → card.miso i % 256 ≠ 0xFF) :
    erase_commands fuel card s e = Except.error Fault.hang := by
  obtain ⟨e1, e2, e3⟩ := send_cmd_r1_answer fuel card Sd_Cmd32_Erase_Start s 1 5
    sd_resp_res.zero p1 0x00 _ ht (by norm_num) hp1 (by norm_num) hrx
  obtain ⟨f1, f2, f3⟩ := send_cmd_r1_answer fuel _ Sd_Cmd33_Erase_End e 1 5
    sd_resp_res.zero p2 0x00 _ e3 (by norm_num) hp2 (by norm_num) e2
  have g1 := send_cmd_r1b_hang fuel _ Sd_Cmd38_Erase 0 1 5 sd_resp_res.zero p3 r3 f3
    (by norm_num) hp3 hr3 f2
    (fun i hi => hm i (by
      have h3 : card.rx_pos + (p1 + 1) + (p2 + 1) + (p3 + 1) ≤ i := hi
      omega))
  rw [bus_step_bus_step] at f1 g1
  unfold erase_commands
  rw [e1]
  simp only []
  rw [u8_zero_set 0x00 (by norm_num), if_neg (by simp [SD_FR_NONE]), f1]
  simp only []
  rw [u8_zero_set 0x00 (by norm_num), if_neg (by simp [SD_FR_NONE]), g1]

/-- C20: an initialised session, not selected and not transferring, on a card whose
data line reads `0x00` for ever.  `sd_card_erase_sector` does not return with
`selected = false` after a deselect: the select succeeds, CMD32, CMD33 and CMD38 are
each answered `0x00`, and the R1b wait after CMD38, which has no counter, never sees
`0xFF`, so the commands, run on the selected card, never come back, and neither does
the call, whatever the fuel. -/
theorem erase_sector_busy_forever_hangs :
    (demo_card legacy_info miso_stuck_low).is_selected = false ∧
    (demo_card legacy_info miso_stuck_low).is_xfering = false ∧
    (selected (demo_card legacy_info miso_stuck_low)).is_selected = true ∧
    (∀ fuel : Nat,
      erase_commands fuel (selected (demo_card legacy_info miso_stuck_low)) 0 4095
        = Except.error Fault.hang) ∧
    ∀ fuel : Nat,
      sd_card_erase_sector fuel (some (demo_card legacy_info miso_stuck_low)) 0 1
        = Except.error Fault.hang := by
  have hsel : can_select (demo_card legacy_info miso_stuck_low) :=
    ⟨good_if, _, _, rfl, rfl, rfl, rfl⟩
  have hcmd : ∀ fuel : Nat,
      erase_commands fuel (selected (demo_card legacy_info miso_stuck_low)) 0 4095
        = Except.error Fault.hang := fun fuel =>
    erase_commands_hang fuel _ 0 4095 0 0 0 0x00 (has_transfer_selected hsel) (by decide)
      (by decide) (by decide) (by decide) (by unfold rx_next; decide!)
      (fun i _ => by show miso_stuck_low i % 256 ≠ 0xFF; unfold miso_stuck_low; decide)
  exact ⟨rfl, rfl, rfl, hcmd, fun fuel =>
    @erase_sector_fault fuel (demo_card legacy_info miso_stuck_low) 0 1 0 4095
      Fault.hang rfl (by decide) hsel rfl (hcmd fuel)⟩

/-- The session flags on the calls that return: for every session that is not selected
and not transferring on entry, whatever the adapter and the card: `sd_card_init`,
`sd_card_deinit` and `sd_card_is_inserted` return, and so do `sd_card_read` and
`sd_card_write` (provided `block_size`, by which they divide on an initialised
session, is non-zero there), each with some result and a session that is not
selected and not transferring, and on the adapter calls each has made every select
is followed by a deselect and release-bus; `sd_card_erase_sector` leaves the session
in such a state whenever it returns. -/
theorem session_flags_invariant (fuel : Nat) (c : sd_card) (hsel : c.is_selected = false)
    (hxf : c.is_xfering = false) :
    (∃ (err : sd_error) (c1 : sd_card),
      sd_card_init fuel (some c) = Except.ok (err, some c1) ∧ idle_after c c1) ∧
    (∃ (err : sd_error) (c1 : sd_card),
      sd_card_deinit fuel (some c) = Except.ok (err, some c1) ∧ idle_after c c1) ∧
    (∃ (b : Bool) (c1 : sd_card),
      sd_card_is_inserted fuel (some c) = Except.ok (b, some c1) ∧ idle_after c c1) ∧
    ((c.is_inited = true → c.info.block_size ≠ 0) →
      ∀ (addr : Nat) (buf : Option (List Nat)) (len : Nat),
        (∃ (err : sd_error) (c1 : sd_card) (buf1 : Option (List Nat)),
          sd_card_read fuel (some c) addr buf len = Except.ok (err, some c1, buf1) ∧
          idle_after c c1) ∧
        (∃ (err : sd_error) (c1 : sd_card),
          sd_card_write fuel (some c) addr buf len = Except.ok (err, some c1) ∧
          idle_after c c1)) ∧
    (∀ (addr count : Nat) (err : sd_error) (r : Option sd_card),
      sd_card_erase_sector fuel (some c) addr count = Except.ok (err, r) →
      ∃ c1, r = some c1 ∧ idle_after c c1) := by
  refine ⟨?_, ?_, ?_, ?_, ?_⟩
  · obtain ⟨err, c1, h, s⟩ := sd_card_init_frame fuel c
    exact ⟨err, c1, h, s.2.1 rfl, s.2.2.1 rfl, s.2.2.2⟩
  · obtain ⟨err, c1, h, s⟩ := sd_card_deinit_frame fuel c
    exact ⟨err, c1, h, idle_after_of_session_call s hsel hxf⟩
  · obtain ⟨b, c1, h, s⟩ := sd_card_is_inserted_frame fuel c
    exact ⟨b, c1, h, idle_after_of_session_call s hsel hxf⟩
  · intro hbs addr buf len
    constructor
    · obtain ⟨err, c1, b1, h, s⟩ := sd_card_read_frame fuel c addr buf len hbs
      exact ⟨err, c1, b1, h, idle_after_of_session_call s hsel hxf⟩
    · obtain ⟨err, c1, h, s⟩ := sd_card_write_frame fuel c addr buf len hbs
      exact ⟨err, c1, h, idle_after_of_session_call s hsel hxf⟩
  · intro addr count err r h
    obtain ⟨c1, h1, s⟩ := erase_sector_frame h
    exact ⟨c1, h1, idle_after_of_session_call s hsel hxf⟩

/-- The session flags on a card whose data line is stuck at `0x00`, seen from a fresh
session and from an initialised one: init and read return and leave the session
idle; an erase that is refused for its zero count does too. -/
theorem session_flags_invariant_witness :
    (∃ (err : sd_error) (c1 : sd_card),
      sd_card_init 0 (some (fresh_card miso_stuck_low)) = Except.ok (err, some c1) ∧
      idle_after (fresh_card miso_stuck_low) c1) ∧
    (∃ (err : sd_error) (c1 : sd_card) (buf1 : Option (List Nat)),
      sd_card_read 0 (some (demo_card legacy_info miso_stuck_low)) 0
        (some (List.replicate 512 0)) 512 = Except.ok (err, some c1, buf1) ∧
      idle_after (demo_card legacy_info miso_stuck_low) c1) ∧
    (∃ c1, some (demo_card legacy_info miso_stuck_low) = some c1 ∧
      idle_after (demo_card legacy_info miso_stuck_low) c1) :=
  ⟨(session_flags_invariant 0 (fresh_card miso_stuck_low) rfl rfl).1,
   ((session_flags_invariant 0 (demo_card legacy_info miso_stuck_low) rfl rfl).2.2.2.1
      (fun _ => by decide) 0 (some (List.replicate 512 0)) 512).1,
   (session_flags_invariant 0 (demo_card legacy_info miso_stuck_low) rfl rfl).2.2.2.2
      0 0 Sd_Err_Param (some (demo_card legacy_info miso_stuck_low)) rfl⟩

/-! ### The command/response engine on any byte stream -/

theorem reads_only_replicate (m n : Nat) : reads_only (List.replicate m (BusEvent.read n)) :=
  fun _ he => ⟨n, (List.mem_replicate.mp he).2⟩

theorem reads_only_append {a b : List BusEvent} (ha : reads_only a) (hb : reads_only b) :
    reads_only (a ++ b) := by
  intro e he
  rcases List.mem_append.mp he with h | h
  · exact ha e h
  · exact hb e h

theorem reads_only_singleton (n : Nat) : reads_only [BusEvent.read n] :=
  fun _ he => ⟨n, List.mem_singleton.mp he⟩

/-- On an adapter with a `transfer` function the polling loop entered with counter
`n + 1` reads between 1 and `n + 1` bytes, one per call, and reports no error. -/
theorem poll_byte_trace (cont : Nat → Bool) (n : Nat) : ∀ (byte0 : Nat) (c : sd_card),
    has_transfer c →
    ∃ (b k m : Nat),
      poll_byte cont byte0 n c
        = (Sd_Err_OK, b, k, bus_step c m (List.replicate m (BusEvent.read 1))) ∧
      1 ≤ m ∧ m ≤ n + 1 := by
  induction n with
  | zero =>
    intro byte0 c ht
    unfold poll_byte
    rw [read_byte_ok ht]
    simp only []
    split <;> exact ⟨_, _, 1, rfl, le_refl _, by omega⟩
  | succ n ih =>
    intro byte0 c ht
    unfold poll_byte
    rw [read_byte_ok ht]
    simp only []
    split
    · obtain ⟨b, k, m, h, h1, h2⟩ := ih (c.miso c.rx_pos % 256) (bus_step c 1 [BusEvent.read 1])
        (has_transfer_bus_step ht _ _)
      refine ⟨b, k, 1 + m, ?_, by omega, by omega⟩
      rw [h, bus_step_bus_step]
      have : [BusEvent.read 1] ++ List.replicate m (BusEvent.read 1)
          = List.replicate (1 + m) (BusEvent.read 1) := by
        rw [Nat.add_comm, List.replicate_succ]; rfl
      rw [this]
    · exact ⟨_, _, 1, rfl, le_refl _, by omega⟩

/-- The response wait reads between 1 and `wait_response_bound retry` bytes. -/
theorem wait_response_trace (retry : Nat) (c : sd_card) (ht : has_transfer c) :
    ∃ (b k m : Nat),
      wait_response retry c
        = (Sd_Err_OK, b, k, bus_step c m (List.replicate m (BusEvent.read 1))) ∧
      1 ≤ m ∧ m ≤ wait_response_bound retry := by
  unfold wait_response wait_response_bound
  split
  · rename_i h0
    rw [if_pos h0, read_byte_ok ht]
    simp only []
    split
    · obtain ⟨b, k, m, h, h1, h2⟩ := poll_byte_trace (fun x => x = 0xff) 254
        (c.miso c.rx_pos % 256) (bus_step c 1 [BusEvent.read 1]) (has_transfer_bus_step ht _ _)
      refine ⟨b, k, 1 + m, ?_, by omega, by omega⟩
      rw [h, bus_step_bus_step]
      have : [BusEvent.read 1] ++ List.replicate m (BusEvent.read 1)
          = List.replicate (1 + m) (BusEvent.read 1) := by
        rw [Nat.add_comm, List.replicate_succ]; rfl
      rw [this]
    · exact ⟨_, _, 1, rfl, le_refl _, by omega⟩
  · rename_i n hn
    rw [if_neg (by omega), hn]
    exact poll_byte_trace (fun x => x = 0xff) n 0xff c ht

/-- On an adapter with a `transfer` function, a command whose response shape is not
R1b returns, whatever the card shows, with OK, Timeout or Response; it has made one
write, of the six-byte frame, followed by receive transfers only, and has read at
most `send_cmd_read_bound req` bytes. -/
theorem send_cmd_trace (fuel : Nat) (c : sd_card) (req : sd_cmd_req) (resp : sd_resp_res)
    (ht : has_transfer c) (hr : req.resp_type ≠ Sd_Resp_Type_R1b) :
    ∃ (err : sd_error) (resp1 : sd_resp_res) (m : Nat) (evs : List BusEvent),
      sd_card_send_cmd_req fuel c req resp
        = Except.ok (err, resp1,
            bus_step c m (BusEvent.write (cmd_frame req.cmd req.arg req.crc) :: evs)) ∧
      (err = Sd_Err_OK ∨ err = Sd_Err_Timeout ∨ err = Sd_Err_Response) ∧
      m ≤ send_cmd_read_bound req ∧ reads_only evs := by
  obtain ⟨cmd, arg, crc, rt, retry⟩ := req
  obtain ⟨b, k, m, hw, hm1, hm2⟩ := wait_response_trace retry
    (bus_step c 0 [BusEvent.write (cmd_frame cmd arg crc)]) (has_transfer_bus_step ht _ _)
  rw [bus_step_bus_step] at hw
  have hR := reads_only_replicate m 1
  unfold sd_card_send_cmd_req
  simp only []
  rw [show [cmd % 256, (arg >>> 24) % 256, (arg >>> 16) % 256, (arg >>> 8) % 256, arg % 256,
        crc % 256] = cmd_frame cmd arg crc from rfl, write_bytes_ok ht]
  simp only []
  rw [hw]
  simp only []
  have hb0 : m ≤ send_cmd_read_bound
      { cmd := cmd, arg := arg, crc := crc, resp_type := rt, retry := retry } := by
    unfold send_cmd_read_bound
    exact le_trans hm2 (Nat.le_add_right _ _)
  split
  · exact ⟨Sd_Err_Timeout, resp, m, _, by rw [Nat.zero_add]; rfl, Or.inr (Or.inl rfl), hb0, hR⟩
  · cases rt with
    | Sd_Resp_Type_R1 =>
      exact ⟨Sd_Err_OK, _, m, _, by rw [Nat.zero_add]; rfl, Or.inl rfl, hb0, hR⟩
    | Sd_Resp_Type_R2 =>
      simp only []
      split
      · exact ⟨Sd_Err_Response, _, m, _, by rw [Nat.zero_add]; rfl, Or.inr (Or.inr rfl), hb0, hR⟩
      · obtain ⟨b2, k2, m2, hp, hp1, hp2⟩ := poll_byte_trace (fun x => x ≠ 0xFE) 254 0
          (bus_step c (0 + m) ([BusEvent.write (cmd_frame cmd arg crc)] ++
            List.replicate m (BusEvent.read 1))) (has_transfer_bus_step ht _ _)
        rw [bus_step_bus_step] at hp
        rw [hp]
        simp only []
        have hbound : m + m2 + 16 + 2 ≤ send_cmd_read_bound
            { cmd := cmd, arg := arg, crc := crc, resp_type := Sd_Resp_Type_R2,
              retry := retry } := by
          show m + m2 + 16 + 2 ≤ wait_response_bound retry + (255 + 16 + 2)
          omega
        split
        · rw [Nat.zero_add]
          simp only [List.append_assoc, List.singleton_append]
          exact ⟨Sd_Err_Timeout, _, m + m2, _, rfl, Or.inr (Or.inl rfl), by omega,
            reads_only_append hR (reads_only_replicate m2 1)⟩
        · rw [read_bytes_ok (has_transfer_bus_step ht _ _), bus_step_bus_step]
          simp only []
          rw [read_bytes_ok (has_transfer_bus_step ht _ _), bus_step_bus_step]
          rw [Nat.zero_add]
          simp only [List.append_assoc, List.singleton_append, List.cons_append,
            List.nil_append]
          have h18 : reads_only [BusEvent.read 16, BusEvent.read 2] := by
            intro e he
            simp only [List.mem_cons, List.mem_singleton, List.not_mem_nil, or_false] at he
            rcases he with rfl | rfl
            · exact ⟨16, rfl⟩
            · exact ⟨2, rfl⟩
          exact ⟨Sd_Err_OK, _, m + m2 + 16 + 2, _, rfl, Or.inl rfl, hbound,
            reads_only_append hR (reads_only_append (reads_only_replicate m2 1) h18)⟩
    | Sd_Resp_Type_R3 =>
      simp only []
      rw [read_bytes_ok (has_transfer_bus_step ht _ _), bus_step_bus_step]
      rw [Nat.zero_add]
      simp only [List.append_assoc, List.singleton_append]
      have hb4 : m + 4 ≤ wait_response_bound retry + 4 := by omega
      exact ⟨Sd_Err_OK, _, m + 4, _, rfl, Or.inl rfl, hb4,
        reads_only_append hR (reads_only_singleton 4)⟩
    | Sd_Resp_Type_R7 =>
      simp only []
      rw [read_bytes_ok (has_transfer_bus_step ht _ _), bus_step_bus_step]
      rw [Nat.zero_add]
      simp only [List.append_assoc, List.singleton_append]
      have hb4 : m + 4 ≤ wait_response_bound retry + 4 := by omega
      exact ⟨Sd_Err_OK, _, m + 4, _, rfl, Or.inl rfl, hb4,
        reads_only_append hR (reads_only_singleton 4)⟩
    | Sd_Resp_Type_R1b => exact absurd rfl hr

theorem u8_set_zero (buf : List Nat) (b : Nat) (hl : 0 < buf.length) (hb : b < 256) :
    u8 (buf.set 0 b) 0 = b := by
  cases buf with
  | nil => simp at hl
  | cons x xs => simp [u8, Nat.mod_eq_of_lt hb]

theorem set_zero_splice (buf : List Nat) (b : Nat) (data : List Nat) (hl : 0 < buf.length) :
    (buf.set 0 b).take 1 ++ data ++ (buf.set 0 b).drop (1 + 4) = b :: (data ++ buf.drop 5) := by
  cases buf with
  | nil => simp at hl
  | cons x xs => simp

/-- The R1b wait, when it returns on an adapter with a `transfer` function, returns OK
and has only received and delayed. -/
theorem wait_r1b_trace (fuel : Nat) : ∀ (c : sd_card) (err : sd_error) (c1 : sd_card),
    has_transfer c → wait_r1b fuel c = Except.ok (err, c1) →
    err = Sd_Err_OK ∧ ∃ (m : Nat) (evs : List BusEvent), c1 = bus_step c m evs ∧ tx_bytes evs = []
    := by
  induction fuel with
  | zero => intro c err c1 _ h; cases h
  | succ fuel ih =>
    intro c err c1 ht h
    unfold wait_r1b at h
    rw [read_byte_ok ht] at h
    simp only [] at h
    rw [udelay_bus_step] at h
    split at h
    · obtain ⟨e1, m, evs, e2, e3⟩ := ih _ err c1 (has_transfer_bus_step ht _ _) h
      refine ⟨e1, 1 + m, ([BusEvent.read 1] ++ delay_events c 5000) ++ evs, ?_, ?_⟩
      · rw [e2, bus_step_bus_step]
      · rw [tx_bytes_append, tx_bytes_append, e3, tx_bytes_delay_events]; rfl
    · cases h
      refine ⟨rfl, 1, [BusEvent.read 1] ++ delay_events c 5000, rfl, ?_⟩
      rw [tx_bytes_append, tx_bytes_delay_events]; rfl

/-- A command of shape R3 or R7 whose first response byte `b` arrives after `pad` idle
bytes, within the retry budget, on a record with `filled = 0`: OK, `b` in `buf[0]`,
the next four bytes in `buf[1..4]`, `filled = 5`. -/
theorem send_cmd_r37_answer (fuel : Nat) (card : sd_card) (cmd arg crc retry : Nat)
    (rt : sd_resp_type) (resp : sd_resp_res) (pad b : Nat) (data rest : List Nat)
    (hrt : rt = Sd_Resp_Type_R3 ∨ rt = Sd_Resp_Type_R7)
    (ht : has_transfer card) (hr : retry ≤ 255) (hp : pad < retry) (hb : b ≠ 0xFF)
    (hd : data.length = 4) (hf : resp.filled = 0) (hl : resp.buf.length = 16)
    (hrx : rx_next card (answer pad b ++ (data ++ rest))) :
    sd_card_send_cmd_req fuel card
        { cmd := cmd, arg := arg, crc := crc, resp_type := rt, retry := retry } resp
      = Except.ok (Sd_Err_OK, { buf := b :: (data ++ resp.buf.drop 5), filled := 5 },
          bus_step card ((pad + 1) + 4) (r1_exchange cmd arg crc pad ++ [BusEvent.read 4])) ∧
    rx_next (bus_step card ((pad + 1) + 4) (r1_exchange cmd arg crc pad ++ [BusEvent.read 4]))
      rest := by
  obtain ⟨n, rfl⟩ : ∃ n, retry = n + 1 := ⟨retry - 1, by omega⟩
  have hrx1 : rx_next (bus_step card 0 [BusEvent.write (cmd_frame cmd arg crc)])
      (List.replicate pad 0xFF ++ b :: (data ++ rest)) := by
    have : answer pad b ++ (data ++ rest) = List.replicate pad 0xFF ++ b :: (data ++ rest) := by
      simp [answer]
    rw [this] at hrx
    exact hrx
  obtain ⟨e1, e2⟩ := poll_byte_hit (fun x => decide (x = 0xff)) (List.replicate pad 0xFF) 0xff n b
    _ _ (has_transfer_bus_step ht 0 _) hrx1
    (fun x hx => by simp [mem_replicate_ff hx]) (by simp [hb]) (by simp; omega)
  simp only [List.length_replicate, bus_step_bus_step, Nat.zero_add] at e1 e2
  have hne : n + 1 - pad ≠ 0 := by omega
  obtain ⟨d1, d2⟩ := rx_next_append [BusEvent.read 4] e2
  rw [hd] at d1 d2
  rw [bus_step_bus_step] at d2
  have hev : [BusEvent.write (cmd_frame cmd arg crc)] ++ List.replicate (pad + 1) (BusEvent.read 1)
      ++ [BusEvent.read 4] = r1_exchange cmd arg crc pad ++ [BusEvent.read 4] := rfl
  rw [hev] at d2
  refine ⟨?_, d2⟩
  unfold sd_card_send_cmd_req
  simp only []
  rw [show [cmd % 256, (arg >>> 24) % 256, (arg >>> 16) % 256, (arg >>> 8) % 256, arg % 256,
        crc % 256] = cmd_frame cmd arg crc from rfl, write_bytes_ok ht]
  simp only []
  rw [wait_response_eq n (by omega), e1]
  simp only [hne, if_false]
  have hres : sd_spi_hw_read_bytes (bus_step card (pad + 1)
      ([BusEvent.write (cmd_frame cmd arg crc)] ++ List.replicate (pad + 1) (BusEvent.read 1))) 4
      = (Sd_Err_OK, data, bus_step card ((pad + 1) + 4)
          (r1_exchange cmd arg crc pad ++ [BusEvent.read 4])) := by
    rw [read_bytes_ok (has_transfer_bus_step ht _ _), d1, bus_step_bus_step, hev]
  rcases hrt with rfl | rfl
  · simp only []
    rw [hres]
    simp only [hf, Nat.zero_add]
    rw [set_zero_splice _ _ _ (by omega)]
  · simp only []
    rw [hres]
    simp only [hf, Nat.zero_add]
    rw [set_zero_splice _ _ _ (by omega)]

/-- The state of `sd_card_send_cmd_req` once the response wait has found the byte `b`
after `pad` idle bytes, within the retry budget. -/
theorem wait_response_answer (card : sd_card) (cmd arg crc retry pad b : Nat) (rest : List Nat)
    (ht : has_transfer card) (hr : retry ≤ 255) (hp : pad < retry) (hb : b ≠ 0xFF)
    (hrx : rx_next card (answer pad b ++ rest)) :
    ∃ k, k ≠ 0 ∧
      wait_response retry (bus_step card 0 [BusEvent.write (cmd_frame cmd arg crc)])
        = (Sd_Err_OK, b, k, bus_step card (pad + 1) (r1_exchange cmd arg crc pad)) ∧
      rx_next (bus_step card (pad + 1) (r1_exchange cmd arg crc pad)) rest := by
  obtain ⟨n, rfl⟩ : ∃ n, retry = n + 1 := ⟨retry - 1, by omega⟩
  have hrx1 : rx_next (bus_step card 0 [BusEvent.write (cmd_frame cmd arg crc)])
      (List.replicate pad 0xFF ++ b :: rest) := by
    have : answer pad b ++ rest = List.replicate pad 0xFF ++ b :: rest := by
      simp [answer]
    rw [this] at hrx
    exact hrx
  obtain ⟨e1, e2⟩ := poll_byte_hit (fun x => decide (x = 0xff)) (List.replicate pad 0xFF) 0xff n b
    rest _ (has_transfer_bus_step ht 0 _) hrx1
    (fun x hx => by simp [mem_replicate_ff hx]) (by simp [hb]) (by simp; omega)
  simp only [List.length_replicate, bus_step_bus_step, Nat.zero_add] at e1 e2
  refine ⟨n + 1 - pad, by omega, ?_, e2⟩
  rw [wait_response_eq n (by omega), e1]
  rfl

/-- A register read (shape R2) whose R1 byte is not `0x00`: Response, nothing read
after that byte. -/
theorem send_cmd_r2_bad_r1 (fuel : Nat) (card : sd_card) (cmd arg crc retry : Nat)
    (resp : sd_resp_res) (pad b : Nat) (rest : List Nat)
    (ht : has_transfer card) (hr : retry ≤ 255) (hp : pad < retry) (hb : b ≠ 0xFF)
    (hne : b ≠ 0x00) (hf : resp.filled = 0) (hl : resp.buf.length = 16)
    (hrx : rx_next card (answer pad b ++ rest)) :
    sd_card_send_cmd_req fuel card
        { cmd := cmd, arg := arg, crc := crc, resp_type := Sd_Resp_Type_R2, retry := retry } resp
      = Except.ok (Sd_Err_Response, { buf := resp.buf.set 0 b, filled := 1 },
          bus_step card (pad + 1) (r1_exchange cmd arg crc pad)) := by
  obtain ⟨k, hk, e1, _⟩ := wait_response_answer card cmd arg crc retry pad b rest ht hr hp hb hrx
  have hlt : b < 256 := rx_next_lt hrx b (by simp [answer])
  unfold sd_card_send_cmd_req
  simp only []
  rw [show [cmd % 256, (arg >>> 24) % 256, (arg >>> 16) % 256, (arg >>> 8) % 256, arg % 256,
        crc % 256] = cmd_frame cmd arg crc from rfl, write_bytes_ok ht]
  simp only []
  rw [e1]
  simp only [hk, if_false, hf, Nat.zero_add]
  rw [u8_set_zero _ _ (by omega) hlt, if_pos hne]

/-- A register read (shape R2) with a clean R1 byte after which none of the next 255
bytes is the data token: Timeout after exactly 255 token polls. -/
theorem send_cmd_r2_no_token (fuel : Nat) (card : sd_card) (cmd arg crc retry : Nat)
    (resp : sd_resp_res) (pad : Nat) (junk rest : List Nat)
    (ht : has_transfer card) (hr : retry ≤ 255) (hp : pad < retry)
    (hj : junk.length = 255) (hne : ∀ x ∈ junk, x ≠ 0xFE)
    (hf : resp.filled = 0) (hl : resp.buf.length = 16)
    (hrx : rx_next card (answer pad 0x00 ++ (junk ++ rest))) :
    sd_card_send_cmd_req fuel card
        { cmd := cmd, arg := arg, crc := crc, resp_type := Sd_Resp_Type_R2, retry := retry } resp
      = Except.ok (Sd_Err_Timeout, { buf := resp.buf.set 0 0x00, filled := 1 },
          bus_step card ((pad + 1) + 255)
            (r1_exchange cmd arg crc pad ++ List.replicate 255 (BusEvent.read 1))) := by
  obtain ⟨k, hk, e1, e2⟩ := wait_response_answer card cmd arg crc retry pad 0x00 _ ht hr hp
    (by norm_num) hrx
  obtain ⟨b2, p1⟩ := poll_byte_miss (fun x => decide (x ≠ 0xFE)) junk 0 254 rest _
    (has_transfer_bus_step ht _ _) e2 (fun x hx => by simpa using hne x hx) hj
  rw [bus_step_bus_step] at p1
  unfold sd_card_send_cmd_req
  simp only []
  rw [show [cmd % 256, (arg >>> 24) % 256, (arg >>> 16) % 256, (arg >>> 8) % 256, arg % 256,
        crc % 256] = cmd_frame cmd arg crc from rfl, write_bytes_ok ht]
  simp only []
  rw [e1]
  simp only [hk, if_false, hf, Nat.zero_add]
  rw [u8_set_zero _ _ (by omega) (by norm_num), if_neg (by simp), p1]
  simp only [if_true]

/-- A register read (shape R2) with a clean R1 byte, the data token after the bytes
`junk`, 16 data bytes and 2 CRC bytes, on a record with `filled = 0`: OK, the data in
`buf[0..15]`, `filled = 16`. -/
theorem send_cmd_r2_payload (fuel : Nat) (card : sd_card) (cmd arg crc retry pad : Nat)
    (resp : sd_resp_res) (junk data crc2 rest : List Nat)
    (ht : has_transfer card) (hr : retry ≤ 255) (hp : pad < retry)
    (hj : ∀ x ∈ junk, x ≠ 0xFE) (hjl : junk.length ≤ 254) (hd : data.length = 16)
    (hc : crc2.length = 2) (hf : resp.filled = 0) (hl : resp.buf.length = 16)
    (hrx : rx_next card (answer pad 0x00 ++ (junk ++ 0xFE :: (data ++ (crc2 ++ rest))))) :
    sd_card_send_cmd_req fuel card
        { cmd := cmd, arg := arg, crc := crc, resp_type := Sd_Resp_Type_R2, retry := retry } resp
      = Except.ok (Sd_Err_OK, { buf := data, filled := 16 },
          bus_step card ((pad + 1) + ((junk.length + 1) + (16 + 2)))
            (r2_exchange cmd arg crc pad junk.length)) ∧
    rx_next (bus_step card ((pad + 1) + ((junk.length + 1) + (16 + 2)))
            (r2_exchange cmd arg crc pad junk.length)) rest := by
  obtain ⟨k, hk, e1, e2⟩ := wait_response_answer card cmd arg crc retry pad 0x00 _ ht hr hp
    (by norm_num) hrx
  obtain ⟨f1, f2⟩ := poll_byte_hit (fun x => decide (x ≠ 0xFE)) junk 0 254 0xFE _ _
    (has_transfer_bus_step ht _ _) e2 (fun x hx => by simp [hj x hx]) (by simp) hjl
  rw [bus_step_bus_step] at f1 f2
  have hne2 : 254 + 1 - junk.length ≠ 0 := by omega
  obtain ⟨g1, g2⟩ := rx_next_append [BusEvent.read 16] f2
  rw [bus_step_bus_step, hd] at g2
  rw [hd] at g1
  obtain ⟨k1, k2⟩ := rx_next_append [BusEvent.read 2] g2
  rw [bus_step_bus_step, hc] at k2
  have hfin : bus_step card (pad + 1 + (junk.length + 1) + 16 + 2)
      (r1_exchange cmd arg crc pad ++
        List.replicate (junk.length + 1) (BusEvent.read 1) ++ [BusEvent.read 16] ++
          [BusEvent.read 2])
      = bus_step card ((pad + 1) + ((junk.length + 1) + (16 + 2)))
          (r2_exchange cmd arg crc pad junk.length) := by
    have harith : pad + 1 + (junk.length + 1) + 16 + 2
        = (pad + 1) + ((junk.length + 1) + (16 + 2)) := by omega
    rw [harith]
    simp only [r2_exchange, r1_exchange, List.append_assoc, List.cons_append, List.nil_append,
      List.singleton_append]
  rw [hfin] at k2
  refine ⟨?_, k2⟩
  unfold sd_card_send_cmd_req
  simp only []
  rw [show [cmd % 256, (arg >>> 24) % 256, (arg >>> 16) % 256, (arg >>> 8) % 256, arg % 256,
        crc % 256] = cmd_frame cmd arg crc from rfl, write_bytes_ok ht]
  simp only []
  rw [e1]
  simp only [hk, if_false, hf, Nat.zero_add]
  rw [u8_set_zero _ _ (by omega) (by norm_num), if_neg (by simp), f1]
  simp only [hne2, if_false]
  rw [read_bytes_ok (has_transfer_bus_step ht _ _), g1, bus_step_bus_step]
  simp only []
  rw [read_bytes_ok (has_transfer_bus_step ht _ _), bus_step_bus_step, hfin]
  have hdrop : (resp.buf.set 0 0x00).drop 16 = [] := by
    apply List.drop_eq_nil_of_le
    simp [hl]
  simp only [hdrop, List.append_nil]

/-- An R1b command that has been answered `b` after `pad` idle bytes, if it returns,
returns OK with `b` stored, after the `pad + 1` polls and the busy wait. -/
theorem send_cmd_r1b_answered (fuel : Nat) (card : sd_card) (cmd arg crc retry : Nat)
    (resp : sd_resp_res) (pad b : Nat) (rest : List Nat)
    (ht : has_transfer card) (hr : retry ≤ 255) (hp : pad < retry) (hb : b ≠ 0xFF)
    (hrx : rx_next card (answer pad b ++ rest))
    (err : sd_error) (resp1 : sd_resp_res) (c1 : sd_card)
    (h : sd_card_send_cmd_req fuel card
        { cmd := cmd, arg := arg, crc := crc, resp_type := Sd_Resp_Type_R1b, retry := retry }
        resp = Except.ok (err, resp1, c1)) :
    err = Sd_Err_OK ∧
    resp1 = { buf := resp.buf.set resp.filled b, filled := (resp.filled + 1) % 256 } ∧
    ∃ (m : Nat) (evs : List BusEvent),
      c1 = bus_step card ((pad + 1) + m) (r1_exchange cmd arg crc pad ++ evs) := by
  obtain ⟨k, hk, e1, _⟩ := wait_response_answer card cmd arg crc retry pad b rest ht hr hp hb hrx
  unfold sd_card_send_cmd_req at h
  simp only [] at h
  rw [show [cmd % 256, (arg >>> 24) % 256, (arg >>> 16) % 256, (arg >>> 8) % 256, arg % 256,
        crc % 256] = cmd_frame cmd arg crc from rfl, write_bytes_ok ht] at h
  simp only [] at h
  rw [e1] at h
  simp only [hk, if_false] at h
  generalize hg : wait_r1b fuel (bus_step card (pad + 1) (r1_exchange cmd arg crc pad)) = r at h
  cases r with
  | error f => cases h
  | ok v =>
    obtain ⟨e2, c3⟩ := v
    simp only [] at h
    cases h
    obtain ⟨e3, m2, evs, e4, _⟩ := wait_r1b_trace fuel _ _ _ (has_transfer_bus_step ht _ _) hg
    refine ⟨e3, rfl, m2, evs, ?_⟩
    rw [e4, bus_step_bus_step]

/-- A list of bytes is all `0xFF`, or it starts with some `0xFF` bytes followed by a
byte that is not `0xFF`. -/
theorem ff_prefix_or_answer (l : List Nat) :
    l = List.replicate l.length 0xFF ∨
    ∃ (pad b : Nat) (rest : List Nat), l = answer pad b ++ rest ∧ b ≠ 0xFF := by
  induction l with
  | nil => exact Or.inl rfl
  | cons x l ih =>
    by_cases hx : x = 0xFF
    · rcases ih with h | ⟨pad, b, rest, h, hb⟩
      · left
        rw [List.length_cons, List.replicate_succ, ← h, hx]
      · right
        refine ⟨pad + 1, b, rest, ?_, hb⟩
        rw [h, hx]
        simp [answer, List.replicate_succ]
    · exact Or.inr ⟨0, x, l, by simp [answer], hx⟩

/-! ### The claims on the command/response engine -/

theorem demo_card_has_transfer (info : sd_info) (miso : Nat → Nat) :
    has_transfer (demo_card info miso) := ⟨good_if, _, rfl, rfl⟩

theorem rx_next_prefix {card : sd_card} {l1 l2 : List Nat} (h : rx_next card (l1 ++ l2)) :
    rx_next card l1 := (rx_next_append [] h).1

/-- On a bus that delivers the same byte for ever, the next `n` bytes are `n` copies
of it. -/
theorem rx_peek_const (info : sd_info) (v n : Nat) (hv : v < 256) :
    rx_peek (demo_card info (fun _ => v)) n = List.replicate n v := by
  unfold rx_peek
  apply List.ext_getElem
  · simp
  · intro i h1 h2
    simp [demo_card, Nat.mod_eq_of_lt hv]

/-- C26: `sd_card_send_cmd_req` is not bounded for the shape R1b.  A CMD38 request of
shape R1b on a bus whose data line is stuck low is answered `0x00` at once, and then
the call never returns, whatever the fuel: the busy wait that follows the response
byte has no retry count, unlike every other wait of the engine. -/
theorem send_cmd_r1b_stuck_low_never_returns :
    rx_peek (demo_card legacy_info miso_stuck_low) 1 = [0x00] ∧
    ∀ fuel : Nat,
      sd_card_send_cmd_req fuel (demo_card legacy_info miso_stuck_low)
          { cmd := Sd_Cmd38_Erase, arg := 0, crc := 0xFF, resp_type := Sd_Resp_Type_R1b,
            retry := 0xFF } sd_resp_res.zero
        = Except.error Fault.hang := by
  refine ⟨by decide!, fun fuel => ?_⟩
  exact send_cmd_r1b_hang fuel _ _ _ _ _ _ 0 0x00 (demo_card_has_transfer _ _) (by norm_num)
    (by norm_num) (by norm_num) (by unfold rx_next; decide!)
    (fun i _ => by simp [demo_card, miso_stuck_low])

/-- The bound of the engine outside R1b: for every response shape other than R1b,
every retry budget and
every sequence of bytes the transport can return, `sd_card_send_cmd_req` returns, with
OK, Timeout or Response, after one six-byte write and reads only, having read at most
`send_cmd_read_bound req` bytes, a number that depends only on the request; and the
single-block read and write built on it always return.  (The R1b busy wait, used by
erase, has no bound.) -/
theorem send_cmd_bounded_without_r1b (fuel : Nat) (c : sd_card) (req : sd_cmd_req)
    (resp : sd_resp_res) (ht : has_transfer c) (hr : req.resp_type ≠ Sd_Resp_Type_R1b) :
    (∃ (err : sd_error) (resp1 : sd_resp_res) (m : Nat) (evs : List BusEvent),
      sd_card_send_cmd_req fuel c req resp
        = Except.ok (err, resp1,
            bus_step c m (BusEvent.write (cmd_frame req.cmd req.arg req.crc) :: evs)) ∧
      (err = Sd_Err_OK ∨ err = Sd_Err_Timeout ∨ err = Sd_Err_Response) ∧
      m ≤ send_cmd_read_bound req ∧ reads_only evs) ∧
    (∀ (lba : Nat) (buf : List Nat) (off : Nat),
      ∃ r, _read_single_block fuel c lba buf off = Except.ok r) ∧
    (∀ (lba : Nat) (buf : List Nat) (off : Nat),
      ∃ r, _write_single_block fuel c lba buf off = Except.ok r) := by
  refine ⟨send_cmd_trace fuel c req resp ht hr, fun lba buf off => ?_, fun lba buf off => ?_⟩
  · obtain ⟨err, buf1, c1, h, _⟩ := read_single_block_frame fuel c lba buf off
    exact ⟨_, h⟩
  · obtain ⟨err, c1, h, _⟩ := write_single_block_frame fuel c lba buf off
    exact ⟨_, h⟩

theorem send_cmd_bounded_without_r1b_witness :
    has_transfer (demo_card legacy_info miso_stuck_low) ∧
    cmd8_req.resp_type ≠ Sd_Resp_Type_R1b ∧
    ((∃ (err : sd_error) (resp1 : sd_resp_res) (m : Nat) (evs : List BusEvent),
      sd_card_send_cmd_req 0 (demo_card legacy_info miso_stuck_low) cmd8_req sd_resp_res.zero
        = Except.ok (err, resp1,
            bus_step (demo_card legacy_info miso_stuck_low) m
              (BusEvent.write (cmd_frame cmd8_req.cmd cmd8_req.arg cmd8_req.crc) :: evs)) ∧
      (err = Sd_Err_OK ∨ err = Sd_Err_Timeout ∨ err = Sd_Err_Response) ∧
      m ≤ send_cmd_read_bound cmd8_req ∧ reads_only evs) ∧
    (∀ (lba : Nat) (buf : List Nat) (off : Nat),
      ∃ r, _read_single_block 0 (demo_card legacy_info miso_stuck_low) lba buf off
        = Except.ok r) ∧
    (∀ (lba : Nat) (buf : List Nat) (off : Nat),
      ∃ r, _write_single_block 0 (demo_card legacy_info miso_stuck_low) lba buf off
        = Except.ok r)) :=
  ⟨demo_card_has_transfer _ _, by decide,
    send_cmd_bounded_without_r1b 0 (demo_card legacy_info miso_stuck_low) cmd8_req
      sd_resp_res.zero (demo_card_has_transfer _ _) (by decide)⟩

/-- Whatever a command of a shape other than R2 returns once it has been answered `b`
after `pad` idle bytes: OK, with `b` in `buf[0]`, after the `pad + 1` polls and what the
shape reads next. -/
theorem send_cmd_answered (fuel : Nat) (c : sd_card) (cmd arg crc r : Nat) (rt : sd_resp_type)
    (resp : sd_resp_res) (pad b : Nat) (rest : List Nat)
    (ht : has_transfer c) (hr : r ≤ 255) (hf : resp.filled = 0) (hl : resp.buf.length = 16)
    (hrt : rt ≠ Sd_Resp_Type_R2) (hp : pad < r) (hb : b ≠ 0xFF)
    (hrx : rx_next c (answer pad b ++ rest))
    (err : sd_error) (resp1 : sd_resp_res) (c1 : sd_card)
    (h : sd_card_send_cmd_req fuel c
        { cmd := cmd, arg := arg, crc := crc, resp_type := rt, retry := r } resp
      = Except.ok (err, resp1, c1)) :
    err = Sd_Err_OK ∧ u8 resp1.buf 0 = b ∧
    ∃ (m : Nat) (evs : List BusEvent),
      c1 = bus_step c ((pad + 1) + m) (r1_exchange cmd arg crc pad ++ evs) := by
  have hlt : b < 256 := rx_next_lt hrx b (by simp [answer])
  have hpre : rx_next c (answer pad b) := rx_next_prefix hrx
  cases rt with
  | Sd_Resp_Type_R2 => exact absurd rfl hrt
  | Sd_Resp_Type_R1 =>
    rw [(send_cmd_r1_answer fuel c cmd arg crc r resp pad b rest ht hr hp hb hrx).1] at h
    cases h
    refine ⟨rfl, ?_, 0, [], ?_⟩
    · show u8 (resp.buf.set resp.filled b) 0 = b
      rw [hf]
      exact u8_set_zero _ _ (by omega) hlt
    · rw [List.append_nil]
  | Sd_Resp_Type_R1b =>
    obtain ⟨e1, e2, m, evs, e3⟩ :=
      send_cmd_r1b_answered fuel c cmd arg crc r resp pad b rest ht hr hp hb hrx err resp1 c1 h
    refine ⟨e1, ?_, m, evs, e3⟩
    rw [e2]
    show u8 (resp.buf.set resp.filled b) 0 = b
    rw [hf]
    exact u8_set_zero _ _ (by omega) hlt
  | Sd_Resp_Type_R3 =>
    obtain ⟨data, hd, hx⟩ := rx_next_extend hpre 4
    have hx2 : rx_next c (answer pad b ++ (data ++ [])) := by
      rw [List.append_nil]
      exact hx
    rw [(send_cmd_r37_answer fuel c cmd arg crc r _ resp pad b data [] (Or.inl rfl) ht hr hp hb
      hd hf hl hx2).1] at h
    cases h
    exact ⟨rfl, by simp [u8, Nat.mod_eq_of_lt hlt], 4, _, rfl⟩
  | Sd_Resp_Type_R7 =>
    obtain ⟨data, hd, hx⟩ := rx_next_extend hpre 4
    have hx2 : rx_next c (answer pad b ++ (data ++ [])) := by
      rw [List.append_nil]
      exact hx
    rw [(send_cmd_r37_answer fuel c cmd arg crc r _ resp pad b data [] (Or.inr rfl) ht hr hp hb
      hd hf hl hx2).1] at h
    cases h
    exact ⟨rfl, by simp [u8, Nat.mod_eq_of_lt hlt], 4, _, rfl⟩

/-- C28 (counterexample): a register read (shape R2) with retry budget 5 on a bus stuck
low is answered `0x00` by the very first byte, so the first 5 bytes are not all `0xFF`,
and still returns Timeout, because none of the 255 bytes that follow is the `0xFE`
token. -/
theorem send_cmd_r2_timeout_after_answer :
    rx_peek (demo_card legacy_info miso_stuck_low) 5 ≠ List.replicate 5 0xFF ∧
    ∀ fuel : Nat,
      sd_card_send_cmd_req fuel (demo_card legacy_info miso_stuck_low)
          { cmd := Sd_Cmd9_Csd, arg := 0, crc := 0xFF, resp_type := Sd_Resp_Type_R2,
            retry := 5 } sd_resp_res.zero
        = Except.ok (Sd_Err_Timeout, { buf := sd_resp_res.zero.buf.set 0 0x00, filled := 1 },
            bus_step (demo_card legacy_info miso_stuck_low) ((0 + 1) + 255)
              (r1_exchange Sd_Cmd9_Csd 0 0xFF 0 ++ List.replicate 255 (BusEvent.read 1))) := by
  refine ⟨by decide!, fun fuel => ?_⟩
  refine send_cmd_r2_no_token fuel _ _ _ _ 5 _ 0 (List.replicate 255 0x00) []
    (demo_card_has_transfer _ _) (by norm_num) (by norm_num) (List.length_replicate _ _)
    (fun x hx => by rw [(List.mem_replicate.mp hx).2]; norm_num) rfl rfl ?_
  unfold rx_next
  rw [show miso_stuck_low = (fun _ => 0x00) from rfl, rx_peek_const _ _ _ (by norm_num)]
  simp only [answer, List.append_nil, List.length_append, List.length_replicate,
    List.length_singleton, List.replicate_zero, List.nil_append]
  rfl

/-- C28 (amended): for every retry budget `r` with `1 ≤ r ≤ 255` and a response record
with `filled = 0`: (1) for every shape, if the first `r` bytes after the command are all
`0xFF` the call returns Timeout after exactly `r` single-byte reads, the record
untouched; (2) if the first byte that is not `0xFF` is `b`, after `pad < r` idle bytes,
a command of shape R1 returns OK after exactly `pad + 1` single-byte reads with
`buf[0] = b` and `filled = 1`, and a command of any shape but R2 that returns, returns
OK with `buf[0] = b` after those `pad + 1` polls; (3) for every shape but R2, a call
that returns, returns Timeout if and only if the first `r` bytes are all `0xFF`.  (For
shape R2, Timeout is also the result of a missing data token.) -/
theorem send_cmd_response_poll (fuel : Nat) (c : sd_card) (cmd arg crc r : Nat)
    (resp : sd_resp_res) (ht : has_transfer c) (hr1 : 1 ≤ r) (hr : r ≤ 255)
    (hf : resp.filled = 0) (hl : resp.buf.length = 16) :
    (∀ rt : sd_resp_type, rx_peek c r = List.replicate r 0xFF →
      sd_card_send_cmd_req fuel c
          { cmd := cmd, arg := arg, crc := crc, resp_type := rt, retry := r } resp
        = Except.ok (Sd_Err_Timeout, resp,
            bus_step c r
              (BusEvent.write (cmd_frame cmd arg crc) :: List.replicate r (BusEvent.read 1)))) ∧
    (∀ (pad b : Nat) (rest : List Nat), pad < r → b ≠ 0xFF →
      rx_next c (answer pad b ++ rest) →
      sd_card_send_cmd_req fuel c
          { cmd := cmd, arg := arg, crc := crc, resp_type := Sd_Resp_Type_R1, retry := r } resp
        = Except.ok (Sd_Err_OK, { buf := resp.buf.set 0 b, filled := 1 },
            bus_step c (pad + 1) (r1_exchange cmd arg crc pad)) ∧
      ∀ (rt : sd_resp_type) (err : sd_error) (resp1 : sd_resp_res) (c1 : sd_card),
        rt ≠ Sd_Resp_Type_R2 →
        sd_card_send_cmd_req fuel c
            { cmd := cmd, arg := arg, crc := crc, resp_type := rt, retry := r } resp
          = Except.ok (err, resp1, c1) →
        err = Sd_Err_OK ∧ u8 resp1.buf 0 = b ∧
        ∃ (m : Nat) (evs : List BusEvent),
          c1 = bus_step c ((pad + 1) + m) (r1_exchange cmd arg crc pad ++ evs)) ∧
    (∀ (rt : sd_resp_type) (err : sd_error) (resp1 : sd_resp_res) (c1 : sd_card),
      rt ≠ Sd_Resp_Type_R2 →
      sd_card_send_cmd_req fuel c
          { cmd := cmd, arg := arg, crc := crc, resp_type := rt, retry := r } resp
        = Except.ok (err, resp1, c1) →
      (err = Sd_Err_Timeout ↔ rx_peek c r = List.replicate r 0xFF)) := by
  have part1 : ∀ rt : sd_resp_type, rx_peek c r = List.replicate r 0xFF →
      sd_card_send_cmd_req fuel c
          { cmd := cmd, arg := arg, crc := crc, resp_type := rt, retry := r } resp
        = Except.ok (Sd_Err_Timeout, resp,
            bus_step c r
              (BusEvent.write (cmd_frame cmd arg crc) ::
                List.replicate r (BusEvent.read 1))) := by
    intro rt hff
    have hrx : rx_next c (List.replicate r 0xFF ++ []) := by
      unfold rx_next
      rw [List.append_nil, List.length_replicate]
      exact hff
    exact (send_cmd_timeout fuel c cmd arg crc r rt resp [] ht hr1 hr hrx).1
  refine ⟨part1, ?_, ?_⟩
  · intro pad b rest hp hb hrx
    refine ⟨?_, fun rt err resp1 c1 hrt h =>
      send_cmd_answered fuel c cmd arg crc r rt resp pad b rest ht hr hf hl hrt hp hb hrx
        err resp1 c1 h⟩
    have h1 := (send_cmd_r1_answer fuel c cmd arg crc r resp pad b rest ht hr hp hb hrx).1
    rw [hf] at h1
    exact h1
  · intro rt err resp1 c1 hrt h
    rcases ff_prefix_or_answer (rx_peek c r) with hall | ⟨pad, b, rest, hans, hb⟩
    · rw [rx_peek_length] at hall
      rw [part1 rt hall] at h
      cases h
      exact ⟨fun _ => hall, fun _ => rfl⟩
    · have hlen : (answer pad b ++ rest).length = r := by
        rw [← hans, rx_peek_length]
      have hp : pad < r := by
        rw [← hlen]
        simp [answer]
      have hrx : rx_next c (answer pad b ++ rest) := by
        unfold rx_next
        rw [hlen]
        exact hans
      obtain ⟨e1, _, _⟩ := send_cmd_answered fuel c cmd arg crc r rt resp pad b rest ht hr hf hl
        hrt hp hb hrx err resp1 c1 h
      constructor
      · intro he
        rw [e1] at he
        cases he
      · intro hall
        exfalso
        apply hb
        have hm : b ∈ List.replicate r 0xFF := by
          rw [← hall, hans]
          simp [answer]
        exact (List.mem_replicate.mp hm).2

theorem send_cmd_response_poll_witness :
    has_transfer (demo_card legacy_info miso_always_idle) ∧ 1 ≤ 5 ∧ 5 ≤ 255 ∧
    sd_resp_res.zero.filled = 0 ∧ sd_resp_res.zero.buf.length = 16 ∧
    rx_next (demo_card legacy_info miso_always_idle) (answer 0 0x01 ++ []) ∧
    sd_card_send_cmd_req 0 (demo_card legacy_info miso_always_idle)
        { cmd := Sd_Cmd0_Idle, arg := 0, crc := 0x95, resp_type := Sd_Resp_Type_R1, retry := 5 }
        sd_resp_res.zero
      = Except.ok (Sd_Err_OK, { buf := sd_resp_res.zero.buf.set 0 0x01, filled := 1 },
          bus_step (demo_card legacy_info miso_always_idle) (0 + 1)
            (r1_exchange Sd_Cmd0_Idle 0 0x95 0)) :=
  ⟨demo_card_has_transfer _ _, by decide, by decide, rfl, rfl, by unfold rx_next; decide!,
    ((send_cmd_response_poll 0 (demo_card legacy_info miso_always_idle) Sd_Cmd0_Idle 0 0x95 5
      sd_resp_res.zero (demo_card_has_transfer _ _) (by decide) (by decide) rfl rfl).2.1
        0 0x01 [] (by decide) (by decide) (by unfold rx_next; decide!)).1⟩

/-- C29: for shape R2 in `sd_card_send_cmd_req`, on a response record with
`filled = 0`, once the R1 byte `b` has arrived after `pad` idle bytes: (1) if `b` is
not `0x00` the call returns Response and reads nothing after `b`; (2) if `b` is `0x00`
and none of the next 255 bytes is `0xFE`, it returns Timeout after exactly 255 token
polls; (3) if `b` is `0x00` and the first `0xFE` comes after at most 254 other bytes,
the 16 bytes that follow it become `buf[0..15]`, `filled = 16`, exactly 2 more bytes
are read and dropped, and the call returns OK. -/
theorem send_cmd_r2_phases (fuel : Nat) (c : sd_card) (cmd arg crc r : Nat)
    (resp : sd_resp_res) (ht : has_transfer c) (hr : r ≤ 255)
    (hf : resp.filled = 0) (hl : resp.buf.length = 16) :
    (∀ (pad b : Nat) (rest : List Nat), pad < r → b ≠ 0xFF → b ≠ 0x00 →
      rx_next c (answer pad b ++ rest) →
      sd_card_send_cmd_req fuel c
          { cmd := cmd, arg := arg, crc := crc, resp_type := Sd_Resp_Type_R2, retry := r } resp
        = Except.ok (Sd_Err_Response, { buf := resp.buf.set 0 b, filled := 1 },
            bus_step c (pad + 1) (r1_exchange cmd arg crc pad))) ∧
    (∀ (pad : Nat) (junk rest : List Nat), pad < r → junk.length = 255 →
      (∀ x ∈ junk, x ≠ 0xFE) → rx_next c (answer pad 0x00 ++ (junk ++ rest)) →
      sd_card_send_cmd_req fuel c
          { cmd := cmd, arg := arg, crc := crc, resp_type := Sd_Resp_Type_R2, retry := r } resp
        = Except.ok (Sd_Err_Timeout, { buf := resp.buf.set 0 0x00, filled := 1 },
            bus_step c ((pad + 1) + 255)
              (r1_exchange cmd arg crc pad ++ List.replicate 255 (BusEvent.read 1)))) ∧
    (∀ (pad : Nat) (junk data crc2 rest : List Nat), pad < r → junk.length ≤ 254 →
      (∀ x ∈ junk, x ≠ 0xFE) → data.length = 16 → crc2.length = 2 →
      rx_next c (answer pad 0x00 ++ (junk ++ 0xFE :: (data ++ (crc2 ++ rest)))) →
      sd_card_send_cmd_req fuel c
          { cmd := cmd, arg := arg, crc := crc, resp_type := Sd_Resp_Type_R2, retry := r } resp
        = Except.ok (Sd_Err_OK, { buf := data, filled := 16 },
            bus_step c ((pad + 1) + ((junk.length + 1) + (16 + 2)))
              (r1_exchange cmd arg crc pad ++
                (List.replicate (junk.length + 1) (BusEvent.read 1) ++
                  [BusEvent.read 16, BusEvent.read 2]))) ∧
      rx_next (bus_step c ((pad + 1) + ((junk.length + 1) + (16 + 2)))
              (r1_exchange cmd arg crc pad ++
                (List.replicate (junk.length + 1) (BusEvent.read 1) ++
                  [BusEvent.read 16, BusEvent.read 2]))) rest) :=
  ⟨fun pad b rest hp hb hne hrx =>
      send_cmd_r2_bad_r1 fuel c cmd arg crc r resp pad b rest ht hr hp hb hne hf hl hrx,
    fun pad junk rest hp hj hne hrx =>
      send_cmd_r2_no_token fuel c cmd arg crc r resp pad junk rest ht hr hp hj hne hf hl hrx,
    fun pad junk data crc2 rest hp hjl hj hd hc hrx =>
      send_cmd_r2_payload fuel c cmd arg crc r pad resp junk data crc2 rest ht hr hp hj hjl hd hc
        hf hl hrx⟩

theorem send_cmd_r2_phases_witness :
    has_transfer (demo_card legacy_info (miso_of ([0x00, 0xFE] ++ csd_v1_1g ++ [0x12, 0x34]))) ∧
    5 ≤ 255 ∧ sd_resp_res.zero.filled = 0 ∧ sd_resp_res.zero.buf.length = 16 ∧
    sd_card_send_cmd_req 0
        (demo_card legacy_info (miso_of ([0x00, 0xFE] ++ csd_v1_1g ++ [0x12, 0x34])))
        { cmd := Sd_Cmd9_Csd, arg := 0, crc := 0xFF, resp_type := Sd_Resp_Type_R2, retry := 5 }
        sd_resp_res.zero
      = Except.ok (Sd_Err_OK, { buf := csd_v1_1g, filled := 16 },
          bus_step (demo_card legacy_info (miso_of ([0x00, 0xFE] ++ csd_v1_1g ++ [0x12, 0x34])))
            ((0 + 1) + (([] : List Nat).length + 1 + (16 + 2)))
            (r1_exchange Sd_Cmd9_Csd 0 0xFF 0 ++
              (List.replicate (([] : List Nat).length + 1) (BusEvent.read 1) ++
                [BusEvent.read 16, BusEvent.read 2]))) :=
  ⟨demo_card_has_transfer _ _, by decide, rfl, rfl,
    ((send_cmd_r2_phases 0
      (demo_card legacy_info (miso_of ([0x00, 0xFE] ++ csd_v1_1g ++ [0x12, 0x34])))
      Sd_Cmd9_Csd 0 0xFF 5 sd_resp_res.zero (demo_card_has_transfer _ _) (by decide) rfl rfl).2.2
        0 [] csd_v1_1g [0x12, 0x34] [] (by decide) (by decide) (fun x hx => by cases hx)
        rfl rfl (by unfold rx_next; decide!)).1⟩

/-- C30: for shapes R3 and R7 in `sd_card_send_cmd_req`, on a response record with
`filled = 0`: once the R1 byte `b` has arrived after `pad` idle bytes, whatever its
value, the call returns OK with `buf[0] = b`, the next 4 bytes of the transport in
`buf[1..4]` in order, `filled = 5`, having read exactly those 4 bytes, in one read,
after the R1 byte. -/
theorem send_cmd_r3_r7_payload (fuel : Nat) (c : sd_card) (cmd arg crc r : Nat)
    (rt : sd_resp_type) (resp : sd_resp_res) (pad b : Nat) (data rest : List Nat)
    (hrt : rt = Sd_Resp_Type_R3 ∨ rt = Sd_Resp_Type_R7)
    (ht : has_transfer c) (hr : r ≤ 255) (hp : pad < r) (hb : b ≠ 0xFF)
    (hd : data.length = 4) (hf : resp.filled = 0) (hl : resp.buf.length = 16)
    (hrx : rx_next c (answer pad b ++ (data ++ rest))) :
    ∃ resp1 : sd_resp_res,
      sd_card_send_cmd_req fuel c
          { cmd := cmd, arg := arg, crc := crc, resp_type := rt, retry := r } resp
        = Except.ok (Sd_Err_OK, resp1,
            bus_step c ((pad + 1) + 4) (r1_exchange cmd arg crc pad ++ [BusEvent.read 4])) ∧
      resp1.buf = b :: (data ++ resp.buf.drop 5) ∧
      u8 resp1.buf 0 = b ∧
      [u8 resp1.buf 1, u8 resp1.buf 2, u8 resp1.buf 3, u8 resp1.buf 4] = data ∧
      resp1.filled = 5 ∧
      rx_next (bus_step c ((pad + 1) + 4) (r1_exchange cmd arg crc pad ++ [BusEvent.read 4]))
        rest := by
  obtain ⟨h1, h2⟩ := send_cmd_r37_answer fuel c cmd arg crc r rt resp pad b data rest hrt ht hr
    hp hb hd hf hl hrx
  have hlt : ∀ x ∈ answer pad b ++ (data ++ rest), x < 256 := rx_next_lt hrx
  have hbl : b < 256 := hlt b (by simp [answer])
  refine ⟨_, h1, rfl, ?_, ?_, rfl, h2⟩
  · simp [u8, Nat.mod_eq_of_lt hbl]
  · match data, hd with
    | [d1, d2, d3, d4], _ =>
      have e1 : d1 < 256 := hlt d1 (by simp)
      have e2 : d2 < 256 := hlt d2 (by simp)
      have e3 : d3 < 256 := hlt d3 (by simp)
      have e4 : d4 < 256 := hlt d4 (by simp)
      simp [u8, Nat.mod_eq_of_lt e1, Nat.mod_eq_of_lt e2, Nat.mod_eq_of_lt e3,
        Nat.mod_eq_of_lt e4]

theorem send_cmd_r3_r7_payload_witness :
    ∃ resp1 : sd_resp_res,
      sd_card_send_cmd_req 0
          (demo_card legacy_info (miso_of [0x05, 0xC0, 0xFF, 0x80, 0x00]))
          { cmd := Sd_Cmd58_Rd_Ocr, arg := 0, crc := 0xFF, resp_type := Sd_Resp_Type_R3,
            retry := 5 } sd_resp_res.zero
        = Except.ok (Sd_Err_OK, resp1,
            bus_step (demo_card legacy_info (miso_of [0x05, 0xC0, 0xFF, 0x80, 0x00])) ((0 + 1) + 4)
              (r1_exchange Sd_Cmd58_Rd_Ocr 0 0xFF 0 ++ [BusEvent.read 4])) ∧
      resp1.buf = 0x05 :: ([0xC0, 0xFF, 0x80, 0x00] ++ sd_resp_res.zero.buf.drop 5) ∧
      u8 resp1.buf 0 = 0x05 ∧
      [u8 resp1.buf 1, u8 resp1.buf 2, u8 resp1.buf 3, u8 resp1.buf 4]
        = [0xC0, 0xFF, 0x80, 0x00] ∧
      resp1.filled = 5 ∧
      rx_next (bus_step (demo_card legacy_info (miso_of [0x05, 0xC0, 0xFF, 0x80, 0x00]))
        ((0 + 1) + 4) (r1_exchange Sd_Cmd58_Rd_Ocr 0 0xFF 0 ++ [BusEvent.read 4])) [] :=
  send_cmd_r3_r7_payload 0 (demo_card legacy_info (miso_of [0x05, 0xC0, 0xFF, 0x80, 0x00]))
    Sd_Cmd58_Rd_Ocr 0 0xFF 5 Sd_Resp_Type_R3 sd_resp_res.zero 0 0x05 [0xC0, 0xFF, 0x80, 0x00] []
    (Or.inl rfl) (demo_card_has_transfer _ _) (by decide) (by decide) (by decide) rfl rfl rfl
    (by unfold rx_next; decide!)

/-! ### Command traffic leaves the life cycle alone -/

theorem bus_traffic_refl (c : sd_card) : bus_traffic c c :=
  ⟨rfl, rfl, [], (List.append_nil _).symm, fun _ h => by cases h⟩

theorem bus_traffic_trans {a b c : sd_card} (h1 : bus_traffic a b) (h2 : bus_traffic b c) :
    bus_traffic a c := by
  obtain ⟨a1, a2, e1, a3, a4⟩ := h1
  obtain ⟨b1, b2, e2, b3, b4⟩ := h2
  refine ⟨b1.trans a1, b2.trans a2, e1 ++ e2, ?_, ?_⟩
  · rw [b3, a3, List.append_assoc]
  · intro e he
    rcases List.mem_append.mp he with h | h
    · exact a4 e h
    · exact b4 e h

theorem bus_traffic_of_only {a b : sd_card} (h : transfers_only a b) : bus_traffic a b := by
  obtain ⟨h1, _, h3, _, _, _, evs, h7, h8⟩ := h
  refine ⟨h1, h3, evs, h7, fun e he => ?_⟩
  have := h8 e he
  cases e <;> first | rfl | cases this

theorem bus_traffic_set_info (c : sd_card) (i : sd_info) : bus_traffic c { c with info := i } :=
  ⟨rfl, rfl, [], (List.append_nil _).symm, fun _ h => by cases h⟩

theorem select_traffic (c : sd_card) : bus_traffic c (sd_spi_hw_select_card c).2 := by
  unfold sd_spi_hw_select_card
  split
  · exact bus_traffic_refl c
  · split
    · exact bus_traffic_refl c
    · split
      · exact ⟨rfl, rfl, _, rfl, fun e he => by rw [List.mem_singleton.mp he]; rfl⟩
      · refine ⟨rfl, rfl, _, rfl, fun e he => ?_⟩
        simp only [List.mem_cons, List.mem_singleton, List.not_mem_nil, or_false] at he
        rcases he with h | h <;> rw [h] <;> rfl

theorem deselect_traffic (c : sd_card) : bus_traffic c (sd_spi_hw_deselect_card c).2 := by
  unfold sd_spi_hw_deselect_card
  split
  · exact bus_traffic_refl c
  · split
    · exact bus_traffic_refl c
    · refine ⟨rfl, rfl, _, rfl, fun e he => ?_⟩
      simp only [List.mem_cons, List.mem_singleton, List.not_mem_nil, or_false] at he
      rcases he with h | h <;> rw [h] <;> rfl

theorem send_dummy_traffic (n : Nat) (c : sd_card) :
    bus_traffic c (sd_spi_hw_send_dummy c n).2 :=
  bus_traffic_of_only (send_dummy_transfers n c)

theorem into_idle_traffic (fuel : Nat) (c : sd_card) :
    ∃ (err : sd_error) (c1 : sd_card),
      sd_card_into_idle fuel c = Except.ok (err, c1) ∧ bus_traffic c c1 := by
  have hs := select_traffic c
  unfold sd_card_into_idle
  generalize sd_spi_hw_select_card c = r at hs ⊢
  obtain ⟨e, c1⟩ := r
  cases e with
  | Sd_Err_OK =>
    obtain ⟨fin, err, t, c2, l1, l2⟩ := into_idle_loop_frame fuel 0xff c1
    simp only []
    rw [l1]
    exact ⟨_, _, rfl, bus_traffic_trans hs (bus_traffic_trans (bus_traffic_of_only l2)
      (bus_traffic_trans (deselect_traffic _) (send_dummy_traffic 1 _)))⟩
  | _ => exact ⟨_, _, rfl, hs⟩

theorem do_while_dec_traffic (body : sd_card → Except Fault (LoopStep × sd_card))
    (hbody : ∀ c, ∃ (st : LoopStep) (c1 : sd_card),
      body c = Except.ok (st, c1) ∧ bus_traffic c c1) (n : Nat) :
    ∀ c : sd_card, ∃ (r : Option sd_error) (t : Nat) (c1 : sd_card),
      do_while_dec body n c = Except.ok (r, t, c1) ∧ bus_traffic c c1 := by
  induction n with
  | zero =>
    intro c
    obtain ⟨st, c1, h1, h2⟩ := hbody c
    unfold do_while_dec
    rw [h1]
    cases st <;> exact ⟨_, _, _, rfl, h2⟩
  | succ n ih =>
    intro c
    obtain ⟨st, c1, h1, h2⟩ := hbody c
    unfold do_while_dec
    rw [h1]
    cases st with
    | next =>
      obtain ⟨r, t, c2, i1, i2⟩ := ih c1
      exact ⟨r, t, c2, i1, bus_traffic_trans h2 i2⟩
    | _ => exact ⟨_, _, _, rfl, h2⟩

theorem acmd41_body_v2_traffic (fuel : Nat) (c : sd_card) :
    ∃ (st : LoopStep) (c1 : sd_card),
      acmd41_body_v2 fuel c = Except.ok (st, c1) ∧ bus_traffic c c1 := by
  obtain ⟨e1, resp1, c1, h1, t1⟩ := send_cmd_total fuel c
    { cmd := Sd_Cmd55_App_Cmd, arg := 0, crc := 1, resp_type := Sd_Resp_Type_R1, retry := 5 }
    sd_resp_res.zero (fun h => by cases h)
  unfold acmd41_body_v2
  rw [h1]
  cases e1 with
  | Sd_Err_OK =>
    simp only []
    split
    · exact ⟨_, _, rfl, bus_traffic_of_only t1⟩
    · obtain ⟨e2, resp2, c2, h2, t2⟩ := send_cmd_total fuel c1
        { cmd := Sd_Acmd41_Op_Cond, arg := 0x40000000, crc := 1,
          resp_type := Sd_Resp_Type_R1, retry := 5 }
        sd_resp_res.zero (fun h => by cases h)
      rw [h2]
      have t12 := transfers_only_trans t1 t2
      cases e2 with
      | Sd_Err_OK =>
        simp only []
        split
        · exact ⟨_, _, rfl, bus_traffic_of_only t12⟩
        · exact ⟨_, _, rfl, bus_traffic_of_only
            (transfers_only_trans t12 (udelay_transfers _ _))⟩
      | _ => exact ⟨_, _, rfl, bus_traffic_of_only t12⟩
  | _ => exact ⟨_, _, rfl, bus_traffic_of_only t1⟩

theorem acmd41_body_v1_traffic (fuel : Nat) (c : sd_card) :
    ∃ (st : LoopStep) (c1 : sd_card),
      acmd41_body_v1 fuel c = Except.ok (st, c1) ∧ bus_traffic c c1 := by
  obtain ⟨e1, resp1, c1, h1, t1⟩ := send_cmd_total fuel c
    { cmd := Sd_Cmd55_App_Cmd, arg := 0, crc := 1, resp_type := Sd_Resp_Type_R1, retry := 5 }
    sd_resp_res.zero (fun h => by cases h)
  unfold acmd41_body_v1
  rw [h1]
  cases e1 with
  | Sd_Err_OK =>
    simp only []
    split
    · exact ⟨_, _, rfl, bus_traffic_of_only t1⟩
    · obtain ⟨e2, resp2, c2, h2, t2⟩ := send_cmd_total fuel c1
        { cmd := Sd_Acmd41_Op_Cond, arg := 0, crc := 1,
          resp_type := Sd_Resp_Type_R1, retry := 5 }
        sd_resp_res.zero (fun h => by cases h)
      rw [h2]
      have t12 := transfers_only_trans t1 t2
      cases e2 with
      | Sd_Err_OK =>
        simp only []
        split <;> exact ⟨_, _, rfl, bus_traffic_of_only t12⟩
      | _ => exact ⟨_, _, rfl, bus_traffic_of_only t12⟩
  | _ => exact ⟨_, _, rfl, bus_traffic_of_only t1⟩

theorem check_v2_after_acmd41_traffic (fuel : Nat) (c : sd_card) :
    ∃ (err : sd_error) (c1 : sd_card),
      check_v2_after_acmd41 fuel c = Except.ok (err, c1) ∧ bus_traffic c c1 := by
  obtain ⟨e1, resp1, c2, h1, t1⟩ := send_cmd_total fuel c
    { cmd := Sd_Cmd58_Rd_Ocr, arg := 0, crc := 1, resp_type := Sd_Resp_Type_R3, retry := 5 }
    sd_resp_res.zero (fun h => by cases h)
  have m1 := bus_traffic_of_only t1
  unfold check_v2_after_acmd41
  rw [h1]
  cases e1 with
  | Sd_Err_OK =>
    simp only []
    split
    · exact ⟨_, _, rfl, m1⟩
    · generalize hc3 : (if ((((u8 resp1.buf 1 <<< 24) % 2 ^ 32) |||
          ((u8 resp1.buf 2 <<< 16) % 2 ^ 32) ||| ((u8 resp1.buf 3 <<< 8) % 2 ^ 32) |||
          u8 resp1.buf 4) % 2 ^ 32 &&& (1 <<< 30)) ≠ 0 then
          ({ c2 with info := { c2.info with type := Sd_Type_SDHC } } : sd_card)
        else { c2 with info := { c2.info with type := Sd_Type_SDSC_V2 } }) = c3
      have m3 : bus_traffic c2 c3 := by
        rw [← hc3]
        split <;> exact bus_traffic_set_info _ _
      have m4 : bus_traffic c c3 := bus_traffic_trans m1 m3
      have m5 : bus_traffic c (sd_spi_hw_send_dummy c3 2).2 :=
        bus_traffic_trans m4 (bus_traffic_of_only (send_dummy_transfers 2 c3))
      obtain ⟨e2, resp2, c5, h2, t2⟩ := send_cmd_total fuel (sd_spi_hw_send_dummy c3 2).2
        { cmd := Sd_Cmd9_Csd, arg := 0, crc := 1, resp_type := Sd_Resp_Type_R2, retry := 5 }
        sd_resp_res.zero (fun h => by cases h)
      have m6 := bus_traffic_trans m5 (bus_traffic_of_only t2)
      rw [h2]
      cases e2 with
      | Sd_Err_OK =>
        simp only []
        split
        · generalize _parse_csd_v2 resp2.buf c5.info = p
          obtain ⟨pe, pi⟩ := p
          cases pe with
          | Sd_Err_OK =>
            simp only []
            split <;>
              exact ⟨_, _, rfl, bus_traffic_trans m6 (bus_traffic_set_info _ _)⟩
          | _ => exact ⟨_, _, rfl, bus_traffic_trans m6 (bus_traffic_set_info _ _)⟩
        · generalize _parse_csd_v1 resp2.buf c5.info = p
          obtain ⟨pe, pi⟩ := p
          cases pe <;>
            exact ⟨_, _, rfl, bus_traffic_trans m6 (bus_traffic_set_info _ _)⟩
      | _ => exact ⟨_, _, rfl, m6⟩
  | _ => exact ⟨_, _, rfl, m1⟩

theorem check_v1_after_acmd41_traffic (fuel : Nat) (c : sd_card) :
    ∃ (err : sd_error) (c1 : sd_card),
      check_v1_after_acmd41 fuel c = Except.ok (err, c1) ∧ bus_traffic c c1 := by
  have m0 : bus_traffic c
      { c with info := { c.info with type := Sd_Type_SDSC_V1 } } :=
    bus_traffic_set_info _ _
  obtain ⟨e1, resp1, c3, h1, t1⟩ := send_cmd_total fuel
    { c with info := { c.info with type := Sd_Type_SDSC_V1 } }
    { cmd := Sd_Cmd16_Block_len, arg := 512, crc := 1,
      resp_type := Sd_Resp_Type_R1, retry := 5 }
    sd_resp_res.zero (fun h => by cases h)
  have m1 := bus_traffic_trans m0 (bus_traffic_of_only t1)
  unfold check_v1_after_acmd41
  simp only []
  rw [h1]
  cases e1 with
  | Sd_Err_OK =>
    simp only []
    split
    · exact ⟨_, _, rfl, m1⟩
    · obtain ⟨e2, resp2, c4, h2, t2⟩ := send_cmd_total fuel c3
        { cmd := Sd_Cmd9_Csd, arg := 0, crc := 1, resp_type := Sd_Resp_Type_R2, retry := 5 }
        sd_resp_res.zero (fun h => by cases h)
      have m2 := bus_traffic_trans m1 (bus_traffic_of_only t2)
      rw [h2]
      cases e2 with
      | Sd_Err_OK =>
        simp only []
        generalize _parse_csd_v1 resp2.buf c4.info = p
        obtain ⟨pe, pi⟩ := p
        cases pe <;>
          exact ⟨_, _, rfl, bus_traffic_trans m2 (bus_traffic_set_info _ _)⟩
      | _ => exact ⟨_, _, rfl, m2⟩
  | _ => exact ⟨_, _, rfl, m1⟩

theorem check_card_maybe_v2_traffic (fuel : Nat) (c : sd_card) :
    ∃ (err : sd_error) (c1 : sd_card),
      _check_card_maybe_v2 fuel c = Except.ok (err, c1) ∧ bus_traffic c c1 := by
  obtain ⟨r, t, c1, h1, m1⟩ := do_while_dec_traffic (acmd41_body_v2 fuel)
    (acmd41_body_v2_traffic fuel) 254 c
  unfold _check_card_maybe_v2
  rw [h1]
  cases r with
  | some err => exact ⟨_, _, rfl, m1⟩
  | none =>
    simp only []
    split
    · exact ⟨_, _, rfl, m1⟩
    · obtain ⟨err, c2, h2, m2⟩ := check_v2_after_acmd41_traffic fuel c1
      exact ⟨err, c2, h2, bus_traffic_trans m1 m2⟩

theorem check_card_maybe_v1_traffic (fuel : Nat) (c : sd_card) :
    ∃ (err : sd_error) (c1 : sd_card),
      _check_card_maybe_v1 fuel c = Except.ok (err, c1) ∧ bus_traffic c c1 := by
  obtain ⟨r, t, c1, h1, m1⟩ := do_while_dec_traffic (acmd41_body_v1 fuel)
    (acmd41_body_v1_traffic fuel) 254 c
  unfold _check_card_maybe_v1
  rw [h1]
  cases r with
  | some err => exact ⟨_, _, rfl, m1⟩
  | none =>
    simp only []
    split
    · exact ⟨_, _, rfl, m1⟩
    · obtain ⟨err, c2, h2, m2⟩ := check_v1_after_acmd41_traffic fuel c1
      exact ⟨err, c2, h2, bus_traffic_trans m1 m2⟩

theorem finish_traffic {c0 c3 : sd_card} (err : sd_error) (h : bus_traffic c0 c3) :
    bus_traffic c0 (card_identify_finish err c3).2 :=
  bus_traffic_trans h (bus_traffic_trans (deselect_traffic _) (send_dummy_traffic 1 _))

theorem card_identify_traffic (fuel : Nat) (c : sd_card) :
    ∃ (err : sd_error) (c1 : sd_card),
      _card_identify fuel c = Except.ok (err, c1) ∧ bus_traffic c c1 := by
  have s0 : bus_traffic c { c with info := ⟨0, 0, 0, 0, Sd_Type_Unknown⟩ } :=
    bus_traffic_set_info _ _
  unfold _card_identify
  simp only []
  generalize ({ c with info := ⟨0, 0, 0, 0, Sd_Type_Unknown⟩ } : sd_card) = c0 at s0 ⊢
  have hs := bus_traffic_trans s0 (select_traffic c0)
  generalize sd_spi_hw_select_card c0 = r at hs ⊢
  obtain ⟨e, c1⟩ := r
  cases e with
  | Sd_Err_OK =>
    simp only []
    obtain ⟨e1, resp, c2, h1, t1⟩ := send_cmd_total fuel c1
      { cmd := Sd_Cmd8_If_Cond, arg := 0x1AA, crc := 0x87,
        resp_type := Sd_Resp_Type_R7, retry := 5 }
      sd_resp_res.zero (fun h => by cases h)
    have m1 := bus_traffic_trans hs (bus_traffic_of_only t1)
    rw [h1]
    have hv1 : ∃ (err : sd_error) (c1 : sd_card),
        (match _check_card_maybe_v1 fuel c2 with
          | Except.error f => Except.error f
          | Except.ok (err, card3) => Except.ok (card_identify_finish err card3))
          = Except.ok (err, c1) ∧ bus_traffic c c1 := by
      obtain ⟨err, c3, h3, m3⟩ := check_card_maybe_v1_traffic fuel c2
      rw [h3]
      exact ⟨_, _, rfl, finish_traffic err (bus_traffic_trans m1 m3)⟩
    cases e1 with
    | Sd_Err_OK =>
      simp only []
      split
      · split
        · obtain ⟨err, c3, h3, m3⟩ := check_card_maybe_v2_traffic fuel c2
          rw [h3]
          exact ⟨_, _, rfl, finish_traffic err (bus_traffic_trans m1 m3)⟩
        · exact ⟨_, _, rfl, finish_traffic _ m1⟩
      · exact ⟨_, _, rfl, finish_traffic _ m1⟩
    | _ => exact hv1
  | _ => exact ⟨_, _, rfl, hs⟩

/-- The identification returns, whatever the card shows; it leaves the adapter and
the `is_inited` flag alone and makes no life-cycle control call. -/
theorem sd_card_identify_traffic (fuel : Nat) (c : sd_card) :
    ∃ (err : sd_error) (c1 : sd_card),
      sd_card_identify fuel c = Except.ok (err, c1) ∧ bus_traffic c c1 := by
  obtain ⟨e1, c1, h1, s1⟩ := into_idle_traffic fuel c
  unfold sd_card_identify
  rw [h1]
  cases e1 with
  | Sd_Err_OK =>
    obtain ⟨e2, c2, h2, s2⟩ := card_identify_traffic fuel c1
    exact ⟨e2, c2, h2, bus_traffic_trans s1 s2⟩
  | _ => exact ⟨_, _, rfl, s1⟩

/-! ### Init, deinit and the presence check -/

theorem write_bytes_no_transfer {c : sd_card} (h : ¬ has_transfer c) (buf : List Nat) :
    sd_spi_hw_write_bytes c buf = ( Sd_Err_IO, c) := by
  unfold sd_spi_hw_write_bytes
  cases hs : c.spi_if with
  | none => rfl
  | some ifc =>
    cases ht : ifc.transfer with
    | none => simp only [ht]
    | some t => exact absurd ⟨ifc, t, hs, ht⟩ h

/-- Without a transfer function a command is not sent: IO, nothing touched. -/
theorem send_cmd_no_transfer (fuel : Nat) {c : sd_card} (h : ¬ has_transfer c) (req : sd_cmd_req)
    (resp : sd_resp_res) :
    sd_card_send_cmd_req fuel c req resp = Except.ok ( Sd_Err_IO, resp, c) := by
  unfold sd_card_send_cmd_req
  simp only []
  rw [write_bytes_no_transfer h]

theorem has_transfer_congr {c c1 : sd_card} (h : c1.spi_if = c.spi_if) :
    has_transfer c1 ↔ has_transfer c := by
  unfold has_transfer
  rw [h]

theorem has_control_congr {c c1 : sd_card} (h : c1.spi_if = c.spi_if) :
    has_control c1 ↔ has_control c := by
  unfold has_control
  rw [h]

/-- Without a transfer function the idle reset fails. -/
theorem into_idle_no_transfer (fuel : Nat) {c : sd_card} (h : ¬ has_transfer c)
    (e : sd_error) (c1 : sd_card) (hi : sd_card_into_idle fuel c = Except.ok (e, c1)) :
    e ≠ Sd_Err_OK := by
  have hs := select_traffic c
  unfold sd_card_into_idle at hi
  generalize sd_spi_hw_select_card c = r at hs hi
  obtain ⟨e0, c0⟩ := r
  have h0 : ¬ has_transfer c0 := fun hh => h ((has_transfer_congr hs.1).mp hh)
  cases e0 with
  | Sd_Err_OK =>
    simp only [] at hi
    have hl : into_idle_loop fuel 0xff c0 = Except.ok (true, Sd_Err_IO, 254, c0) := by
      show into_idle_loop fuel (254 + 1) c0 = _
      unfold into_idle_loop
      rw [send_cmd_no_transfer fuel h0]
    rw [hl] at hi
    simp only [] at hi
    cases hi
    simp
  | _ =>
    simp only [] at hi
    cases hi
    simp

/-- Without a transfer function the identification fails. -/
theorem identify_no_transfer (fuel : Nat) {c : sd_card} (h : ¬ has_transfer c)
    (e : sd_error) (c1 : sd_card) (hi : sd_card_identify fuel c = Except.ok (e, c1)) :
    e ≠ Sd_Err_OK := by
  obtain ⟨e0, c0, h0, _⟩ := into_idle_traffic fuel c
  have hne := into_idle_no_transfer fuel h e0 c0 h0
  unfold sd_card_identify at hi
  rw [h0] at hi
  cases e0 with
  | Sd_Err_OK => exact absurd rfl hne
  | _ =>
    simp only [] at hi
    cases hi
    simp

theorem io_init_ok {c : sd_card} (h : has_control c) :
    sd_spi_hw_io_init c
      = (Sd_Err_OK, { c with log := c.log ++ [BusEvent.control Sd_User_Ctrl_Init_Hardware] }) := by
  obtain ⟨ifc, ctl, h1, h2⟩ := h
  unfold sd_spi_hw_io_init
  rw [h1]
  simp only [h2]

theorem io_init_no_control {c : sd_card} (h : ¬ has_control c) :
    sd_spi_hw_io_init c = ( Sd_Err_IO, c) := by
  unfold sd_spi_hw_io_init
  cases hs : c.spi_if with
  | none => rfl
  | some ifc =>
    cases ht : ifc.control with
    | none => simp only [ht]
    | some t => exact absurd ⟨ifc, t, hs, ht⟩ h

theorem io_deinit_ok {c : sd_card} (h : has_control c) :
    sd_spi_hw_io_deinit c
      = (Sd_Err_OK,
          { c with log := c.log ++ [BusEvent.control Sd_User_Ctrl_Deinit_Hardware] }) := by
  obtain ⟨ifc, ctl, h1, h2⟩ := h
  unfold sd_spi_hw_io_deinit
  rw [h1]
  simp only [h2]

theorem set_speed_ok {c : sd_card} (h : has_control c) (speed : sd_user_ctrl) :
    sd_spi_hw_set_speed c speed = { c with log := c.log ++ [BusEvent.control speed] } := by
  obtain ⟨ifc, ctl, h1, h2⟩ := h
  unfold sd_spi_hw_set_speed
  rw [h1]
  simp only [h2]

/-- The session that `sd_card_init` hands to the identification, on an adapter with a
`control` function: the adapter as before, `is_inited` clear, and on the log
init-hardware and set-low-speed followed by calls that are no life-cycle controls. -/
theorem powered_log {c : sd_card} (h : has_control c) :
    (powered c).spi_if = c.spi_if ∧ (powered c).is_inited = false ∧
    ∃ pre, (powered c).log = c.log ++ ([BusEvent.control Sd_User_Ctrl_Init_Hardware,
        BusEvent.control Sd_User_Ctrl_Set_Low_Speed] ++ pre) ∧
      ∀ ev ∈ pre, is_setup_control ev = false := by
  have hc0 : has_control
      { c with is_inited := false, is_selected := false, is_xfering := false } := h
  have hc1 : has_control
      { c with is_inited := false, is_selected := false, is_xfering := false,
               log := c.log ++ [BusEvent.control Sd_User_Ctrl_Init_Hardware] } := h
  unfold powered
  rw [io_init_ok hc0]
  simp only []
  rw [set_speed_ok hc1]
  unfold _card_power_on
  simp only []
  generalize hg : ({ c with is_inited := false, is_selected := false, is_xfering := false,
                            log := c.log ++ [BusEvent.control Sd_User_Ctrl_Init_Hardware] ++
                              [BusEvent.control Sd_User_Ctrl_Set_Low_Speed] } : sd_card) = c2
  obtain ⟨t1, t2, pre, t3, t4⟩ :=
    bus_traffic_trans (deselect_traffic c2) (send_dummy_traffic 10 _)
  refine ⟨?_, ?_, pre, ?_, t4⟩
  · rw [t1, ← hg]
  · rw [t2, ← hg]
  · rw [t3, ← hg]
    simp only [List.append_assoc, List.singleton_append, List.cons_append, List.nil_append]

/-- On a complete adapter the calls before the identification are exactly
`power_up_events`. -/
theorem powered_complete {c : sd_card} (h : has_control c) (ht : has_transfer c) :
    (powered c).log = c.log ++ power_up_events := by
  obtain ⟨ifc, ctl, h1, h2⟩ := h
  obtain ⟨ifc2, t, h3, h4⟩ := ht
  rw [h1] at h3
  cases h3
  simp [powered, sd_spi_hw_io_init, sd_spi_hw_set_speed, _card_power_on,
    sd_spi_hw_deselect_card, sd_spi_hw_send_dummy, sd_spi_hw_write_byte, sd_spi_hw_write_bytes,
    h1, h2, h4, power_up_events]

/-- The function `sd_card_init` on an adapter with a `control` function: the
identification of the powered session decides. -/
theorem sd_card_init_eq (fuel : Nat) {c : sd_card} (h : has_control c) :
    sd_card_init fuel (some c) =
      match sd_card_identify fuel (powered c) with
      | Except.error f => Except.error f
      | Except.ok (Sd_Err_OK, c4) =>
        Except.ok (Sd_Err_OK,
          some { c4 with log := c4.log ++ [BusEvent.control Sd_User_Ctrl_Set_High_Speed],
                         is_inited := true })
      | Except.ok (err, c4) => Except.ok (err, some c4) := by
  have hc0 : has_control
      { c with is_inited := false, is_selected := false, is_xfering := false } := h
  obtain ⟨e, c4, hi, hs, _⟩ := sd_card_identify_traffic fuel (powered c)
  have hc4 : has_control c4 :=
    (has_control_congr (hs.trans (powered_log h).1)).mpr h
  have hp : _card_power_on (sd_spi_hw_set_speed (sd_spi_hw_io_init
      { c with is_inited := false, is_selected := false, is_xfering := false }).2
      Sd_User_Ctrl_Set_Low_Speed) = (Sd_Err_OK, powered c) := rfl
  unfold sd_card_init
  simp only []
  rw [io_init_ok hc0] at hp ⊢
  simp only [] at hp ⊢
  rw [hp]
  simp only []
  rw [hi]
  cases e with
  | Sd_Err_OK =>
    simp only []
    rw [set_speed_ok hc4]
  | _ => rfl

theorem no_setup_not_mem {evs : List BusEvent} (h : ∀ ev ∈ evs, is_setup_control ev = false)
    (op : BusEvent) (hop : is_setup_control op = true) : op ∉ evs := by
  intro hm
  rw [h op hm] at hop
  cases hop

/-- What `sd_card_init` leaves behind on an adapter with a `control` function, in
terms of the identification of the powered session. -/
theorem sd_card_init_cases (fuel : Nat) (c : sd_card) (h : has_control c) :
    ∃ (e : sd_error) (c4 : sd_card) (mid : List BusEvent),
      sd_card_identify fuel (powered c) = Except.ok (e, c4) ∧
      c4.log = (powered c).log ++ mid ∧ (∀ ev ∈ mid, is_setup_control ev = false) ∧
      c4.is_inited = false ∧
      (e ≠ Sd_Err_OK → sd_card_init fuel (some c) = Except.ok (e, some c4)) ∧
      (e = Sd_Err_OK →
        has_transfer c ∧ (powered c).log = c.log ++ power_up_events ∧
        sd_card_init fuel (some c) = Except.ok (Sd_Err_OK,
          some { c4 with log := c4.log ++ [BusEvent.control Sd_User_Ctrl_Set_High_Speed],
                         is_inited := true })) := by
  obtain ⟨e, c4, hi, hs, hin, mid, hlog, hmid⟩ := sd_card_identify_traffic fuel (powered c)
  obtain ⟨p1, p2, _⟩ := powered_log h
  have heq := sd_card_init_eq fuel h
  rw [hi] at heq
  refine ⟨e, c4, mid, hi, hlog, hmid, hin.trans p2, ?_, ?_⟩
  · intro hne
    rw [heq]
    cases e with
    | Sd_Err_OK => exact absurd rfl hne
    | _ => rfl
  · intro he
    subst he
    have ht : has_transfer c := by
      by_contra hn
      have hn2 : ¬ has_transfer (powered c) := fun hh => hn ((has_transfer_congr p1).mp hh)
      exact identify_no_transfer fuel hn2 _ _ hi rfl
    exact ⟨ht, powered_complete h ht, heq⟩

/-- C22: for every non-null session, `sd_card_init` returns, and ends with
`is_inited = true` if and only if it returns OK.  (1) Without a `control` function it
returns IO with the three flags cleared and no adapter call made.  (2) With one, the
calls init-hardware and set-low-speed are made, then the power-on sequence, then the
identification `sd_card_identify` (idle reset first, whose error, if any, is the
identification's) on the session `powered c`; if the identification returns an error,
`sd_card_init` returns that error and the session as the identification left it, with
`is_inited = false` whatever the flag was before the call, and no life-cycle control
after set-low-speed, so no set-high-speed; if it returns OK, the adapter is complete,
the calls made are exactly init-hardware, set-low-speed, deselect and release-bus, ten
writes of `0xFF`, the calls of the identification, set-high-speed, and `is_inited` is
true. -/
theorem sd_card_init_outcome (fuel : Nat) (c : sd_card) :
    (∃ (err : sd_error) (c1 : sd_card) (evs : List BusEvent),
      sd_card_init fuel (some c) = Except.ok (err, some c1) ∧
      (c1.is_inited = true ↔ err = Sd_Err_OK) ∧
      c1.log = c.log ++ evs ∧
      (err ≠ Sd_Err_OK → BusEvent.control Sd_User_Ctrl_Set_High_Speed ∉ evs) ∧
      (err = Sd_Err_OK → ∃ mid : List BusEvent,
        evs = power_up_events ++ mid ++ [BusEvent.control Sd_User_Ctrl_Set_High_Speed] ∧
        ∀ ev ∈ mid, is_setup_control ev = false)) ∧
    (¬ has_control c →
      sd_card_init fuel (some c) = Except.ok ( Sd_Err_IO,
        some { c with is_inited := false, is_selected := false, is_xfering := false })) ∧
    (has_control c →
      ∃ (e : sd_error) (c4 : sd_card) (mid : List BusEvent),
        sd_card_identify fuel (powered c) = Except.ok (e, c4) ∧
        c4.log = (powered c).log ++ mid ∧ (∀ ev ∈ mid, is_setup_control ev = false) ∧
        (∀ (e1 : sd_error) (c3 : sd_card),
          sd_card_into_idle fuel (powered c) = Except.ok (e1, c3) → e1 ≠ Sd_Err_OK →
          e = e1 ∧ c4 = c3) ∧
        (e ≠ Sd_Err_OK →
          sd_card_init fuel (some c) = Except.ok (e, some c4) ∧ c4.is_inited = false) ∧
        (e = Sd_Err_OK →
          has_transfer c ∧ (powered c).log = c.log ++ power_up_events ∧
          sd_card_init fuel (some c) = Except.ok (Sd_Err_OK,
            some { c4 with log := c4.log ++ [BusEvent.control Sd_User_Ctrl_Set_High_Speed],
                           is_inited := true }))) := by
  have hno : ¬ has_control c →
      sd_card_init fuel (some c) = Except.ok ( Sd_Err_IO,
        some { c with is_inited := false, is_selected := false, is_xfering := false }) := by
    intro hn
    have hn0 : ¬ has_control
        { c with is_inited := false, is_selected := false, is_xfering := false } := hn
    unfold sd_card_init
    simp only []
    rw [io_init_no_control hn0]
  refine ⟨?_, hno, ?_⟩
  · by_cases hc : has_control c
    · obtain ⟨e, c4, mid, hi, hlog, hmid, hin, hfail, hok⟩ := sd_card_init_cases fuel c hc
      obtain ⟨_, _, pre, hpre, hpre2⟩ := powered_log hc
      by_cases he : e = Sd_Err_OK
      · obtain ⟨_, hpl, hinit⟩ := hok he
        refine ⟨Sd_Err_OK, _, power_up_events ++ mid ++
          [BusEvent.control Sd_User_Ctrl_Set_High_Speed], hinit, Iff.intro (fun _ => rfl) (fun _ => rfl),
          ?_, fun hne => absurd rfl hne, fun _ => ⟨mid, rfl, hmid⟩⟩
        show c4.log ++ _ = _
        rw [hlog, hpl]
        simp only [List.append_assoc]
      · refine ⟨e, c4, ([BusEvent.control Sd_User_Ctrl_Init_Hardware,
          BusEvent.control Sd_User_Ctrl_Set_Low_Speed] ++ pre) ++ mid, hfail he, ?_, ?_, ?_,
          fun h => absurd h he⟩
        · rw [hin]
          exact Iff.intro (fun h => by cases h) (fun h => absurd h he)
        · rw [hlog, hpre]
          simp only [List.append_assoc]
        · intro _ hm
          rcases List.mem_append.mp hm with h1 | h1
          · rcases List.mem_append.mp h1 with h2 | h2
            · simp only [List.mem_cons, List.mem_singleton, List.not_mem_nil, or_false] at h2
              rcases h2 with h3 | h3 <;> cases h3
            · exact no_setup_not_mem hpre2 (BusEvent.control Sd_User_Ctrl_Set_High_Speed) rfl h2
          · exact no_setup_not_mem hmid (BusEvent.control Sd_User_Ctrl_Set_High_Speed) rfl h1
    · refine ⟨ Sd_Err_IO, _, [], hno hc, Iff.intro (fun h => by cases h) (fun h => by cases h),
        (List.append_nil _).symm, ?_, ?_⟩
      · intro _ hm
        cases hm
      · intro h
        cases h
  · intro hc
    obtain ⟨e, c4, mid, hi, hlog, hmid, hin, hfail, hok⟩ := sd_card_init_cases fuel c hc
    refine ⟨e, c4, mid, hi, hlog, hmid, ?_, fun he => ⟨hfail he, hin⟩, hok⟩
    intro e1 c3 h1 hne
    unfold sd_card_identify at hi
    rw [h1] at hi
    cases e1 with
    | Sd_Err_OK => exact absurd rfl hne
    | _ =>
      simp only [] at hi
      cases hi
      exact ⟨rfl, rfl⟩

theorem demo_card_has_control (info : sd_info) (miso : Nat → Nat) :
    has_control (demo_card info miso) := ⟨good_if, _, rfl, rfl⟩

/-- A whole `sd_card_init` on a fresh session and a legacy card: OK, `is_inited` set,
and the adapter calls in order: init-hardware, set-low-speed, the power-on sequence,
the idle reset, the identification (CMD8 unanswered, CMD55, ACMD41, CMD16, CMD9), and
set-high-speed last. -/
theorem sd_card_init_legacy_card_trace :
    session_outcome (sd_card_init 0 (some (fresh_card miso_legacy_init)))
      = some (Sd_Err_OK, true,
          power_up_events ++
          ([BusEvent.control Sd_User_Ctrl_Take_Bus, BusEvent.control Sd_User_Ctrl_Select_Card,
            BusEvent.write [0x40, 0, 0, 0, 0, 0x95], BusEvent.read 1,
            BusEvent.control Sd_User_Ctrl_Deselect_Card,
            BusEvent.control Sd_User_Ctrl_Release_Bus, BusEvent.write [0xFF],
            BusEvent.control Sd_User_Ctrl_Take_Bus, BusEvent.control Sd_User_Ctrl_Select_Card,
            BusEvent.write [0x48, 0, 0, 1, 0xAA, 0x87]] ++
           List.replicate 5 (BusEvent.read 1) ++
           [BusEvent.write [0x77, 0, 0, 0, 0, 1], BusEvent.read 1,
            BusEvent.write [0x69, 0, 0, 0, 0, 1], BusEvent.read 1,
            BusEvent.write [0x50, 0, 0, 2, 0, 1], BusEvent.read 1,
            BusEvent.write [0x49, 0, 0, 0, 0, 1], BusEvent.read 1, BusEvent.read 1,
            BusEvent.read 16, BusEvent.read 2,
            BusEvent.control Sd_User_Ctrl_Deselect_Card,
            BusEvent.control Sd_User_Ctrl_Release_Bus, BusEvent.write [0xFF]]) ++
          [BusEvent.control Sd_User_Ctrl_Set_High_Speed]) := by
  decide!

/-- Whatever `sd_card_init` returns, the session is initialised exactly when the
result is OK. -/
theorem sd_card_init_flag (fuel : Nat) (c : sd_card) (err : sd_error) (c1 : sd_card)
    (h : sd_card_init fuel (some c) = Except.ok (err, some c1)) :
    c1.is_inited = true ↔ err = Sd_Err_OK := by
  by_cases hc : has_control c
  · obtain ⟨e, c4, mid, _, _, _, hin, hfail, hok⟩ := sd_card_init_cases fuel c hc
    by_cases he : e = Sd_Err_OK
    · rw [(hok he).2.2] at h
      cases h
      exact Iff.intro (fun _ => rfl) (fun _ => rfl)
    · rw [hfail he] at h
      cases h
      rw [hin]
      exact Iff.intro (fun h => by cases h) (fun h => absurd h he)
  · have hn0 : ¬ has_control
        { c with is_inited := false, is_selected := false, is_xfering := false } := hc
    unfold sd_card_init at h
    simp only [] at h
    rw [io_init_no_control hn0] at h
    simp only [] at h
    cases h
    exact Iff.intro (fun h => by cases h) (fun h => by cases h)

/-- A `sd_card_deinit` that returns OK leaves the session not initialised. -/
theorem sd_card_deinit_ok_flag (fuel : Nat) (c : sd_card) (c1 : sd_card)
    (h : sd_card_deinit fuel (some c) = Except.ok (Sd_Err_OK, some c1)) :
    c1.is_inited = false := by
  obtain ⟨e, c2, hi, _⟩ := into_idle_traffic fuel c
  unfold sd_card_deinit _card_power_off at h
  simp only [] at h
  rw [hi] at h
  cases e with
  | Sd_Err_OK =>
    simp only [] at h
    generalize sd_spi_hw_io_deinit c2 = r at h
    obtain ⟨e3, c3⟩ := r
    cases e3 with
    | Sd_Err_OK =>
      simp only [] at h
      cases h
      rfl
    | _ =>
      simp only [] at h
      cases h
  | _ =>
    simp only [] at h
    cases h

/-- On a session that is not initialised, read, write and erase return Not_Inited. -/
theorem uninitialised_calls_rejected (fuel : Nat) (c : sd_card) (addr len count : Nat)
    (b : List Nat) (h : c.is_inited = false) :
    (len % 2 ^ 32 ≠ 0 →
      sd_card_read fuel (some c) addr (some b) len
        = Except.ok (Sd_Err_Not_Inited, some c, some b) ∧
      sd_card_write fuel (some c) addr (some b) len = Except.ok (Sd_Err_Not_Inited, some c)) ∧
    (count % 2 ^ 32 ≠ 0 →
      sd_card_erase_sector fuel (some c) addr count = Except.ok (Sd_Err_Not_Inited, some c)) := by
  refine ⟨fun hlen => ⟨?_, ?_⟩, fun hc => ?_⟩
  · unfold sd_card_read
    simp only []
    rw [if_neg hlen, if_pos h]
  · unfold sd_card_write
    simp only []
    rw [if_neg hlen, if_pos h]
  · unfold sd_card_erase_sector
    simp only []
    rw [if_neg hc, if_pos h]

/-- C23: for every session whose adapter has a `control` function, the idle reset
`sd_card_into_idle` returns, leaving `is_inited` as it was and making no deinit-hardware
call, and `sd_card_deinit` returns OK exactly when the idle reset does.  If the idle
reset returns OK, `sd_card_deinit` then makes the deinit-hardware call and clears
`is_inited`, so that a following read or write (buffer given, `len > 0`) or erase
(`count > 0`) returns Not_Inited; if the idle reset returns an error, `sd_card_deinit`
returns that error and the session as the idle reset left it. -/
theorem sd_card_deinit_outcome (fuel : Nat) (c : sd_card) (hc : has_control c) :
    ∃ (e : sd_error) (c1 : sd_card) (evs : List BusEvent),
      sd_card_into_idle fuel c = Except.ok (e, c1) ∧
      c1.is_inited = c.is_inited ∧ c1.log = c.log ++ evs ∧
      BusEvent.control Sd_User_Ctrl_Deinit_Hardware ∉ evs ∧
      (e = Sd_Err_OK →
        sd_card_deinit fuel (some c) = Except.ok (Sd_Err_OK,
          some { c1 with log := c1.log ++ [BusEvent.control Sd_User_Ctrl_Deinit_Hardware],
                         is_inited := false }) ∧
        ∀ (addr len count : Nat) (b : List Nat),
          (len % 2 ^ 32 ≠ 0 →
            sd_card_read fuel
                (some { c1 with log := c1.log ++ [BusEvent.control Sd_User_Ctrl_Deinit_Hardware],
                                is_inited := false }) addr (some b) len
              = Except.ok (Sd_Err_Not_Inited,
                  some { c1 with log := c1.log ++ [BusEvent.control Sd_User_Ctrl_Deinit_Hardware],
                                 is_inited := false }, some b) ∧
            sd_card_write fuel
                (some { c1 with log := c1.log ++ [BusEvent.control Sd_User_Ctrl_Deinit_Hardware],
                                is_inited := false }) addr (some b) len
              = Except.ok (Sd_Err_Not_Inited,
                  some { c1 with log := c1.log ++ [BusEvent.control Sd_User_Ctrl_Deinit_Hardware],
                                 is_inited := false })) ∧
          (count % 2 ^ 32 ≠ 0 →
            sd_card_erase_sector fuel
                (some { c1 with log := c1.log ++ [BusEvent.control Sd_User_Ctrl_Deinit_Hardware],
                                is_inited := false }) addr count
              = Except.ok (Sd_Err_Not_Inited,
                  some { c1 with log := c1.log ++ [BusEvent.control Sd_User_Ctrl_Deinit_Hardware],
                                 is_inited := false }))) ∧
      (e ≠ Sd_Err_OK → sd_card_deinit fuel (some c) = Except.ok (e, some c1)) ∧
      (∀ (err : sd_error) (r : Option sd_card),
        sd_card_deinit fuel (some c) = Except.ok (err, r) → (err = Sd_Err_OK ↔ e = Sd_Err_OK)) := by
  obtain ⟨e, c1, hi, hs, hin, evs, hlog, hev⟩ := into_idle_traffic fuel c
  have hc1 : has_control c1 := (has_control_congr hs).mpr hc
  have hok : e = Sd_Err_OK →
      sd_card_deinit fuel (some c) = Except.ok (Sd_Err_OK,
        some { c1 with log := c1.log ++ [BusEvent.control Sd_User_Ctrl_Deinit_Hardware],
                       is_inited := false }) := by
    intro he
    subst he
    unfold sd_card_deinit _card_power_off
    simp only []
    rw [hi]
    simp only []
    rw [io_deinit_ok hc1]
  have hfail : e ≠ Sd_Err_OK → sd_card_deinit fuel (some c) = Except.ok (e, some c1) := by
    intro he
    unfold sd_card_deinit _card_power_off
    simp only []
    rw [hi]
    cases e with
    | Sd_Err_OK => exact absurd rfl he
    | _ => rfl
  refine ⟨e, c1, evs, hi, hin, hlog,
    no_setup_not_mem hev (BusEvent.control Sd_User_Ctrl_Deinit_Hardware) rfl, ?_, hfail, ?_⟩
  · intro he
    exact ⟨hok he, fun addr len count b =>
      uninitialised_calls_rejected fuel _ addr len count b rfl⟩
  · intro err r h
    by_cases he : e = Sd_Err_OK
    · rw [hok he] at h
      cases h
      exact Iff.intro (fun _ => he) (fun _ => rfl)
    · rw [hfail he] at h
      cases h
      exact Iff.intro (fun h => h) (fun h => h)

theorem sd_card_deinit_outcome_witness :
    has_control (demo_card legacy_info miso_always_idle) ∧
    session_outcome (sd_card_deinit 0 (some (demo_card legacy_info miso_always_idle)))
      = some (Sd_Err_OK, false,
          [BusEvent.control Sd_User_Ctrl_Take_Bus, BusEvent.control Sd_User_Ctrl_Select_Card,
           BusEvent.write [0x40, 0, 0, 0, 0, 0x95], BusEvent.read 1,
           BusEvent.control Sd_User_Ctrl_Deselect_Card,
           BusEvent.control Sd_User_Ctrl_Release_Bus, BusEvent.write [0xFF],
           BusEvent.control Sd_User_Ctrl_Deinit_Hardware]) ∧
    ∃ (e : sd_error) (c1 : sd_card) (evs : List BusEvent),
      sd_card_into_idle 0 (demo_card legacy_info miso_always_idle) = Except.ok (e, c1) ∧
      c1.is_inited = (demo_card legacy_info miso_always_idle).is_inited ∧
      c1.log = (demo_card legacy_info miso_always_idle).log ++ evs ∧
      BusEvent.control Sd_User_Ctrl_Deinit_Hardware ∉ evs :=
  ⟨demo_card_has_control _ _, by decide!,
    match sd_card_deinit_outcome 0 (demo_card legacy_info miso_always_idle)
      (demo_card_has_control _ _) with
    | ⟨e, c1, evs, h1, h2, h3, h4, _⟩ => ⟨e, c1, evs, h1, h2, h3, h4⟩⟩

theorem is_card_detached_no_control {c : sd_card} (h : ¬ has_control c) :
    sd_spi_hw_is_card_detached c = (true, c) := by
  unfold sd_spi_hw_is_card_detached
  cases hs : c.spi_if with
  | none => rfl
  | some ifc =>
    cases ht : ifc.control with
    | none => simp only [ht]
    | some t => exact absurd ⟨ifc, t, hs, ht⟩ h

theorem is_card_detached_query {c : sd_card} {ifc : sd_spi_interface}
    {ctl : Nat → sd_user_ctrl → Int} (h1 : c.spi_if = some ifc) (h2 : ifc.control = some ctl) :
    sd_spi_hw_is_card_detached c
      = (decide (ctl c.log.length Sd_User_Ctrl_Is_Card_Detached = 0),
          { c with log := c.log ++ [BusEvent.control Sd_User_Ctrl_Is_Card_Detached] }) := by
  unfold sd_spi_hw_is_card_detached
  rw [h1]
  simp only [h2]

/-- The software check of `sd_card_is_inserted`, entered once the hardware check has
reported the card detached: false at once on a session that is not initialised,
otherwise the idle reset decides. -/
theorem is_inserted_software_check (fuel : Nat) (c c1 : sd_card)
    (hd : sd_spi_hw_is_card_detached c = (true, c1)) :
    (c1.is_inited = false →
      sd_card_is_inserted fuel (some c) = Except.ok (false, some c1)) ∧
    (c1.is_inited = true →
      ∃ (e : sd_error) (c2 : sd_card),
        sd_card_into_idle fuel c1 = Except.ok (e, c2) ∧
        sd_card_is_inserted fuel (some c) = Except.ok (decide (e = Sd_Err_OK), some c2)) := by
  constructor
  · intro hi
    unfold sd_card_is_inserted
    simp only []
    rw [hd]
    simp only [hi]
    rfl
  · intro hi
    obtain ⟨e, c2, h2, _⟩ := into_idle_traffic fuel c1
    refine ⟨e, c2, h2, ?_⟩
    unfold sd_card_is_inserted
    simp only []
    rw [hd]
    simp only [hi, if_true]
    rw [h2]
    cases e <;> rfl

/-- C24: `sd_card_is_inserted` returns false for a null session.  On an adapter with
a `control` function it makes the presence query; if the query returns non-zero (card
not reported detached) the result is true and the query is the only adapter call made;
if the query returns 0, or if there is no `control` function (then no query is made),
the result is false with no further adapter call on a session that is not initialised,
and on an initialised session the idle reset `sd_card_into_idle` is run, which returns,
and the result is true exactly when it returned OK. -/
theorem sd_card_is_inserted_cases (fuel : Nat) (c : sd_card) :
    sd_card_is_inserted fuel none = Except.ok (false, none) ∧
    (∀ (ifc : sd_spi_interface) (ctl : Nat → sd_user_ctrl → Int),
      c.spi_if = some ifc → ifc.control = some ctl →
      (ctl c.log.length Sd_User_Ctrl_Is_Card_Detached ≠ 0 →
        sd_card_is_inserted fuel (some c) = Except.ok (true,
          some { c with log := c.log ++ [BusEvent.control Sd_User_Ctrl_Is_Card_Detached] })) ∧
      (ctl c.log.length Sd_User_Ctrl_Is_Card_Detached = 0 →
        (c.is_inited = false →
          sd_card_is_inserted fuel (some c) = Except.ok (false,
            some { c with log := c.log ++ [BusEvent.control Sd_User_Ctrl_Is_Card_Detached] })) ∧
        (c.is_inited = true →
          ∃ (e : sd_error) (c2 : sd_card),
            sd_card_into_idle fuel
                { c with log := c.log ++ [BusEvent.control Sd_User_Ctrl_Is_Card_Detached] }
              = Except.ok (e, c2) ∧
            sd_card_is_inserted fuel (some c)
              = Except.ok (decide (e = Sd_Err_OK), some c2)))) ∧
    (¬ has_control c →
      (c.is_inited = false → sd_card_is_inserted fuel (some c) = Except.ok (false, some c)) ∧
      (c.is_inited = true →
        ∃ (e : sd_error) (c2 : sd_card),
          sd_card_into_idle fuel c = Except.ok (e, c2) ∧
          sd_card_is_inserted fuel (some c) = Except.ok (decide (e = Sd_Err_OK), some c2))) := by
  refine ⟨rfl, fun ifc ctl h1 h2 => ⟨fun hq => ?_, fun hq => ?_⟩, fun hn => ?_⟩
  · unfold sd_card_is_inserted
    simp only []
    rw [is_card_detached_query h1 h2]
    simp only [hq, decide_False]
  · have hd := is_card_detached_query h1 h2
    simp only [hq, decide_True] at hd
    exact is_inserted_software_check fuel c _ hd
  · exact is_inserted_software_check fuel c c (is_card_detached_no_control hn)

/-- C25: `sd_card_get_capacity`, `sd_card_get_block_size` and `sd_card_get_erase_size`
return 0 for a null session and for a session that is not initialised, whatever the
stored geometry holds: so on a freshly constructed session, on the session a failed
`sd_card_init` leaves, and on the session a successful `sd_card_deinit` leaves; on an
initialised session they return the stored `capacity`, `block_size` and
`erase_sector_size`. -/
theorem geometry_getters (fuel : Nat) (c : sd_card) :
    (sd_card_get_capacity none = 0 ∧ sd_card_get_block_size none = 0 ∧
      sd_card_get_erase_size none = 0) ∧
    (c.is_inited = false →
      sd_card_get_capacity (some c) = 0 ∧ sd_card_get_block_size (some c) = 0 ∧
      sd_card_get_erase_size (some c) = 0) ∧
    (c.is_inited = true →
      sd_card_get_capacity (some c) = c.info.capacity ∧
      sd_card_get_block_size (some c) = c.info.block_size ∧
      sd_card_get_erase_size (some c) = c.info.erase_sector_size) ∧
    (∀ miso : Nat → Nat,
      sd_card_get_capacity (some (fresh_card miso)) = 0 ∧
      sd_card_get_block_size (some (fresh_card miso)) = 0 ∧
      sd_card_get_erase_size (some (fresh_card miso)) = 0) ∧
    (∀ (err : sd_error) (c1 : sd_card),
      sd_card_init fuel (some c) = Except.ok (err, some c1) → err ≠ Sd_Err_OK →
      sd_card_get_capacity (some c1) = 0 ∧ sd_card_get_block_size (some c1) = 0 ∧
      sd_card_get_erase_size (some c1) = 0) ∧
    (∀ c1 : sd_card,
      sd_card_deinit fuel (some c) = Except.ok (Sd_Err_OK, some c1) →
      sd_card_get_capacity (some c1) = 0 ∧ sd_card_get_block_size (some c1) = 0 ∧
      sd_card_get_erase_size (some c1) = 0) := by
  have hz : ∀ x : sd_card, x.is_inited = false →
      sd_card_get_capacity (some x) = 0 ∧ sd_card_get_block_size (some x) = 0 ∧
      sd_card_get_erase_size (some x) = 0 := by
    intro x hx
    simp [sd_card_get_capacity, sd_card_get_block_size, sd_card_get_erase_size, hx]
  refine ⟨⟨rfl, rfl, rfl⟩, hz c, fun hi => ?_, fun miso => hz _ rfl, fun err c1 h hne => ?_,
    fun c1 h => hz c1 (sd_card_deinit_ok_flag fuel c c1 h)⟩
  · simp [sd_card_get_capacity, sd_card_get_block_size, sd_card_get_erase_size, hi]
  · apply hz
    cases hc : c1.is_inited with
    | false => rfl
    | true => exact absurd ((sd_card_init_flag fuel c err c1 h).mp hc) hne

/-- C21: the adapter `failing_if` reports failure on every transfer (it returns -1 and
moves no byte), and still `sd_spi_hw_read_bytes` and `sd_spi_hw_write_bytes` return OK,
not IO; `sd_card_send_cmd_req` therefore goes on polling after the failed command
write and returns Timeout after its 5 reads, and so does the single-block read built
on it. -/
theorem failed_transfer_reported_ok :
    (∃ t : Nat → Nat → Int × Nat, failing_if.transfer = some t ∧
      ∀ n size : Nat, (t n size).1 = -1 ∧ (t n size).2 = 0) ∧
    (∀ len : Nat,
      sd_spi_hw_read_bytes failing_card len
        = (Sd_Err_OK, rx_peek failing_card len, bus_step failing_card len [BusEvent.read len])) ∧
    (∀ buf : List Nat,
      sd_spi_hw_write_bytes failing_card buf
        = (Sd_Err_OK, bus_step failing_card 0 [BusEvent.write buf])) ∧
    (∀ fuel : Nat,
      sd_card_send_cmd_req fuel failing_card
          { cmd := Sd_Cmd17_Rd_Single, arg := 0, crc := 1, resp_type := Sd_Resp_Type_R1,
            retry := 5 } sd_resp_res.zero
        = Except.ok (Sd_Err_Timeout, sd_resp_res.zero,
            bus_step failing_card 5
              (BusEvent.write (cmd_frame Sd_Cmd17_Rd_Single 0 1) ::
                List.replicate 5 (BusEvent.read 1)))) ∧
    (∀ (fuel : Nat) (buf : List Nat),
      _read_single_block fuel failing_card 0 buf 0
        = Except.ok (Sd_Err_Timeout, buf,
            bus_step failing_card 5
              (BusEvent.write (cmd_frame Sd_Cmd17_Rd_Single 0 1) ::
                List.replicate 5 (BusEvent.read 1)))) := by
  have ht : has_transfer failing_card := ⟨failing_if, _, rfl, rfl⟩
  have hs : ∀ fuel : Nat,
      sd_card_send_cmd_req fuel failing_card
          { cmd := Sd_Cmd17_Rd_Single, arg := 0, crc := 1, resp_type := Sd_Resp_Type_R1,
            retry := 5 } sd_resp_res.zero
        = Except.ok (Sd_Err_Timeout, sd_resp_res.zero,
            bus_step failing_card 5
              (BusEvent.write (cmd_frame Sd_Cmd17_Rd_Single 0 1) ::
                List.replicate 5 (BusEvent.read 1))) := fun fuel =>
    (send_cmd_timeout fuel failing_card Sd_Cmd17_Rd_Single 0 1 5 Sd_Resp_Type_R1
      sd_resp_res.zero [] ht (by decide) (by decide) (by unfold rx_next; decide!)).1
  refine ⟨⟨_, rfl, fun _ _ => ⟨rfl, rfl⟩⟩, fun len => read_bytes_ok ht len,
    fun buf => write_bytes_ok ht buf, hs, fun fuel buf => ?_⟩
  unfold _read_single_block
  rw [hs fuel]

/-! ### The R1b busy poll and the single-block transfers, phase by phase -/

/-- C31: for shape R1b in `sd_card_send_cmd_req`, on a response record with
`filled = 0`: once the R1 byte `b` has been stored in `buf[0]`, the engine reads one
byte at a time, asking for the 5000 microsecond delay after each, and returns OK
exactly at the first byte equal to `0xFF`: the bytes `busy` before it, whatever their
values (zero or not), each cost one more pass, the bytes `rest` after it are not read,
and the record returned is the one holding `b` in `buf[0]` with `filled = 1`. -/
theorem send_cmd_r1b_busy_poll (fuel : Nat) (c : sd_card) (cmd arg crc r : Nat)
    (resp : sd_resp_res) (pad b : Nat) (busy rest : List Nat)
    (ht : has_transfer c) (hr : r ≤ 255) (hp : pad < r) (hb : b ≠ 0xFF)
    (hf : resp.filled = 0) (hl : resp.buf.length = 16)
    (hbusy : ∀ x ∈ busy, x ≠ 0xFF) (hfuel : busy.length < fuel)
    (hrx : rx_next c (answer pad b ++ (busy ++ 0xFF :: rest))) :
    ∃ resp1 : sd_resp_res,
      sd_card_send_cmd_req fuel c
          { cmd := cmd, arg := arg, crc := crc, resp_type := Sd_Resp_Type_R1b, retry := r } resp
        = Except.ok (Sd_Err_OK, resp1,
            bus_step c ((pad + 1) + (busy.length + 1))
              (r1_exchange cmd arg crc pad ++ r1b_events c (busy.length + 1))) ∧
      resp1 = { buf := resp.buf.set 0 b, filled := 1 } ∧ u8 resp1.buf 0 = b ∧
      r1b_events c (busy.length + 1)
        = ([BusEvent.read 1] ++ delay_events c 5000) ++ r1b_events c busy.length ∧
      rx_next (bus_step c ((pad + 1) + (busy.length + 1))
        (r1_exchange cmd arg crc pad ++ r1b_events c (busy.length + 1))) rest := by
  obtain ⟨h1, h2⟩ := send_cmd_r1b_answer fuel c cmd arg crc r resp pad b busy rest ht hr hp hb
    hbusy hfuel hrx
  have hlt : b < 256 := rx_next_lt hrx b (by simp [answer])
  rw [hf] at h1
  exact ⟨_, h1, rfl, u8_set_zero _ _ (by omega) hlt, rfl, h2⟩

theorem send_cmd_r1b_busy_poll_witness :
    ∃ resp1 : sd_resp_res,
      sd_card_send_cmd_req 3 (demo_card legacy_info (miso_of [0x00, 0x00, 0x07, 0xFF, 0x55]))
          { cmd := Sd_Cmd38_Erase, arg := 0, crc := 1, resp_type := Sd_Resp_Type_R1b,
            retry := 5 } sd_resp_res.zero
        = Except.ok (Sd_Err_OK, resp1,
            bus_step (demo_card legacy_info (miso_of [0x00, 0x00, 0x07, 0xFF, 0x55]))
              ((0 + 1) + ([0x00, 0x07].length + 1))
              (r1_exchange Sd_Cmd38_Erase 0 1 0 ++
                r1b_events (demo_card legacy_info (miso_of [0x00, 0x00, 0x07, 0xFF, 0x55]))
                  ([0x00, 0x07].length + 1))) ∧
      resp1 = { buf := sd_resp_res.zero.buf.set 0 0x00, filled := 1 } ∧ u8 resp1.buf 0 = 0x00 ∧
      r1b_events (demo_card legacy_info (miso_of [0x00, 0x00, 0x07, 0xFF, 0x55]))
          ([0x00, 0x07].length + 1)
        = ([BusEvent.read 1] ++
            delay_events (demo_card legacy_info (miso_of [0x00, 0x00, 0x07, 0xFF, 0x55])) 5000) ++
          r1b_events (demo_card legacy_info (miso_of [0x00, 0x00, 0x07, 0xFF, 0x55]))
            [0x00, 0x07].length ∧
      rx_next (bus_step (demo_card legacy_info (miso_of [0x00, 0x00, 0x07, 0xFF, 0x55]))
        ((0 + 1) + ([0x00, 0x07].length + 1))
        (r1_exchange Sd_Cmd38_Erase 0 1 0 ++
          r1b_events (demo_card legacy_info (miso_of [0x00, 0x00, 0x07, 0xFF, 0x55]))
            ([0x00, 0x07].length + 1))) [0x55] :=
  send_cmd_r1b_busy_poll 3 (demo_card legacy_info (miso_of [0x00, 0x00, 0x07, 0xFF, 0x55]))
    Sd_Cmd38_Erase 0 1 5 sd_resp_res.zero 0 0x00 [0x00, 0x07] [0x55]
    (demo_card_has_transfer _ _) (by decide) (by decide) (by decide) rfl rfl
    (by decide) (by decide) (by unfold rx_next; decide!)

/-- A single-block read whose CMD17 is answered with an R1 byte other than `0x00`:
Response, no byte read after the R1 byte, the caller's buffer untouched. -/
theorem read_single_block_bad_r1 (fuel : Nat) (card : sd_card) (lba : Nat) (buf : List Nat)
    (off pad b : Nat) (rest : List Nat) (ht : has_transfer card) (hp : pad < 5)
    (hb : b ≠ 0xFF) (hne : b ≠ 0x00) (hrx : rx_next card (answer pad b ++ rest)) :
    _read_single_block fuel card lba buf off
      = Except.ok (Sd_Err_Response, buf,
          bus_step card (pad + 1) (r1_exchange Sd_Cmd17_Rd_Single lba 1 pad)) ∧
    rx_next (bus_step card (pad + 1) (r1_exchange Sd_Cmd17_Rd_Single lba 1 pad)) rest := by
  obtain ⟨e1, e2, _⟩ := send_cmd_r1_answer fuel card Sd_Cmd17_Rd_Single lba 1 5
    sd_resp_res.zero pad b rest ht (by norm_num) hp hb hrx
  have hlt : b < 256 := rx_next_lt hrx b (by simp [answer])
  refine ⟨?_, e2⟩
  unfold _read_single_block
  rw [e1]
  simp only []
  rw [show sd_resp_res.zero.filled = 0 from rfl, u8_set_zero _ _ (by decide) hlt,
    if_pos (by simpa [SD_FR_NONE] using hne)]

/-- C35: `_read_single_block` sends CMD17 with the block address as argument.  With
the R1 byte after `pad < 5` idle bytes: if it is not `0x00` the call returns Response
and reads nothing further; if it is `0x00` and the first `0xFE` is the byte of poll
`junk.length + 1 ≤ 100`, the call returns OK, the `block_size` bytes that follow the
token are what the caller's buffer holds at the destination, and exactly 2 more bytes
are read, whose values do not enter the result. -/
theorem read_single_block_phases (fuel : Nat) (c : sd_card) (lba : Nat) (buf : List Nat)
    (off pad : Nat) (ht : has_transfer c) (hp : pad < 5) :
    (∀ (b : Nat) (rest : List Nat), b ≠ 0xFF → b ≠ 0x00 → rx_next c (answer pad b ++ rest) →
      _read_single_block fuel c lba buf off
        = Except.ok (Sd_Err_Response, buf,
            bus_step c (pad + 1)
              (BusEvent.write (cmd_frame Sd_Cmd17_Rd_Single lba 1) ::
                List.replicate (pad + 1) (BusEvent.read 1))) ∧
      rx_next (bus_step c (pad + 1) (r1_exchange Sd_Cmd17_Rd_Single lba 1 pad)) rest) ∧
    (∀ (junk data crc rest : List Nat), junk.length < 100 → (∀ x ∈ junk, x ≠ 0xFE) →
      data.length = c.info.block_size → crc.length = 2 →
      rx_next c (answer pad 0x00 ++ (junk ++ 0xFE :: (data ++ (crc ++ rest)))) →
      _read_single_block fuel c lba buf off
        = Except.ok (Sd_Err_OK, mem_write buf off data,
            bus_step c ((pad + 1) + (junk.length + 1) + c.info.block_size + 2)
              (BusEvent.write (cmd_frame Sd_Cmd17_Rd_Single lba 1) ::
                  List.replicate (pad + 1) (BusEvent.read 1) ++
                (List.replicate (junk.length + 1) (BusEvent.read 1) ++
                  [BusEvent.read c.info.block_size, BusEvent.read 2]))) ∧
      (off ≤ buf.length →
        ((mem_write buf off data).drop off).take c.info.block_size = data) ∧
      rx_next (bus_step c ((pad + 1) + (junk.length + 1) + c.info.block_size + 2)
              (r1_exchange Sd_Cmd17_Rd_Single lba 1 pad ++
                (List.replicate (junk.length + 1) (BusEvent.read 1) ++
                  [BusEvent.read c.info.block_size, BusEvent.read 2]))) rest) := by
  refine ⟨fun b rest hb hne hrx =>
      read_single_block_bad_r1 fuel c lba buf off pad b rest ht hp hb hne hrx,
    fun junk data crc rest hj hne hd hc hrx => ?_⟩
  obtain ⟨h1, h2⟩ := read_single_block_ok fuel c lba buf off pad junk data crc rest ht hp hj hne
    hd hc hrx
  refine ⟨h1, fun ho => ?_, h2⟩
  rw [← hd]
  exact mem_write_region buf off data ho

theorem read_single_block_phases_witness :
    has_transfer (demo_card legacy_info miso_read_blocks) ∧ 0 < 5 ∧
    _read_single_block 0 (demo_card legacy_info miso_read_blocks) 7 (List.replicate 512 0) 0
      = Except.ok (Sd_Err_OK, mem_write (List.replicate 512 0) 0 (List.replicate 512 0xA5),
          bus_step (demo_card legacy_info miso_read_blocks)
            ((0 + 1) + (([] : List Nat).length + 1) +
              (demo_card legacy_info miso_read_blocks).info.block_size + 2)
            (BusEvent.write (cmd_frame Sd_Cmd17_Rd_Single 7 1) ::
                List.replicate (0 + 1) (BusEvent.read 1) ++
              (List.replicate (([] : List Nat).length + 1) (BusEvent.read 1) ++
                [BusEvent.read (demo_card legacy_info miso_read_blocks).info.block_size,
                 BusEvent.read 2]))) :=
  ⟨demo_card_has_transfer _ _, by decide,
    ((read_single_block_phases 0 (demo_card legacy_info miso_read_blocks) 7
      (List.replicate 512 0) 0 0 (demo_card_has_transfer _ _) (by decide)).2
        [] (List.replicate 512 0xA5) [0xA5, 0xA5] [] (by decide) (fun x hx => by cases hx)
        (by rw [List.length_replicate]; rfl) rfl (by unfold rx_next; decide!)).1⟩

/-- A single-block write whose CMD24 is answered with an R1 byte other than `0x00`:
Response, and nothing but the command frame has been transmitted. -/
theorem write_single_block_bad_r1 (fuel : Nat) (card : sd_card) (lba : Nat) (buf : List Nat)
    (off pad b : Nat) (rest : List Nat) (ht : has_transfer card) (hp : pad < 5)
    (hb : b ≠ 0xFF) (hne : b ≠ 0x00) (hrx : rx_next card (answer pad b ++ rest)) :
    _write_single_block fuel card lba buf off
      = Except.ok (Sd_Err_Response,
          bus_step card (pad + 1) (r1_exchange Sd_Cmd24_Wr_Single_Blk lba 1 pad)) := by
  obtain ⟨e1, _, _⟩ := send_cmd_r1_answer fuel card Sd_Cmd24_Wr_Single_Blk lba 1 5
    sd_resp_res.zero pad b rest ht (by norm_num) hp hb hrx
  have hlt : b < 256 := rx_next_lt hrx b (by simp [answer])
  unfold _write_single_block
  rw [e1]
  simp only []
  rw [show sd_resp_res.zero.filled = 0 from rfl, u8_set_zero _ _ (by decide) hlt, if_pos hne]

/-- A single-block write whose CMD24 is answered `0x00`: the token, the data and the
two filler bytes go out, one data-response byte `t` is read, and the call returns
Response unless `t & 0x1F` is `0x05`, in which case the busy wait decides. -/
theorem write_single_block_token (fuel : Nat) (card : sd_card) (lba : Nat) (buf : List Nat)
    (off pad t : Nat) (rest : List Nat) (ht : has_transfer card) (hp : pad < 5)
    (hrx : rx_next card (answer pad 0x00 ++ t :: rest)) :
    _write_single_block fuel card lba buf off
      = (if (t &&& 0x1F) ≠ 0x05 then
          Except.ok (Sd_Err_Response, bus_step card ((pad + 1) + 1)
            (write_sent_events lba pad ((buf.drop off).take card.info.block_size)))
        else
          Except.ok (write_busy_wait 499 (bus_step card ((pad + 1) + 1)
            (write_sent_events lba pad ((buf.drop off).take card.info.block_size))))) ∧
    rx_next (bus_step card ((pad + 1) + 1)
      (write_sent_events lba pad ((buf.drop off).take card.info.block_size))) rest := by
  obtain ⟨e1, e2, e3⟩ := send_cmd_r1_answer fuel card Sd_Cmd24_Wr_Single_Blk lba 1 5
    sd_resp_res.zero pad 0x00 _ ht (by norm_num) hp (by norm_num) hrx
  have hrx4 : rx_next (bus_step card (pad + 1 + 0 + 0 + 0)
      (r1_exchange Sd_Cmd24_Wr_Single_Blk lba 1 pad ++ [BusEvent.write [0xFE % 256]] ++
        [BusEvent.write ((buf.drop off).take card.info.block_size)] ++
        [BusEvent.write [0xFF, 0xFF]])) (t :: rest) := e2
  obtain ⟨r1, r2⟩ := rx_next_cons [BusEvent.read 1] hrx4
  rw [bus_step_bus_step] at r2
  have hev : r1_exchange Sd_Cmd24_Wr_Single_Blk lba 1 pad ++ [BusEvent.write [0xFE % 256]] ++
        [BusEvent.write ((buf.drop off).take card.info.block_size)] ++
        [BusEvent.write [0xFF, 0xFF]] ++ [BusEvent.read 1]
      = write_sent_events lba pad ((buf.drop off).take card.info.block_size) := by
    simp [write_sent_events, List.append_assoc]
  rw [hev, show pad + 1 + 0 + 0 + 0 + 1 = (pad + 1) + 1 by omega] at r2
  refine ⟨?_, r2⟩
  unfold _write_single_block
  rw [e1]
  simp only []
  rw [u8_zero_set 0x00 (by norm_num), if_neg (by simp)]
  unfold sd_spi_hw_write_byte
  rw [write_bytes_ok e3, bus_step_bus_step]
  simp only []
  rw [write_bytes_ok (has_transfer_bus_step ht _ _), bus_step_bus_step]
  simp only []
  rw [write_bytes_ok (has_transfer_bus_step ht _ _), bus_step_bus_step]
  simp only []
  rw [read_byte_ok (has_transfer_bus_step ht _ _), bus_step_bus_step]
  simp only []
  have hb : (bus_step card (pad + 1 + 0 + 0 + 0)
      (r1_exchange Sd_Cmd24_Wr_Single_Blk lba 1 pad ++ [BusEvent.write [0xFE % 256]] ++
        [BusEvent.write ((buf.drop off).take card.info.block_size)] ++
        [BusEvent.write [0xFF, 0xFF]])).miso
      (bus_step card (pad + 1 + 0 + 0 + 0)
      (r1_exchange Sd_Cmd24_Wr_Single_Blk lba 1 pad ++ [BusEvent.write [0xFE % 256]] ++
        [BusEvent.write ((buf.drop off).take card.info.block_size)] ++
        [BusEvent.write [0xFF, 0xFF]])).rx_pos % 256 = t := r1
  rw [show (bus_step card (pad + 1 + 0) (r1_exchange Sd_Cmd24_Wr_Single_Blk lba 1 pad ++
      [BusEvent.write [0xFE % 256]])).info.block_size = card.info.block_size from rfl]
  rw [hb, hev, show pad + 1 + 0 + 0 + 0 + 1 = (pad + 1) + 1 by omega]

theorem write_busy_events_bus_step (card : sd_card) (m : Nat) (e : List BusEvent) (n : Nat) :
    write_busy_events (bus_step card m e) n = write_busy_events card n := by
  induction n with
  | zero => rfl
  | succ n ih =>
    show ([BusEvent.read 1] ++ delay_events (bus_step card m e) 1000) ++
        write_busy_events (bus_step card m e) n = _
    rw [ih, delay_events_bus_step]
    rfl

/-- The busy wait of `_write_single_block`, entered with `timeout = n + 1`, on a card
that shows `k < n` busy bytes `0x00` and then a byte that is not `0x00`: OK after
`k + 1` polls, each followed by the delay. -/
theorem write_busy_wait_hit (k : Nat) : ∀ (n : Nat) (card : sd_card) (b : Nat) (rest : List Nat),
    has_transfer card → k < n → b ≠ 0x00 →
    rx_next card (List.replicate k 0x00 ++ b :: rest) →
    write_busy_wait n card
      = (Sd_Err_OK, bus_step card (k + 1) (write_busy_events card (k + 1))) ∧
    rx_next (bus_step card (k + 1) (write_busy_events card (k + 1))) rest := by
  induction k with
  | zero =>
    intro n card b rest ht hk hb hrx
    obtain ⟨n, rfl⟩ : ∃ m, n = m + 1 := ⟨n - 1, by omega⟩
    have h := write_busy_wait_ready n card b rest ht hb hrx
    simpa [write_busy_events] using h
  | succ k ih =>
    intro n card b rest ht hk hb hrx
    obtain ⟨n, rfl⟩ : ∃ m, n = m + 1 := ⟨n - 1, by omega⟩
    have hrx1 : rx_next card (0x00 :: (List.replicate k 0x00 ++ b :: rest)) := by
      rw [List.replicate_succ] at hrx
      exact hrx
    obtain ⟨h1, h2⟩ := rx_next_cons ([BusEvent.read 1] ++ delay_events card 1000) hrx1
    obtain ⟨i1, i2⟩ := ih n (bus_step card 1 ([BusEvent.read 1] ++ delay_events card 1000)) b rest
      (has_transfer_bus_step ht _ _) (by omega) hb h2
    rw [bus_step_bus_step, write_busy_events_bus_step] at i1 i2
    have harith : 1 + (k + 1) = k + 1 + 1 := by omega
    rw [harith] at i1 i2
    refine ⟨?_, i2⟩
    unfold write_busy_wait
    rw [read_byte_ok ht]
    simp only []
    rw [h1, if_pos rfl, udelay_bus_step, i1]
    rfl

/-- The busy wait of `_write_single_block`, entered with `timeout = n + 1`, on a card
whose first `n` busy bytes are `0x00`: Timeout after `n + 1` polls, whatever the byte
of the last poll is. -/
theorem write_busy_wait_miss (n : Nat) : ∀ (card : sd_card) (x : Nat) (rest : List Nat),
    has_transfer card → rx_next card (List.replicate n 0x00 ++ x :: rest) →
    write_busy_wait n card
      = (Sd_Err_Timeout, bus_step card (n + 1) (write_busy_events card n ++ [BusEvent.read 1])) ∧
    rx_next (bus_step card (n + 1) (write_busy_events card n ++ [BusEvent.read 1])) rest := by
  induction n with
  | zero =>
    intro card x rest ht hrx
    obtain ⟨_, h2⟩ := rx_next_cons [BusEvent.read 1] hrx
    refine ⟨?_, h2⟩
    unfold write_busy_wait
    rw [read_byte_ok ht]
    rfl
  | succ n ih =>
    intro card x rest ht hrx
    have hrx1 : rx_next card (0x00 :: (List.replicate n 0x00 ++ x :: rest)) := by
      rw [List.replicate_succ] at hrx
      exact hrx
    obtain ⟨h1, h2⟩ := rx_next_cons ([BusEvent.read 1] ++ delay_events card 1000) hrx1
    obtain ⟨i1, i2⟩ := ih (bus_step card 1 ([BusEvent.read 1] ++ delay_events card 1000)) x rest
      (has_transfer_bus_step ht _ _) h2
    rw [bus_step_bus_step, write_busy_events_bus_step] at i1 i2
    have harith : 1 + (n + 1) = n + 1 + 1 := by omega
    have hev : [BusEvent.read 1] ++ delay_events card 1000 ++
        (write_busy_events card n ++ [BusEvent.read 1])
        = write_busy_events card (n + 1) ++ [BusEvent.read 1] := by
      simp [write_busy_events, List.append_assoc]
    rw [harith, hev] at i1 i2
    refine ⟨?_, i2⟩
    unfold write_busy_wait
    rw [read_byte_ok ht]
    simp only []
    rw [h1, if_pos rfl, udelay_bus_step, i1]
/-- C36: `_write_single_block` with the R1 byte of CMD24 after `pad < 5` idle bytes.
If the R1 byte is not `0x00` the call returns Response and nothing but the six bytes
of the command frame has been transmitted.  If it is `0x00` the call transmits the
byte `0xFE`, then the `block_size` bytes of the caller's buffer at the source offset,
unchanged and in order, then `0xFF 0xFF`, then reads exactly one byte `t`; it returns
Response there if `t & 0x1F` is not `0x05`, and otherwise its result is that of the
busy wait entered at that point. -/
theorem write_single_block_phases (fuel : Nat) (c : sd_card) (lba : Nat) (buf : List Nat)
    (off pad : Nat) (ht : has_transfer c) (hp : pad < 5) :
    (∀ (b : Nat) (rest : List Nat), b ≠ 0xFF → b ≠ 0x00 → rx_next c (answer pad b ++ rest) →
      _write_single_block fuel c lba buf off
        = Except.ok (Sd_Err_Response,
            bus_step c (pad + 1) (r1_exchange Sd_Cmd24_Wr_Single_Blk lba 1 pad)) ∧
      tx_bytes (r1_exchange Sd_Cmd24_Wr_Single_Blk lba 1 pad)
        = cmd_frame Sd_Cmd24_Wr_Single_Blk lba 1) ∧
    (∀ (t : Nat) (rest : List Nat), rx_next c (answer pad 0x00 ++ t :: rest) →
      ((t &&& 0x1F) ≠ 0x05 →
        _write_single_block fuel c lba buf off
          = Except.ok (Sd_Err_Response, bus_step c ((pad + 1) + 1)
              (r1_exchange Sd_Cmd24_Wr_Single_Blk lba 1 pad ++
                [BusEvent.write [0xFE],
                 BusEvent.write ((buf.drop off).take c.info.block_size),
                 BusEvent.write [0xFF, 0xFF], BusEvent.read 1]))) ∧
      ((t &&& 0x1F) = 0x05 →
        _write_single_block fuel c lba buf off
          = Except.ok (write_busy_wait 499 (bus_step c ((pad + 1) + 1)
              (r1_exchange Sd_Cmd24_Wr_Single_Blk lba 1 pad ++
                [BusEvent.write [0xFE],
                 BusEvent.write ((buf.drop off).take c.info.block_size),
                 BusEvent.write [0xFF, 0xFF], BusEvent.read 1])))) ∧
      tx_bytes (write_sent_events lba pad ((buf.drop off).take c.info.block_size))
        = cmd_frame Sd_Cmd24_Wr_Single_Blk lba 1 ++
            (0xFE :: ((buf.drop off).take c.info.block_size ++ [0xFF, 0xFF])) ∧
      rx_next (bus_step c ((pad + 1) + 1)
        (write_sent_events lba pad ((buf.drop off).take c.info.block_size))) rest) ∧
    (off + c.info.block_size ≤ buf.length →
      ((buf.drop off).take c.info.block_size).length = c.info.block_size) := by
  refine ⟨fun b rest hb hne hrx =>
      ⟨write_single_block_bad_r1 fuel c lba buf off pad b rest ht hp hb hne hrx,
        tx_bytes_r1_exchange _ _ _ _⟩,
    fun t rest hrx => ?_, fun hlen => ?_⟩
  · obtain ⟨h1, h2⟩ := write_single_block_token fuel c lba buf off pad t rest ht hp hrx
    refine ⟨fun hne => ?_, fun heq => ?_, ?_, h2⟩
    · rw [h1, if_pos hne]
      rfl
    · rw [h1, if_neg (fun h => h heq)]
      rfl
    · simp [write_sent_events, tx_bytes_append, tx_bytes_r1_exchange, tx_bytes,
        tx_bytes_replicate_read]
  · rw [List.length_take, List.length_drop]
    omega

theorem write_single_block_phases_witness :
    has_transfer (demo_card legacy_info miso_write_blocks) ∧ 0 < 5 ∧
    _write_single_block 0 (demo_card legacy_info (miso_of [0x00, 0x0D])) 7 sample_block 0
      = Except.ok (Sd_Err_Response,
          bus_step (demo_card legacy_info (miso_of [0x00, 0x0D])) ((0 + 1) + 1)
            (r1_exchange Sd_Cmd24_Wr_Single_Blk 7 1 0 ++
              [BusEvent.write [0xFE],
               BusEvent.write ((sample_block.drop 0).take
                 (demo_card legacy_info (miso_of [0x00, 0x0D])).info.block_size),
               BusEvent.write [0xFF, 0xFF], BusEvent.read 1])) :=
  ⟨demo_card_has_transfer _ _, by decide,
    ((write_single_block_phases 0 (demo_card legacy_info (miso_of [0x00, 0x0D])) 7 sample_block
      0 0 (demo_card_has_transfer _ _) (by decide)).2.1 0x0D []
        (by unfold rx_next; decide!)).1 (by decide)⟩

/-- What the busy phase of `_write_single_block` does after a valid data-response
token `t`: with `k < 499` busy bytes `0x00` followed by a byte that is not `0x00` the
call returns OK after `k + 1` busy polls; with 499 busy bytes `0x00` it returns Timeout
after 500 busy polls, whatever the 500th byte is. -/
theorem write_single_block_busy_outcome (fuel : Nat) (c : sd_card) (lba : Nat) (buf : List Nat)
    (off pad t : Nat) (ht : has_transfer c) (hp : pad < 5) (htok : (t &&& 0x1F) = 0x05) :
    (∀ (k b : Nat) (rest : List Nat), k < 499 → b ≠ 0x00 →
      rx_next c (answer pad 0x00 ++ t :: (List.replicate k 0x00 ++ b :: rest)) →
      _write_single_block fuel c lba buf off
        = Except.ok (Sd_Err_OK, bus_step c ((pad + 1) + 1 + (k + 1))
            (write_sent_events lba pad ((buf.drop off).take c.info.block_size) ++
              write_busy_events c (k + 1)))) ∧
    (∀ (x : Nat) (rest : List Nat),
      rx_next c (answer pad 0x00 ++ t :: (List.replicate 499 0x00 ++ x :: rest)) →
      _write_single_block fuel c lba buf off
        = Except.ok (Sd_Err_Timeout, bus_step c ((pad + 1) + 1 + 500)
            (write_sent_events lba pad ((buf.drop off).take c.info.block_size) ++
              (write_busy_events c 499 ++ [BusEvent.read 1])))) := by
  constructor
  · intro k b rest hk hb hrx
    obtain ⟨h1, h2⟩ := write_single_block_token fuel c lba buf off pad t _ ht hp hrx
    obtain ⟨w1, _⟩ := write_busy_wait_hit k 499 _ b rest (has_transfer_bus_step ht _ _) hk hb h2
    rw [h1, if_neg (fun h => h htok), w1, bus_step_bus_step, write_busy_events_bus_step]
  · intro x rest hrx
    obtain ⟨h1, h2⟩ := write_single_block_token fuel c lba buf off pad t _ ht hp hrx
    obtain ⟨w1, _⟩ := write_busy_wait_miss 499 _ x rest (has_transfer_bus_step ht _ _) h2
    rw [h1, if_neg (fun h => h htok), w1, bus_step_bus_step, write_busy_events_bus_step]

/-- C37: on a card that answers CMD24 with `0x00`, accepts the data with the token
`0x05`, shows 499 busy bytes `0x00` and turns ready (`0x01`) exactly at the 500th busy
poll, `_write_single_block` reads that 500th byte and returns Timeout, not OK: the
counter is decremented and tested before the byte is looked at. -/
theorem write_ready_at_500th_poll_times_out :
    rx_peek (demo_card legacy_info miso_ready_at_500) 502
      = [0x00, 0x05] ++ (List.replicate 499 0x00 ++ [0x01]) ∧
    ∀ (fuel : Nat) (buf : List Nat),
      _write_single_block fuel (demo_card legacy_info miso_ready_at_500) 0 buf 0
        = Except.ok (Sd_Err_Timeout,
            bus_step (demo_card legacy_info miso_ready_at_500) ((0 + 1) + 1 + 500)
              (write_sent_events 0 0 ((buf.drop 0).take 512) ++
                (write_busy_events (demo_card legacy_info miso_ready_at_500) 499 ++
                  [BusEvent.read 1]))) := by
  have hpk : rx_peek (demo_card legacy_info miso_ready_at_500) 502
      = [0x00, 0x05] ++ (List.replicate 499 0x00 ++ [0x01]) := by decide!
  refine ⟨hpk, fun fuel buf => ?_⟩
  refine (write_single_block_busy_outcome fuel (demo_card legacy_info miso_ready_at_500) 0 buf
    0 0 0x05 (demo_card_has_transfer _ _) (by decide) (by decide)).2 0x01 [] ?_
  unfold rx_next
  have hl : (answer 0 0x00 ++ 0x05 :: (List.replicate 499 0x00 ++ [0x01])).length = 502 := by
    simp only [answer, List.length_append, List.length_cons, List.length_replicate,
      List.length_nil, List.length_singleton]
  rw [hl, hpk]
  rfl

/-! ### Identification, branch by branch -/

theorem u8_cons_zero (b : Nat) (l : List Nat) (hb : b < 256) : u8 (b :: l) 0 = b := by
  simp [u8, Nat.mod_eq_of_lt hb]

theorem u8_cons_succ (b : Nat) (l : List Nat) (i : Nat) : u8 (b :: l) (i + 1) = u8 l i := by
  simp [u8]

/-- The state in which `_card_identify` looks at the answer to CMD8, on a card that
answered with the R1 byte `b0` after `pad < 5` idle bytes and then `b1 b2 b3 b4`. -/
theorem card_identify_cmd8_exchange (fuel : Nat) (card : sd_card) (pad b0 b1 b2 b3 b4 : Nat)
    (rest : List Nat) (hc : can_select card) (hp : pad < 5) (hb : b0 ≠ 0xFF)
    (hrx : rx_next card (answer pad b0 ++ ([b1, b2, b3, b4] ++ rest))) :
    ∃ resp : sd_resp_res,
      sd_card_send_cmd_req fuel (selected { card with info := info_unknown }) cmd8_req
          sd_resp_res.zero
        = Except.ok (Sd_Err_OK, resp, after_cmd8 card pad) ∧
      u8 resp.buf 0 = b0 ∧ u8 resp.buf 3 = b3 ∧ u8 resp.buf 4 = b4 ∧
      rx_next (after_cmd8 card pad) rest := by
  have hc0 : can_select { card with info := info_unknown } := hc
  have ht := has_transfer_selected hc0
  have hrx0 : rx_next (selected { card with info := info_unknown })
      (answer pad b0 ++ ([b1, b2, b3, b4] ++ rest)) := hrx
  obtain ⟨h1, h2⟩ := send_cmd_r37_answer fuel _ Sd_Cmd8_If_Cond 0x1AA 0x87 5 Sd_Resp_Type_R7
    sd_resp_res.zero pad b0 [b1, b2, b3, b4] rest (Or.inr rfl) ht (by norm_num) hp hb rfl rfl
    rfl hrx0
  have hlt : ∀ x ∈ answer pad b0 ++ ([b1, b2, b3, b4] ++ rest), x < 256 := rx_next_lt hrx
  have l0 : b0 < 256 := hlt b0 (by simp [answer])
  have l3 : b3 < 256 := hlt b3 (by simp)
  have l4 : b4 < 256 := hlt b4 (by simp)
  refine ⟨_, h1, ?_, ?_, ?_, h2⟩
  · exact u8_cons_zero _ _ l0
  · simp [u8, Nat.mod_eq_of_lt l3]
  · simp [u8, Nat.mod_eq_of_lt l4]

theorem finish_eq_finished {card : sd_card} (hc : has_control card) (ht : has_transfer card)
    (err : sd_error) : card_identify_finish err card = (err, finished card) := by
  obtain ⟨ifc, ctl, h1, h2⟩ := hc
  obtain ⟨ifc2, t, h3, h4⟩ := ht
  rw [h1] at h3
  cases h3
  exact finish_ok ifc ctl t h1 h2 h4 err

theorem can_select_has_control {card : sd_card} (h : can_select card) : has_control card := by
  obtain ⟨ifc, ctl, t, h1, h2, _, _⟩ := h
  exact ⟨ifc, ctl, h1, h2⟩

theorem can_select_has_transfer {card : sd_card} (h : can_select card) : has_transfer card := by
  obtain ⟨ifc, ctl, t, h1, _, h3, _⟩ := h
  exact ⟨ifc, t, h1, h3⟩

/-- C32: in `_card_identify`, when the CMD8 exchange (argument `0x1AA`, CRC `0x87`,
shape R7) succeeds with the response bytes `b0 .. b4`: if `b0 = 0x01`,
`(b3 & 0x0F) = 0x01` and `b4 = 0xAA`, the result is the result of
`_check_card_maybe_v2` (which returns), followed by the exit sequence; if `b0 = 0x01`
but the voltage nibble or the check pattern differs, the result is Unsupported; if `b0`
is any other value, the result is Response; in the last two cases nothing is sent
after CMD8 but the exit sequence: deselect and release-bus, one dummy byte `0xFF`. -/
theorem card_identify_cmd8_answered (fuel : Nat) (card : sd_card) (pad b0 b1 b2 b3 b4 : Nat)
    (rest : List Nat) (hc : can_select card) (hp : pad < 5) (hb : b0 ≠ 0xFF)
    (hrx : rx_next card (answer pad b0 ++ ([b1, b2, b3, b4] ++ rest))) :
    sd_card_send_cmd_req fuel (selected { card with info := info_unknown })
        { cmd := Sd_Cmd8_If_Cond, arg := 0x1AA, crc := 0x87, resp_type := Sd_Resp_Type_R7,
          retry := 5 } sd_resp_res.zero
      = Except.ok (Sd_Err_OK,
          { buf := b0 :: ([b1, b2, b3, b4] ++ sd_resp_res.zero.buf.drop 5), filled := 5 },
          after_cmd8 card pad) ∧
    (b0 = 0x01 → (b3 &&& 0x0F) = 0x01 → b4 = 0xAA →
      ∃ (err : sd_error) (c3 : sd_card),
        _check_card_maybe_v2 fuel (after_cmd8 card pad) = Except.ok (err, c3) ∧
        _card_identify fuel card = Except.ok (err, finished c3)) ∧
    (b0 = 0x01 → ¬ ((b3 &&& 0x0F) = 0x01 ∧ b4 = 0xAA) →
      _card_identify fuel card
        = Except.ok (Sd_Err_Unsupported, finished (after_cmd8 card pad))) ∧
    (b0 ≠ 0x01 →
      _card_identify fuel card = Except.ok (Sd_Err_Response, finished (after_cmd8 card pad))) ∧
    (finished (after_cmd8 card pad)).log
      = card.log ++ ([BusEvent.control Sd_User_Ctrl_Take_Bus,
          BusEvent.control Sd_User_Ctrl_Select_Card] ++
        (BusEvent.write (cmd_frame Sd_Cmd8_If_Cond 0x1AA 0x87) ::
          (List.replicate (pad + 1) (BusEvent.read 1) ++
            [BusEvent.read 4, BusEvent.control Sd_User_Ctrl_Deselect_Card,
             BusEvent.control Sd_User_Ctrl_Release_Bus, BusEvent.write [0xFF]]))) := by
  have hc0 : can_select { card with info := info_unknown } := hc
  have ht := has_transfer_selected hc0
  have hrx0 : rx_next (selected { card with info := info_unknown })
      (answer pad b0 ++ ([b1, b2, b3, b4] ++ rest)) := hrx
  have hx := (send_cmd_r37_answer fuel _ Sd_Cmd8_If_Cond 0x1AA 0x87 5 Sd_Resp_Type_R7
    sd_resp_res.zero pad b0 [b1, b2, b3, b4] rest (Or.inr rfl) ht (by norm_num) hp hb rfl rfl
    rfl hrx0).1
  obtain ⟨resp, h1, u0, u3, u4, _⟩ :=
    card_identify_cmd8_exchange fuel card pad b0 b1 b2 b3 b4 rest hc hp hb hrx
  have hctl1 : has_control card := can_select_has_control hc
  have ht1 : has_transfer card := can_select_has_transfer hc
  have hctl2 : has_control (after_cmd8 card pad) := hctl1
  have ht2 : has_transfer (after_cmd8 card pad) := ht1
  have hstart : _card_identify fuel card =
      (if u8 resp.buf 0 = SD_FR_IN_IDLE_STATE then
        if (u8 resp.buf 3 &&& 0x0F) = 0x01 ∧ u8 resp.buf 4 = 0xAA then
          match _check_card_maybe_v2 fuel (after_cmd8 card pad) with
          | Except.error f => Except.error f
          | Except.ok (err, card3) => Except.ok (card_identify_finish err card3)
        else
          Except.ok (card_identify_finish Sd_Err_Unsupported (after_cmd8 card pad))
      else
        Except.ok (card_identify_finish Sd_Err_Response (after_cmd8 card pad))) := by
    have hsel : sd_spi_hw_select_card
        { card with
          info := { type := Sd_Type_Unknown, block_count := 0, block_size := 0, capacity := 0,
                    erase_sector_size := 0 } }
        = (Sd_Err_OK, selected { card with info := info_unknown }) := select_ok hc0
    have h1b : sd_card_send_cmd_req fuel (selected { card with info := info_unknown })
        { cmd := Sd_Cmd8_If_Cond, arg := 0x1AA, crc := 0x87,
          resp_type := Sd_Resp_Type_R7, retry := 5 } sd_resp_res.zero
        = Except.ok (Sd_Err_OK, resp, after_cmd8 card pad) := h1
    unfold _card_identify
    simp only []
    rw [hsel]
    simp only []
    rw [h1b]
  rw [u0, u3, u4] at hstart
  refine ⟨hx, ?_, ?_, ?_, ?_⟩
  · intro e0 e3 e4
    obtain ⟨err, c3, h3, m3⟩ := check_card_maybe_v2_frame fuel (after_cmd8 card pad)
    have hctl3 : has_control c3 := (has_control_congr m3.1).mpr hctl2
    have ht3 : has_transfer c3 := (has_transfer_congr m3.1).mpr ht2
    refine ⟨err, c3, h3, ?_⟩
    rw [hstart, if_pos (by rw [e0]; rfl), if_pos ⟨e3, e4⟩, h3]
    simp only []
    rw [finish_eq_finished hctl3 ht3]
  · intro e0 hne
    rw [hstart, if_pos (by rw [e0]; rfl), if_neg hne, finish_eq_finished hctl2 ht2]
  · intro hne
    rw [hstart, if_neg (by simpa [SD_FR_IN_IDLE_STATE] using hne), finish_eq_finished hctl2 ht2]
  · simp [finished, after_cmd8, deselected, selected, bus_step, r1_exchange, List.append_assoc]
theorem card_identify_cmd8_answered_witness :
    can_select (demo_card legacy_info (miso_of [0x05, 0x00, 0x00, 0x00, 0x00])) ∧
    rx_next (demo_card legacy_info (miso_of [0x05, 0x00, 0x00, 0x00, 0x00]))
      (answer 0 0x05 ++ ([0x00, 0x00, 0x00, 0x00] ++ [])) ∧
    _card_identify 0 (demo_card legacy_info (miso_of [0x05, 0x00, 0x00, 0x00, 0x00]))
      = Except.ok (Sd_Err_Response,
          finished (after_cmd8 (demo_card legacy_info (miso_of [0x05, 0x00, 0x00, 0x00, 0x00]))
            0)) :=
  ⟨⟨good_if, _, _, rfl, rfl, rfl, rfl⟩, by unfold rx_next; decide!,
    (card_identify_cmd8_answered 0 (demo_card legacy_info (miso_of [0x05, 0x00, 0x00, 0x00, 0x00]))
      0 0x05 0x00 0x00 0x00 0x00 [] ⟨good_if, _, _, rfl, rfl, rfl, rfl⟩ (by decide) (by decide)
      (by unfold rx_next; decide!)).2.2.2.1 (by decide)⟩

theorem send_dummy_two {card : sd_card} (h : has_transfer card) :
    sd_spi_hw_send_dummy card 2
      = (Sd_Err_OK, bus_step card 0 [BusEvent.write [0xFF], BusEvent.write [0xFF]]) := by
  unfold sd_spi_hw_send_dummy sd_spi_hw_write_byte
  rw [write_bytes_ok h]
  simp only []
  rw [@send_dummy_one (bus_step card 0 [BusEvent.write [0xFF % 256]])
    (has_transfer_bus_step h _ _), bus_step_bus_step]
  rfl

/-- The OCR value as the 32-bit code assembles it from four bytes. -/
theorem ocr_value_eq (o1 o2 o3 o4 : Nat) (h1 : o1 < 256) (h2 : o2 < 256) (h3 : o3 < 256)
    (h4 : o4 < 256) :
    (((o1 <<< 24) % 2 ^ 32) ||| ((o2 <<< 16) % 2 ^ 32) ||| ((o3 <<< 8) % 2 ^ 32) ||| o4) % 2 ^ 32
      = ocr_value o1 o2 o3 o4 := by
  have e1 : (o1 <<< 24) % 2 ^ 32 = o1 <<< 24 := by
    apply Nat.mod_eq_of_lt; rw [Nat.shiftLeft_eq]; omega
  have e2 : (o2 <<< 16) % 2 ^ 32 = o2 <<< 16 := by
    apply Nat.mod_eq_of_lt; rw [Nat.shiftLeft_eq]; omega
  have e3 : (o3 <<< 8) % 2 ^ 32 = o3 <<< 8 := by
    apply Nat.mod_eq_of_lt; rw [Nat.shiftLeft_eq]; omega
  rw [e1, e2, e3]
  apply Nat.mod_eq_of_lt
  have b1 : o1 <<< 24 < 2 ^ 32 := by rw [Nat.shiftLeft_eq]; omega
  have b2 : o2 <<< 16 < 2 ^ 32 := by rw [Nat.shiftLeft_eq]; omega
  have b3 : o3 <<< 8 < 2 ^ 32 := by rw [Nat.shiftLeft_eq]; omega
  have b4 : o4 < 2 ^ 32 := by omega
  exact Nat.or_lt_two_pow (Nat.or_lt_two_pow (Nat.or_lt_two_pow b1 b2) b3) b4

/-- Blocks 2 and 3 of `_check_card_maybe_v2` on a card whose CMD58 R1 byte has bit 7
set: Unsupported, and CMD9 is not sent. -/
theorem check_v2_after_acmd41_r1_error (fuel : Nat) (c : sd_card) (p1 b0 o1 o2 o3 o4 : Nat)
    (rest : List Nat) (ht : has_transfer c) (hp1 : p1 < 5) (hb0 : b0 ≠ 0xFF)
    (h80 : (b0 &&& 0x80) ≠ 0)
    (hrx : rx_next c (answer p1 b0 ++ ([o1, o2, o3, o4] ++ rest))) :
    check_v2_after_acmd41 fuel c
      = Except.ok (Sd_Err_Unsupported,
          bus_step c ((p1 + 1) + 4) (r1_exchange Sd_Cmd58_Rd_Ocr 0 1 p1 ++ [BusEvent.read 4])) := by
  obtain ⟨h1, _⟩ := send_cmd_r37_answer fuel c Sd_Cmd58_Rd_Ocr 0 1 5 Sd_Resp_Type_R3
    sd_resp_res.zero p1 b0 [o1, o2, o3, o4] rest (Or.inl rfl) ht (by norm_num) hp1 hb0 rfl rfl
    rfl hrx
  have hlt : ∀ x ∈ answer p1 b0 ++ ([o1, o2, o3, o4] ++ rest), x < 256 := rx_next_lt hrx
  have l0 : b0 < 256 := hlt b0 (by simp [answer])
  unfold check_v2_after_acmd41
  rw [h1]
  simp only []
  rw [u8_cons_zero _ _ l0, if_pos h80]

/-- CMD9 of `_check_card_maybe_v2`: two dummy bytes, then the register read. -/
theorem cmd9_after_dummy (fuel : Nat) (c2 : sd_card) (i : sd_info) (p2 : Nat)
    (junk csd crc2 rest : List Nat) (ht : has_transfer c2) (hp2 : p2 < 5)
    (hj : ∀ x ∈ junk, x ≠ 0xFE) (hjl : junk.length ≤ 254) (hcsd : csd.length = 16)
    (hcrc : crc2.length = 2)
    (hrx : rx_next c2 (answer p2 0x00 ++ (junk ++ 0xFE :: (csd ++ (crc2 ++ rest))))) :
    sd_card_send_cmd_req fuel (sd_spi_hw_send_dummy { c2 with info := i } 2).2
        { cmd := Sd_Cmd9_Csd, arg := 0, crc := 1, resp_type := Sd_Resp_Type_R2, retry := 5 }
        sd_resp_res.zero
      = Except.ok (Sd_Err_OK, { buf := csd, filled := 16 },
          { bus_step c2 ((p2 + 1) + ((junk.length + 1) + (16 + 2)))
              ([BusEvent.write [0xFF], BusEvent.write [0xFF]] ++
                r2_exchange Sd_Cmd9_Csd 0 1 p2 junk.length) with info := i }) := by
  have ht3 : has_transfer { c2 with info := i } := ht
  have hrx3 : rx_next (bus_step { c2 with info := i } 0
      [BusEvent.write [0xFF], BusEvent.write [0xFF]])
      (answer p2 0x00 ++ (junk ++ 0xFE :: (csd ++ (crc2 ++ rest)))) := hrx
  obtain ⟨f1, _, _⟩ := send_cmd_r2_data fuel _ Sd_Cmd9_Csd 0 1 5 p2 junk csd crc2 rest
    (has_transfer_bus_step ht3 _ _) (by norm_num) hp2 hj hjl hcsd hcrc hrx3
  rw [send_dummy_two ht3]
  simp only []
  rw [f1]
  simp [bus_step, List.append_assoc]

/-- Blocks 2 and 3 of `_check_card_maybe_v2` on a card that answers CMD58 with a clean
bit 7 and the OCR bytes `o1 .. o4`, and CMD9 with `0x00`, the data token and the
register `csd`: the CCS bit chooses the parser, the parser decides. -/
theorem check_v2_after_acmd41_run (fuel : Nat) (c : sd_card) (p1 b0 o1 o2 o3 o4 p2 : Nat)
    (junk csd crc2 rest : List Nat) (ht : has_transfer c) (hp1 : p1 < 5) (hb0 : b0 ≠ 0xFF)
    (h80 : (b0 &&& 0x80) = 0) (hp2 : p2 < 5)
    (hj : ∀ x ∈ junk, x ≠ 0xFE) (hjl : junk.length ≤ 254) (hcsd : csd.length = 16)
    (hcrc : crc2.length = 2)
    (hrx : rx_next c (answer p1 b0 ++ ([o1, o2, o3, o4] ++
      (answer p2 0x00 ++ (junk ++ 0xFE :: (csd ++ (crc2 ++ rest))))))) :
    check_v2_after_acmd41 fuel c =
      (if (ocr_value o1 o2 o3 o4 &&& (1 <<< 30)) ≠ 0 then
        match _parse_csd_v2 csd { c.info with type := Sd_Type_SDHC } with
        | (Sd_Err_OK, info1) =>
          if info1.capacity > 32000000000 then
            Except.ok (Sd_Err_OK,
              { after_cmd58_cmd9 c p1 p2 junk.length with
                info := { info1 with type := Sd_Type_SDXC } })
          else
            Except.ok (Sd_Err_OK, { after_cmd58_cmd9 c p1 p2 junk.length with info := info1 })
        | (_, info1) =>
          Except.ok (Sd_Err_Failed, { after_cmd58_cmd9 c p1 p2 junk.length with info := info1 })
      else
        match _parse_csd_v1 csd { c.info with type := Sd_Type_SDSC_V2 } with
        | (Sd_Err_OK, info1) =>
          Except.ok (Sd_Err_OK, { after_cmd58_cmd9 c p1 p2 junk.length with info := info1 })
        | (_, info1) =>
          Except.ok (Sd_Err_Failed,
            { after_cmd58_cmd9 c p1 p2 junk.length with info := info1 })) := by
  obtain ⟨h1, h2⟩ := send_cmd_r37_answer fuel c Sd_Cmd58_Rd_Ocr 0 1 5 Sd_Resp_Type_R3
    sd_resp_res.zero p1 b0 [o1, o2, o3, o4] _ (Or.inl rfl) ht (by norm_num) hp1 hb0 rfl rfl
    rfl hrx
  have hlt : ∀ x ∈ answer p1 b0 ++ ([o1, o2, o3, o4] ++
      (answer p2 0x00 ++ (junk ++ 0xFE :: (csd ++ (crc2 ++ rest))))), x < 256 := rx_next_lt hrx
  have l0 : b0 < 256 := hlt b0 (by simp [answer])
  have l1 : o1 < 256 := hlt o1 (by simp)
  have l2 : o2 < 256 := hlt o2 (by simp)
  have l3 : o3 < 256 := hlt o3 (by simp)
  have l4 : o4 < 256 := hlt o4 (by simp)
  have hu1 : u8 (b0 :: ([o1, o2, o3, o4] ++ List.drop 5 sd_resp_res.zero.buf)) 1 = o1 := by
    simp [u8, Nat.mod_eq_of_lt l1]
  have hu2 : u8 (b0 :: ([o1, o2, o3, o4] ++ List.drop 5 sd_resp_res.zero.buf)) 2 = o2 := by
    simp [u8, Nat.mod_eq_of_lt l2]
  have hu3 : u8 (b0 :: ([o1, o2, o3, o4] ++ List.drop 5 sd_resp_res.zero.buf)) 3 = o3 := by
    simp [u8, Nat.mod_eq_of_lt l3]
  have hu4 : u8 (b0 :: ([o1, o2, o3, o4] ++ List.drop 5 sd_resp_res.zero.buf)) 4 = o4 := by
    simp [u8, Nat.mod_eq_of_lt l4]
  have ht2 := has_transfer_bus_step ht ((p1 + 1) + 4)
    (r1_exchange Sd_Cmd58_Rd_Ocr 0 1 p1 ++ [BusEvent.read 4])
  unfold check_v2_after_acmd41
  rw [h1]
  simp only []
  rw [u8_cons_zero _ _ l0, if_neg (fun h => h h80), hu1, hu2, hu3, hu4,
    ocr_value_eq o1 o2 o3 o4 l1 l2 l3 l4]
  by_cases hccs : (ocr_value o1 o2 o3 o4 &&& (1 <<< 30)) ≠ 0
  · rw [if_pos hccs, if_pos hccs]
    rw [cmd9_after_dummy fuel _ _ p2 junk csd crc2 rest ht2 hp2 hj hjl hcsd hcrc h2]
    simp only [if_true, bus_step, after_cmd58_cmd9]
    generalize _parse_csd_v2 csd { c.info with type := Sd_Type_SDHC } = p
    obtain ⟨pe, pi⟩ := p
    cases pe <;> simp [List.append_assoc, Nat.add_assoc]
  · rw [if_neg hccs, if_neg hccs]
    rw [cmd9_after_dummy fuel _ _ p2 junk csd crc2 rest ht2 hp2 hj hjl hcsd hcrc h2]
    simp only [bus_step, after_cmd58_cmd9]
    rw [if_neg (by decide)]
    generalize _parse_csd_v1 csd { c.info with type := Sd_Type_SDSC_V2 } = p
    obtain ⟨pe, pi⟩ := p
    cases pe <;> simp [List.append_assoc, Nat.add_assoc]

/-- Blocks 2 and 3 of `_check_card_maybe_v1` on a card that answers CMD16 with an R1
byte other than `0x00`: Response, and CMD9 is not sent. -/
theorem check_v1_after_acmd41_bad_r1 (fuel : Nat) (c : sd_card) (p3 b : Nat) (rest : List Nat)
    (ht : has_transfer c) (hp3 : p3 < 5) (hb : b ≠ 0xFF) (hne : b ≠ 0x00)
    (hrx : rx_next c (answer p3 b ++ rest)) :
    check_v1_after_acmd41 fuel c
      = Except.ok (Sd_Err_Response,
          { bus_step c (p3 + 1) (r1_exchange Sd_Cmd16_Block_len 512 1 p3) with
            info := { c.info with type := Sd_Type_SDSC_V1 } }) := by
  have ht2 : has_transfer { c with info := { c.info with type := Sd_Type_SDSC_V1 } } := ht
  have hrx2 : rx_next { c with info := { c.info with type := Sd_Type_SDSC_V1 } }
      (answer p3 b ++ rest) := hrx
  obtain ⟨e1, _, _⟩ := send_cmd_r1_answer fuel _ Sd_Cmd16_Block_len 512 1 5
    sd_resp_res.zero p3 b rest ht2 (by norm_num) hp3 hb hrx2
  have hlt : b < 256 := rx_next_lt hrx b (by simp [answer])
  unfold check_v1_after_acmd41
  simp only []
  rw [e1]
  simp only []
  rw [show sd_resp_res.zero.filled = 0 from rfl, u8_set_zero _ _ (by decide) hlt,
    if_pos (by simpa [SD_FR_NONE] using hne)]
  rfl

/-- Blocks 2 and 3 of `_check_card_maybe_v1` on a card that answers CMD16 and CMD9
with `0x00` and then sends the data token and the register `csd`: the legacy parser
decides. -/
theorem check_v1_after_acmd41_run (fuel : Nat) (c : sd_card) (p3 p4 : Nat)
    (junk csd crc2 rest : List Nat) (ht : has_transfer c) (hp3 : p3 < 5) (hp4 : p4 < 5)
    (hj : ∀ x ∈ junk, x ≠ 0xFE) (hjl : junk.length ≤ 254) (hcsd : csd.length = 16)
    (hc : crc2.length = 2)
    (hrx : rx_next c
      (answer p3 0x00 ++ (answer p4 0x00 ++ (junk ++ 0xFE :: (csd ++ (crc2 ++ rest)))))) :
    check_v1_after_acmd41 fuel c =
      (match _parse_csd_v1 csd { c.info with type := Sd_Type_SDSC_V1 } with
       | (Sd_Err_OK, info1) =>
         Except.ok (Sd_Err_OK, { after_cmd16_cmd9 c p3 p4 junk.length with info := info1 })
       | (_, info1) =>
         Except.ok (Sd_Err_Failed,
           { after_cmd16_cmd9 c p3 p4 junk.length with info := info1 })) := by
  obtain ⟨ifc, t, h1, h2⟩ := id ht
  have ht2 : has_transfer { c with info := { c.info with type := Sd_Type_SDSC_V1 } } :=
    ⟨ifc, t, h1, h2⟩
  have hrx2 : rx_next { c with info := { c.info with type := Sd_Type_SDSC_V1 } }
      (answer p3 0x00 ++ (answer p4 0x00 ++ (junk ++ 0xFE :: (csd ++ (crc2 ++ rest))))) := hrx
  obtain ⟨e1, e2, e3⟩ := send_cmd_r1_answer fuel _ Sd_Cmd16_Block_len 512 1 5
    sd_resp_res.zero p3 0x00 _ ht2 (by norm_num) hp3 (by norm_num) hrx2
  obtain ⟨f1, _, _⟩ := send_cmd_r2_data fuel _ Sd_Cmd9_Csd 0 1 5 p4 junk csd crc2 rest e3
    (by norm_num) hp4 hj hjl hcsd hc e2
  unfold check_v1_after_acmd41
  simp only []
  rw [e1]
  simp only []
  rw [u8_zero_set 0x00 (by norm_num), if_neg (by decide), f1]
  simp only [bus_step, after_cmd16_cmd9]
  generalize _parse_csd_v1 csd { c.info with type := Sd_Type_SDSC_V1 } = p
  obtain ⟨pe, pi⟩ := p
  cases pe <;> simp [List.append_assoc, Nat.add_assoc]

/-- C33: in the V2 path once the ACMD41 loop has ended (`check_v2_after_acmd41`, which
`_check_card_maybe_v2` runs when the loop ends with a non-zero counter), with CMD58
answered by the R1 byte `b0` and the OCR bytes `o1 .. o4`: (1) if bit 7 of `b0` is set
the result is Unsupported and CMD9 is not sent; (2) otherwise, with CMD9 answered
`0x00`, the data token and the register `csd`: if bit 30 of
`OCR = o1<<24 | o2<<16 | o3<<8 | o4` is set, the register is parsed with
`_parse_csd_v2`, and on a version-1 register the result is OK with the class SDXC
exactly when the parsed capacity exceeds 32,000,000,000 and SDHC otherwise, on any
other register Failed; if bit 30 is clear the register is parsed with `_parse_csd_v1`,
and on a version-0 register the result is OK with the class SDSC v2, on any other
register Failed. -/
theorem check_v2_classification (fuel : Nat) (c : sd_card) (p1 b0 o1 o2 o3 o4 : Nat)
    (ht : has_transfer c) (hp1 : p1 < 5) (hb0 : b0 ≠ 0xFF) :
    (∀ rest : List Nat, (b0 &&& 0x80) ≠ 0 →
      rx_next c (answer p1 b0 ++ ([o1, o2, o3, o4] ++ rest)) →
      check_v2_after_acmd41 fuel c
        = Except.ok (Sd_Err_Unsupported,
            bus_step c ((p1 + 1) + 4)
              (r1_exchange Sd_Cmd58_Rd_Ocr 0 1 p1 ++ [BusEvent.read 4]))) ∧
    (∀ (p2 : Nat) (junk csd crc2 rest : List Nat), (b0 &&& 0x80) = 0 → p2 < 5 →
      (∀ x ∈ junk, x ≠ 0xFE) → junk.length ≤ 254 → csd.length = 16 → crc2.length = 2 →
      rx_next c (answer p1 b0 ++ ([o1, o2, o3, o4] ++
        (answer p2 0x00 ++ (junk ++ 0xFE :: (csd ++ (crc2 ++ rest)))))) →
      ((ocr_value o1 o2 o3 o4 &&& (1 <<< 30)) ≠ 0 → u8 csd 0 >>> 6 = 1 →
        check_v2_after_acmd41 fuel c
          = Except.ok (Sd_Err_OK,
              { after_cmd58_cmd9 c p1 p2 junk.length with
                info :=
                  { (_parse_csd_v2 csd { c.info with type := Sd_Type_SDHC }).2 with
                    type :=
                      if (_parse_csd_v2 csd { c.info with type := Sd_Type_SDHC }).2.capacity
                          > 32000000000 then Sd_Type_SDXC else Sd_Type_SDHC } })) ∧
      ((ocr_value o1 o2 o3 o4 &&& (1 <<< 30)) ≠ 0 → u8 csd 0 >>> 6 ≠ 1 →
        check_v2_after_acmd41 fuel c
          = Except.ok (Sd_Err_Failed,
              { after_cmd58_cmd9 c p1 p2 junk.length with
                info := { c.info with type := Sd_Type_SDHC } })) ∧
      ((ocr_value o1 o2 o3 o4 &&& (1 <<< 30)) = 0 → u8 csd 0 >>> 6 = 0 →
        check_v2_after_acmd41 fuel c
          = Except.ok (Sd_Err_OK,
              { after_cmd58_cmd9 c p1 p2 junk.length with
                info := (_parse_csd_v1 csd { c.info with type := Sd_Type_SDSC_V2 }).2 }) ∧
        (_parse_csd_v1 csd { c.info with type := Sd_Type_SDSC_V2 }).2.type = Sd_Type_SDSC_V2) ∧
      ((ocr_value o1 o2 o3 o4 &&& (1 <<< 30)) = 0 → u8 csd 0 >>> 6 ≠ 0 →
        check_v2_after_acmd41 fuel c
          = Except.ok (Sd_Err_Failed,
              { after_cmd58_cmd9 c p1 p2 junk.length with
                info := { c.info with type := Sd_Type_SDSC_V2 } }))) ∧
    (∀ (card : sd_card) (t : Nat) (c1 : sd_card),
      do_while_dec (acmd41_body_v2 fuel) 254 card = Except.ok (none, t, c1) → t ≠ 0 →
      _check_card_maybe_v2 fuel card = check_v2_after_acmd41 fuel c1) := by
  refine ⟨fun rest h80 hrx =>
      check_v2_after_acmd41_r1_error fuel c p1 b0 o1 o2 o3 o4 rest ht hp1 hb0 h80 hrx,
    fun p2 junk csd crc2 rest h80 hp2 hj hjl hcsd hcrc hrx => ?_,
    fun card t c1 hl ht0 => ?_⟩
  · have hrun := check_v2_after_acmd41_run fuel c p1 b0 o1 o2 o3 o4 p2 junk csd crc2 rest ht hp1
      hb0 h80 hp2 hj hjl hcsd hcrc hrx
    refine ⟨fun hccs hv => ?_, fun hccs hv => ?_, fun hccs hv => ?_, fun hccs hv => ?_⟩
    · rw [hrun, if_pos hccs, parse_csd_v2_eq csd _ hv]
      simp only []
      split <;> rfl
    · rw [hrun, if_pos hccs]
      unfold _parse_csd_v2
      rw [if_pos hv]
    · rw [hrun, if_neg (fun h => h hccs), parse_csd_v1_eq csd _ hv]
      exact ⟨rfl, rfl⟩
    · rw [hrun, if_neg (fun h => h hccs)]
      unfold _parse_csd_v1
      rw [if_pos hv]
  · unfold _check_card_maybe_v2
    rw [hl]
    simp only []
    rw [if_neg ht0]

theorem check_v2_classification_witness :
    has_transfer (demo_card info_unknown
      (miso_of ([0x00, 0xC0, 0xFF, 0x80, 0x00, 0x00, 0xFE] ++ csd_v2_16g ++ [0x12, 0x34]))) ∧
    check_v2_after_acmd41 0 (demo_card info_unknown
        (miso_of ([0x00, 0xC0, 0xFF, 0x80, 0x00, 0x00, 0xFE] ++ csd_v2_16g ++ [0x12, 0x34])))
      = Except.ok (Sd_Err_OK,
          { after_cmd58_cmd9 (demo_card info_unknown
              (miso_of ([0x00, 0xC0, 0xFF, 0x80, 0x00, 0x00, 0xFE] ++ csd_v2_16g ++ [0x12, 0x34])))
              0 0 ([] : List Nat).length with
            info :=
              { (_parse_csd_v2 csd_v2_16g
                  { (demo_card info_unknown
                      (miso_of ([0x00, 0xC0, 0xFF, 0x80, 0x00, 0x00, 0xFE] ++ csd_v2_16g ++
                        [0x12, 0x34]))).info with type := Sd_Type_SDHC }).2 with
                type :=
                  if (_parse_csd_v2 csd_v2_16g
                      { (demo_card info_unknown
                          (miso_of ([0x00, 0xC0, 0xFF, 0x80, 0x00, 0x00, 0xFE] ++ csd_v2_16g ++
                            [0x12, 0x34]))).info with type := Sd_Type_SDHC }).2.capacity
                      > 32000000000 then Sd_Type_SDXC else Sd_Type_SDHC } }) :=
  ⟨demo_card_has_transfer _ _,
    ((check_v2_classification 0 (demo_card info_unknown
        (miso_of ([0x00, 0xC0, 0xFF, 0x80, 0x00, 0x00, 0xFE] ++ csd_v2_16g ++ [0x12, 0x34])))
      0 0x00 0xC0 0xFF 0x80 0x00 (demo_card_has_transfer _ _) (by decide) (by decide)).2.1
        0 [] csd_v2_16g [0x12, 0x34] [] (by decide) (by decide) (fun x hx => by cases hx)
        (by decide) rfl rfl (by unfold rx_next; decide!)).1 (by decide) (by decide)⟩

/-- C34: in the legacy path once the ACMD41 loop has ended (`check_v1_after_acmd41`,
which `_check_card_maybe_v1` runs when the loop ends with a non-zero counter), the
class is set to SDSC v1 and CMD16 is sent with argument 512: (1) an R1 byte other than
`0x00` gives Response and CMD9 is not sent; (2) after a clean R1 byte CMD9 is sent and
the 16 register bytes are parsed with `_parse_csd_v1`: a register whose version is not
0 gives Failed; on a version-0 register the result is OK, the class is SDSC v1 and the
geometry is that of the parse. -/
theorem check_v1_classification (fuel : Nat) (c : sd_card) (p3 : Nat)
    (ht : has_transfer c) (hp3 : p3 < 5) :
    (∀ (b : Nat) (rest : List Nat), b ≠ 0xFF → b ≠ 0x00 → rx_next c (answer p3 b ++ rest) →
      check_v1_after_acmd41 fuel c
        = Except.ok (Sd_Err_Response,
            { bus_step c (p3 + 1)
                (BusEvent.write (cmd_frame Sd_Cmd16_Block_len 512 1) ::
                  List.replicate (p3 + 1) (BusEvent.read 1)) with
              info := { c.info with type := Sd_Type_SDSC_V1 } })) ∧
    (∀ (p4 : Nat) (junk csd crc2 rest : List Nat), p4 < 5 →
      (∀ x ∈ junk, x ≠ 0xFE) → junk.length ≤ 254 → csd.length = 16 → crc2.length = 2 →
      rx_next c
        (answer p3 0x00 ++ (answer p4 0x00 ++ (junk ++ 0xFE :: (csd ++ (crc2 ++ rest))))) →
      (u8 csd 0 >>> 6 ≠ 0 →
        check_v1_after_acmd41 fuel c
          = Except.ok (Sd_Err_Failed,
              { after_cmd16_cmd9 c p3 p4 junk.length with
                info := { c.info with type := Sd_Type_SDSC_V1 } })) ∧
      (u8 csd 0 >>> 6 = 0 →
        check_v1_after_acmd41 fuel c
          = Except.ok (Sd_Err_OK,
              { after_cmd16_cmd9 c p3 p4 junk.length with
                info := (_parse_csd_v1 csd { c.info with type := Sd_Type_SDSC_V1 }).2 }) ∧
        (_parse_csd_v1 csd { c.info with type := Sd_Type_SDSC_V1 }).2.type = Sd_Type_SDSC_V1 ∧
        (_parse_csd_v1 csd { c.info with type := Sd_Type_SDSC_V1 }).2.block_size
          = 2 ^ csd_v1_read_bl_len csd)) ∧
    (∀ (card : sd_card) (t : Nat) (c1 : sd_card),
      do_while_dec (acmd41_body_v1 fuel) 254 card = Except.ok (none, t, c1) → t ≠ 0 →
      _check_card_maybe_v1 fuel card = check_v1_after_acmd41 fuel c1) := by
  refine ⟨fun b rest hb hne hrx =>
      check_v1_after_acmd41_bad_r1 fuel c p3 b rest ht hp3 hb hne hrx,
    fun p4 junk csd crc2 rest hp4 hj hjl hcsd hcrc hrx => ?_,
    fun card t c1 hl ht0 => ?_⟩
  · have hrun := check_v1_after_acmd41_run fuel c p3 p4 junk csd crc2 rest ht hp3 hp4 hj hjl
      hcsd hcrc hrx
    refine ⟨fun hv => ?_, fun hv => ?_⟩
    · rw [hrun]
      unfold _parse_csd_v1
      rw [if_pos hv]
    · rw [hrun, parse_csd_v1_eq csd _ hv]
      exact ⟨rfl, rfl, rfl⟩
  · unfold _check_card_maybe_v1
    rw [hl]
    simp only []
    rw [if_neg ht0]

theorem check_v1_classification_witness :
    has_transfer (demo_card info_unknown
      (miso_of ([0x00, 0x00, 0xFE] ++ csd_v1_1g ++ [0x12, 0x34]))) ∧ 0 < 5 ∧
    check_v1_after_acmd41 0 (demo_card info_unknown
        (miso_of ([0x00, 0x00, 0xFE] ++ csd_v1_1g ++ [0x12, 0x34])))
      = Except.ok (Sd_Err_OK,
          { after_cmd16_cmd9 (demo_card info_unknown
              (miso_of ([0x00, 0x00, 0xFE] ++ csd_v1_1g ++ [0x12, 0x34]))) 0 0
              ([] : List Nat).length with
            info := (_parse_csd_v1 csd_v1_1g
              { (demo_card info_unknown
                  (miso_of ([0x00, 0x00, 0xFE] ++ csd_v1_1g ++ [0x12, 0x34]))).info with
                type := Sd_Type_SDSC_V1 }).2 }) :=
  ⟨demo_card_has_transfer _ _, by decide,
    (((check_v1_classification 0 (demo_card info_unknown
        (miso_of ([0x00, 0x00, 0xFE] ++ csd_v1_1g ++ [0x12, 0x34]))) 0
      (demo_card_has_transfer _ _) (by decide)).2.1
        0 [] csd_v1_1g [0x12, 0x34] [] (by decide) (fun x hx => by cases hx)
        (by decide) rfl rfl (by unfold rx_next; decide!)).2 (by decide)).1⟩

/-! ### The geometry of an identified card -/

theorem parse_v2_ok_block {csd : List Nat} {i i1 : sd_info}
    (h : _parse_csd_v2 csd i = (Sd_Err_OK, i1)) : i1.block_size = 512 ∧ i1.type = i.type := by
  by_cases hv : u8 csd 0 >>> 6 = 1
  · rw [parse_csd_v2_eq csd i hv] at h
    injection h with _ h
    rw [← h]
    exact ⟨rfl, rfl⟩
  · unfold _parse_csd_v2 at h
    rw [if_pos hv] at h
    injection h with h _
    cases h

theorem parse_v1_ok_block {csd : List Nat} {i i1 : sd_info}
    (h : _parse_csd_v1 csd i = (Sd_Err_OK, i1)) :
    (∃ k, k ≤ 15 ∧ i1.block_size = 2 ^ k) ∧ i1.type = i.type := by
  by_cases hv : u8 csd 0 >>> 6 = 0
  · rw [parse_csd_v1_eq csd i hv] at h
    injection h with _ h
    rw [← h]
    exact ⟨⟨csd_v1_read_bl_len csd, csd_v1_read_bl_len_le csd, rfl⟩, rfl⟩
  · unfold _parse_csd_v1 at h
    rw [if_pos hv] at h
    injection h with h _
    cases h

theorem block_size_ok_512 {i : sd_info} (h : i.block_size = 512) : block_size_ok i :=
  ⟨⟨9, by decide, by rw [h]; rfl⟩, fun _ => h⟩

theorem block_size_ok_legacy {i : sd_info} (h : ∃ k, k ≤ 15 ∧ i.block_size = 2 ^ k)
    (ht : i.type = Sd_Type_SDSC_V1 ∨ i.type = Sd_Type_SDSC_V2) : block_size_ok i := by
  refine ⟨h, fun hh => ?_⟩
  rcases ht with ht | ht <;> rcases hh with hh | hh <;> rw [ht] at hh <;> cases hh

/-- Blocks 2 and 3 of `_check_card_maybe_v2` return, and when they return OK the block
size is that of a parse. -/
theorem check_v2_after_acmd41_geometry (fuel : Nat) (c : sd_card) :
    ∃ (err : sd_error) (c1 : sd_card),
      check_v2_after_acmd41 fuel c = Except.ok (err, c1) ∧
      (err = Sd_Err_OK → block_size_ok c1.info) := by
  obtain ⟨e1, resp1, c2, h1, t1⟩ := send_cmd_total fuel c
    { cmd := Sd_Cmd58_Rd_Ocr, arg := 0, crc := 1, resp_type := Sd_Resp_Type_R3, retry := 5 }
    sd_resp_res.zero (fun h => by cases h)
  unfold check_v2_after_acmd41
  rw [h1]
  cases e1 with
  | Sd_Err_OK =>
    simp only []
    split
    · exact ⟨_, _, rfl, fun h => by cases h⟩
    · generalize hc3 : (if ((((u8 resp1.buf 1 <<< 24) % 2 ^ 32) |||
          ((u8 resp1.buf 2 <<< 16) % 2 ^ 32) ||| ((u8 resp1.buf 3 <<< 8) % 2 ^ 32) |||
          u8 resp1.buf 4) % 2 ^ 32 &&& (1 <<< 30)) ≠ 0 then
          ({ c2 with info := { c2.info with type := Sd_Type_SDHC } } : sd_card)
        else { c2 with info := { c2.info with type := Sd_Type_SDSC_V2 } }) = c3
      have hty : c3.info.type = Sd_Type_SDHC ∨ c3.info.type = Sd_Type_SDSC_V2 := by
        rw [← hc3]
        split
        · exact Or.inl rfl
        · exact Or.inr rfl
      obtain ⟨e2, resp2, c5, h2, t2⟩ := send_cmd_total fuel (sd_spi_hw_send_dummy c3 2).2
        { cmd := Sd_Cmd9_Csd, arg := 0, crc := 1, resp_type := Sd_Resp_Type_R2, retry := 5 }
        sd_resp_res.zero (fun h => by cases h)
      have hinfo : c5.info = c3.info := t2.2.1.trans (send_dummy_transfers 2 c3).2.1
      rw [h2]
      cases e2 with
      | Sd_Err_OK =>
        simp only []
        split
        · generalize hp : _parse_csd_v2 resp2.buf c5.info = p
          obtain ⟨pe, pi⟩ := p
          have hb : pe = Sd_Err_OK → pi.block_size = 512 := fun he => by
            rw [he] at hp
            exact (parse_v2_ok_block hp).1
          cases pe with
          | Sd_Err_OK =>
            simp only []
            split
            · exact ⟨_, _, rfl, fun _ => block_size_ok_512 (hb rfl)⟩
            · exact ⟨_, _, rfl, fun _ => block_size_ok_512 (hb rfl)⟩
          | _ => exact ⟨_, _, rfl, fun h => by cases h⟩
        · rename_i hnot
          generalize hp : _parse_csd_v1 resp2.buf c5.info = p
          obtain ⟨pe, pi⟩ := p
          have hb : pe = Sd_Err_OK → block_size_ok pi := fun he => by
            rw [he] at hp
            obtain ⟨q1, q2⟩ := parse_v1_ok_block hp
            refine block_size_ok_legacy q1 (Or.inr ?_)
            rw [q2]
            rw [hinfo] at hnot ⊢
            rcases hty with h | h
            · exact absurd h hnot
            · exact h
          cases pe with
          | Sd_Err_OK => exact ⟨_, _, rfl, fun _ => hb rfl⟩
          | _ => exact ⟨_, _, rfl, fun h => by cases h⟩
      | _ => exact ⟨_, _, rfl, fun h => by cases h⟩
  | _ => exact ⟨_, _, rfl, fun h => by cases h⟩

/-- Blocks 2 and 3 of `_check_card_maybe_v1` return, and when they return OK the block
size is that of a legacy parse. -/
theorem check_v1_after_acmd41_geometry (fuel : Nat) (c : sd_card) :
    ∃ (err : sd_error) (c1 : sd_card),
      check_v1_after_acmd41 fuel c = Except.ok (err, c1) ∧
      (err = Sd_Err_OK → block_size_ok c1.info) := by
  obtain ⟨e1, resp1, c3, h1, t1⟩ := send_cmd_total fuel
    { c with info := { c.info with type := Sd_Type_SDSC_V1 } }
    { cmd := Sd_Cmd16_Block_len, arg := 512, crc := 1,
      resp_type := Sd_Resp_Type_R1, retry := 5 }
    sd_resp_res.zero (fun h => by cases h)
  unfold check_v1_after_acmd41
  simp only []
  rw [h1]
  cases e1 with
  | Sd_Err_OK =>
    simp only []
    split
    · exact ⟨_, _, rfl, fun h => by cases h⟩
    · obtain ⟨e2, resp2, c4, h2, t2⟩ := send_cmd_total fuel c3
        { cmd := Sd_Cmd9_Csd, arg := 0, crc := 1, resp_type := Sd_Resp_Type_R2, retry := 5 }
        sd_resp_res.zero (fun h => by cases h)
      have hinfo : c4.info.type = Sd_Type_SDSC_V1 := by
        rw [t2.2.1, t1.2.1]
      rw [h2]
      cases e2 with
      | Sd_Err_OK =>
        simp only []
        generalize hp : _parse_csd_v1 resp2.buf c4.info = p
        obtain ⟨pe, pi⟩ := p
        have hb : pe = Sd_Err_OK → block_size_ok pi := fun he => by
          rw [he] at hp
          obtain ⟨q1, q2⟩ := parse_v1_ok_block hp
          exact block_size_ok_legacy q1 (Or.inl (q2.trans hinfo))
        cases pe with
        | Sd_Err_OK => exact ⟨_, _, rfl, fun _ => hb rfl⟩
        | _ => exact ⟨_, _, rfl, fun h => by cases h⟩
      | _ => exact ⟨_, _, rfl, fun h => by cases h⟩
  | _ => exact ⟨_, _, rfl, fun h => by cases h⟩

theorem acmd41_body_v2_ret (fuel : Nat) (c : sd_card) (e : sd_error) (c1 : sd_card)
    (h : acmd41_body_v2 fuel c = Except.ok (LoopStep.ret e, c1)) : e ≠ Sd_Err_OK := by
  unfold acmd41_body_v2 at h
  generalize sd_card_send_cmd_req fuel c
    { cmd := Sd_Cmd55_App_Cmd, arg := 0, crc := 1, resp_type := Sd_Resp_Type_R1, retry := 5 }
    sd_resp_res.zero = r at h
  cases r with
  | error f => cases h
  | ok v =>
    obtain ⟨e1, resp1, c2⟩ := v
    cases e1 with
    | Sd_Err_OK =>
      simp only [] at h
      split at h
      · cases h
        simp
      · generalize sd_card_send_cmd_req fuel c2
          { cmd := Sd_Acmd41_Op_Cond, arg := 0x40000000, crc := 1,
            resp_type := Sd_Resp_Type_R1, retry := 5 }
          sd_resp_res.zero = r2 at h
        cases r2 with
        | error f => cases h
        | ok v2 =>
          obtain ⟨e2, resp2, c3⟩ := v2
          cases e2 with
          | Sd_Err_OK =>
            simp only [] at h
            split at h <;> cases h
          | _ =>
            simp only [] at h
            cases h
            simp
    | _ =>
      simp only [] at h
      cases h
      simp

theorem acmd41_body_v1_ret (fuel : Nat) (c : sd_card) (e : sd_error) (c1 : sd_card)
    (h : acmd41_body_v1 fuel c = Except.ok (LoopStep.ret e, c1)) : e ≠ Sd_Err_OK := by
  unfold acmd41_body_v1 at h
  generalize sd_card_send_cmd_req fuel c
    { cmd := Sd_Cmd55_App_Cmd, arg := 0, crc := 1, resp_type := Sd_Resp_Type_R1, retry := 5 }
    sd_resp_res.zero = r at h
  cases r with
  | error f => cases h
  | ok v =>
    obtain ⟨e1, resp1, c2⟩ := v
    cases e1 with
    | Sd_Err_OK =>
      simp only [] at h
      split at h
      · cases h
        simp
      · generalize sd_card_send_cmd_req fuel c2
          { cmd := Sd_Acmd41_Op_Cond, arg := 0, crc := 1,
            resp_type := Sd_Resp_Type_R1, retry := 5 }
          sd_resp_res.zero = r2 at h
        cases r2 with
        | error f => cases h
        | ok v2 =>
          obtain ⟨e2, resp2, c3⟩ := v2
          cases e2 with
          | Sd_Err_OK =>
            simp only [] at h
            split at h <;> cases h
          | _ =>
            simp only [] at h
            cases h
            simp
    | _ =>
      simp only [] at h
      cases h
      simp

/-- A `do { } while (--timeout)` loop whose body never returns OK from the function
never does so itself. -/
theorem do_while_dec_ret (body : sd_card → Except Fault (LoopStep × sd_card))
    (hbody : ∀ c e c1, body c = Except.ok (LoopStep.ret e, c1) → e ≠ Sd_Err_OK) (n : Nat) :
    ∀ (c : sd_card) (e : sd_error) (t : Nat) (c1 : sd_card),
      do_while_dec body n c = Except.ok (some e, t, c1) → e ≠ Sd_Err_OK := by
  induction n with
  | zero =>
    intro c e t c1 h
    unfold do_while_dec at h
    generalize hb : body c = r at h
    cases r with
    | error f => cases h
    | ok v =>
      obtain ⟨st, c2⟩ := v
      cases st with
      | ret e2 =>
        simp only [] at h
        cases h
        exact hbody c e c1 hb
      | brk => simp only [] at h; cases h
      | next => simp only [] at h; cases h
  | succ n ih =>
    intro c e t c1 h
    unfold do_while_dec at h
    generalize hb : body c = r at h
    cases r with
    | error f => cases h
    | ok v =>
      obtain ⟨st, c2⟩ := v
      cases st with
      | ret e2 =>
        simp only [] at h
        cases h
        exact hbody c e c1 hb
      | brk => simp only [] at h; cases h
      | next =>
        simp only [] at h
        exact ih c2 e t c1 h

theorem check_card_maybe_v2_geometry (fuel : Nat) (c : sd_card) :
    ∃ (err : sd_error) (c1 : sd_card),
      _check_card_maybe_v2 fuel c = Except.ok (err, c1) ∧
      (err = Sd_Err_OK → block_size_ok c1.info) := by
  obtain ⟨r, t, c1, h1, _⟩ := do_while_dec_frame (acmd41_body_v2 fuel)
    (acmd41_body_v2_frame fuel) 254 c
  unfold _check_card_maybe_v2
  rw [h1]
  cases r with
  | some err =>
    exact ⟨_, _, rfl, fun he =>
      absurd he (do_while_dec_ret _ (acmd41_body_v2_ret fuel) 254 c err t c1 h1)⟩
  | none =>
    simp only []
    split
    · exact ⟨_, _, rfl, fun h => by cases h⟩
    · exact check_v2_after_acmd41_geometry fuel c1

theorem check_card_maybe_v1_geometry (fuel : Nat) (c : sd_card) :
    ∃ (err : sd_error) (c1 : sd_card),
      _check_card_maybe_v1 fuel c = Except.ok (err, c1) ∧
      (err = Sd_Err_OK → block_size_ok c1.info) := by
  obtain ⟨r, t, c1, h1, _⟩ := do_while_dec_frame (acmd41_body_v1 fuel)
    (acmd41_body_v1_frame fuel) 254 c
  unfold _check_card_maybe_v1
  rw [h1]
  cases r with
  | some err =>
    exact ⟨_, _, rfl, fun he =>
      absurd he (do_while_dec_ret _ (acmd41_body_v1_ret fuel) 254 c err t c1 h1)⟩
  | none =>
    simp only []
    split
    · exact ⟨_, _, rfl, fun h => by cases h⟩
    · exact check_v1_after_acmd41_geometry fuel c1

theorem deselect_info (c : sd_card) : (sd_spi_hw_deselect_card c).2.info = c.info := by
  unfold sd_spi_hw_deselect_card
  split
  · rfl
  · split <;> rfl

theorem select_info (c : sd_card) : (sd_spi_hw_select_card c).2.info = c.info := by
  unfold sd_spi_hw_select_card
  split
  · rfl
  · split
    · rfl
    · split <;> rfl

theorem finish_info (err : sd_error) (c : sd_card) :
    (card_identify_finish err c).2.info = c.info ∧ (card_identify_finish err c).1 = err := by
  unfold card_identify_finish
  simp only []
  exact ⟨(send_dummy_transfers 1 _).2.1.trans (deselect_info c), trivial⟩

/-- The class identification returns, and when it returns OK the block size is that
of a parse. -/
theorem card_identify_geometry (fuel : Nat) (c : sd_card) :
    ∃ (err : sd_error) (c1 : sd_card),
      _card_identify fuel c = Except.ok (err, c1) ∧
      (err = Sd_Err_OK → block_size_ok c1.info) := by
  unfold _card_identify
  simp only []
  generalize ({ c with info := ⟨0, 0, 0, 0, Sd_Type_Unknown⟩ } : sd_card) = c0
  generalize sd_spi_hw_select_card c0 = r
  obtain ⟨e, c1⟩ := r
  cases e with
  | Sd_Err_OK =>
    simp only []
    obtain ⟨e1, resp, c2, h1, _⟩ := send_cmd_total fuel c1
      { cmd := Sd_Cmd8_If_Cond, arg := 0x1AA, crc := 0x87,
        resp_type := Sd_Resp_Type_R7, retry := 5 }
      sd_resp_res.zero (fun h => by cases h)
    rw [h1]
    have hv1 : ∃ (err : sd_error) (c1 : sd_card),
        (match _check_card_maybe_v1 fuel c2 with
          | Except.error f => Except.error f
          | Except.ok (err, card3) => Except.ok (card_identify_finish err card3))
          = Except.ok (err, c1) ∧ (err = Sd_Err_OK → block_size_ok c1.info) := by
      obtain ⟨err, c3, h3, g3⟩ := check_card_maybe_v1_geometry fuel c2
      rw [h3]
      refine ⟨_, _, rfl, fun he => ?_⟩
      show block_size_ok (card_identify_finish err c3).2.info
      rw [(finish_info err c3).1]
      exact g3 he
    cases e1 with
    | Sd_Err_OK =>
      simp only []
      split
      · split
        · obtain ⟨err, c3, h3, g3⟩ := check_card_maybe_v2_geometry fuel c2
          rw [h3]
          refine ⟨_, _, rfl, fun he => ?_⟩
          show block_size_ok (card_identify_finish err c3).2.info
          rw [(finish_info err c3).1]
          exact g3 he
        · exact ⟨_, _, rfl, fun he => by cases he⟩
      · exact ⟨_, _, rfl, fun he => by cases he⟩
    | _ => exact hv1
  | _ => exact ⟨_, _, rfl, fun h => by cases h⟩

/-- The identification returns, and when it returns OK the block size is that of a
parse. -/
theorem sd_card_identify_geometry (fuel : Nat) (c : sd_card) :
    ∃ (err : sd_error) (c1 : sd_card),
      sd_card_identify fuel c = Except.ok (err, c1) ∧
      (err = Sd_Err_OK → block_size_ok c1.info) := by
  obtain ⟨e1, c1, h1, _⟩ := into_idle_frame fuel c
  unfold sd_card_identify
  rw [h1]
  cases e1 with
  | Sd_Err_OK => exact card_identify_geometry fuel c1
  | _ => exact ⟨_, _, rfl, fun h => by cases h⟩

theorem wait_r1b_fault : ∀ (fuel : Nat) (c : sd_card) (f : Fault),
    wait_r1b fuel c = Except.error f → f = Fault.hang := by
  intro fuel
  induction fuel with
  | zero =>
    intro c f h
    unfold wait_r1b at h
    cases h
    rfl
  | succ n ih =>
    intro c f h
    unfold wait_r1b at h
    generalize sd_spi_hw_read_byte c 0x00 = r at h
    obtain ⟨e, b, c1⟩ := r
    cases e with
    | Sd_Err_OK =>
      simp only [] at h
      split at h
      · exact ih _ f h
      · cases h
    | _ =>
      simp only [] at h
      cases h

/-- The only way `sd_card_send_cmd_req` can fail to return is the R1b wait. -/
theorem send_cmd_fault (fuel : Nat) (c : sd_card) (req : sd_cmd_req) (resp : sd_resp_res)
    (f : Fault) (h : sd_card_send_cmd_req fuel c req resp = Except.error f) :
    f = Fault.hang := by
  by_cases hr : req.resp_type = Sd_Resp_Type_R1b
  · unfold sd_card_send_cmd_req at h
    simp only [] at h
    generalize sd_spi_hw_write_bytes c [req.cmd % 256, (req.arg >>> 24) % 256,
      (req.arg >>> 16) % 256, (req.arg >>> 8) % 256, req.arg % 256, req.crc % 256] = r1 at h
    obtain ⟨e1, c1⟩ := r1
    cases e1 with
    | Sd_Err_OK =>
      simp only [] at h
      generalize wait_response req.retry c1 = r2 at h
      obtain ⟨e2, byte, retry, c2⟩ := r2
      cases e2 with
      | Sd_Err_OK =>
        simp only [] at h
        split at h
        · cases h
        · rw [hr] at h
          simp only [] at h
          generalize hw : wait_r1b fuel c2 = r3 at h
          cases r3 with
          | error f2 =>
            simp only [] at h
            cases h
            exact wait_r1b_fault fuel c2 f hw
          | ok v =>
            simp only [] at h
            cases h
      | _ =>
        simp only [] at h
        cases h
    | _ =>
      simp only [] at h
      cases h
  · obtain ⟨r, hr2⟩ := send_cmd_returns fuel c req resp hr
    rw [hr2] at h
    cases h

theorem erase_commands_fault (fuel : Nat) (c : sd_card) (s e : Nat) (f : Fault)
    (h : erase_commands fuel c s e = Except.error f) : f = Fault.hang := by
  unfold erase_commands at h
  generalize h1 : sd_card_send_cmd_req fuel c
    { cmd := Sd_Cmd32_Erase_Start, arg := s, crc := 1,
      resp_type := Sd_Resp_Type_R1, retry := 5 } sd_resp_res.zero = r1 at h
  cases r1 with
  | error f1 =>
    simp only [] at h
    cases h
    exact send_cmd_fault _ _ _ _ _ h1
  | ok v1 =>
    obtain ⟨e1, resp1, c1⟩ := v1
    cases e1 with
    | Sd_Err_OK =>
      simp only [] at h
      split at h
      · cases h
      · generalize h2 : sd_card_send_cmd_req fuel c1
          { cmd := Sd_Cmd33_Erase_End, arg := e, crc := 1,
            resp_type := Sd_Resp_Type_R1, retry := 5 } sd_resp_res.zero = r2 at h
        cases r2 with
        | error f2 =>
          simp only [] at h
          cases h
          exact send_cmd_fault _ _ _ _ _ h2
        | ok v2 =>
          obtain ⟨e2, resp2, c2⟩ := v2
          cases e2 with
          | Sd_Err_OK =>
            simp only [] at h
            split at h
            · cases h
            · generalize h3 : sd_card_send_cmd_req fuel c2
                { cmd := Sd_Cmd38_Erase, arg := 0, crc := 1,
                  resp_type := Sd_Resp_Type_R1b, retry := 5 } sd_resp_res.zero = r3 at h
              cases r3 with
              | error f3 =>
                simp only [] at h
                cases h
                exact send_cmd_fault _ _ _ _ _ h3
              | ok v3 =>
                obtain ⟨e3, resp3, c3⟩ := v3
                cases e3 with
                | Sd_Err_OK =>
                  simp only [] at h
                  split at h <;> cases h
                | _ =>
                  simp only [] at h
                  cases h
          | _ =>
            simp only [] at h
            cases h
    | _ =>
      simp only [] at h
      cases h

/-- With a non-zero block size the block range of an erase is always computed. -/
theorem erase_block_range_total (c : sd_card) (addr total : Nat) (h : c.info.block_size ≠ 0) :
    ∃ r, erase_block_range c addr total = Except.ok r := by
  unfold erase_block_range udiv
  cases c.info.type <;> simp only [if_neg h] <;> exact ⟨_, rfl⟩

/-- With a non-zero block size `sd_card_erase_sector` never divides by zero: if it
does not return, it is the R1b wait that does not end. -/
theorem erase_sector_no_div_by_zero (fuel : Nat) (c : sd_card) (addr count : Nat)
    (hb : c.info.block_size ≠ 0) (f : Fault)
    (h : sd_card_erase_sector fuel (some c) addr count = Except.error f) : f = Fault.hang := by
  unfold sd_card_erase_sector at h
  simp only [] at h
  split at h
  · cases h
  · split at h
    · cases h
    · obtain ⟨r, hr⟩ := erase_block_range_total c (addr % 2 ^ 64)
        ((c.info.erase_sector_size * (count % 2 ^ 32)) % 2 ^ 64) hb
      rw [hr] at h
      cases r with
      | none =>
        simp only [] at h
        cases h
      | some p =>
        obtain ⟨s, e⟩ := p
        simp only [] at h
        generalize sd_spi_hw_select_card c = rs at h
        obtain ⟨es, cs⟩ := rs
        cases es with
        | Sd_Err_OK =>
          simp only [] at h
          generalize hc : erase_commands fuel cs s e = rc at h
          cases rc with
          | error f2 =>
            simp only [] at h
            cases h
            exact erase_commands_fault fuel cs s e f hc
          | ok v =>
            simp only [] at h
            cases h
        | _ =>
          simp only [] at h
          cases h

theorem block_size_ok_ne_zero {i : sd_info} (h : block_size_ok i) :
    1 ≤ i.block_size ∧ i.block_size ≤ 32768 := by
  obtain ⟨⟨k, hk, he⟩, _⟩ := h
  rw [he]
  constructor
  · exact Nat.one_le_two_pow
  · calc 2 ^ k ≤ 2 ^ 15 := Nat.pow_le_pow_right (by norm_num) hk
      _ = 32768 := by norm_num

/-- C38: `sd_card_identify` returns, and when it returns OK, whichever path was taken
and whatever CSD bytes the card sent, `block_size` is a power of two with
`1 ≤ block_size ≤ 32768`, and 512 when the class is SDHC or SDXC.  So on the session a
successful `sd_card_init` leaves, `len % block_size` and `offset / block_size` are
always defined, `sd_card_read` and `sd_card_write` always return, the block range of
an erase is always computed, and `sd_card_erase_sector` never divides by zero. -/
theorem identified_block_size (fuel : Nat) (c : sd_card) :
    (∃ (err : sd_error) (c1 : sd_card),
      sd_card_identify fuel c = Except.ok (err, c1) ∧
      (err = Sd_Err_OK →
        (∃ k, k ≤ 15 ∧ c1.info.block_size = 2 ^ k) ∧
        1 ≤ c1.info.block_size ∧ c1.info.block_size ≤ 32768 ∧
        (c1.info.type = Sd_Type_SDHC ∨ c1.info.type = Sd_Type_SDXC →
          c1.info.block_size = 512))) ∧
    (∀ c1 : sd_card, sd_card_init fuel (some c) = Except.ok (Sd_Err_OK, some c1) →
      c1.is_inited = true ∧
      (∃ k, k ≤ 15 ∧ c1.info.block_size = 2 ^ k) ∧
      (c1.info.type = Sd_Type_SDHC ∨ c1.info.type = Sd_Type_SDXC → c1.info.block_size = 512) ∧
      (∀ a : Nat, umod a c1.info.block_size = Except.ok (a % c1.info.block_size) ∧
        udiv a c1.info.block_size = Except.ok (a / c1.info.block_size)) ∧
      (∀ (addr : Nat) (buf : Option (List Nat)) (len : Nat),
        ∃ r, sd_card_read fuel (some c1) addr buf len = Except.ok r) ∧
      (∀ (addr : Nat) (buf : Option (List Nat)) (len : Nat),
        ∃ r, sd_card_write fuel (some c1) addr buf len = Except.ok r) ∧
      (∀ addr total : Nat, ∃ r, erase_block_range c1 addr total = Except.ok r) ∧
      (∀ addr count : Nat,
        sd_card_erase_sector fuel (some c1) addr count ≠ Except.error Fault.div_by_zero)) := by
  constructor
  · obtain ⟨err, c1, h1, g1⟩ := sd_card_identify_geometry fuel c
    refine ⟨err, c1, h1, fun he => ?_⟩
    have g := g1 he
    exact ⟨g.1, (block_size_ok_ne_zero g).1, (block_size_ok_ne_zero g).2, g.2⟩
  · intro c1 hinit
    have hi : c1.is_inited = true := (sd_card_init_flag fuel c Sd_Err_OK c1 hinit).mpr rfl
    have hg : block_size_ok c1.info := by
      by_cases hc : has_control c
      · obtain ⟨e, c4, mid, hid, _, _, _, hfail, hok⟩ := sd_card_init_cases fuel c hc
        by_cases he : e = Sd_Err_OK
        · rw [(hok he).2.2] at hinit
          injection hinit with hinit
          injection hinit with _ hinit
          injection hinit with hinit
          obtain ⟨err, c5, h5, g5⟩ := sd_card_identify_geometry fuel (powered c)
          rw [hid] at h5
          injection h5 with h5
          injection h5 with h5a h5b
          rw [← hinit]
          show block_size_ok c4.info
          rw [h5b]
          exact g5 (h5a.symm.trans he)
        · rw [hfail he] at hinit
          injection hinit with hinit
          injection hinit with hinit _
          exact absurd hinit he
      · have hn0 : ¬ has_control
            { c with is_inited := false, is_selected := false, is_xfering := false } := hc
        unfold sd_card_init at hinit
        simp only [] at hinit
        rw [io_init_no_control hn0] at hinit
        simp only [] at hinit
        cases hinit
    have hne : c1.info.block_size ≠ 0 := by
      have := (block_size_ok_ne_zero hg).1
      omega
    refine ⟨hi, hg.1, hg.2, fun a => ?_, fun addr buf len => ?_, fun addr buf len => ?_,
      fun addr total => erase_block_range_total c1 addr total hne, fun addr count hf => ?_⟩
    · unfold umod udiv
      rw [if_neg hne, if_neg hne]
      exact ⟨rfl, rfl⟩
    · obtain ⟨err, c2, b2, h2, _⟩ := sd_card_read_frame fuel c1 addr buf len (fun _ => hne)
      exact ⟨_, h2⟩
    · obtain ⟨err, c2, h2, _⟩ := sd_card_write_frame fuel c1 addr buf len (fun _ => hne)
      exact ⟨_, h2⟩
    · have := erase_sector_no_div_by_zero fuel c1 addr count hne _ hf
      cases this

/-- C39: a standard-capacity card that reports READ_BL_LEN = 10 in its CSD (a 2 GiB
card) is identified with `block_size = 1024`, not 512: on the legacy path, where the
driver has just set the card's block length to 512 with CMD16, and on the V2 path
with the CCS bit clear (class SDSC v2) alike.  On such a session a read of one
512-byte block is refused with Param. -/
theorem identified_block_size_not_512 :
    geometry_outcome (sd_card_init 0 (some (fresh_card miso_legacy_init_2g)))
      = some (Sd_Err_OK, legacy_2g_info) ∧
    (session_outcome (sd_card_init 0 (some (fresh_card miso_legacy_init_2g)))).map
        (fun r => cmd_frames r.2.2)
      = some [cmd_frame Sd_Cmd0_Idle 0 0x95, cmd_frame Sd_Cmd8_If_Cond 0x1AA 0x87,
          cmd_frame Sd_Cmd55_App_Cmd 0 1, cmd_frame Sd_Acmd41_Op_Cond 0 1,
          cmd_frame Sd_Cmd16_Block_len 512 1, cmd_frame Sd_Cmd9_Csd 0 1] ∧
    geometry_outcome (sd_card_init 0 (some (fresh_card miso_sdsc_v2_init_2g)))
      = some (Sd_Err_OK, { legacy_2g_info with type := Sd_Type_SDSC_V2 }) ∧
    read_outcome (sd_card_read 0 (some (demo_card legacy_2g_info miso_read_blocks)) 0
        (some (List.replicate 512 0)) 512)
      = some (Sd_Err_Param, []) := by
  refine ⟨by decide!, by decide!, by decide!, by decide!⟩

/-- C40 (counterexample): the legacy parser accepts the register `csd_v1_8g`
(READ_BL_LEN = 12) and computes a byte-addressed geometry of 8 GiB with 8192-byte
erase sectors; `sd_card_init` ends OK with it.  Erasing two sectors at byte address
`2^32 - 8192` lies inside the card, and the call sends CMD32 with argument
`2^32 - 8192` and CMD33 with argument 8191: the end argument is below the start
argument and is not the last byte `2^32 + 8191` of the range. -/
theorem erase_sector_inside_card_wraps :
    (geometry_outcome (sd_card_init 0 (some (fresh_card miso_legacy_init_8g)))
        = some (Sd_Err_OK, legacy_8g_info) ∧
      legacy_8g_info
        = { capacity := 2 ^ 33, block_count := 2 ^ 21, erase_sector_size := 8192,
            block_size := 4096, type := Sd_Type_SDSC_V1 }) ∧
    (2 ^ 32 - 8192) + legacy_8g_info.erase_sector_size * 2 ≤ legacy_8g_info.capacity ∧
    erase_outcome (sd_card_erase_sector 1 (some (demo_card legacy_8g_info miso_erase_ready))
        (2 ^ 32 - 8192) 2)
      = some (Sd_Err_OK, [cmd_frame Sd_Cmd32_Erase_Start (2 ^ 32 - 8192) 1,
          cmd_frame Sd_Cmd33_Erase_End 8191 1, cmd_frame Sd_Cmd38_Erase 0 1]) ∧
    ¬ (2 ^ 32 - 8192 ≤ 8191) ∧
    8191 ≠ (2 ^ 32 - 8192) + legacy_8g_info.erase_sector_size * 2 - 1 := by
  refine ⟨⟨by decide!, by decide!⟩, by decide!, by decide!, by decide, by decide!⟩

theorem erase_total_exact {ess count : Nat} (hc2 : count < 2 ^ 32) (hess : ess < 2 ^ 32) :
    (ess * (count % 2 ^ 32)) % 2 ^ 64 = ess * count := by
  rw [Nat.mod_eq_of_lt hc2]
  apply Nat.mod_eq_of_lt
  calc ess * count < 2 ^ 32 * 2 ^ 32 := Nat.mul_lt_mul'' hess hc2
    _ = 2 ^ 64 := by norm_num

/-- The product that `_parse_csd_v1` stores as the capacity fits 32 bits when
READ_BL_LEN is at most 11. -/
theorem parse_csd_v1_capacity_le (csd : List Nat) (hl : csd_v1_read_bl_len csd ≤ 11) :
    2 ^ csd_v1_read_bl_len csd *
      ((csd_v1_c_size csd + 1) * 2 ^ (csd_v1_c_size_mult csd + 2)) ≤ 2 ^ 32 := by
  have hc := csd_v1_c_size_lt csd
  have hm := csd_v1_c_size_mult_lt csd
  have p1 : 2 ^ csd_v1_read_bl_len csd ≤ 2 ^ 11 := Nat.pow_le_pow_right (by norm_num) hl
  have p2 : 2 ^ (csd_v1_c_size_mult csd + 2) ≤ 2 ^ 9 :=
    Nat.pow_le_pow_right (by norm_num) (by omega)
  have p3 : (csd_v1_c_size csd + 1) * 2 ^ (csd_v1_c_size_mult csd + 2) ≤ 2 ^ 12 * 2 ^ 9 :=
    Nat.mul_le_mul (by omega) p2
  have p4 : 2 ^ csd_v1_read_bl_len csd *
      ((csd_v1_c_size csd + 1) * 2 ^ (csd_v1_c_size_mult csd + 2)) ≤ 2 ^ 11 * (2 ^ 12 * 2 ^ 9) :=
    Nat.mul_le_mul p1 p3
  omega

/-- C40 (amended): on an initialised card with a non-zero erase sector size, for an
erase request with `1 ≤ count` that lies inside the card
(`addr + erase_sector_size * count ≤ capacity`):
on an SDHC/SDXC card whose geometry `_parse_csd_v2` accepted, the block range is
`addr / 512` to `(addr + total - 1) / 512`, the start is at most the end, and the end
is below `block_count < 2^32`; on an SDSC card whose capacity is at most `2^32` the
range is `addr` to `addr + total - 1`, start at most end, end below `2^32`; a
geometry that `_parse_csd_v1` accepted with READ_BL_LEN at most 11 has such a
capacity; and the two numbers of the range are the arguments of CMD32 and CMD33 that
`sd_card_erase_sector` sends. -/
theorem erase_range_inside_card (fuel : Nat) (c : sd_card) (addr count : Nat)
    (hinit : c.is_inited = true) (hc1 : 1 ≤ count) (hc2 : count < 2 ^ 32)
    (hess0 : c.info.erase_sector_size ≠ 0) (hess : c.info.erase_sector_size < 2 ^ 32)
    (hin : addr + c.info.erase_sector_size * count ≤ c.info.capacity) :
    (∀ (csd : List Nat) (i0 : sd_info),
      (_parse_csd_v2 csd i0).1 = Sd_Err_OK →
      c.info = { (_parse_csd_v2 csd i0).2 with type := c.info.type } →
      c.info.type = Sd_Type_SDHC ∨ c.info.type = Sd_Type_SDXC →
      erase_block_range c (addr % 2 ^ 64)
          ((c.info.erase_sector_size * (count % 2 ^ 32)) % 2 ^ 64)
        = Except.ok (some (addr / 512, (addr + c.info.erase_sector_size * count - 1) / 512)) ∧
      addr / 512 ≤ (addr + c.info.erase_sector_size * count - 1) / 512 ∧
      (addr + c.info.erase_sector_size * count - 1) / 512 < c.info.block_count ∧
      c.info.block_count < 2 ^ 32 ∧ c.info.block_size = 512) ∧
    (c.info.type = Sd_Type_SDSC_V1 ∨ c.info.type = Sd_Type_SDSC_V2 →
      c.info.capacity ≤ 2 ^ 32 →
      erase_block_range c (addr % 2 ^ 64)
          ((c.info.erase_sector_size * (count % 2 ^ 32)) % 2 ^ 64)
        = Except.ok (some (addr, addr + c.info.erase_sector_size * count - 1)) ∧
      addr ≤ addr + c.info.erase_sector_size * count - 1 ∧
      addr + c.info.erase_sector_size * count - 1 < 2 ^ 32) ∧
    (∀ (csd : List Nat) (i0 : sd_info),
      (_parse_csd_v1 csd i0).1 = Sd_Err_OK →
      c.info = { (_parse_csd_v1 csd i0).2 with type := c.info.type } →
      csd_v1_read_bl_len csd ≤ 11 → c.info.capacity ≤ 2 ^ 32) ∧
    (∀ (start_block end_block p1 p2 p3 r3 : Nat) (busy rest : List Nat),
      erase_block_range c (addr % 2 ^ 64)
          ((c.info.erase_sector_size * (count % 2 ^ 32)) % 2 ^ 64)
        = Except.ok (some (start_block, end_block)) →
      can_select c → p1 < 5 → p2 < 5 → p3 < 5 → r3 ≠ 0xFF → (∀ x ∈ busy, x ≠ 0xFF) →
      busy.length < fuel →
      rx_next (selected c)
        (answer p1 0x00 ++ (answer p2 0x00 ++ (answer p3 r3 ++ (busy ++ 0xFF :: rest)))) →
      sd_card_erase_sector fuel (some c) addr count
        = Except.ok (if r3 = 0x00 then Sd_Err_OK else Sd_Err_Failed,
            some (deselected (bus_step (selected c)
              ((p1 + 1) + (p2 + 1) + ((p3 + 1) + (busy.length + 1)))
              (r1_exchange Sd_Cmd32_Erase_Start start_block 1 p1 ++
                (r1_exchange Sd_Cmd33_Erase_End end_block 1 p2 ++
                  (r1_exchange Sd_Cmd38_Erase 0 1 p3 ++
                    r1b_events (selected c) (busy.length + 1)))))))) := by
  have hcount : count % 2 ^ 32 ≠ 0 := by rw [Nat.mod_eq_of_lt hc2]; omega
  have htot := erase_total_exact hc2 hess
  have hpos : 1 ≤ c.info.erase_sector_size * count :=
    Nat.mul_pos (Nat.pos_of_ne_zero hess0) hc1
  rw [htot]
  generalize hT : c.info.erase_sector_size * count = total at hin hpos ⊢
  refine ⟨?_, ?_, ?_, ?_⟩
  · intro csd i0 hok hgeo ht
    have hv : u8 csd 0 >>> 6 = 1 := by
      by_contra hv
      unfold _parse_csd_v2 at hok
      rw [if_pos hv] at hok
      cases hok
    have h2 := parse_csd_v2_eq csd i0 hv
    have hbs : c.info.block_size = 512 := by
      have := congrArg sd_info.block_size hgeo
      rw [h2] at this
      exact this
    have hbc : c.info.block_count = ((csd_v2_c_size csd + 1) * 1024) % 2 ^ 32 := by
      have := congrArg sd_info.block_count hgeo
      rw [h2] at this
      exact this
    have hcap : c.info.capacity = (((csd_v2_c_size csd + 1) * 1024) % 2 ^ 32) * 512 := by
      have := congrArg sd_info.capacity hgeo
      rw [h2] at this
      exact this
    have hlt : c.info.block_count < 2 ^ 32 := by
      rw [hbc]; exact Nat.mod_lt _ (by norm_num)
    rw [← hbc] at hcap
    rw [erase_block_range_block_addressed c _ _ ht (by rw [hbs]; decide), hbs]
    have e0 : addr % 2 ^ 64 = addr := Nat.mod_eq_of_lt (by omega)
    have e1 : (addr + total + (2 ^ 64 - 1)) % 2 ^ 64 = addr + total - 1 := by
      have : addr + total + (2 ^ 64 - 1) = (addr + total - 1) + 2 ^ 64 := by omega
      rw [this, Nat.add_mod_right]
      exact Nat.mod_eq_of_lt (by omega)
    rw [e0, e1]
    have e2 : (addr + total - 1) / 512 < c.info.block_count := by
      apply Nat.div_lt_of_lt_mul
      rw [Nat.mul_comm]
      omega
    have e3 : addr / 512 ≤ (addr + total - 1) / 512 := Nat.div_le_div_right (by omega)
    rw [Nat.mod_eq_of_lt (by omega : addr / 512 < 2 ^ 32),
      Nat.mod_eq_of_lt (by omega : (addr + total - 1) / 512 < 2 ^ 32)]
    exact ⟨rfl, e3, e2, hlt, rfl⟩
  · intro ht hcap
    rw [erase_block_range_byte_addressed c _ _ ht]
    have e0 : addr % 2 ^ 64 = addr := Nat.mod_eq_of_lt (by omega)
    have e1 : (addr + total + (2 ^ 64 - 1)) % 2 ^ 64 = addr + total - 1 := by
      have : addr + total + (2 ^ 64 - 1) = (addr + total - 1) + 2 ^ 64 := by omega
      rw [this, Nat.add_mod_right]
      exact Nat.mod_eq_of_lt (by omega)
    rw [e0, e1, Nat.mod_eq_of_lt (by omega : addr < 2 ^ 32),
      Nat.mod_eq_of_lt (by omega : addr + total - 1 < 2 ^ 32)]
    exact ⟨rfl, by omega, by omega⟩
  · intro csd i0 hok hgeo hl
    have hv : u8 csd 0 >>> 6 = 0 := by
      by_contra hv
      unfold _parse_csd_v1 at hok
      rw [if_pos hv] at hok
      cases hok
    have h1 := parse_csd_v1_eq csd i0 hv
    have hcap := congrArg sd_info.capacity hgeo
    rw [h1] at hcap
    rw [hcap]
    exact parse_csd_v1_capacity_le csd hl
  · intro s e p1 p2 p3 r3 busy rest hrange hsel hp1 hp2 hp3 hr3 hbusy hf hrx
    rw [← hT, ← htot] at hrange
    exact erase_sector_bracket hinit hcount hsel hrange
      (erase_commands_run fuel (selected c) s e p1 p2 p3 r3 busy rest
        (has_transfer_selected hsel) hp1 hp2 hp3 hr3 hbusy hf hrx)

/-- C40 (amended) on a byte-addressed 1 GiB card with 4096-byte erase sectors: erasing
two sectors at byte address 4096 gives the range 4096 to 12287. -/
theorem erase_range_inside_card_witness :
    erase_block_range (demo_card legacy_info miso_erase_ready) (4096 % 2 ^ 64)
        (((demo_card legacy_info miso_erase_ready).info.erase_sector_size * (2 % 2 ^ 32)) % 2 ^ 64)
      = Except.ok (some (4096,
          4096 + (demo_card legacy_info miso_erase_ready).info.erase_sector_size * 2 - 1)) ∧
    4096 ≤ 4096 + (demo_card legacy_info miso_erase_ready).info.erase_sector_size * 2 - 1 ∧
    4096 + (demo_card legacy_info miso_erase_ready).info.erase_sector_size * 2 - 1 < 2 ^ 32 :=
  (erase_range_inside_card 1 (demo_card legacy_info miso_erase_ready) 4096 2 rfl (by decide)
    (by decide) (by decide) (by decide) (by decide)).2.1 (Or.inl rfl) (by decide)

end SdSpi
